import Mathlib

/-! # CSC + down-scaling orchestrator (`codechal_encode_csc_ds.cpp`)

A shallow embedding of `CodechalEncodeCscDs`: the object is a record of its
member fields, every member function is a pure function from the object
state to a status and a new state.  Calls into the driver, the state-heap
manager and the hardware-command encoder are taken from a script of return
statuses (`Driver.script`) and leave a record of what was asked
(`Driver.trace`).  Blocks wrapped in `CODECHAL_DEBUG_TOOL` (debug builds
only), log messages and the perf-tag bookkeeping are not represented.
-/

set_option autoImplicit false

/-! ## Constants, enumerations and plain data -/

/-- Values of `MOS_STATUS` that the code of this file produces itself, plus
one value standing for any other failure reported by a collaborator. -/
inductive MOS_STATUS where
  | MOS_STATUS_SUCCESS
  | MOS_STATUS_NULL_POINTER
  | MOS_STATUS_INVALID_PARAMETER
  | MOS_STATUS_UNKNOWN
  deriving DecidableEq, Repr

open MOS_STATUS

/-- Constants and macros that the source uses and that are declared in
headers outside `src/`; they are parameters of the embedding. -/
structure CodecConsts where
  CODEC_NUM_REF_BUFFERS : Nat
  CODEC_NUM_NON_REF_BUFFERS : Nat
  CODEC_NUM_TRACKED_BUFFERS : Nat
  CODECHAL_PAGE_SIZE : Nat
  CODEC_NUM_FIELDS_PER_FRAME : Nat
  CODECHAL_GET_4xDS_SIZE_32ALIGNED : Nat → Nat
  CODECHAL_GET_2xDS_SIZE_32ALIGNED : Nat → Nat
  /-- Pitch that the driver reports for a surface of the given width. -/
  pitchOf : Nat → Nat

/-- Modelled from the spec: `CODECHAL_MACROBLOCK_WIDTH`, declared outside
`src/` ("Macroblock = 16×16"). -/
def CODECHAL_MACROBLOCK_WIDTH : Nat := 16

/-- Modelled from the spec: `CODECHAL_MACROBLOCK_HEIGHT`, declared outside
`src/` ("Macroblock = 16×16"). -/
def CODECHAL_MACROBLOCK_HEIGHT : Nat := 16

/-- Modelled from the spec: `MOS_YTILE_H_ALIGNMENT`, declared outside `src/`
("Tile-Y height alignment = 32"). -/
def MOS_YTILE_H_ALIGNMENT : Nat := 32

/-- Truncation to `uint32_t`. -/
def u32 (x : Nat) : Nat := x % 2 ^ 32

/-- Truncation to `uint8_t`. -/
def u8 (x : Nat) : Nat := x % 2 ^ 8

/-- Modelled from the spec: the macro `MOS_ALIGN_CEIL`, declared outside
`src/`; the spec describes it as padding a size up to a multiple of the
alignment. -/
def MOS_ALIGN_CEIL (x a : Nat) : Nat := (x + a - 1) / a * a

/-- Modelled from the spec: the macro `MOS_ROUNDUP_SHIFT`, declared outside
`src/`; the spec describes the walker size as `ceil(size / 2^tile)`. -/
def MOS_ROUNDUP_SHIFT (x n : Nat) : Nat := (x + 2 ^ n - 1) / 2 ^ n

inductive MOS_FORMAT where
  | Format_Invalid
  | Format_NV12
  | Format_YUY2
  | Format_YUYV
  | Format_A8R8G8B8
  | Format_A8B8G8R8
  | Format_P010
  | Format_Y210
  | Format_YUY2V
  | Format_Y216V
  | Format_Other
  deriving DecidableEq, Repr

open MOS_FORMAT

/-- Colour class of the raw surface (`m_colorRawSurface`). -/
inductive CscColor where
  | cscColorNv12TileY
  | cscColorNv12Linear
  | cscColorYUY2
  | cscColorARGB
  | cscColorABGR
  | cscColorP010
  | cscColorY210
  deriving DecidableEq, Repr

open CscColor

inductive HCP_CHROMA_FORMAT where
  | HCP_CHROMA_FORMAT_MONOCHROME
  | HCP_CHROMA_FORMAT_YUV420
  | HCP_CHROMA_FORMAT_YUV422
  | HCP_CHROMA_FORMAT_YUV444
  deriving DecidableEq, Repr

open HCP_CHROMA_FORMAT

inductive CODECHAL_STANDARD where
  | CODECHAL_AVC
  | CODECHAL_MPEG2
  | CODECHAL_HEVC
  | CODECHAL_VP9
  deriving DecidableEq, Repr

open CODECHAL_STANDARD

inductive CODECHAL_MODE where
  | CODECHAL_ENCODE_MODE_AVC
  | CODECHAL_ENCODE_MODE_MPEG2
  | CODECHAL_ENCODE_MODE_HEVC
  | CODECHAL_ENCODE_MODE_VP9
  deriving DecidableEq, Repr

open CODECHAL_MODE

/-- Stage of the combined conversion kernel (`params->stageDsConversion`). -/
inductive DsStage where
  | dsDisabled
  | dsStage2x
  | dsStage4x
  | dsStage16x
  | dsStage32x
  deriving DecidableEq, Repr

open DsStage

/-- Media state of a dispatch (`encFunctionType`). -/
inductive CODECHAL_MEDIA_STATE_TYPE where
  | CODECHAL_MEDIA_STATE_CSC_DS_COPY
  | CODECHAL_MEDIA_STATE_4X_SCALING
  | CODECHAL_MEDIA_STATE_16X_SCALING
  | CODECHAL_MEDIA_STATE_32X_SCALING
  deriving DecidableEq, Repr

open CODECHAL_MEDIA_STATE_TYPE

inductive MOS_GPU_CONTEXT where
  | MOS_GPU_CONTEXT_RENDER
  | MOS_GPU_CONTEXT_VEBOX
  deriving DecidableEq, Repr

open MOS_GPU_CONTEXT

/-- A surface descriptor; `OsResource = none` is the null resource. -/
structure MOS_SURFACE where
  OsResource : Option Nat
  Format : MOS_FORMAT
  dwWidth : Nat
  dwHeight : Nat
  dwPitch : Nat
  deriving DecidableEq, Repr

/-- The zero-initialised surface descriptor. -/
def MOS_SURFACE.null : MOS_SURFACE :=
  { OsResource := none, Format := Format_Invalid, dwWidth := 0, dwHeight := 0, dwPitch := 0 }

/-- One slot of `m_trackedBuffer`. -/
structure CODEC_TRACKED_BUFFER where
  sCopiedSurface : MOS_SURFACE
  sScaled2xSurface : MOS_SURFACE
  sScaled4xSurface : MOS_SURFACE
  sScaled16xSurface : MOS_SURFACE
  sScaled32xSurface : MOS_SURFACE
  deriving DecidableEq, Repr

def CODEC_TRACKED_BUFFER.null : CODEC_TRACKED_BUFFER :=
  { sCopiedSurface := MOS_SURFACE.null, sScaled2xSurface := MOS_SURFACE.null,
    sScaled4xSurface := MOS_SURFACE.null, sScaled16xSurface := MOS_SURFACE.null,
    sScaled32xSurface := MOS_SURFACE.null }

/-- The reference-list entry `*m_currRefList`. -/
structure CODEC_REF_LIST where
  b4xScalingUsed : Bool
  b16xScalingUsed : Bool
  b32xScalingUsed : Bool
  sRefRawBuffer : MOS_SURFACE
  sRefBuffer : MOS_SURFACE
  deriving DecidableEq, Repr

/-- What a `PMOS_RESOURCE` for a statistics buffer points at. -/
inductive ResourcePtr where
  | nullRes
  /-- `&m_resMbStatsBuffer` -/
  | mbStatsBuffer
  /-- `&preEncParams->resStatsBuffer` -/
  | preEncStatsBuffer
  | preEncStatsBotFieldBuffer
  /-- `&params->sInputStatsBuffer` -/
  | paramsStatsBuffer
  | paramsStatsBotFieldBuffer
  deriving DecidableEq, Repr

/-- What a `PMOS_SURFACE` points at, or the buffer bound in its place. -/
inductive SurfacePtr where
  /-- the raw input surface owned by the encoder -/
  | rawInput
  /-- `&params->sInputRawSurface` -/
  | paramsInputRaw
  /-- `&m_trackedBuffer[i].sCopiedSurface` -/
  | copied (i : Nat)
  | scaled2x (i : Nat)
  | scaled4x (i : Nat)
  | scaled16x (i : Nat)
  | scaled32x (i : Nat)
  | flatnessCheck
  | nullPtr
  /-- a statistics buffer (`presBuffer`) -/
  | resource (r : ResourcePtr)
  deriving DecidableEq, Repr

/-- The scaled surfaces of the slots (4x, 16x, 32x). -/
def SurfacePtr.isScaled : SurfacePtr → Bool
  | SurfacePtr.scaled4x _ => true
  | SurfacePtr.scaled16x _ => true
  | SurfacePtr.scaled32x _ => true
  | _ => false

/-- Memory-compression mode of a resource as the driver reports it. -/
inductive MOS_MEMCOMP_STATE where
  | MOS_MEMCOMP_DISABLED
  | MOS_MEMCOMP_HORIZONTAL
  | MOS_MEMCOMP_VERTICAL
  deriving DecidableEq, Repr

open MOS_MEMCOMP_STATE

/-- Input colour space of the frame; `ECOLORSPACE_other` stands for every
value of the enumeration type that is none of the three named ones. -/
inductive ENCODE_INPUT_COLORSPACE where
  | ECOLORSPACE_P709
  | ECOLORSPACE_P601
  | ECOLORSPACE_P2020
  | ECOLORSPACE_other (value : Nat)
  deriving DecidableEq, Repr

open ENCODE_INPUT_COLORSPACE

/-- Colour spaces of the fixed-function scaler that the class names;
`MHW_CSpace_None` is the value of a state that was never assigned. -/
inductive MHW_CSPACE where
  | MHW_CSpace_None
  | MHW_CSpace_sRGB
  | MHW_CSpace_BT601
  | MHW_CSpace_BT709
  | MHW_CSpace_BT2020
  deriving DecidableEq, Repr

open MHW_CSPACE

/-- The part of `CODECHAL_ENCODE_SFC_STATE` that the class writes. -/
structure CODECHAL_ENCODE_SFC_STATE where
  InputSurfaceColorSpace : MHW_CSPACE
  OutputSurfaceColorSpace : MHW_CSPACE
  deriving DecidableEq, Repr

/-- A rectangle (`RECT`-like region of `CODECHAL_ENCODE_SFC_PARAMS`). -/
structure SfcRegion where
  X : Nat
  Y : Nat
  Width : Nat
  Height : Nat
  deriving DecidableEq, Repr

/-- What `SetParamsSfc` fills in; the chroma siting is the constant
`MHW_CHROMA_SITING_HORZ_CENTER | MHW_CHROMA_SITING_VERT_CENTER`. -/
structure CODECHAL_ENCODE_SFC_PARAMS where
  pInputSurface : SurfacePtr
  pOutputSurface : SurfacePtr
  rcInputSurfaceRegion : SfcRegion
  rcOutputSurfaceRegion : SfcRegion
  deriving DecidableEq, Repr

/-- The walker command parameters that `CscKernel` and `DsKernel` fill in. -/
structure MHW_WALKER_PARAMS where
  BlockResolution_x : Nat
  BlockResolution_y : Nat
  GlobalResolution_x : Nat
  GlobalResolution_y : Nat
  GlobalOutlerLoopStride_x : Nat
  GlobalInnerLoopUnit_y : Nat
  dwLocalLoopExecCount : Nat
  dwGlobalLoopExecCount : Nat
  LocalOutLoopStride_y : Nat
  LocalInnerLoopUnit_x : Nat
  LocalEnd_x : Nat
  GroupIdLoopSelect : Nat
  deriving DecidableEq, Repr

/-- Requests that reached a collaborator, in program order. -/
inductive Event where
  | pfnAllocateResource (target : SurfacePtr) (handle : Nat) (format : MOS_FORMAT)
      (dwWidth dwHeight : Nat)
  | pfnFreeResource (target : SurfacePtr)
  | pfnResourceWait (target : SurfacePtr) (ctx : MOS_GPU_CONTEXT) (readOnly : Bool)
  | pfnGetCommandBuffer (cmdBuffer : Nat)
  | SetRcsSurfaceState (cmdBuffer : Nat) (kernel : CODECHAL_MEDIA_STATE_TYPE)
      (surface : SurfacePtr) (bIsWritable : Bool)
  | AddMediaObjectWalkerCmd (cmdBuffer : Nat) (walker : MHW_WALKER_PARAMS)
  | pfnSubmitCommandBuffer (cmdBuffer : Nat)
  | CodecHalEncodeSfc_SetParams (sfcState : CODECHAL_ENCODE_SFC_STATE)
      (sfcParams : CODECHAL_ENCODE_SFC_PARAMS)
  | CodecHalEncodeSfc_RenderStart (sfcState : CODECHAL_ENCODE_SFC_STATE)
  deriving DecidableEq, Repr

/-- The collaborators: `script` holds the statuses that the coming fallible
calls return (success once it is used up), `trace` what was requested so
far. -/
structure Driver where
  script : List MOS_STATUS
  trace : List Event
  nextHandle : Nat
  nextCmdBuffer : Nat
  deriving DecidableEq, Repr

/-- Caller-owned `KernelParams`. -/
structure KernelParams where
  stageDsConversion : DsStage
  b16xScalingInUse : Bool
  b32xScalingInUse : Bool
  bLastTaskInPhaseCSC : Bool
  bLastTaskInPhase4xDS : Bool
  bLastTaskInPhase16xDS : Bool
  bLastTaskInPhase32xDS : Bool
  bRawInputProvided : Bool
  inputPictureIsField : Bool
  bScalingforRef : Bool
  bStatsInputProvided : Bool
  inputColorSpace : Nat
  deriving DecidableEq, Repr

/-- The part of `FeiPreEncParams` that `DsKernel` reads. -/
structure FeiPreEncParams where
  bDisableStatisticsOutput : Bool
  bEnable8x8Statistics : Bool
  deriving DecidableEq, Repr

/-- Encoder-owned fields that the class holds by reference and only reads. -/
structure Settings where
  m_useRawForRef : Bool
  m_waitForPak : Bool
  m_useCommonKernel : Bool
  m_16xMeSupported : Bool
  m_32xMeSupported : Bool
  m_scalingEnabled : Bool
  m_2xScalingEnabled : Bool
  m_firstField : Bool
  m_fieldScalingOutputInterleaved : Bool
  m_flatnessCheckEnabled : Bool
  m_mbStatsEnabled : Bool
  m_mbStatsSupported : Bool
  m_singleTaskPhaseSupported : Bool
  m_firstTaskInPhase : Bool
  m_groupIdSelectSupported : Bool
  m_groupId : Nat
  m_currScalingIdx : Nat
  m_outputChromaFormat : HCP_CHROMA_FORMAT
  m_standard : CODECHAL_STANDARD
  m_mode : CODECHAL_MODE
  m_oriFrameWidth : Nat
  m_oriFrameHeight : Nat
  m_frameWidth : Nat
  m_frameHeight : Nat
  m_downscaledWidth4x : Nat
  m_downscaledHeight4x : Nat
  m_downscaledWidth16x : Nat
  m_downscaledHeight16x : Nat
  m_downscaledWidth32x : Nat
  m_downscaledHeight32x : Nat
  m_rawSurfAlignment : Nat
  m_renderContext : MOS_GPU_CONTEXT
  /-- `CodecHal_PictureIsField(m_encoder->m_currOriginalPic)` -/
  currOriginalPicIsField : Bool
  /-- `m_encoder->m_codecFunction == CODECHAL_FUNCTION_FEI_PRE_ENC` -/
  codecFunctionIsFeiPreEnc : Bool
  /-- `m_encoder->m_encodeParams.pPreEncParams` -/
  pPreEncParams : Option FeiPreEncParams
  /-- `m_encoder->m_interlacedFieldDisabled` -/
  m_interlacedFieldDisabled : Bool
  /-- `m_encoder->m_mmcState` is not null -/
  mmcStatePresent : Bool
  /-- `m_renderInterface->m_stateHeapInterface` is not null -/
  stateHeapInterfacePresent : Bool
  m_cscEnableCopy : Bool
  m_cscEnableColor : Bool
  m_cscEnableMmc : Bool
  m_cscEnableSfc : Bool
  deriving DecidableEq, Repr

/-- `m_curbeParams`. -/
structure CurbeParams where
  dwInputPictureWidth : Nat
  dwInputPictureHeight : Nat
  b16xScalingInUse : Bool
  b32xScalingInUse : Bool
  bFieldPicture : Bool
  bFlatnessCheckEnabled : Bool
  bMBVarianceOutputEnabled : Bool
  bMBPixelAverageOutputEnabled : Bool
  bBlock8x8StatisticsEnabled : Bool
  bCscOrCopyOnly : Bool
  inputColorSpace : Nat
  deriving DecidableEq, Repr

/-- `m_surfaceParamsCsc`. -/
structure SurfaceParamsCsc where
  psInputSurface : SurfacePtr
  psOutputCopiedSurface : SurfacePtr
  psOutput4xDsSurface : SurfacePtr
  bMBVProcStatsEnabled : Bool
  bFlatnessCheckEnabled : Bool
  deriving DecidableEq, Repr

/-- `m_surfaceParamsDS`. -/
structure SurfaceParamsDS where
  bCurrPicIsFrame : Bool
  psInputSurface : SurfacePtr
  dwInputFrameWidth : Nat
  dwInputFrameHeight : Nat
  psOutputSurface : SurfacePtr
  dwOutputFrameWidth : Nat
  dwOutputFrameHeight : Nat
  bScalingOutUses16UnormSurfFmt : Bool
  bScalingOutUses32UnormSurfFmt : Bool
  bPreEncInUse : Bool
  bMBVProcStatsEnabled : Bool
  presMBVProcStatsBuffer : ResourcePtr
  presMBVProcStatsBotFieldBuffer : ResourcePtr
  bFlatnessCheckEnabled : Bool
  deriving DecidableEq, Repr

/-- The object state of `CodechalEncodeCscDs`. -/
structure CodechalEncodeCscDs where
  cfg : Settings
  drv : Driver
  -- slot bookkeeping
  m_cscBufCountResize : Nat
  m_cscBufAnteIdx : Nat
  m_cscBufPenuIdx : Nat
  m_cscBufLastIdx : Nat
  m_cscBufCountNonRef : Nat
  m_cscBufRingIdx : Nat
  m_cscBufCurrIdx : Nat
  m_waitCscSurf : Bool
  -- requirement set of the current frame
  m_cscRequireCopy : Bool
  m_cscRequireColor : Bool
  m_cscRequireMmc : Bool
  m_cscRequireConvTo8bPlanar : Bool
  m_cscUsingSfc : Bool
  m_colorRawSurface : CscColor
  m_threadTraverseSizeX : Nat
  m_threadTraverseSizeY : Nat
  m_cscRawSurfWidth : Nat
  m_cscRawSurfHeight : Nat
  -- dispatch state
  m_cscKernelState : Bool
  m_dsKernelState : Bool
  m_lastTaskInPhase : Bool
  m_walkerResolutionX : Nat
  m_walkerResolutionY : Nat
  m_curbeParams : CurbeParams
  m_surfaceParamsCsc : SurfaceParamsCsc
  m_surfaceParamsDS : SurfaceParamsDS
  m_scaledBottomFieldOffset : Nat
  m_scaled16xBottomFieldOffset : Nat
  m_scaled32xBottomFieldOffset : Nat
  -- surfaces
  m_trackedBuffer : List CODEC_TRACKED_BUFFER
  m_currRefList : CODEC_REF_LIST
  m_rawSurfaceToEnc : SurfacePtr
  m_rawSurfaceToPak : SurfacePtr
  -- fixed-function scaler; `none` is the null pointer
  m_sfcState : Option CODECHAL_ENCODE_SFC_STATE
  deriving DecidableEq, Repr

namespace CodechalEncodeCscDs

/-- Modelled from the spec: `m_cscFlag`, whose declaration is outside `src/`;
the spec defines the CSC flag as the disjunction of the four requirement
booleans. -/
def m_cscFlag (s : CodechalEncodeCscDs) : Bool :=
  s.m_cscRequireCopy || s.m_cscRequireColor || s.m_cscRequireConvTo8bPlanar || s.m_cscRequireMmc

/-- Slot `i` of `m_trackedBuffer`. -/
def tracked (s : CodechalEncodeCscDs) (i : Nat) : CODEC_TRACKED_BUFFER :=
  s.m_trackedBuffer.getD i CODEC_TRACKED_BUFFER.null

/-- Appends an event to the driver trace. -/
def emit (e : Event) (s : CodechalEncodeCscDs) : CodechalEncodeCscDs :=
  { s with drv := { s.drv with trace := s.drv.trace ++ [e] } }

/-- A fallible call into a collaborator: its status is the next entry of the
script. -/
def ext (s : CodechalEncodeCscDs) : MOS_STATUS × CodechalEncodeCscDs :=
  (s.drv.script.headD MOS_STATUS_SUCCESS, { s with drv := { s.drv with script := s.drv.script.tail } })

/-- `CODECHAL_ENCODE_CHK_STATUS_RETURN`: go on with `k` after a success,
return the failure otherwise. -/
def chk (r : MOS_STATUS × CodechalEncodeCscDs)
    (k : CodechalEncodeCscDs → MOS_STATUS × CodechalEncodeCscDs) :
    MOS_STATUS × CodechalEncodeCscDs :=
  if r.1 = MOS_STATUS_SUCCESS then k r.2 else r

/-- Applies `f` to slot `i` of `m_trackedBuffer`. -/
def updTracked (i : Nat) (f : CODEC_TRACKED_BUFFER → CODEC_TRACKED_BUFFER)
    (s : CodechalEncodeCscDs) : CodechalEncodeCscDs :=
  { s with m_trackedBuffer := List.modify f i s.m_trackedBuffer }

/-- `ReleaseSurfaceCsc(index)`: frees the converted copy of slot `index`. -/
def ReleaseSurfaceCsc (index : Nat) (s : CodechalEncodeCscDs) : CodechalEncodeCscDs :=
  emit (Event.pfnFreeResource (SurfacePtr.copied index))
    (updTracked index
      (fun t => { t with sCopiedSurface := { t.sCopiedSurface with OsResource := none } }) s)

/-- `LookUpBufSlot()`: returns the slot index and the new state. -/
def LookUpBufSlot (K : CodecConsts) (s : CodechalEncodeCscDs) : Nat × CodechalEncodeCscDs :=
  let s1 :=
    if s.m_cscBufCountResize ≠ 0 then
      let s0 := { s with m_cscBufCountResize := s.m_cscBufCountResize - 1 }
      if s0.m_cscBufAnteIdx ≠ s0.m_cscBufPenuIdx ∧ s0.m_cscBufAnteIdx ≠ s0.m_cscBufLastIdx then
        ReleaseSurfaceCsc s0.m_cscBufAnteIdx s0
      else s0
    else s
  let r : Nat × CodechalEncodeCscDs :=
    if s1.cfg.m_useRawForRef then
      (s1.cfg.m_currScalingIdx, { s1 with m_waitCscSurf := false })
    else
      -- if Raw won't be used as Ref, can use a ring buffer
      let cnt :=
        if !s1.cfg.m_waitForPak then
          s1.m_cscBufCountNonRef +
            (if s1.m_cscBufCountNonRef ≤ K.CODEC_NUM_NON_REF_BUFFERS then 1 else 0)
        else 0
      let ring := (s1.m_cscBufRingIdx + 1) % K.CODEC_NUM_NON_REF_BUFFERS
      (u8 (K.CODEC_NUM_REF_BUFFERS + ring),
        { s1 with
          m_cscBufCountNonRef := cnt,
          m_waitCscSurf := decide (cnt > K.CODEC_NUM_NON_REF_BUFFERS),
          m_cscBufRingIdx := ring })
  -- update the last 3 buffer index
  (r.1, { r.2 with
    m_cscBufAnteIdx := r.2.m_cscBufPenuIdx,
    m_cscBufPenuIdx := r.2.m_cscBufLastIdx,
    m_cscBufLastIdx := r.1 })

/-! ### Calls into the collaborators -/

/-- A fallible call that leaves `e` in the trace when it succeeds. -/
def extEv (e : Event) (s : CodechalEncodeCscDs) : MOS_STATUS × CodechalEncodeCscDs :=
  chk (ext s) fun s1 => (MOS_STATUS_SUCCESS, emit e s1)

/-- Applies `f` to the surface descriptor that `p` points at (pointers to
surfaces that the class does not own are left alone). -/
def updSurface (p : SurfacePtr) (f : MOS_SURFACE → MOS_SURFACE)
    (s : CodechalEncodeCscDs) : CodechalEncodeCscDs :=
  match p with
  | SurfacePtr.copied i => updTracked i (fun t => { t with sCopiedSurface := f t.sCopiedSurface }) s
  | SurfacePtr.scaled2x i => updTracked i (fun t => { t with sScaled2xSurface := f t.sScaled2xSurface }) s
  | SurfacePtr.scaled4x i => updTracked i (fun t => { t with sScaled4xSurface := f t.sScaled4xSurface }) s
  | SurfacePtr.scaled16x i => updTracked i (fun t => { t with sScaled16xSurface := f t.sScaled16xSurface }) s
  | SurfacePtr.scaled32x i => updTracked i (fun t => { t with sScaled32xSurface := f t.sScaled32xSurface }) s
  | _ => s

/-- `m_osInterface->pfnAllocateResource`: on success the target resource gets
a fresh handle. -/
def pfnAllocateResource (target : SurfacePtr) (format : MOS_FORMAT) (dwWidth dwHeight : Nat)
    (s : CodechalEncodeCscDs) : MOS_STATUS × CodechalEncodeCscDs :=
  chk (ext s) fun s1 =>
    let h := s1.drv.nextHandle
    let s2 := updSurface target (fun x => { x with OsResource := some h }) s1
    (MOS_STATUS_SUCCESS,
      emit (Event.pfnAllocateResource target h format dwWidth dwHeight)
        { s2 with drv := { s2.drv with nextHandle := h + 1 } })

/-- `CodecHal_GetResourceInfo`: on success the descriptor holds the layout of
the resource as the driver created it. -/
def CodecHal_GetResourceInfo (K : CodecConsts) (target : SurfacePtr) (format : MOS_FORMAT)
    (dwWidth dwHeight : Nat) (s : CodechalEncodeCscDs) : MOS_STATUS × CodechalEncodeCscDs :=
  chk (ext s) fun s1 =>
    (MOS_STATUS_SUCCESS,
      updSurface target
        (fun x =>
          { x with Format := format, dwWidth := dwWidth, dwHeight := dwHeight,
                   dwPitch := K.pitchOf dwWidth }) s1)

/-- `MOS_New`: a null result is reported as `MOS_STATUS_NULL_POINTER` by
`CODECHAL_ENCODE_CHK_NULL_RETURN`. -/
def MOS_New (s : CodechalEncodeCscDs) : MOS_STATUS × CodechalEncodeCscDs :=
  let r := ext s
  if r.1 = MOS_STATUS_SUCCESS then r else (MOS_STATUS_NULL_POINTER, r.2)

/-- `m_osInterface->pfnGetCommandBuffer`: hands out command buffer number
`nextCmdBuffer`. -/
def pfnGetCommandBuffer (s : CodechalEncodeCscDs) : MOS_STATUS × CodechalEncodeCscDs :=
  chk (ext s) fun s1 =>
    (MOS_STATUS_SUCCESS,
      emit (Event.pfnGetCommandBuffer s1.drv.nextCmdBuffer)
        { s1 with drv := { s1.drv with nextCmdBuffer := s1.drv.nextCmdBuffer + 1 } })

/-- `CodecHal_SetRcsSurfaceState` for one surface. -/
def CodecHal_SetRcsSurfaceState (cmdBuffer : Nat) (kernel : CODECHAL_MEDIA_STATE_TYPE)
    (surface : SurfacePtr) (bIsWritable : Bool) (s : CodechalEncodeCscDs) :
    MOS_STATUS × CodechalEncodeCscDs :=
  extEv (Event.SetRcsSurfaceState cmdBuffer kernel surface bIsWritable) s

/-! ### Surface pool -/

/-- `AllocateSurfaceCsc()`. -/
def AllocateSurfaceCsc (K : CodecConsts) (s : CodechalEncodeCscDs) :
    MOS_STATUS × CodechalEncodeCscDs :=
  if !s.m_cscFlag then (MOS_STATUS_SUCCESS, s) else
  let r := LookUpBufSlot K s
  let s1 := { r.2 with m_cscBufCurrIdx := r.1 }
  -- CODECHAL_ENCODE_CHK_COND_RETURN: "No CSC buffer is available!"
  if s1.m_cscBufCurrIdx ≥ K.CODEC_NUM_TRACKED_BUFFERS then (MOS_STATUS_UNKNOWN, s1) else
  let idx := s1.m_cscBufCurrIdx
  if (s1.tracked idx).sCopiedSurface.OsResource ≠ none then (MOS_STATUS_SUCCESS, s1) else
  -- uint32_t surfaceWidth, surfaceHeight
  let surfaceWidth :=
    if s1.cfg.m_mode = CODECHAL_ENCODE_MODE_HEVC then u32 (MOS_ALIGN_CEIL s1.cfg.m_oriFrameWidth 32)
    else u32 (MOS_ALIGN_CEIL s1.cfg.m_oriFrameWidth s1.cfg.m_rawSurfAlignment)
  let surfaceHeight :=
    if s1.cfg.m_mode = CODECHAL_ENCODE_MODE_HEVC then u32 (MOS_ALIGN_CEIL s1.cfg.m_oriFrameHeight 32)
    else u32 (MOS_ALIGN_CEIL s1.cfg.m_oriFrameHeight s1.cfg.m_rawSurfAlignment)
  let format := if cscColorY210 = s1.m_colorRawSurface then Format_YUY2 else Format_NV12
  let dwWidth := surfaceWidth
  let dwHeight := if cscColorY210 = s1.m_colorRawSurface then u32 (surfaceHeight * 2) else surfaceHeight
  chk (pfnAllocateResource (SurfacePtr.copied idx) format dwWidth dwHeight s1) fun s2 =>
  chk (CodecHal_GetResourceInfo K (SurfacePtr.copied idx) format dwWidth dwHeight s2) fun s3 =>
  if Format_YUY2 = format then
    let fmt (old : MOS_FORMAT) : MOS_FORMAT :=
      if cscColorYUY2 = s3.m_colorRawSurface ∧ HCP_CHROMA_FORMAT_YUV422 = s3.cfg.m_outputChromaFormat
      then Format_YUY2V
      else if cscColorY210 = s3.m_colorRawSurface then Format_Y216V
      else old
    (MOS_STATUS_SUCCESS,
      updSurface (SurfacePtr.copied idx)
        (fun x => { x with Format := fmt x.Format, dwWidth := surfaceWidth, dwHeight := surfaceHeight }) s3)
  else (MOS_STATUS_SUCCESS, s3)

/-- Height of a scaled surface on the separate-scaler path:
`MOS_ALIGN_CEIL(((h / MB_HEIGHT + 1) >> 1) * MB_HEIGHT, MOS_YTILE_H_ALIGNMENT) << 1`. -/
def scaledSurfaceHeight (h : Nat) : Nat :=
  u32 (MOS_ALIGN_CEIL (((h / CODECHAL_MACROBLOCK_HEIGHT + 1) / 2) * CODECHAL_MACROBLOCK_HEIGHT)
    MOS_YTILE_H_ALIGNMENT * 2)

/-- `AllocateSurfaceDS()`. -/
def AllocateSurfaceDS (K : CodecConsts) (s : CodechalEncodeCscDs) :
    MOS_STATUS × CodechalEncodeCscDs :=
  let idx := s.cfg.m_currScalingIdx
  if (s.tracked idx).sScaled4xSurface.OsResource ≠ none then (MOS_STATUS_SUCCESS, s) else
  let downscaledSurfaceWidth4x :=
    if s.cfg.m_useCommonKernel then K.CODECHAL_GET_4xDS_SIZE_32ALIGNED s.cfg.m_frameWidth
    else s.cfg.m_downscaledWidth4x
  let downscaledSurfaceHeight4x :=
    if s.cfg.m_useCommonKernel then K.CODECHAL_GET_4xDS_SIZE_32ALIGNED s.cfg.m_frameHeight
    else scaledSurfaceHeight s.cfg.m_downscaledHeight4x
  -- allocate 4x DS surface
  chk (pfnAllocateResource (SurfacePtr.scaled4x idx) Format_NV12
        downscaledSurfaceWidth4x downscaledSurfaceHeight4x s) fun s1 =>
  chk (CodecHal_GetResourceInfo K (SurfacePtr.scaled4x idx) Format_NV12
        downscaledSurfaceWidth4x downscaledSurfaceHeight4x s1) fun s2 =>
  -- allocate 16x DS surface
  let downscaledSurfaceWidth16x :=
    if s.cfg.m_useCommonKernel then K.CODECHAL_GET_4xDS_SIZE_32ALIGNED downscaledSurfaceWidth4x
    else s.cfg.m_downscaledWidth16x
  let downscaledSurfaceHeight16x :=
    if s.cfg.m_useCommonKernel then K.CODECHAL_GET_4xDS_SIZE_32ALIGNED downscaledSurfaceHeight4x
    else scaledSurfaceHeight s.cfg.m_downscaledHeight16x
  chk (if s.cfg.m_16xMeSupported then
        chk (pfnAllocateResource (SurfacePtr.scaled16x idx) Format_NV12
              downscaledSurfaceWidth16x downscaledSurfaceHeight16x s2) fun s3 =>
        CodecHal_GetResourceInfo K (SurfacePtr.scaled16x idx) Format_NV12
              downscaledSurfaceWidth16x downscaledSurfaceHeight16x s3
      else (MOS_STATUS_SUCCESS, s2)) fun s4 =>
  -- allocate 32x DS surface
  let downscaledSurfaceWidth32x :=
    if s.cfg.m_useCommonKernel then
      K.CODECHAL_GET_2xDS_SIZE_32ALIGNED (K.CODECHAL_GET_4xDS_SIZE_32ALIGNED downscaledSurfaceWidth4x)
    else s.cfg.m_downscaledWidth32x
  let downscaledSurfaceHeight32x :=
    if s.cfg.m_useCommonKernel then
      K.CODECHAL_GET_2xDS_SIZE_32ALIGNED (K.CODECHAL_GET_4xDS_SIZE_32ALIGNED downscaledSurfaceHeight4x)
    else scaledSurfaceHeight s.cfg.m_downscaledHeight32x
  chk (if s.cfg.m_32xMeSupported then
        chk (pfnAllocateResource (SurfacePtr.scaled32x idx) Format_NV12
              downscaledSurfaceWidth32x downscaledSurfaceHeight32x s4) fun s5 =>
        CodecHal_GetResourceInfo K (SurfacePtr.scaled32x idx) Format_NV12
              downscaledSurfaceWidth32x downscaledSurfaceHeight32x s5
      else (MOS_STATUS_SUCCESS, s4)) fun s6 =>
  let offset (x : MOS_SURFACE) : Nat :=
    MOS_ALIGN_CEIL (u32 (x.dwPitch * (x.dwHeight / 2))) K.CODECHAL_PAGE_SIZE
  if !s6.cfg.m_fieldScalingOutputInterleaved then
    -- Separated scaled surfaces
    (MOS_STATUS_SUCCESS,
      { s6 with
        m_scaledBottomFieldOffset := offset (s6.tracked idx).sScaled4xSurface,
        m_scaled16xBottomFieldOffset :=
          if s6.cfg.m_16xMeSupported then offset (s6.tracked idx).sScaled16xSurface
          else s6.m_scaled16xBottomFieldOffset,
        m_scaled32xBottomFieldOffset :=
          if s6.cfg.m_32xMeSupported then offset (s6.tracked idx).sScaled32xSurface
          else s6.m_scaled32xBottomFieldOffset })
  else
    -- Interleaved scaled surfaces
    (MOS_STATUS_SUCCESS,
      { s6 with m_scaledBottomFieldOffset := 0, m_scaled16xBottomFieldOffset := 0,
                m_scaled32xBottomFieldOffset := 0 })

/-- `AllocateSurface2xDS()`. -/
def AllocateSurface2xDS (K : CodecConsts) (s : CodechalEncodeCscDs) :
    MOS_STATUS × CodechalEncodeCscDs :=
  let idx := s.cfg.m_currScalingIdx
  if (s.tracked idx).sScaled2xSurface.OsResource ≠ none then (MOS_STATUS_SUCCESS, s) else
  -- uint32_t surfaceWidth, surfaceHeight
  let surfaceWidth :=
    if s.cfg.m_useCommonKernel then K.CODECHAL_GET_2xDS_SIZE_32ALIGNED s.cfg.m_frameWidth
    else u32 (MOS_ALIGN_CEIL s.cfg.m_frameWidth 64) / 2
  let surfaceHeight :=
    if s.cfg.m_useCommonKernel then K.CODECHAL_GET_2xDS_SIZE_32ALIGNED s.cfg.m_frameHeight
    else u32 (MOS_ALIGN_CEIL s.cfg.m_frameHeight 64) / 2
  let is422 : Bool := decide (HCP_CHROMA_FORMAT_YUV422 = s.cfg.m_outputChromaFormat)
  let format := if is422 then Format_YUY2 else Format_NV12
  let dwWidth := if is422 then surfaceWidth / 2 else surfaceWidth
  let dwHeight := if is422 then u32 (surfaceHeight * 2) else surfaceHeight
  -- allocate 2x DS surface
  chk (pfnAllocateResource (SurfacePtr.scaled2x idx) format dwWidth dwHeight s) fun s1 =>
  chk (CodecHal_GetResourceInfo K (SurfacePtr.scaled2x idx) format dwWidth dwHeight s1) fun s2 =>
  if is422 then
    (MOS_STATUS_SUCCESS,
      updSurface (SurfacePtr.scaled2x idx)
        (fun x => { x with Format := Format_YUY2V, dwWidth := surfaceWidth, dwHeight := surfaceHeight }) s2)
  else (MOS_STATUS_SUCCESS, s2)

/-! ### Frame-requirement analyzer -/

/-- `CheckRawColorFormat(format)`. -/
def CheckRawColorFormat (format : MOS_FORMAT) (s : CodechalEncodeCscDs) :
    MOS_STATUS × CodechalEncodeCscDs :=
  match format with
  | Format_NV12 =>
    (MOS_STATUS_SUCCESS,
      { s with m_colorRawSurface := cscColorNv12Linear, m_cscRequireColor := true,
               m_threadTraverseSizeX := 5 })
  | Format_YUY2 | Format_YUYV =>
    (MOS_STATUS_SUCCESS,
      { s with m_colorRawSurface := cscColorYUY2,
               m_cscRequireColor := decide (HCP_CHROMA_FORMAT_YUV420 = s.cfg.m_outputChromaFormat),
               m_cscRequireConvTo8bPlanar :=
                 decide (HCP_CHROMA_FORMAT_YUV422 = s.cfg.m_outputChromaFormat),
               m_threadTraverseSizeX := 4 })
  | Format_A8R8G8B8 =>
    (MOS_STATUS_SUCCESS,
      { s with m_colorRawSurface := cscColorARGB, m_cscRequireColor := true,
               -- Use EU for better performance in big resolution cases or TU1
               m_cscUsingSfc :=
                 if u32 (s.m_cscRawSurfWidth * s.m_cscRawSurfHeight) > 1920 * 1088
                    ∨ s.cfg.m_16xMeSupported = true then false
                 else s.cfg.m_cscEnableSfc,
               m_threadTraverseSizeX := 3 })
  | Format_A8B8G8R8 =>
    (MOS_STATUS_SUCCESS,
      { s with m_colorRawSurface := cscColorABGR, m_cscRequireColor := true,
               m_threadTraverseSizeX := 3 })
  | Format_P010 =>
    (MOS_STATUS_SUCCESS,
      { s with m_colorRawSurface := cscColorP010, m_cscRequireConvTo8bPlanar := true })
  | _ => (MOS_STATUS_INVALID_PARAMETER, s)

/-- The loop `for (uint8_t i = 0; i < CODEC_NUM_TRACKED_BUFFERS; i++)` of
`Resize()`, from counter value `i`.  `fuel` bounds the number of passes: the
counter has 256 values, so the loop ends within 256 passes or not at all. -/
def Resize_loop (K : CodecConsts) : Nat → Nat → CodechalEncodeCscDs → CodechalEncodeCscDs
  | 0, _, s => s
  | fuel + 1, i, s =>
    if i < K.CODEC_NUM_TRACKED_BUFFERS then
      Resize_loop K fuel (u8 (i + 1))
        (if s.m_cscBufAnteIdx ≠ i ∧ s.m_cscBufPenuIdx ≠ i ∧ s.m_cscBufLastIdx ≠ i then
          ReleaseSurfaceCsc i s
        else s)
    else s

/-- `Resize()`. -/
def Resize (K : CodecConsts) (s : CodechalEncodeCscDs) : CodechalEncodeCscDs :=
  Resize_loop K 256 0 { s with m_cscBufCountResize := K.CODEC_NUM_NON_REF_BUFFERS }

/-- The unconditional assignments at the head of `CheckCondition()` and its
alignment check.  `details` is what `pfnGetResourceInfo` reported for the raw
surface.  The assignment `m_cscFlag = 0` clears the four requirement booleans,
whose disjunction the flag is. -/
def CheckCondition_reset (details : MOS_SURFACE) (s : CodechalEncodeCscDs) :
    CodechalEncodeCscDs :=
  let s2 :=
    { s with
      m_cscRequireCopy := false, m_cscRequireColor := false,
      m_cscRequireConvTo8bPlanar := false, m_cscRequireMmc := false,
      m_cscRawSurfWidth := details.dwWidth,
      m_cscRawSurfHeight := details.dwHeight,
      m_colorRawSurface := cscColorNv12TileY, -- by default assume NV12 Tile-Y format
      m_threadTraverseSizeX := 5,
      m_threadTraverseSizeY := 2 }            -- for NV12, thread space is 32x4
  -- check raw surface's alignment
  if s2.cfg.m_cscEnableCopy &&
      (decide (details.dwWidth % s2.cfg.m_rawSurfAlignment ≠ 0) ||
       decide (details.dwHeight % s2.cfg.m_rawSurfAlignment ≠ 0)) then
    { s2 with m_cscRequireCopy := true }
  else s2

/-- The check of the colour and tile format in `CheckCondition()`;
`formatSupported` is the answer of `m_encoder->CheckSupportedFormat(&details)`. -/
def CheckCondition_color (details : MOS_SURFACE) (formatSupported : Bool)
    (s : CodechalEncodeCscDs) : MOS_STATUS × CodechalEncodeCscDs :=
  if s.cfg.m_cscEnableColor && !formatSupported then CheckRawColorFormat details.Format s
  else (MOS_STATUS_SUCCESS, s)

/-- The check of the MMC state in `CheckCondition()`; `mmcState` is what
`pfnGetMemoryCompressionMode` reports. -/
def CheckCondition_mmc (mmcState : MOS_MEMCOMP_STATE) (s : CodechalEncodeCscDs) :
    MOS_STATUS × CodechalEncodeCscDs :=
  if s.cfg.m_cscEnableMmc then
    chk (ext s) fun s5 =>                      -- pfnGetMemoryCompressionMode
    -- Gen9 HEVC only: HCP on SKL does not support MMC surface
    (MOS_STATUS_SUCCESS,
      { s5 with m_cscRequireMmc := decide (MOS_MEMCOMP_DISABLED ≠ mmcState) })
  else (MOS_STATUS_SUCCESS, s)

/-- The part of `CheckCondition()` between the query of the raw surface and
the decision on `Resize()`. -/
def CheckCondition_refresh (details : MOS_SURFACE) (formatSupported : Bool)
    (mmcState : MOS_MEMCOMP_STATE) (s : CodechalEncodeCscDs) :
    MOS_STATUS × CodechalEncodeCscDs :=
  chk (CheckCondition_color details formatSupported (CheckCondition_reset details s))
    (CheckCondition_mmc mmcState)

/-- `CheckCondition()`; the arguments stand for the answers of the collaborators
(see `CheckCondition_refresh`). -/
def CheckCondition (K : CodecConsts) (details : MOS_SURFACE) (formatSupported : Bool)
    (mmcState : MOS_MEMCOMP_STATE) (s : CodechalEncodeCscDs) :
    MOS_STATUS × CodechalEncodeCscDs :=
  chk (ext s) fun s1 =>                        -- pfnGetResourceInfo
  let cscFlagPrev := s1.m_cscFlag
  chk (CheckCondition_refresh details formatSupported mmcState s1) fun s6 =>
  -- CSC no longer required, free existing CSC surface
  if cscFlagPrev && !s6.m_cscFlag then (MOS_STATUS_SUCCESS, Resize K s6)
  else (MOS_STATUS_SUCCESS, s6)

/-! ### Kernel-state builder and surface binding -/

/-- `InitKernelStateCsc()`: the kernel parameters it records are not part of
the state; its fallible calls are `CalculateSshAndBtSizesRequested` and
`CodecHal_MhwInitISH`. -/
def InitKernelStateCsc (s : CodechalEncodeCscDs) : MOS_STATUS × CodechalEncodeCscDs :=
  chk (ext s) fun s1 =>
  if !s1.cfg.stateHeapInterfacePresent then (MOS_STATUS_NULL_POINTER, s1) else
  chk (ext s1) fun s2 => (MOS_STATUS_SUCCESS, s2)

/-- `SetKernelParamsCsc(params)`. -/
def SetKernelParamsCsc (params : Option KernelParams) (s : CodechalEncodeCscDs) :
    MOS_STATUS × CodechalEncodeCscDs :=
  match params with
  | none => (MOS_STATUS_NULL_POINTER, s)
  | some p =>
    (MOS_STATUS_SUCCESS,
      { s with
        m_lastTaskInPhase := p.bLastTaskInPhaseCSC,
        m_currRefList := { s.m_currRefList with b4xScalingUsed := s.cfg.m_scalingEnabled },
        -- setup Curbe
        m_curbeParams :=
          { s.m_curbeParams with
            dwInputPictureWidth := s.m_cscRawSurfWidth,
            dwInputPictureHeight := s.m_cscRawSurfHeight,
            bFlatnessCheckEnabled := s.cfg.m_flatnessCheckEnabled,
            bMBVarianceOutputEnabled := s.cfg.m_mbStatsEnabled,
            bMBPixelAverageOutputEnabled := s.cfg.m_mbStatsEnabled,
            bCscOrCopyOnly := !s.cfg.m_scalingEnabled,
            inputColorSpace := p.inputColorSpace },
        -- setup surface states
        m_surfaceParamsCsc :=
          { s.m_surfaceParamsCsc with
            psInputSurface := s.m_rawSurfaceToEnc,
            psOutputCopiedSurface := SurfacePtr.copied s.m_cscBufCurrIdx,
            psOutput4xDsSurface :=
              if s.cfg.m_scalingEnabled then SurfacePtr.scaled4x s.cfg.m_currScalingIdx
              else SurfacePtr.nullPtr,
            bMBVProcStatsEnabled :=
              if s.cfg.m_mbStatsSupported then true else s.m_surfaceParamsCsc.bMBVProcStatsEnabled,
            bFlatnessCheckEnabled :=
              if s.cfg.m_mbStatsSupported then s.m_surfaceParamsCsc.bFlatnessCheckEnabled
              else s.cfg.m_flatnessCheckEnabled },
        -- setup walker param
        m_walkerResolutionX := MOS_ROUNDUP_SHIFT s.cfg.m_downscaledWidth4x s.m_threadTraverseSizeX,
        m_walkerResolutionY := MOS_ROUNDUP_SHIFT s.cfg.m_downscaledHeight4x s.m_threadTraverseSizeY })

/-- `SetCurbeCsc()`: the curbe contents are not part of the state; the
fallible call is `m_dshRegion.AddData`. -/
def SetCurbeCsc (s : CodechalEncodeCscDs) : MOS_STATUS × CodechalEncodeCscDs :=
  ext s

/-- `SendSurfaceCsc(cmdBuffer)`. -/
def SendSurfaceCsc (cmdBuffer : Nat) (s : CodechalEncodeCscDs) :
    MOS_STATUS × CodechalEncodeCscDs :=
  let k := CODECHAL_MEDIA_STATE_CSC_DS_COPY
  -- Source surface/s
  chk (CodecHal_SetRcsSurfaceState cmdBuffer k s.m_surfaceParamsCsc.psInputSurface false s) fun s1 =>
  -- Destination surface/s - 4x downscaled surface
  chk (if s1.m_surfaceParamsCsc.psOutput4xDsSurface ≠ SurfacePtr.nullPtr then
        CodecHal_SetRcsSurfaceState cmdBuffer k s1.m_surfaceParamsCsc.psOutput4xDsSurface true s1
      else (MOS_STATUS_SUCCESS, s1)) fun s2 =>
  -- FlatnessCheck or MbStats surface
  chk (if s2.m_surfaceParamsCsc.bMBVProcStatsEnabled then
        CodecHal_SetRcsSurfaceState cmdBuffer k (SurfacePtr.resource ResourcePtr.mbStatsBuffer) true s2
      else if s2.m_surfaceParamsCsc.bFlatnessCheckEnabled then
        CodecHal_SetRcsSurfaceState cmdBuffer k SurfacePtr.flatnessCheck true s2
      else (MOS_STATUS_SUCCESS, s2)) fun s3 =>
  -- copy kernel output luma + chroma
  chk (if s3.m_surfaceParamsCsc.psOutputCopiedSurface ≠ SurfacePtr.nullPtr then
        CodecHal_SetRcsSurfaceState cmdBuffer k s3.m_surfaceParamsCsc.psOutputCopiedSurface true s3
      else (MOS_STATUS_SUCCESS, s3)) fun s4 =>
  (MOS_STATUS_SUCCESS, s4)

/-- `SetSurfacesToEncPak()`. -/
def SetSurfacesToEncPak (s : CodechalEncodeCscDs) : MOS_STATUS × CodechalEncodeCscDs :=
  let trackedBuffer := s.tracked s.m_cscBufCurrIdx
  -- now we have the converted surface, do different things
  let s1 :=
    if s.m_cscRequireCopy || s.m_cscRequireColor || s.m_cscRequireConvTo8bPlanar then
      { s with
        m_rawSurfaceToEnc := SurfacePtr.copied s.m_cscBufCurrIdx,
        -- update the RawBuffer and RefBuffer (if Raw is used as Ref)
        m_currRefList :=
          { s.m_currRefList with
            sRefRawBuffer := trackedBuffer.sCopiedSurface,
            sRefBuffer :=
              if s.cfg.m_useRawForRef then trackedBuffer.sCopiedSurface
              else s.m_currRefList.sRefBuffer } }
    else s
  let s2 :=
    if s1.m_cscRequireCopy || s1.m_cscRequireColor || s1.m_cscRequireMmc then
      { s1 with m_rawSurfaceToPak := SurfacePtr.copied s1.m_cscBufCurrIdx }
    else s1
  (MOS_STATUS_SUCCESS, s2)

/-- One pass of the loop of `InitKernelStateDS()` (one kernel state index). -/
def InitKernelStateDS_pass (s : CodechalEncodeCscDs) : MOS_STATUS × CodechalEncodeCscDs :=
  let s0 := { s with m_dsKernelState := true }
  chk (ext s0) fun s1 =>                       -- pfnGetKernelHeaderAndSize (ENC_SCALING4X)
  chk (ext s1) fun s2 =>                       -- CalculateSshAndBtSizesRequested
  if !s2.cfg.stateHeapInterfacePresent then (MOS_STATUS_NULL_POINTER, s2) else
  chk (ext s2) fun s3 =>                       -- CodecHal_MhwInitISH
  if s3.cfg.m_32xMeSupported then
    chk (ext s3) fun s4 =>                     -- pfnGetKernelHeaderAndSize (ENC_SCALING2X)
    chk (ext s4) fun s5 =>                     -- CalculateSshAndBtSizesRequested
    if !s5.cfg.stateHeapInterfacePresent then (MOS_STATUS_NULL_POINTER, s5) else
    chk (ext s5) fun s6 => (MOS_STATUS_SUCCESS, s6)   -- CodecHal_MhwInitISH
  else (MOS_STATUS_SUCCESS, s3)

/-- The loop of `InitKernelStateDS()` over `n` kernel state indices. -/
def InitKernelStateDS_loop : Nat → CodechalEncodeCscDs → MOS_STATUS × CodechalEncodeCscDs
  | 0, s => (MOS_STATUS_SUCCESS, s)
  | n + 1, s => chk (InitKernelStateDS_pass s) (InitKernelStateDS_loop n)

/-- `InitKernelStateDS()`. -/
def InitKernelStateDS (K : CodecConsts) (s : CodechalEncodeCscDs) :
    MOS_STATUS × CodechalEncodeCscDs :=
  let numKernelsToLoad :=
    if s.cfg.m_interlacedFieldDisabled then 1 else K.CODEC_NUM_FIELDS_PER_FRAME
  chk (ext s) fun s1 =>                        -- CodecHal_GetKernelBinaryAndSize
  InitKernelStateDS_loop numKernelsToLoad s1

/-- `SetCurbeDS4x()`: the curbe contents are not part of the state; the
fallible call is `m_dshRegion.AddData`. -/
def SetCurbeDS4x (s : CodechalEncodeCscDs) : MOS_STATUS × CodechalEncodeCscDs :=
  ext s

/-- `SetCurbeDS2x()`: the curbe contents are not part of the state; the
fallible call is `m_dshRegion.AddData`. -/
def SetCurbeDS2x (s : CodechalEncodeCscDs) : MOS_STATUS × CodechalEncodeCscDs :=
  ext s

/-- Binds one surface for a frame picture, or its top and bottom field for a
field picture (the two arms of `if (currPicIsFrame)` in `SendSurfaceDS`). -/
def bindFrameOrFields (currPicIsFrame : Bool) (cmdBuffer : Nat)
    (kernel : CODECHAL_MEDIA_STATE_TYPE) (surface : SurfacePtr) (bIsWritable : Bool)
    (s : CodechalEncodeCscDs) : MOS_STATUS × CodechalEncodeCscDs :=
  if currPicIsFrame then
    CodecHal_SetRcsSurfaceState cmdBuffer kernel surface bIsWritable s
  else
    chk (CodecHal_SetRcsSurfaceState cmdBuffer kernel surface bIsWritable s) fun s1 =>
    CodecHal_SetRcsSurfaceState cmdBuffer kernel surface bIsWritable s1

/-- `SendSurfaceDS(cmdBuffer)`; `kernel` is the media state of the kernel
state the surfaces are bound for. -/
def SendSurfaceDS (cmdBuffer : Nat) (kernel : CODECHAL_MEDIA_STATE_TYPE)
    (s : CodechalEncodeCscDs) : MOS_STATUS × CodechalEncodeCscDs :=
  let currPicIsFrame := s.m_surfaceParamsDS.bCurrPicIsFrame
  -- Use actual width and height for scaling source, not padded allocated dimensions
  let outH0 := s.m_surfaceParamsDS.dwOutputFrameHeight
  let outH :=
    if !s.cfg.m_fieldScalingOutputInterleaved then
      MOS_ALIGN_CEIL (if currPicIsFrame then outH0 else outH0 / 2) 16
    else outH0
  let s0 := updSurface s.m_surfaceParamsDS.psOutputSurface
    (fun x => { x with dwWidth := s.m_surfaceParamsDS.dwOutputFrameWidth, dwHeight := outH }) s
  -- Source surface/s
  if !s0.cfg.mmcStatePresent then (MOS_STATUS_NULL_POINTER, s0) else
  chk (ext s0) fun s1 =>                       -- m_mmcState->SetSurfaceParams
  chk (bindFrameOrFields currPicIsFrame cmdBuffer kernel
        s1.m_surfaceParamsDS.psInputSurface false s1) fun s2 =>
  -- Destination surface/s
  chk (bindFrameOrFields currPicIsFrame cmdBuffer kernel
        s2.m_surfaceParamsDS.psOutputSurface true s2) fun s3 =>
  chk (if s3.m_surfaceParamsDS.bFlatnessCheckEnabled then
        -- flatness check surface
        bindFrameOrFields currPicIsFrame cmdBuffer kernel SurfacePtr.flatnessCheck true s3
      else (MOS_STATUS_SUCCESS, s3)) fun s4 =>
  chk (if s4.m_surfaceParamsDS.bMBVProcStatsEnabled then
        if currPicIsFrame then
          CodecHal_SetRcsSurfaceState cmdBuffer kernel
            (SurfacePtr.resource s4.m_surfaceParamsDS.presMBVProcStatsBuffer) true s4
        else
          -- Top field
          chk (CodecHal_SetRcsSurfaceState cmdBuffer kernel
                (SurfacePtr.resource s4.m_surfaceParamsDS.presMBVProcStatsBuffer) true s4) fun s5 =>
          -- Bot field
          CodecHal_SetRcsSurfaceState cmdBuffer kernel
            (SurfacePtr.resource
              (if s5.m_surfaceParamsDS.bPreEncInUse then
                s5.m_surfaceParamsDS.presMBVProcStatsBotFieldBuffer
               else s5.m_surfaceParamsDS.presMBVProcStatsBuffer)) true s5
      else (MOS_STATUS_SUCCESS, s4)) fun s6 =>
  (MOS_STATUS_SUCCESS, s6)

/-- `WaitCscSurface(gpuContext, readOnly)`. -/
def WaitCscSurface (gpuContext : MOS_GPU_CONTEXT) (readOnly : Bool) (s : CodechalEncodeCscDs) :
    MOS_STATUS × CodechalEncodeCscDs :=
  extEv (Event.pfnResourceWait (SurfacePtr.copied s.m_cscBufCurrIdx) gpuContext readOnly) s

/-- `InitSfcState()`: `CodecHalEncodeSfc_Initialize`. -/
def InitSfcState (s : CodechalEncodeCscDs) : MOS_STATUS × CodechalEncodeCscDs :=
  ext s

/-- `SetParamsSfc(sfcParams)` for a non-null `sfcParams`: the parameters it
fills in (it always succeeds then). -/
def SetParamsSfc (s : CodechalEncodeCscDs) : CODECHAL_ENCODE_SFC_PARAMS :=
  { pInputSurface := s.m_rawSurfaceToEnc,
    pOutputSurface := SurfacePtr.copied s.m_cscBufCurrIdx,
    rcInputSurfaceRegion :=
      { X := 0, Y := 0, Width := s.m_cscRawSurfWidth, Height := s.m_cscRawSurfHeight },
    rcOutputSurfaceRegion :=
      { X := 0, Y := 0, Width := s.m_cscRawSurfWidth, Height := s.m_cscRawSurfHeight } }

/-- The state that `m_sfcState` points at (all zero when the pointer is null,
which the calls below never see). -/
def sfcStateOf (s : CodechalEncodeCscDs) : CODECHAL_ENCODE_SFC_STATE :=
  s.m_sfcState.getD
    { InputSurfaceColorSpace := MHW_CSpace_None, OutputSurfaceColorSpace := MHW_CSpace_None }

/-- The block `if (!m_sfcState)` of `CscUsingSfc`. -/
def CscUsingSfc_init (s : CodechalEncodeCscDs) : MOS_STATUS × CodechalEncodeCscDs :=
  if s.m_sfcState = none then
    chk (MOS_New s) fun s1 =>
    let s2 :=
      { s1 with m_sfcState := some { InputSurfaceColorSpace := MHW_CSpace_None,
                                     OutputSurfaceColorSpace := MHW_CSpace_None } }
    chk (InitSfcState s2) fun s3 =>
    (MOS_STATUS_SUCCESS,
      { s3 with m_sfcState := some { sfcStateOf s3 with InputSurfaceColorSpace := MHW_CSpace_sRGB } })
  else (MOS_STATUS_SUCCESS, s)

/-- The `switch (colorSpace)` of `CscUsingSfc`: the value it leaves in the
local `eStatus` and the state.  The `default` arm assigns the status and goes
on to the statements after the switch. -/
def CscUsingSfc_colorSpace (colorSpace : ENCODE_INPUT_COLORSPACE) (s : CodechalEncodeCscDs) :
    MOS_STATUS × CodechalEncodeCscDs :=
  match colorSpace with
  | ECOLORSPACE_P601 =>
    (MOS_STATUS_SUCCESS,
      { s with m_sfcState := some { sfcStateOf s with OutputSurfaceColorSpace := MHW_CSpace_BT601 } })
  | ECOLORSPACE_P709 =>
    (MOS_STATUS_SUCCESS,
      { s with m_sfcState := some { sfcStateOf s with OutputSurfaceColorSpace := MHW_CSpace_BT709 } })
  | ECOLORSPACE_P2020 =>
    (MOS_STATUS_SUCCESS,
      { s with m_sfcState := some { sfcStateOf s with OutputSurfaceColorSpace := MHW_CSpace_BT2020 } })
  | ECOLORSPACE_other _ => (MOS_STATUS_INVALID_PARAMETER, s)

/-- `CscUsingSfc(colorSpace)`.  The macro `CODECHAL_ENCODE_CHK_STATUS_RETURN` is
declared outside `src/`; `chkStoresStatus` says whether it stores the status of
its statement in the local `eStatus` (then a statement that succeeds overwrites
what the switch left there) or in a variable of its own. -/
def CscUsingSfc (K : CodecConsts) (chkStoresStatus : Bool) (colorSpace : ENCODE_INPUT_COLORSPACE)
    (s : CodechalEncodeCscDs) : MOS_STATUS × CodechalEncodeCscDs :=
  -- init SFC state
  chk (CscUsingSfc_init s) fun s1 =>
  -- wait for raw surface on VEBox context
  chk (extEv (Event.pfnResourceWait s1.m_rawSurfaceToEnc MOS_GPU_CONTEXT_VEBOX true) s1) fun s2 =>
  -- allocate CSC surface (existing surfaces will be re-used when associated frame goes out of RefList)
  chk (AllocateSurfaceCsc K s2) fun s3 =>
  -- On-demand sync for CSC surface re-use
  chk (WaitCscSurface MOS_GPU_CONTEXT_VEBOX false s3) fun s4 =>
  let sfcParams := SetParamsSfc s4
  -- set-up color space
  let sw := CscUsingSfc_colorSpace colorSpace s4
  let eStatus := sw.1
  let s5 := sw.2
  chk (extEv (Event.CodecHalEncodeSfc_SetParams (sfcStateOf s5) sfcParams) s5) fun s6 =>
  chk (extEv (Event.CodecHalEncodeSfc_RenderStart (sfcStateOf s6)) s6) fun s7 =>
  chk (SetSurfacesToEncPak s7) fun s8 =>
  (if chkStoresStatus then MOS_STATUS_SUCCESS else eStatus, s8)

/-! ### Dispatcher -/

/-- The walker command of a raster-scan dispatch of the given resolution
(the block `MHW_WALKER_PARAMS walkerParams; ...` of both kernels). -/
def rasterWalker (cfg : Settings) (resolutionX resolutionY : Nat) : MHW_WALKER_PARAMS :=
  { BlockResolution_x := resolutionX,
    GlobalResolution_x := resolutionX,
    GlobalOutlerLoopStride_x := resolutionX,
    BlockResolution_y := resolutionY,
    GlobalResolution_y := resolutionY,
    GlobalInnerLoopUnit_y := resolutionY,
    dwLocalLoopExecCount := 0xFFFF,
    dwGlobalLoopExecCount := 0xFFFF,
    -- Raster scan walking pattern
    LocalOutLoopStride_y := 1,
    LocalInnerLoopUnit_x := 1,
    LocalEnd_x := u32 (resolutionX + (2 ^ 32 - 1)),
    GroupIdLoopSelect := if cfg.m_groupIdSelectSupported then cfg.m_groupId else 0 }

/-- The end of both kernels after the walker command: `EndStatusReport`,
`SubmitBlocks`, the batch-buffer end and the submission of the command
buffer. -/
def finishCommands (cmdBuffer : Nat) (s1 : CodechalEncodeCscDs) :
    MOS_STATUS × CodechalEncodeCscDs :=
  chk (ext s1) fun s2 =>                       -- m_encoder->EndStatusReport
  chk (ext s2) fun s3 =>                       -- m_stateHeapInterface->SubmitBlocks
  chk (if !s3.cfg.m_singleTaskPhaseSupported || s3.m_lastTaskInPhase then
        chk (ext s3) fun s4 =>                 -- UpdateGlobalCmdBufId
        ext s4                                 -- AddMiBatchBufferEnd
      else (MOS_STATUS_SUCCESS, s3)) fun s5 =>
  chk (ext s5) fun s6 =>                       -- UpdateSSEuForCmdBuffer
  -- pfnReturnCommandBuffer
  if !s6.cfg.m_singleTaskPhaseSupported || s6.m_lastTaskInPhase then
    (MOS_STATUS_SUCCESS,
      { emit (Event.pfnSubmitCommandBuffer cmdBuffer) s6 with m_lastTaskInPhase := false })
  else (MOS_STATUS_SUCCESS, s6)

/-- The common tail of both kernels, from `AddMediaObjectWalkerCmd` to the
submission of the command buffer. -/
def walkAndSubmit (cmdBuffer : Nat) (walkerParams : MHW_WALKER_PARAMS) (s : CodechalEncodeCscDs) :
    MOS_STATUS × CodechalEncodeCscDs :=
  chk (extEv (Event.AddMediaObjectWalkerCmd cmdBuffer walkerParams) s) (finishCommands cmdBuffer)

/-- The block `if (m_firstTaskInPhase || !m_singleTaskPhaseSupported)` of both
kernels: `RequestSshSpaceForCmdBuf` and `VerifySpaceAvailable`. -/
def requestSshSpace (s : CodechalEncodeCscDs) : MOS_STATUS × CodechalEncodeCscDs :=
  if s.cfg.m_firstTaskInPhase || !s.cfg.m_singleTaskPhaseSupported then
    chk (ext s) fun s1 => ext s1
  else (MOS_STATUS_SUCCESS, s)

/-- The first part of `CscKernel`: the lazy kernel-state initialisation, the
allocation of the surfaces and the wait on a reused converted surface. -/
def CscKernel_prepare (K : CodecConsts) (s : CodechalEncodeCscDs) :
    MOS_STATUS × CodechalEncodeCscDs :=
  chk (if !s.m_cscKernelState then
        chk (MOS_New s) fun s1 => InitKernelStateCsc { s1 with m_cscKernelState := true }
      else (MOS_STATUS_SUCCESS, s)) fun s2 =>
  -- allocate CSC surface (existing surfaces will be re-used when associated frame goes out of RefList)
  chk (AllocateSurfaceCsc K s2) fun s3 =>
  chk (if s3.cfg.m_scalingEnabled then AllocateSurfaceDS K s3 else (MOS_STATUS_SUCCESS, s3)) fun s4 =>
  chk (if s4.cfg.m_2xScalingEnabled then AllocateSurface2xDS K s4 else (MOS_STATUS_SUCCESS, s4)) fun s5 =>
  -- in case PAK hasn't yet consumed a surface sent earlier, wait before we can re-use
  if s5.m_waitCscSurf then WaitCscSurface s5.cfg.m_renderContext false s5
  else (MOS_STATUS_SUCCESS, s5)

/-- The state-heap part of `CscKernel`, from the binding-table request to the
curbe. -/
def CscKernel_stateHeap (s : CodechalEncodeCscDs) : MOS_STATUS × CodechalEncodeCscDs :=
  -- if Single Task Phase is not enabled, use BT count for the kernel state.
  chk (requestSshSpace s) fun s8 =>
  -- setup CscDsCopy DSH and Interface Descriptor
  if !s8.cfg.stateHeapInterfacePresent then (MOS_STATUS_NULL_POINTER, s8) else
  chk (ext s8) fun s9 =>                       -- CodecHal_AssignDshAndSshSpace
  chk (ext s9) fun s10 =>                      -- SetInterfaceDescriptor
  -- send CURBE
  SetCurbeCsc s10

/-- The command-buffer part of both kernels up to the binding table:
`pfnGetCommandBuffer`, `SendGenericKernelCmds`, `SetBindingTable`. -/
def beginCommands (s : CodechalEncodeCscDs) : MOS_STATUS × CodechalEncodeCscDs :=
  chk (pfnGetCommandBuffer s) fun s12 =>
  chk (ext s12) fun s13 =>                     -- SendGenericKernelCmds
  ext s13                                      -- SetBindingTable

/-- `CscKernel(params)`. -/
def CscKernel (K : CodecConsts) (params : Option KernelParams) (s : CodechalEncodeCscDs) :
    MOS_STATUS × CodechalEncodeCscDs :=
  match params with
  | none => (MOS_STATUS_NULL_POINTER, s)
  | some p =>
  chk (CscKernel_prepare K s) fun s6 =>
  -- setup kernel params
  chk (SetKernelParamsCsc (some p) s6) fun s7 =>
  chk (CscKernel_stateHeap s7) fun s11 =>
  let cmdBuffer := s11.drv.nextCmdBuffer
  chk (beginCommands s11) fun s14 =>
  chk (SendSurfaceCsc cmdBuffer s14) fun s15 =>
  chk (walkAndSubmit cmdBuffer
        (rasterWalker s15.cfg s15.m_walkerResolutionX s15.m_walkerResolutionY) s15) fun s16 =>
  if dsDisabled = p.stageDsConversion then
    -- send appropriate surface to Enc/Pak depending on different CSC operation type
    SetSurfacesToEncPak s16
  else (MOS_STATUS_SUCCESS, s16)

/-- `(x + 1) >> 1 << 1` on `uint32_t`. -/
def roundUpEven (x : Nat) : Nat := u32 (u32 (x + 1) / 2 * 2)

/-- The first part of `DsKernel`: the lazy kernel-state initialisation, the
allocation of the scaled surfaces, the choice of the kernel state and the
state-heap requests. -/
def DsKernel_prepare (K : CodecConsts) (s : CodechalEncodeCscDs) :
    MOS_STATUS × CodechalEncodeCscDs :=
  chk (if !s.m_dsKernelState then InitKernelStateDS K s else (MOS_STATUS_SUCCESS, s)) fun s1 =>
  chk (if s1.cfg.m_scalingEnabled then AllocateSurfaceDS K s1 else (MOS_STATUS_SUCCESS, s1)) fun s2 =>
  chk (if s2.cfg.m_2xScalingEnabled then AllocateSurface2xDS K s2 else (MOS_STATUS_SUCCESS, s2)) fun s3 =>
  -- m_dsKernelState = params->b32xScalingInUse ? &m_scaling2xKernelStates[..] : &m_scaling4xKernelStates[..]
  let s4 := { s3 with m_dsKernelState := true }
  -- If Single Task Phase is not enabled, use BT count for the kernel state.
  chk (requestSshSpace s4) fun s5 =>
  -- Setup Scaling DSH
  chk (ext s5) fun s6 =>                       -- CodecHal_AssignDshAndSshSpace
  ext s6                                       -- SetInterfaceDescriptor

/-- `downscaledHeightInMb` of `DsKernel` for a level of height `h`. -/
def heightInMb (fieldPicture : Bool) (h : Nat) : Nat :=
  if fieldPicture then roundUpEven (h / CODECHAL_MACROBLOCK_HEIGHT)
  else h / CODECHAL_MACROBLOCK_HEIGHT

/-- The output surface that `DsKernel` selects for `params`. -/
def dsOutputSurface (p : KernelParams) (idx : Nat) : SurfacePtr :=
  if p.b32xScalingInUse then SurfacePtr.scaled32x idx
  else if p.b16xScalingInUse then SurfacePtr.scaled16x idx
  else SurfacePtr.scaled4x idx

/-- The input surface that `DsKernel` selects for `params`. -/
def dsInputSurface (p : KernelParams) (s : CodechalEncodeCscDs) : SurfacePtr :=
  if p.b32xScalingInUse then SurfacePtr.scaled16x s.cfg.m_currScalingIdx
  else if p.b16xScalingInUse then SurfacePtr.scaled4x s.cfg.m_currScalingIdx
  else if p.bRawInputProvided then SurfacePtr.paramsInputRaw else s.m_rawSurfaceToEnc

/-- `downscaledWidthInMb` of `DsKernel`. -/
def dsWidthInMb (p : KernelParams) (cfg : Settings) : Nat :=
  if p.b32xScalingInUse then cfg.m_downscaledWidth32x / CODECHAL_MACROBLOCK_WIDTH
  else if p.b16xScalingInUse then cfg.m_downscaledWidth16x / CODECHAL_MACROBLOCK_WIDTH
  else cfg.m_downscaledWidth4x / CODECHAL_MACROBLOCK_WIDTH

/-- `downscaledHeightInMb` of `DsKernel`. -/
def dsHeightInMb (p : KernelParams) (cfg : Settings) : Nat :=
  if p.b32xScalingInUse then heightInMb cfg.currOriginalPicIsField cfg.m_downscaledHeight32x
  else if p.b16xScalingInUse then heightInMb cfg.currOriginalPicIsField cfg.m_downscaledHeight16x
  else heightInMb cfg.currOriginalPicIsField cfg.m_downscaledHeight4x

/-- The walker resolution `resolutionX` of `DsKernel`. -/
def dsResolutionX (p : KernelParams) (cfg : Settings) : Nat :=
  if p.b32xScalingInUse then dsWidthInMb p cfg
  else u32 (dsWidthInMb p cfg * 2)  -- looping for Walker is needed at 8x8 block level

/-- The walker resolution `resolutionY` of `DsKernel`. -/
def dsResolutionY (p : KernelParams) (cfg : Settings) : Nat :=
  if p.b32xScalingInUse then dsHeightInMb p cfg
  else if cfg.currOriginalPicIsField ∧ cfg.codecFunctionIsFeiPreEnc then
    u32 (MOS_ALIGN_CEIL (dsHeightInMb p cfg) 2 * 2)
  else u32 (dsHeightInMb p cfg * 2)

/-- The branch of `DsKernel` on the scaling level, as far as it writes the
object: `m_lastTaskInPhase` and the scaling flag of the reference-list entry. -/
def DsKernel_level (p : KernelParams) (s7 : CodechalEncodeCscDs) : CodechalEncodeCscDs :=
  if p.b32xScalingInUse then
    { s7 with m_lastTaskInPhase := p.bLastTaskInPhase32xDS,
              m_currRefList := { s7.m_currRefList with b32xScalingUsed := true } }
  else if p.b16xScalingInUse then
    { s7 with m_lastTaskInPhase := p.bLastTaskInPhase16xDS,
              m_currRefList := { s7.m_currRefList with b16xScalingUsed := true } }
  else
    { s7 with m_lastTaskInPhase := p.bLastTaskInPhase4xDS,
              m_currRefList := { s7.m_currRefList with b4xScalingUsed := true } }

/-- The assignments to `m_curbeParams` in `DsKernel`. -/
def DsKernel_curbeParams (p : KernelParams) (s8 : CodechalEncodeCscDs) : CodechalEncodeCscDs :=
  let preEncParams : Option FeiPreEncParams :=
    if s8.cfg.codecFunctionIsFeiPreEnc then s8.cfg.pPreEncParams else none
  let scaling4xInUse := !(p.b32xScalingInUse || p.b16xScalingInUse)
  let statsOut : Bool :=
    match preEncParams with
    | some pe => !pe.bDisableStatisticsOutput
    | none => scaling4xInUse && s8.cfg.m_mbStatsEnabled
  { s8 with m_curbeParams :=
      { s8.m_curbeParams with
        dwInputPictureWidth :=
          if p.b32xScalingInUse then s8.cfg.m_downscaledWidth16x
          else if p.b16xScalingInUse then s8.cfg.m_downscaledWidth4x
          else s8.cfg.m_oriFrameWidth,
        dwInputPictureHeight :=
          if p.b32xScalingInUse then s8.cfg.m_downscaledHeight16x
          else if p.b16xScalingInUse then s8.cfg.m_downscaledHeight4x
          else s8.cfg.m_oriFrameHeight,
        b16xScalingInUse := p.b16xScalingInUse,
        b32xScalingInUse := p.b32xScalingInUse,
        bFieldPicture := s8.cfg.currOriginalPicIsField,
        -- Enable flatness check only for 4x scaling.
        bFlatnessCheckEnabled := scaling4xInUse && s8.cfg.m_flatnessCheckEnabled,
        bMBVarianceOutputEnabled := statsOut,
        bMBPixelAverageOutputEnabled := statsOut,
        bBlock8x8StatisticsEnabled :=
          match preEncParams with
          | some pe => pe.bEnable8x8Statistics
          | none => false } }

/-- The block `// setup surface states` of `DsKernel`: `m_surfaceParamsDS`. -/
def DsKernel_surfaceParams (p : KernelParams) (s13 : CodechalEncodeCscDs) : CodechalEncodeCscDs :=
  let originalPicIsField :=
    if p.bRawInputProvided then p.inputPictureIsField else s13.cfg.currOriginalPicIsField
  let preEncParams : Option FeiPreEncParams :=
    if s13.cfg.codecFunctionIsFeiPreEnc then s13.cfg.pPreEncParams else none
  let scaling4xInUse := !(p.b32xScalingInUse || p.b16xScalingInUse)
  let sp0 : SurfaceParamsDS :=
    { s13.m_surfaceParamsDS with
      bCurrPicIsFrame := !originalPicIsField,
      psInputSurface := dsInputSurface p s13,
      dwInputFrameWidth :=
        if p.b32xScalingInUse then s13.cfg.m_downscaledWidth16x
        else if p.b16xScalingInUse then s13.cfg.m_downscaledWidth4x
        else s13.cfg.m_oriFrameWidth,
      dwInputFrameHeight :=
        if p.b32xScalingInUse then s13.cfg.m_downscaledHeight16x
        else if p.b16xScalingInUse then s13.cfg.m_downscaledHeight4x
        else s13.cfg.m_oriFrameHeight,
      psOutputSurface := dsOutputSurface p s13.cfg.m_currScalingIdx,
      dwOutputFrameWidth :=
        if p.b32xScalingInUse then s13.cfg.m_downscaledWidth32x
        else if p.b16xScalingInUse then s13.cfg.m_downscaledWidth16x
        else s13.cfg.m_downscaledWidth4x,
      dwOutputFrameHeight := u32 (dsHeightInMb p s13.cfg * CODECHAL_MACROBLOCK_HEIGHT),
      bScalingOutUses16UnormSurfFmt := p.b32xScalingInUse,
      bScalingOutUses32UnormSurfFmt := !p.b32xScalingInUse }
  let sp1 : SurfaceParamsDS :=
    match preEncParams with
    | some pe =>
      if p.bScalingforRef then
        { sp0 with
          bPreEncInUse := true,
          bMBVProcStatsEnabled := p.bStatsInputProvided,
          presMBVProcStatsBuffer :=
            if p.bStatsInputProvided then ResourcePtr.paramsStatsBuffer else ResourcePtr.nullRes,
          presMBVProcStatsBotFieldBuffer :=
            if p.bStatsInputProvided then ResourcePtr.paramsStatsBotFieldBuffer
            else ResourcePtr.nullRes }
      else
        { sp0 with
          bPreEncInUse := true,
          bMBVProcStatsEnabled := !pe.bDisableStatisticsOutput,
          presMBVProcStatsBuffer := ResourcePtr.preEncStatsBuffer,
          presMBVProcStatsBotFieldBuffer := ResourcePtr.preEncStatsBotFieldBuffer }
    | none =>
      if s13.cfg.m_mbStatsSupported then
        -- Currently Only Based on Flatness Check, later on Adaptive Transform Decision too
        { sp0 with
          bMBVProcStatsEnabled :=
            scaling4xInUse && (s13.cfg.m_flatnessCheckEnabled || s13.cfg.m_mbStatsEnabled),
          presMBVProcStatsBuffer := ResourcePtr.mbStatsBuffer,
          -- Disabling flatness check as its encompassed in Mb stats
          bFlatnessCheckEnabled := false }
      else
        -- Enable flatness check only for 4x scaling.
        { sp0 with bFlatnessCheckEnabled := scaling4xInUse && s13.cfg.m_flatnessCheckEnabled }
  { s13 with m_surfaceParamsDS := sp1 }

/-- `DsKernel(params)`. -/
def DsKernel (K : CodecConsts) (params : Option KernelParams)
    (s : CodechalEncodeCscDs) : MOS_STATUS × CodechalEncodeCscDs :=
  match params with
  | none => (MOS_STATUS_NULL_POINTER, s)
  | some p =>
  -- Both fields are scaled when the first field comes in, no need to scale again
  if !s.cfg.m_firstField then (MOS_STATUS_SUCCESS, s) else
  chk (DsKernel_prepare K s) fun s7 =>
  let s8 := DsKernel_level p s7
  -- CODECHAL_ENCODE_CHK_NULL_RETURN(preEncParams)
  if s8.cfg.codecFunctionIsFeiPreEnc ∧ s8.cfg.pPreEncParams = none then
    (MOS_STATUS_NULL_POINTER, s8) else
  let s9 := DsKernel_curbeParams p s8
  chk (if p.b32xScalingInUse then SetCurbeDS2x s9 else SetCurbeDS4x s9) fun s10 =>
  let encFunctionType :=
    if p.b32xScalingInUse then CODECHAL_MEDIA_STATE_32X_SCALING
    else if p.b16xScalingInUse then CODECHAL_MEDIA_STATE_16X_SCALING
    else CODECHAL_MEDIA_STATE_4X_SCALING
  let cmdBuffer := s10.drv.nextCmdBuffer
  chk (beginCommands s10) fun s13 =>
  -- setup surface states
  let s14 := DsKernel_surfaceParams p s13
  chk (SendSurfaceDS cmdBuffer encFunctionType s14) fun s15 =>
  walkAndSubmit cmdBuffer
    (rasterWalker s15.cfg (dsResolutionX p s15.cfg) (dsResolutionY p s15.cfg)) s15

/-! ### Orchestration -/

/-- The block `// call 4x DS` of `KernelFunctions`: returns the status, the
caller's parameters as the block leaves them and the new state. -/
def KernelFunctions_4x (K : CodecConsts) (p : KernelParams) (s : CodechalEncodeCscDs) :
    MOS_STATUS × KernelParams × CodechalEncodeCscDs :=
  if s.cfg.m_scalingEnabled && !s.m_currRefList.b4xScalingUsed then
    let p1 := { p with b32xScalingInUse := false, b16xScalingInUse := false }
    ((DsKernel K (some p1) s).1, p1, (DsKernel K (some p1) s).2)
  else (MOS_STATUS_SUCCESS, p, s)

/-- The 16x call of the block `// call 16x/32x DS` of `KernelFunctions`. -/
def KernelFunctions_16x (K : CodecConsts) (useDsConvInCombinedKernel : Bool) (p : KernelParams)
    (s : CodechalEncodeCscDs) : MOS_STATUS × KernelParams × CodechalEncodeCscDs :=
  -- 4x downscaled images used as the input for 16x downscaling
  if useDsConvInCombinedKernel then
    let p2 := { p with stageDsConversion := dsStage16x }
    ((CscKernel K (some p2) s).1, p2, (CscKernel K (some p2) s).2)
  else
    let p2 := { p with b16xScalingInUse := true }
    ((DsKernel K (some p2) s).1, p2, (DsKernel K (some p2) s).2)

/-- The 32x call of the block `// call 16x/32x DS` of `KernelFunctions`. -/
def KernelFunctions_32x (K : CodecConsts) (useDsConvInCombinedKernel : Bool) (p : KernelParams)
    (s : CodechalEncodeCscDs) : MOS_STATUS × KernelParams × CodechalEncodeCscDs :=
  -- 16x downscaled images used as the input for 32x downscaling
  if useDsConvInCombinedKernel then
    let p3 := { p with stageDsConversion := dsStage32x }
    ((CscKernel K (some p3) s).1, p3, (CscKernel K (some p3) s).2)
  else
    let p3 := { p with b32xScalingInUse := true, b16xScalingInUse := false }
    ((DsKernel K (some p3) s).1, p3, (DsKernel K (some p3) s).2)

/-- `KernelFunctions(params)`; the second component of the result is the
caller's `KernelParams` as the call leaves it. -/
def KernelFunctions (K : CodecConsts) (params : Option KernelParams)
    (s : CodechalEncodeCscDs) : MOS_STATUS × Option KernelParams × CodechalEncodeCscDs :=
  match params with
  | none => (MOS_STATUS_NULL_POINTER, none, s)
  | some p0 =>
  let useDsConvInCombinedKernel : Bool :=
    s.cfg.m_useCommonKernel &&
      !(decide (CODECHAL_AVC = s.cfg.m_standard) || decide (CODECHAL_MPEG2 = s.cfg.m_standard))
  -- call Ds+Copy
  let r1 :=
    if s.m_cscFlag || useDsConvInCombinedKernel then CscKernel K (some p0) s
    else (MOS_STATUS_SUCCESS, s)
  if r1.1 ≠ MOS_STATUS_SUCCESS then (r1.1, some p0, r1.2) else
  -- call 4x DS
  let r2 := KernelFunctions_4x K p0 r1.2
  if r2.1 ≠ MOS_STATUS_SUCCESS then (r2.1, some r2.2.1, r2.2.2) else
  -- call 16x/32x DS
  if r2.2.2.cfg.m_scalingEnabled && r2.2.2.cfg.m_16xMeSupported then
    let r3 := KernelFunctions_16x K useDsConvInCombinedKernel r2.2.1 r2.2.2
    if r3.1 ≠ MOS_STATUS_SUCCESS then (r3.1, some r3.2.1, r3.2.2) else
    if r3.2.2.cfg.m_32xMeSupported then
      let r4 := KernelFunctions_32x K useDsConvInCombinedKernel r3.2.1 r3.2.2
      (r4.1, some r4.2.1, r4.2.2)
    else (MOS_STATUS_SUCCESS, some r3.2.1, r3.2.2)
  else (MOS_STATUS_SUCCESS, some r2.2.1, r2.2.2)

/-! ### Sequences of slot look-ups -/

/-- What the encoder has set in its own fields before one slot look-up. -/
structure SlotRequest where
  useRawForRef : Bool
  waitForPak : Bool
  currScalingIdx : Nat
  deriving DecidableEq, Repr

/-- The encoder writes its fields `bUseRawForRef`, `bWaitForPAK` and
`ucCurrScalingIdx`, which the object holds by reference. -/
def setRequest (q : SlotRequest) (s : CodechalEncodeCscDs) : CodechalEncodeCscDs :=
  { s with cfg := { s.cfg with m_useRawForRef := q.useRawForRef, m_waitForPak := q.waitForPak,
                               m_currScalingIdx := q.currScalingIdx } }

/-- Consecutive calls of `LookUpBufSlot`, one per request; returns the slot
indices in call order and the final state. -/
def lookUpSeq (K : CodecConsts) : List SlotRequest → CodechalEncodeCscDs →
    List Nat × CodechalEncodeCscDs
  | [], s => ([], s)
  | q :: qs, s =>
    let r := LookUpBufSlot K (setRequest q s)
    let rest := lookUpSeq K qs r.2
    (r.1 :: rest.1, rest.2)

end CodechalEncodeCscDs

open CodechalEncodeCscDs

/-! ## Observations on the trace -/

/-- The walker commands in a trace, oldest first. -/
def walkersOf (t : List Event) : List MHW_WALKER_PARAMS :=
  t.filterMap fun e =>
    match e with
    | Event.AddMediaObjectWalkerCmd _ w => some w
    | _ => none

/-- The command buffers into which `surface` was bound as a writable output,
oldest first (one entry per binding). -/
def outputBinds (surface : SurfacePtr) (t : List Event) : List Nat :=
  t.filterMap fun e =>
    match e with
    | Event.SetRcsSurfaceState c _ x true => if x = surface then some c else none
    | _ => none

/-- Bindings and walker commands, the events of a trace that belong to a
kernel dispatch. -/
def Event.isDispatch : Event → Bool
  | Event.SetRcsSurfaceState _ _ _ _ => true
  | Event.AddMediaObjectWalkerCmd _ _ => true
  | _ => false

/-- The dispatch events of a trace. -/
def dispatchEvents (t : List Event) : List Event := t.filter Event.isDispatch

/-- The part of the state that only the analyzer, the publication of the
output pointers and the dispatch events themselves change. -/
structure FrameView where
  cfg : Settings
  m_cscRequireCopy : Bool
  m_cscRequireColor : Bool
  m_cscRequireMmc : Bool
  m_cscRequireConvTo8bPlanar : Bool
  m_threadTraverseSizeX : Nat
  m_threadTraverseSizeY : Nat
  m_rawSurfaceToEnc : SurfacePtr
  m_rawSurfaceToPak : SurfacePtr
  dispatched : List Event

/-- The frame view of a state. -/
def frameView (s : CodechalEncodeCscDs) : FrameView :=
  { cfg := s.cfg,
    m_cscRequireCopy := s.m_cscRequireCopy,
    m_cscRequireColor := s.m_cscRequireColor,
    m_cscRequireMmc := s.m_cscRequireMmc,
    m_cscRequireConvTo8bPlanar := s.m_cscRequireConvTo8bPlanar,
    m_threadTraverseSizeX := s.m_threadTraverseSizeX,
    m_threadTraverseSizeY := s.m_threadTraverseSizeY,
    m_rawSurfaceToEnc := s.m_rawSurfaceToEnc,
    m_rawSurfaceToPak := s.m_rawSurfaceToPak,
    dispatched := dispatchEvents s.drv.trace }

/-- The state without what the command-buffer part of a dispatch changes: the
driver, `m_lastTaskInPhase` and the tracked surfaces. -/
def settled (s : CodechalEncodeCscDs) : CodechalEncodeCscDs :=
  { s with drv := { script := [], trace := [], nextHandle := 0, nextCmdBuffer := 0 },
           m_lastTaskInPhase := false, m_trackedBuffer := [] }

/-- The walker command that `CscKernel` builds in state `s`. -/
def cscWalker (s : CodechalEncodeCscDs) : MHW_WALKER_PARAMS :=
  rasterWalker s.cfg
    (MOS_ROUNDUP_SHIFT s.cfg.m_downscaledWidth4x s.m_threadTraverseSizeX)
    (MOS_ROUNDUP_SHIFT s.cfg.m_downscaledHeight4x s.m_threadTraverseSizeY)

/-- The walker command that `DsKernel` builds for `p`. -/
def dsWalker (p : KernelParams) (cfg : Settings) : MHW_WALKER_PARAMS :=
  rasterWalker cfg (dsResolutionX p cfg) (dsResolutionY p cfg)

/-- What a call `CscKernel(p)` from state `s` with result `r` did, as seen
from the surface `X`: the settings are untouched; the writable bindings of `X`
it added all went into one command buffer `c`, and a scaled surface is bound
only if it is the 4x surface of the current scaling slot and scaling is
enabled; at most one walker command was added, the one of `cscWalker`, and
exactly one on success; on success the 4x flag of the reference-list entry
equals `m_scalingEnabled` and the output pointers are as `SetSurfacesToEncPak`
publishes them at stage `dsDisabled`. -/
def CscOutcome (p : KernelParams) (s : CodechalEncodeCscDs) (X : SurfacePtr)
    (r : MOS_STATUS × CodechalEncodeCscDs) : Prop :=
  r.2.cfg = s.cfg ∧
  (∃ c n, outputBinds X r.2.drv.trace = outputBinds X s.drv.trace ++ List.replicate n c ∧
    (n ≠ 0 → X.isScaled = true →
      X = SurfacePtr.scaled4x s.cfg.m_currScalingIdx ∧ s.cfg.m_scalingEnabled = true)) ∧
  (∃ ws, walkersOf r.2.drv.trace = walkersOf s.drv.trace ++ ws ∧
    (ws = [] ∨ ws = [cscWalker s]) ∧ (r.1 = MOS_STATUS_SUCCESS → ws = [cscWalker s])) ∧
  (r.1 = MOS_STATUS_SUCCESS →
    r.2.m_currRefList.b4xScalingUsed = s.cfg.m_scalingEnabled ∧
    r.2.m_rawSurfaceToEnc =
      (if dsDisabled = p.stageDsConversion ∧
          (s.m_cscRequireCopy || s.m_cscRequireColor || s.m_cscRequireConvTo8bPlanar) = true
        then SurfacePtr.copied r.2.m_cscBufCurrIdx else s.m_rawSurfaceToEnc) ∧
    r.2.m_rawSurfaceToPak =
      (if dsDisabled = p.stageDsConversion ∧
          (s.m_cscRequireCopy || s.m_cscRequireColor || s.m_cscRequireMmc) = true
        then SurfacePtr.copied r.2.m_cscBufCurrIdx else s.m_rawSurfaceToPak))

/-- What a call `DsKernel(p)` from state `s` with result `r` did, as seen from
the surface `X`: the settings are untouched; the writable bindings of `X` it
added all went into one command buffer `c`, and a scaled surface is bound only
if it is the output surface selected for `p`; at most one walker command was
added, the one of `dsWalker`, and exactly one on success for a first field. -/
def DsOutcome (p : KernelParams) (s : CodechalEncodeCscDs) (X : SurfacePtr)
    (r : MOS_STATUS × CodechalEncodeCscDs) : Prop :=
  r.2.cfg = s.cfg ∧
  (∃ c n, outputBinds X r.2.drv.trace = outputBinds X s.drv.trace ++ List.replicate n c ∧
    (n ≠ 0 → X.isScaled = true → X = dsOutputSurface p s.cfg.m_currScalingIdx)) ∧
  (∃ ws, walkersOf r.2.drv.trace = walkersOf s.drv.trace ++ ws ∧
    (ws = [] ∨ ws = [dsWalker p s.cfg]) ∧
    (r.1 = MOS_STATUS_SUCCESS → s.cfg.m_firstField = true → ws = [dsWalker p s.cfg]))

/-- The step from `s` to `t` changed nothing but the driver, and added no
dispatch event. -/
def Quiet (s t : CodechalEncodeCscDs) : Prop :=
  settled t = settled s ∧ dispatchEvents t.drv.trace = dispatchEvents s.drv.trace

/-- Invariant of the surface binding of one dispatch, started in `s` with
command buffer `c`, as seen from the surface `X`: nothing but the driver and
the tracked surfaces changed, no walker was added, and the writable bindings
of `X` added so far all went into `c`; there are none unless `allowed`. -/
def BindsInv (s : CodechalEncodeCscDs) (c : Nat) (X : SurfacePtr) (allowed : Prop)
    (t : CodechalEncodeCscDs) : Prop :=
  settled t = settled s ∧
  walkersOf t.drv.trace = walkersOf s.drv.trace ∧
  ∃ n, outputBinds X t.drv.trace = outputBinds X s.drv.trace ++ List.replicate n c ∧
    (n ≠ 0 → allowed)

/-! ## Example configuration -/

/-- Constants as the spec gives them (`N_REF = 8`, `N_NONREF = 4`) with
`N_TRACKED = N_REF + N_NONREF`. -/
def exampleConsts : CodecConsts :=
  { CODEC_NUM_REF_BUFFERS := 8,
    CODEC_NUM_NON_REF_BUFFERS := 4,
    CODEC_NUM_TRACKED_BUFFERS := 12,
    CODECHAL_PAGE_SIZE := 4096,
    CODEC_NUM_FIELDS_PER_FRAME := 2,
    CODECHAL_GET_4xDS_SIZE_32ALIGNED := fun x => (x + 127) / 128 * 32,
    CODECHAL_GET_2xDS_SIZE_32ALIGNED := fun x => (x + 63) / 64 * 32,
    pitchOf := fun w => (w + 127) / 128 * 128 }

/-- Encoder settings of a progressive 1920x1080 HEVC session with scaling and
16x/32x motion estimation on the separate-scaler path. -/
def exampleSettings : Settings :=
  { m_useRawForRef := false, m_waitForPak := false, m_useCommonKernel := false,
    m_16xMeSupported := true, m_32xMeSupported := true, m_scalingEnabled := true,
    m_2xScalingEnabled := false, m_firstField := true,
    m_fieldScalingOutputInterleaved := false, m_flatnessCheckEnabled := false,
    m_mbStatsEnabled := false, m_mbStatsSupported := false,
    m_singleTaskPhaseSupported := false, m_firstTaskInPhase := true,
    m_groupIdSelectSupported := false, m_groupId := 0, m_currScalingIdx := 0,
    m_outputChromaFormat := HCP_CHROMA_FORMAT_YUV420, m_standard := CODECHAL_HEVC,
    m_mode := CODECHAL_ENCODE_MODE_HEVC,
    m_oriFrameWidth := 1920, m_oriFrameHeight := 1080,
    m_frameWidth := 1920, m_frameHeight := 1088,
    m_downscaledWidth4x := 480, m_downscaledHeight4x := 272,
    m_downscaledWidth16x := 128, m_downscaledHeight16x := 80,
    m_downscaledWidth32x := 64, m_downscaledHeight32x := 48,
    m_rawSurfAlignment := 4, m_renderContext := MOS_GPU_CONTEXT_RENDER,
    currOriginalPicIsField := false, codecFunctionIsFeiPreEnc := false,
    pPreEncParams := none, m_interlacedFieldDisabled := true, mmcStatePresent := true,
    stateHeapInterfacePresent := true,
    m_cscEnableCopy := true, m_cscEnableColor := true, m_cscEnableMmc := false,
    m_cscEnableSfc := false }

/-- Encoder settings of a progressive 1280x720 session (scenario S2): the 4x
downscaled size is 320x192, macroblock aligned. -/
def yuy2Settings : Settings :=
  { exampleSettings with
    m_oriFrameWidth := 1280, m_oriFrameHeight := 720,
    m_frameWidth := 1280, m_frameHeight := 720,
    m_downscaledWidth4x := 320, m_downscaledHeight4x := 192,
    m_downscaledWidth16x := 80, m_downscaledHeight16x := 48,
    m_downscaledWidth32x := 48, m_downscaledHeight32x := 32 }

/-- The object right after construction for `cfg`: no surface allocated, all
bookkeeping zero, both output pointers on the raw input surface, every
collaborator call succeeding. -/
def freshState (cfg : Settings) : CodechalEncodeCscDs :=
  { cfg := cfg,
    drv := { script := [], trace := [], nextHandle := 1, nextCmdBuffer := 0 },
    m_cscBufCountResize := 0, m_cscBufAnteIdx := 0, m_cscBufPenuIdx := 0, m_cscBufLastIdx := 0,
    m_cscBufCountNonRef := 0, m_cscBufRingIdx := 0, m_cscBufCurrIdx := 0, m_waitCscSurf := false,
    m_cscRequireCopy := false, m_cscRequireColor := false, m_cscRequireMmc := false,
    m_cscRequireConvTo8bPlanar := false, m_cscUsingSfc := false,
    m_colorRawSurface := cscColorNv12TileY, m_threadTraverseSizeX := 5, m_threadTraverseSizeY := 2,
    m_cscRawSurfWidth := cfg.m_oriFrameWidth, m_cscRawSurfHeight := cfg.m_oriFrameHeight,
    m_cscKernelState := false, m_dsKernelState := false, m_lastTaskInPhase := false,
    m_walkerResolutionX := 0, m_walkerResolutionY := 0,
    m_curbeParams :=
      { dwInputPictureWidth := 0, dwInputPictureHeight := 0, b16xScalingInUse := false,
        b32xScalingInUse := false, bFieldPicture := false, bFlatnessCheckEnabled := false,
        bMBVarianceOutputEnabled := false, bMBPixelAverageOutputEnabled := false,
        bBlock8x8StatisticsEnabled := false, bCscOrCopyOnly := false, inputColorSpace := 0 },
    m_surfaceParamsCsc :=
      { psInputSurface := SurfacePtr.nullPtr, psOutputCopiedSurface := SurfacePtr.nullPtr,
        psOutput4xDsSurface := SurfacePtr.nullPtr, bMBVProcStatsEnabled := false,
        bFlatnessCheckEnabled := false },
    m_surfaceParamsDS :=
      { bCurrPicIsFrame := false, psInputSurface := SurfacePtr.nullPtr, dwInputFrameWidth := 0,
        dwInputFrameHeight := 0, psOutputSurface := SurfacePtr.nullPtr, dwOutputFrameWidth := 0,
        dwOutputFrameHeight := 0, bScalingOutUses16UnormSurfFmt := false,
        bScalingOutUses32UnormSurfFmt := false, bPreEncInUse := false,
        bMBVProcStatsEnabled := false, presMBVProcStatsBuffer := ResourcePtr.nullRes,
        presMBVProcStatsBotFieldBuffer := ResourcePtr.nullRes, bFlatnessCheckEnabled := false },
    m_scaledBottomFieldOffset := 0, m_scaled16xBottomFieldOffset := 0,
    m_scaled32xBottomFieldOffset := 0,
    m_trackedBuffer := List.replicate 12 CODEC_TRACKED_BUFFER.null,
    m_currRefList :=
      { b4xScalingUsed := false, b16xScalingUsed := false, b32xScalingUsed := false,
        sRefRawBuffer := MOS_SURFACE.null, sRefBuffer := MOS_SURFACE.null },
    m_rawSurfaceToEnc := SurfacePtr.rawInput,
    m_rawSurfaceToPak := SurfacePtr.rawInput,
    m_sfcState := none }

/-- Caller parameters with every flag clear, at stage `dsDisabled`. -/
def zeroParams : KernelParams :=
  { stageDsConversion := dsDisabled, b16xScalingInUse := false, b32xScalingInUse := false,
    bLastTaskInPhaseCSC := false, bLastTaskInPhase4xDS := false, bLastTaskInPhase16xDS := false,
    bLastTaskInPhase32xDS := false, bRawInputProvided := false, inputPictureIsField := false,
    bScalingforRef := false, bStatsInputProvided := false, inputColorSpace := 0 }

/-- A ring-mode request with the pack pipeline not stalled. -/
def ringRequest : SlotRequest :=
  { useRawForRef := false, waitForPak := false, currScalingIdx := 0 }

/-- Slot `i` is one of the three history indices of `s`. -/
def isHistorical (s : CodechalEncodeCscDs) (i : Nat) : Bool :=
  decide (s.m_cscBufAnteIdx = i) || decide (s.m_cscBufPenuIdx = i) || decide (s.m_cscBufLastIdx = i)

/-- How often the converted surface of slot `i` was released in a trace. -/
def releasesOf (i : Nat) (t : List Event) : Nat :=
  t.count (Event.pfnFreeResource (SurfacePtr.copied i))

/-- A slot after `ReleaseSurfaceCsc`: the converted copy has no resource. -/
def releasedSlot (b : CODEC_TRACKED_BUFFER) : CODEC_TRACKED_BUFFER :=
  { b with sCopiedSurface := { b.sCopiedSurface with OsResource := none } }

/-- The state without what the analyzer writes: the requirement booleans, the
scaler choice, the colour class, the thread tile, the recorded raw size and
the script of the collaborators. -/
def withoutAnalysis (s : CodechalEncodeCscDs) : CodechalEncodeCscDs :=
  { s with
    drv := { s.drv with script := [] },
    m_cscRequireCopy := false, m_cscRequireColor := false,
    m_cscRequireConvTo8bPlanar := false, m_cscRequireMmc := false,
    m_cscUsingSfc := false, m_colorRawSurface := cscColorNv12TileY,
    m_threadTraverseSizeX := 0, m_threadTraverseSizeY := 0,
    m_cscRawSurfWidth := 0, m_cscRawSurfHeight := 0 }

/-- Two states agree on what decides the analysis of a frame: the settings,
the script of the collaborators and the four requirement booleans. -/
def SameAnalysis (s t : CodechalEncodeCscDs) : Prop :=
  t.cfg = s.cfg ∧ t.drv.script = s.drv.script ∧
  t.m_cscRequireCopy = s.m_cscRequireCopy ∧ t.m_cscRequireColor = s.m_cscRequireColor ∧
  t.m_cscRequireConvTo8bPlanar = s.m_cscRequireConvTo8bPlanar ∧
  t.m_cscRequireMmc = s.m_cscRequireMmc

/-- What `pfnGetResourceInfo` reports for a raw surface of the given format
and size (the pitch plays no part in the analysis). -/
def rawSurfaceDetails (format : MOS_FORMAT) (dwWidth dwHeight : Nat) : MOS_SURFACE :=
  { OsResource := some 0, Format := format, dwWidth := dwWidth, dwHeight := dwHeight,
    dwPitch := dwWidth }

/-- Encoder settings of a progressive 1920x1080 AVC session; the raw-surface
alignment is 4. -/
def avcSettings : Settings :=
  { exampleSettings with m_standard := CODECHAL_AVC, m_mode := CODECHAL_ENCODE_MODE_AVC }

/-- The state `s` with the collaborators answering the coming calls as `l`
says (success after that). -/
def withScript (l : List MOS_STATUS) (s : CodechalEncodeCscDs) : CodechalEncodeCscDs :=
  { s with drv := { s.drv with script := l } }

/-! ## Slot bookkeeping as a view -/

/-- The slot bookkeeping that `LookUpBufSlot()` and `AllocateSurfaceCsc()`
maintain. -/
structure SlotBook where
  m_cscBufCountResize : Nat
  m_cscBufAnteIdx : Nat
  m_cscBufPenuIdx : Nat
  m_cscBufLastIdx : Nat
  m_cscBufCountNonRef : Nat
  m_cscBufRingIdx : Nat
  m_cscBufCurrIdx : Nat
  m_waitCscSurf : Bool
  deriving DecidableEq, Repr

/-- The slot bookkeeping of a state. -/
def bookkeeping (s : CodechalEncodeCscDs) : SlotBook :=
  { m_cscBufCountResize := s.m_cscBufCountResize,
    m_cscBufAnteIdx := s.m_cscBufAnteIdx,
    m_cscBufPenuIdx := s.m_cscBufPenuIdx,
    m_cscBufLastIdx := s.m_cscBufLastIdx,
    m_cscBufCountNonRef := s.m_cscBufCountNonRef,
    m_cscBufRingIdx := s.m_cscBufRingIdx,
    m_cscBufCurrIdx := s.m_cscBufCurrIdx,
    m_waitCscSurf := s.m_waitCscSurf }

/-- The slot bookkeeping together with the 16x and 32x scaling flags of the
reference-list entry: what only a slot look-up and the level branch of
`DsKernel` change. -/
structure SlotView where
  book : SlotBook
  b16xScalingUsed : Bool
  b32xScalingUsed : Bool
  deriving DecidableEq, Repr

/-- The slot view of a state. -/
def slotView (s : CodechalEncodeCscDs) : SlotView :=
  { book := bookkeeping s,
    b16xScalingUsed := s.m_currRefList.b16xScalingUsed,
    b32xScalingUsed := s.m_currRefList.b32xScalingUsed }

/-- The state right after the assignment `m_cscBufCurrIdx = LookUpBufSlot()`
of `AllocateSurfaceCsc()`. -/
def afterLookUp (K : CodecConsts) (s : CodechalEncodeCscDs) : CodechalEncodeCscDs :=
  { (LookUpBufSlot K s).2 with m_cscBufCurrIdx := (LookUpBufSlot K s).1 }

/-- The local `useDsConvInCombinedKernel` of `KernelFunctions`. -/
def useDsConvInCombinedKernel (cfg : Settings) : Bool :=
  cfg.m_useCommonKernel &&
    !(decide (CODECHAL_AVC = cfg.m_standard) || decide (CODECHAL_MPEG2 = cfg.m_standard))

/-- The blocks `// call Ds+Copy` and `// call 4x DS` of `KernelFunctions`:
returns the status, the caller's parameters as the blocks leave them and the
new state. -/
def KernelFunctions_head (K : CodecConsts) (p0 : KernelParams) (s : CodechalEncodeCscDs) :
    MOS_STATUS × KernelParams × CodechalEncodeCscDs :=
  -- call Ds+Copy
  let r1 :=
    if s.m_cscFlag || useDsConvInCombinedKernel s.cfg then CscKernel K (some p0) s
    else (MOS_STATUS_SUCCESS, s)
  if r1.1 ≠ MOS_STATUS_SUCCESS then (r1.1, p0, r1.2) else
  -- call 4x DS
  KernelFunctions_4x K p0 r1.2

/-- The example session with 16x but without 32x motion estimation. -/
def me16Settings : Settings := { exampleSettings with m_32xMeSupported := false }

/-- The example session with 32x but without 16x motion estimation. -/
def me32OnlySettings : Settings := { exampleSettings with m_16xMeSupported := false }

/-- The example session on the common-kernel path. -/
def commonKernelSettings : Settings := { exampleSettings with m_useCommonKernel := true }

/-- Scenario S3: a 3840x2160 HEVC session on the common-kernel path with 16x
but without 32x motion estimation, the fixed-function scaler enabled. -/
def s3Settings : Settings :=
  { exampleSettings with
    m_useCommonKernel := true, m_32xMeSupported := false, m_cscEnableSfc := true,
    m_oriFrameWidth := 3840, m_oriFrameHeight := 2160,
    m_frameWidth := 3840, m_frameHeight := 2160,
    m_downscaledWidth4x := 960, m_downscaledHeight4x := 544,
    m_downscaledWidth16x := 240, m_downscaledHeight16x := 144 }

/-! ## The wait of `CmSurface` for a free surface -/

/-- Constants and the macro `FAILED` of the CM runtime, whose declarations are
outside `src/`. -/
structure CmConsts where
  CM_SUCCESS : Int
  CM_FAILURE : Int
  CM_EXCEED_MAX_TIMEOUT : Int
  CM_MAX_TIMEOUT : Int
  FAILED : Int → Bool

/-- What the device answers to a waiting `CmSurface`: `surfState k` is the
value of `pSurfState[m_pIndex->get_data()]` at the `k`-th test of the loop of
`WaitForReferenceFree()` (counted from 0), `touch k` the results of
`TouchFlushedTasks()` for the queues of the device, in order, at the `k`-th
call of `TouchDeviceQueue()`. -/
structure CmDevice where
  surfState : Nat → Int
  touch : Nat → List Int

/-- `CmSurface::TouchDeviceQueue()` for queues whose `TouchFlushedTasks()`
return `results`: the first failing result, `CM_SUCCESS` when there is none. -/
def TouchDeviceQueue (C : CmConsts) : List Int → Int
  | [] => C.CM_SUCCESS
  | result :: rest => if C.FAILED result then result else TouchDeviceQueue C rest

/-- The loop of `CmSurface::WaitForReferenceFree()` from its `k`-th test on;
`none` when `fuel` tests were not enough to leave it. -/
def WaitForReferenceFree_loop (C : CmConsts) (dev : CmDevice) : Nat → Nat → Option Int
  | 0, _ => none
  | fuel + 1, k =>
    if dev.surfState k ≠ 0 then
      if C.FAILED (TouchDeviceQueue C (dev.touch k)) then some C.CM_FAILURE
      else WaitForReferenceFree_loop C dev fuel (k + 1)
    else some C.CM_SUCCESS

/-- `CmSurface::WaitForReferenceFree()`. -/
def WaitForReferenceFree (C : CmConsts) (dev : CmDevice) (fuel : Nat) : Option Int :=
  WaitForReferenceFree_loop C dev fuel 0

/-- Wraps to `int64_t`. -/
def i64 (x : Int) : Int := (x + 2 ^ 63) % 2 ^ 64 - 2 ^ 63

/-- What `CmSurface::FlushDeviceQueue(pEvent)` reads: whether `pEvent` is
null, the task count of the queue of the event, the frequency and the readings
of the performance counter (`counter 0` is `start`, `counter (k + 1)` the
reading of the `k`-th pass of the loop), and whether the `k`-th
`GetStatusNoFlush` gives `CM_STATUS_QUEUED`. -/
structure CmEventWait where
  eventIsNull : Bool
  num_tasks : Nat
  freq : Int
  counter : Nat → Int
  queued : Nat → Bool

/-- The local `timeout` of `FlushDeviceQueue`:
`start.QuadPart + (CM_MAX_TIMEOUT * freq.QuadPart * num_tasks)`. -/
def FlushDeviceQueue_timeout (C : CmConsts) (w : CmEventWait) : Int :=
  i64 (w.counter 0 + i64 (i64 (C.CM_MAX_TIMEOUT * w.freq) * (w.num_tasks % 2 ^ 32 : Nat)))

/-- The loop of `FlushDeviceQueue` from its `k`-th test on; `none` when `fuel`
tests were not enough to leave it. -/
def FlushDeviceQueue_loop (C : CmConsts) (w : CmEventWait) : Nat → Nat → Option Int
  | 0, _ => none
  | fuel + 1, k =>
    if w.queued k then
      if w.counter (k + 1) > FlushDeviceQueue_timeout C w then some C.CM_EXCEED_MAX_TIMEOUT
      else FlushDeviceQueue_loop C w fuel (k + 1)
    else some C.CM_SUCCESS

/-- `CmSurface::FlushDeviceQueue(pEvent)`. -/
def FlushDeviceQueue (C : CmConsts) (w : CmEventWait) (fuel : Nat) : Option Int :=
  if w.eventIsNull then some C.CM_FAILURE else FlushDeviceQueue_loop C w fuel 0

/-- Example values of the CM constants; `FAILED` is the sign test. -/
def exampleCm : CmConsts :=
  { CM_SUCCESS := 0, CM_FAILURE := -1, CM_EXCEED_MAX_TIMEOUT := -44, CM_MAX_TIMEOUT := 2,
    FAILED := fun x => decide (x < 0) }

/-- A device that never releases the surface: the reference counter always
reads 1 and every queue is touched successfully. -/
def busyDevice : CmDevice :=
  { surfState := fun _ => 1, touch := fun _ => [0, 0] }

/-- A device that releases the surface before the fourth test of the loop. -/
def releasingDevice : CmDevice :=
  { surfState := fun k => if k < 3 then 1 else 0, touch := fun _ => [0, 0] }

/-- A device whose second queue fails to be touched at the third call. -/
def failingDevice : CmDevice :=
  { surfState := fun _ => 1, touch := fun k => if k = 2 then [0, -1] else [0, 0] }

/-- An event that stays queued, with the counter advancing 1000 ticks per
reading from 5000 on: frequency 1000, 3 tasks. -/
def stuckEvent : CmEventWait :=
  { eventIsNull := false, num_tasks := 3, freq := 1000,
    counter := fun k => 5000 + 1000 * k, queued := fun _ => true }

/-- Scenario S3 after the analysis of its raw frame, an A8R8G8B8 surface of
3840x2160. -/
def s3Analysed : CodechalEncodeCscDs :=
  (CheckCondition exampleConsts (rawSurfaceDetails Format_A8R8G8B8 3840 2160) false
    MOS_MEMCOMP_DISABLED (freshState s3Settings)).2

/-- The step from `s` to `t` left the slot bookkeeping and the two output
pointers alone. -/
def KeepsSlot (s t : CodechalEncodeCscDs) : Prop :=
  bookkeeping t = bookkeeping s ∧
  t.m_rawSurfaceToEnc = s.m_rawSurfaceToEnc ∧
  t.m_rawSurfaceToPak = s.m_rawSurfaceToPak

/-- The first status in `l` other than success, and success when there is
none: what a sequence of calls, each under `CODECHAL_ENCODE_CHK_STATUS_RETURN`,
returns when the collaborators answer `l`. -/
def firstFailure (l : List MOS_STATUS) : MOS_STATUS :=
  (l.find? fun st => decide (st ≠ MOS_STATUS_SUCCESS)).getD MOS_STATUS_SUCCESS

/-- The number of driver calls of an `AllocateSurfaceDS()` that allocates: the
allocation and the query of the resource for each supported level. -/
def AllocateSurfaceDS_calls (cfg : Settings) : Nat :=
  2 + (if cfg.m_16xMeSupported then 2 else 0) + (if cfg.m_32xMeSupported then 2 else 0)

/-- The example session with a frame 4294967295 pixels wide, the largest value
of a `uint32_t`. -/
def wideSettings : Settings := { exampleSettings with m_oriFrameWidth := 4294967295 }

/-! ## Theorems -/

/-! ### Slot selection: one call -/

theorem LookUpBufSlot_cfg (K : CodecConsts) (s : CodechalEncodeCscDs) :
    (LookUpBufSlot K s).2.cfg = s.cfg := by
  unfold LookUpBufSlot ReleaseSurfaceCsc emit updTracked
  dsimp only
  split_ifs <;> rfl

theorem LookUpBufSlot_history (K : CodecConsts) (s : CodechalEncodeCscDs) :
    (LookUpBufSlot K s).2.m_cscBufLastIdx = (LookUpBufSlot K s).1 ∧
    (LookUpBufSlot K s).2.m_cscBufPenuIdx = s.m_cscBufLastIdx ∧
    (LookUpBufSlot K s).2.m_cscBufAnteIdx = s.m_cscBufPenuIdx := by
  unfold LookUpBufSlot ReleaseSurfaceCsc emit updTracked
  dsimp only
  split_ifs <;> exact ⟨rfl, rfl, rfl⟩

theorem LookUpBufSlot_rawRef (K : CodecConsts) (s : CodechalEncodeCscDs)
    (h : s.cfg.m_useRawForRef = true) :
    (LookUpBufSlot K s).1 = s.cfg.m_currScalingIdx ∧
    (LookUpBufSlot K s).2.m_waitCscSurf = false ∧
    (LookUpBufSlot K s).2.m_cscBufRingIdx = s.m_cscBufRingIdx ∧
    (LookUpBufSlot K s).2.m_cscBufCountNonRef = s.m_cscBufCountNonRef := by
  unfold LookUpBufSlot ReleaseSurfaceCsc emit updTracked
  dsimp only
  split_ifs <;> simp_all

theorem LookUpBufSlot_ring (K : CodecConsts) (s : CodechalEncodeCscDs)
    (h : s.cfg.m_useRawForRef = false) :
    (LookUpBufSlot K s).1
      = u8 (K.CODEC_NUM_REF_BUFFERS + (s.m_cscBufRingIdx + 1) % K.CODEC_NUM_NON_REF_BUFFERS) ∧
    (LookUpBufSlot K s).2.m_cscBufRingIdx
      = (s.m_cscBufRingIdx + 1) % K.CODEC_NUM_NON_REF_BUFFERS ∧
    (LookUpBufSlot K s).2.m_cscBufCountNonRef
      = (if s.cfg.m_waitForPak = true then 0
         else s.m_cscBufCountNonRef +
           (if s.m_cscBufCountNonRef ≤ K.CODEC_NUM_NON_REF_BUFFERS then 1 else 0)) ∧
    (LookUpBufSlot K s).2.m_waitCscSurf
      = decide ((LookUpBufSlot K s).2.m_cscBufCountNonRef > K.CODEC_NUM_NON_REF_BUFFERS) := by
  unfold LookUpBufSlot ReleaseSurfaceCsc emit updTracked
  dsimp only
  split_ifs <;> simp_all

/-! ### Slot selection: sequences of calls -/

theorem lookUpSeq_length (K : CodecConsts) (qs : List SlotRequest) (s : CodechalEncodeCscDs) :
    (lookUpSeq K qs s).1.length = qs.length := by
  induction qs generalizing s with
  | nil => rfl
  | cons q qs ih => simp [lookUpSeq, ih]

theorem lookUpSeq_append (K : CodecConsts) (qs₁ qs₂ : List SlotRequest) (s : CodechalEncodeCscDs) :
    lookUpSeq K (qs₁ ++ qs₂) s
      = ((lookUpSeq K qs₁ s).1 ++ (lookUpSeq K qs₂ (lookUpSeq K qs₁ s).2).1,
         (lookUpSeq K qs₂ (lookUpSeq K qs₁ s).2).2) := by
  induction qs₁ generalizing s with
  | nil => rfl
  | cons q qs ih => simp [lookUpSeq, ih]

theorem LookUpBufSlot_count_le (K : CodecConsts) (s : CodechalEncodeCscDs)
    (hc : s.m_cscBufCountNonRef ≤ K.CODEC_NUM_NON_REF_BUFFERS + 1) :
    (LookUpBufSlot K s).2.m_cscBufCountNonRef ≤ K.CODEC_NUM_NON_REF_BUFFERS + 1 := by
  cases h : s.cfg.m_useRawForRef with
  | true => rw [(LookUpBufSlot_rawRef K s h).2.2.2]; exact hc
  | false =>
    rw [(LookUpBufSlot_ring K s h).2.2.1]
    split_ifs <;> omega

theorem lookUpSeq_count_le (K : CodecConsts) (qs : List SlotRequest) (s : CodechalEncodeCscDs)
    (hc : s.m_cscBufCountNonRef ≤ K.CODEC_NUM_NON_REF_BUFFERS + 1) :
    (lookUpSeq K qs s).2.m_cscBufCountNonRef ≤ K.CODEC_NUM_NON_REF_BUFFERS + 1 := by
  induction qs generalizing s with
  | nil => exact hc
  | cons q qs ih =>
    simp only [lookUpSeq]
    exact ih _ (LookUpBufSlot_count_le K _ hc)

theorem lookUpSeq_count (K : CodecConsts) (qs : List SlotRequest) (s : CodechalEncodeCscDs)
    (hq : ∀ q ∈ qs, q.useRawForRef = false ∧ q.waitForPak = false)
    (hc : s.m_cscBufCountNonRef ≤ K.CODEC_NUM_NON_REF_BUFFERS + 1) :
    (lookUpSeq K qs s).2.m_cscBufCountNonRef
      = min (s.m_cscBufCountNonRef + qs.length) (K.CODEC_NUM_NON_REF_BUFFERS + 1) := by
  induction qs generalizing s with
  | nil => simp [lookUpSeq]; omega
  | cons q qs ih =>
    have hq0 := hq q (List.mem_cons_self _ _)
    have hring : (setRequest q s).cfg.m_useRawForRef = false := hq0.1
    have hpak : (setRequest q s).cfg.m_waitForPak = false := hq0.2
    have hstep := (LookUpBufSlot_ring K (setRequest q s) hring).2.2.1
    rw [hpak] at hstep
    have hcnt : (setRequest q s).m_cscBufCountNonRef = s.m_cscBufCountNonRef := rfl
    simp only [Bool.false_eq_true, if_false, hcnt] at hstep
    have hle := LookUpBufSlot_count_le K (setRequest q s) hc
    simp only [lookUpSeq]
    rw [ih _ (fun q' hq' => hq q' (List.mem_cons_of_mem _ hq')) hle, hstep, List.length_cons]
    split_ifs <;> omega

theorem lookUpSeq_wait (K : CodecConsts) (qs : List SlotRequest) (s : CodechalEncodeCscDs)
    (hq : ∀ q ∈ qs, q.useRawForRef = false) (hne : qs ≠ []) :
    (lookUpSeq K qs s).2.m_waitCscSurf
      = decide ((lookUpSeq K qs s).2.m_cscBufCountNonRef > K.CODEC_NUM_NON_REF_BUFFERS) := by
  induction qs generalizing s with
  | nil => exact absurd rfl hne
  | cons q qs ih =>
    by_cases hqs : qs = []
    · subst hqs
      have hring : (setRequest q s).cfg.m_useRawForRef = false := hq q (List.mem_cons_self _ _)
      simpa [lookUpSeq] using (LookUpBufSlot_ring K (setRequest q s) hring).2.2.2
    · simp only [lookUpSeq]
      exact ih _ (fun q' hq' => hq q' (List.mem_cons_of_mem _ hq')) hqs

theorem lookUpSeq_ring_index (K : CodecConsts)
    (hN : 0 < K.CODEC_NUM_NON_REF_BUFFERS)
    (h8 : K.CODEC_NUM_REF_BUFFERS + K.CODEC_NUM_NON_REF_BUFFERS ≤ 256)
    (qs : List SlotRequest) (s : CodechalEncodeCscDs)
    (hq : ∀ q ∈ qs, q.useRawForRef = false) (i : Nat) (hi : i < qs.length) :
    (lookUpSeq K qs s).1[i]?
      = some (K.CODEC_NUM_REF_BUFFERS + (s.m_cscBufRingIdx + 1 + i) % K.CODEC_NUM_NON_REF_BUFFERS) := by
  induction qs generalizing s i with
  | nil => simp at hi
  | cons q qs ih =>
    have hring : (setRequest q s).cfg.m_useRawForRef = false := hq q (List.mem_cons_self _ _)
    obtain ⟨h1, h2, -, -⟩ := LookUpBufSlot_ring K (setRequest q s) hring
    have hr : (setRequest q s).m_cscBufRingIdx = s.m_cscBufRingIdx := rfl
    rw [hr] at h1 h2
    have hlt : (s.m_cscBufRingIdx + 1) % K.CODEC_NUM_NON_REF_BUFFERS < K.CODEC_NUM_NON_REF_BUFFERS :=
      Nat.mod_lt _ hN
    cases i with
    | zero =>
      simp only [lookUpSeq, List.getElem?_cons_zero, h1, u8, Nat.add_zero]
      rw [Nat.mod_eq_of_lt (by omega)]
    | succ j =>
      simp only [lookUpSeq, List.getElem?_cons_succ]
      rw [ih _ (fun q' hq' => hq q' (List.mem_cons_of_mem _ hq')) j (by simpa using hi), h2]
      congr 2
      rw [Nat.add_assoc ((s.m_cscBufRingIdx + 1) % _), Nat.mod_add_mod]
      congr 1
      omega

/-! ### Claims on slot selection -/

/-- C1: wait-on-reuse counter of `LookUpBufSlot` in ring mode.  Starting from
an outstanding-buffer counter of 0, after `n` consecutive ring-mode calls
with `waitForPak` false the counter is `min n (N_NONREF + 1)` and, for
`n ≥ 1`, `waitCscSurf` is true iff `n ≥ N_NONREF + 1`; a ring-mode call with
`waitForPak` true sets the counter to 0 and `waitCscSurf` to false; from
counter 0 the counter never exceeds `N_NONREF + 1`, whatever the requests. -/
theorem LookUpBufSlot_wait_on_reuse (K : CodecConsts) :
    (∀ (s : CodechalEncodeCscDs) (qs : List SlotRequest),
        s.m_cscBufCountNonRef = 0 →
        (∀ q ∈ qs, q.useRawForRef = false ∧ q.waitForPak = false) →
        (lookUpSeq K qs s).2.m_cscBufCountNonRef
            = min qs.length (K.CODEC_NUM_NON_REF_BUFFERS + 1) ∧
        (qs ≠ [] →
          ((lookUpSeq K qs s).2.m_waitCscSurf = true
            ↔ K.CODEC_NUM_NON_REF_BUFFERS + 1 ≤ qs.length))) ∧
    (∀ s : CodechalEncodeCscDs,
        s.cfg.m_useRawForRef = false → s.cfg.m_waitForPak = true →
        (LookUpBufSlot K s).2.m_cscBufCountNonRef = 0 ∧
        (LookUpBufSlot K s).2.m_waitCscSurf = false) ∧
    (∀ (s : CodechalEncodeCscDs) (qs : List SlotRequest),
        s.m_cscBufCountNonRef = 0 →
        (lookUpSeq K qs s).2.m_cscBufCountNonRef ≤ K.CODEC_NUM_NON_REF_BUFFERS + 1) := by
  refine ⟨?_, ?_, ?_⟩
  · intro s qs h0 hq
    have hcnt := lookUpSeq_count K qs s hq (by omega)
    rw [h0, Nat.zero_add] at hcnt
    refine ⟨hcnt, fun hne => ?_⟩
    rw [lookUpSeq_wait K qs s (fun q hq' => (hq q hq').1) hne, hcnt]
    simp only [decide_eq_true_eq]
    omega
  · intro s hring hpak
    obtain ⟨-, -, hc, hw⟩ := LookUpBufSlot_ring K s hring
    rw [hpak] at hc
    simp only [if_true] at hc
    refine ⟨hc, ?_⟩
    rw [hw, hc]
    simp
  · intro s qs h0
    exact lookUpSeq_count_le K qs s (by omega)

/-- Witness for C1 with `N_NONREF = 4`: five ring-mode look-ups raise the wait
flag and leave the counter at 5; a stalled look-up clears both. -/
theorem LookUpBufSlot_wait_on_reuse_witness :
    ((lookUpSeq exampleConsts (List.replicate 5 ringRequest)
        (freshState exampleSettings)).2.m_cscBufCountNonRef = 5 ∧
     (lookUpSeq exampleConsts (List.replicate 5 ringRequest)
        (freshState exampleSettings)).2.m_waitCscSurf = true) ∧
    ((LookUpBufSlot exampleConsts
        (freshState { exampleSettings with m_waitForPak := true })).2.m_cscBufCountNonRef = 0 ∧
     (LookUpBufSlot exampleConsts
        (freshState { exampleSettings with m_waitForPak := true })).2.m_waitCscSurf = false) ∧
    (lookUpSeq exampleConsts (List.replicate 7 ringRequest)
        (freshState exampleSettings)).2.m_cscBufCountNonRef ≤ 5 := by
  have h := LookUpBufSlot_wait_on_reuse exampleConsts
  have ha := h.1 (freshState exampleSettings) (List.replicate 5 ringRequest) rfl (by decide)
  exact ⟨⟨ha.1, (ha.2 (by decide)).mpr (by decide)⟩,
    h.2.1 (freshState { exampleSettings with m_waitForPak := true }) rfl rfl,
    h.2.2 (freshState exampleSettings) (List.replicate 7 ringRequest) rfl⟩

/-- C2: slot returned by `LookUpBufSlot`.  With `useRawForRef` it returns
`currScalingIdx`, clears `waitCscSurf` and leaves the ring cursor unchanged;
otherwise it sets the ring cursor to `(old + 1) mod N_NONREF` and returns
`N_REF + new cursor` (the `uint8_t` result holds it when
`N_REF + N_NONREF ≤ 256`). -/
theorem LookUpBufSlot_slot (K : CodecConsts) (s : CodechalEncodeCscDs) :
    (s.cfg.m_useRawForRef = true →
        (LookUpBufSlot K s).1 = s.cfg.m_currScalingIdx ∧
        (LookUpBufSlot K s).2.m_waitCscSurf = false ∧
        (LookUpBufSlot K s).2.m_cscBufRingIdx = s.m_cscBufRingIdx) ∧
    (s.cfg.m_useRawForRef = false →
        0 < K.CODEC_NUM_NON_REF_BUFFERS →
        K.CODEC_NUM_REF_BUFFERS + K.CODEC_NUM_NON_REF_BUFFERS ≤ 256 →
        (LookUpBufSlot K s).2.m_cscBufRingIdx
            = (s.m_cscBufRingIdx + 1) % K.CODEC_NUM_NON_REF_BUFFERS ∧
        (LookUpBufSlot K s).1
            = K.CODEC_NUM_REF_BUFFERS + (LookUpBufSlot K s).2.m_cscBufRingIdx) := by
  constructor
  · intro h
    obtain ⟨h1, h2, h3, -⟩ := LookUpBufSlot_rawRef K s h
    exact ⟨h1, h2, h3⟩
  · intro h hN h8
    obtain ⟨h1, h2, -, -⟩ := LookUpBufSlot_ring K s h
    refine ⟨h2, ?_⟩
    rw [h1, h2, u8]
    have hlt : (s.m_cscBufRingIdx + 1) % K.CODEC_NUM_NON_REF_BUFFERS < K.CODEC_NUM_NON_REF_BUFFERS :=
      Nat.mod_lt _ hN
    exact Nat.mod_eq_of_lt (by omega)

/-- Witness for C2: reference mode on slot 3, and ring mode from cursor 0 with
`N_REF = 8`, `N_NONREF = 4`. -/
theorem LookUpBufSlot_slot_witness :
    ((LookUpBufSlot exampleConsts
        (freshState { exampleSettings with m_useRawForRef := true, m_currScalingIdx := 3 })).1 = 3 ∧
     (LookUpBufSlot exampleConsts
        (freshState { exampleSettings with m_useRawForRef := true, m_currScalingIdx := 3 })
        ).2.m_waitCscSurf = false ∧
     (LookUpBufSlot exampleConsts
        (freshState { exampleSettings with m_useRawForRef := true, m_currScalingIdx := 3 })
        ).2.m_cscBufRingIdx = 0) ∧
    ((LookUpBufSlot exampleConsts (freshState exampleSettings)).2.m_cscBufRingIdx = (0 + 1) % 4 ∧
     (LookUpBufSlot exampleConsts (freshState exampleSettings)).1
        = 8 + (LookUpBufSlot exampleConsts (freshState exampleSettings)).2.m_cscBufRingIdx) :=
  ⟨(LookUpBufSlot_slot exampleConsts
      (freshState { exampleSettings with m_useRawForRef := true, m_currScalingIdx := 3 })).1 rfl,
   (LookUpBufSlot_slot exampleConsts (freshState exampleSettings)).2 rfl
      (by decide) (by decide)⟩

/-- C3: history correctness.  After every call of `LookUpBufSlot`, in either
mode, `last` is the returned index, `penultimate` the previous `last` and
`antepenultimate` the previous `penultimate`; hence after `k ≥ 3` calls the
returned indices end with `a, b, c` (calls `k-2`, `k-1`, `k`) and the history
is `antepenultimate = a`, `penultimate = b`, `last = c`. -/
theorem LookUpBufSlot_history_correct (K : CodecConsts) :
    (∀ s : CodechalEncodeCscDs,
        (LookUpBufSlot K s).2.m_cscBufLastIdx = (LookUpBufSlot K s).1 ∧
        (LookUpBufSlot K s).2.m_cscBufPenuIdx = s.m_cscBufLastIdx ∧
        (LookUpBufSlot K s).2.m_cscBufAnteIdx = s.m_cscBufPenuIdx) ∧
    (∀ (s : CodechalEncodeCscDs) (qs : List SlotRequest), 3 ≤ qs.length →
        ∃ (pre : List Nat) (a b c : Nat),
          (lookUpSeq K qs s).1 = pre ++ [a, b, c] ∧
          pre.length + 3 = qs.length ∧
          (lookUpSeq K qs s).2.m_cscBufAnteIdx = a ∧
          (lookUpSeq K qs s).2.m_cscBufPenuIdx = b ∧
          (lookUpSeq K qs s).2.m_cscBufLastIdx = c) := by
  refine ⟨LookUpBufSlot_history K, ?_⟩
  intro s qs hlen
  -- split off the last three requests
  obtain ⟨qs₁, q₃, rfl⟩ : ∃ l x, qs = l ++ [x] := by
    rcases List.eq_nil_or_concat qs with h | ⟨l, x, h⟩
    · subst h; simp at hlen
    · exact ⟨l, x, by simpa using h⟩
  obtain ⟨qs₂, q₂, rfl⟩ : ∃ l x, qs₁ = l ++ [x] := by
    rcases List.eq_nil_or_concat qs₁ with h | ⟨l, x, h⟩
    · subst h; simp at hlen
    · exact ⟨l, x, by simpa using h⟩
  obtain ⟨qs₃, q₁, rfl⟩ : ∃ l x, qs₂ = l ++ [x] := by
    rcases List.eq_nil_or_concat qs₂ with h | ⟨l, x, h⟩
    · subst h; simp at hlen
    · exact ⟨l, x, by simpa using h⟩
  have h1 := LookUpBufSlot_history K (setRequest q₁ (lookUpSeq K qs₃ s).2)
  have h2 := LookUpBufSlot_history K
    (setRequest q₂ (LookUpBufSlot K (setRequest q₁ (lookUpSeq K qs₃ s).2)).2)
  have h3 := LookUpBufSlot_history K
    (setRequest q₃ (LookUpBufSlot K
      (setRequest q₂ (LookUpBufSlot K (setRequest q₁ (lookUpSeq K qs₃ s).2)).2)).2)
  refine ⟨(lookUpSeq K qs₃ s).1,
    (LookUpBufSlot K (setRequest q₁ (lookUpSeq K qs₃ s).2)).1,
    (LookUpBufSlot K (setRequest q₂ (LookUpBufSlot K (setRequest q₁ (lookUpSeq K qs₃ s).2)).2)).1,
    (LookUpBufSlot K (setRequest q₃ (LookUpBufSlot K
      (setRequest q₂ (LookUpBufSlot K (setRequest q₁ (lookUpSeq K qs₃ s).2)).2)).2)).1,
    ?_, ?_, ?_, ?_, ?_⟩
  · simp only [lookUpSeq_append, lookUpSeq, List.append_assoc, List.cons_append, List.nil_append,
      List.append_nil]
  · simp [lookUpSeq_length]
  · simp only [lookUpSeq_append, lookUpSeq]
    rw [h3.2.2]
    exact h2.2.1.trans h1.1
  · simp only [lookUpSeq_append, lookUpSeq]
    rw [h3.2.1]
    exact h2.1
  · simp only [lookUpSeq_append, lookUpSeq]
    exact h3.1

/-- Witness for C3: five look-ups (two in reference mode on slots 2 and 5, three
in ring mode) leave the history `5, 9, 10`. -/
theorem LookUpBufSlot_history_correct_witness :
    3 ≤ [({ useRawForRef := true, waitForPak := false, currScalingIdx := 2 } : SlotRequest),
          ringRequest, { useRawForRef := true, waitForPak := false, currScalingIdx := 5 },
          ringRequest, ringRequest].length ∧
    ∃ (pre : List Nat) (a b c : Nat),
      (lookUpSeq exampleConsts
        [{ useRawForRef := true, waitForPak := false, currScalingIdx := 2 },
          ringRequest, { useRawForRef := true, waitForPak := false, currScalingIdx := 5 },
          ringRequest, ringRequest] (freshState exampleSettings)).1 = pre ++ [a, b, c] ∧
      pre.length + 3
        = [({ useRawForRef := true, waitForPak := false, currScalingIdx := 2 } : SlotRequest),
          ringRequest, { useRawForRef := true, waitForPak := false, currScalingIdx := 5 },
          ringRequest, ringRequest].length ∧
      (lookUpSeq exampleConsts
        [{ useRawForRef := true, waitForPak := false, currScalingIdx := 2 },
          ringRequest, { useRawForRef := true, waitForPak := false, currScalingIdx := 5 },
          ringRequest, ringRequest] (freshState exampleSettings)).2.m_cscBufAnteIdx = a ∧
      (lookUpSeq exampleConsts
        [{ useRawForRef := true, waitForPak := false, currScalingIdx := 2 },
          ringRequest, { useRawForRef := true, waitForPak := false, currScalingIdx := 5 },
          ringRequest, ringRequest] (freshState exampleSettings)).2.m_cscBufPenuIdx = b ∧
      (lookUpSeq exampleConsts
        [{ useRawForRef := true, waitForPak := false, currScalingIdx := 2 },
          ringRequest, { useRawForRef := true, waitForPak := false, currScalingIdx := 5 },
          ringRequest, ringRequest] (freshState exampleSettings)).2.m_cscBufLastIdx = c :=
  ⟨by decide, (LookUpBufSlot_history_correct exampleConsts).2 (freshState exampleSettings) _ (by decide)⟩

/-- C4: ring non-collision and pool bound.  In ring mode every returned index
lies in `[N_REF, N_REF + N_NONREF)`, hence below `N_TRACKED = N_REF + N_NONREF`
and off the reference slots; any `N_NONREF` consecutive calls return pairwise
distinct indices; the call made `N_NONREF` calls later returns the same slot. -/
theorem LookUpBufSlot_ring_non_collision (K : CodecConsts)
    (hN : 0 < K.CODEC_NUM_NON_REF_BUFFERS)
    (h8 : K.CODEC_NUM_REF_BUFFERS + K.CODEC_NUM_NON_REF_BUFFERS ≤ 256)
    (hT : K.CODEC_NUM_TRACKED_BUFFERS = K.CODEC_NUM_REF_BUFFERS + K.CODEC_NUM_NON_REF_BUFFERS)
    (s : CodechalEncodeCscDs) (qs : List SlotRequest)
    (hq : ∀ q ∈ qs, q.useRawForRef = false) :
    (∀ x ∈ (lookUpSeq K qs s).1,
        K.CODEC_NUM_REF_BUFFERS ≤ x ∧
        x < K.CODEC_NUM_REF_BUFFERS + K.CODEC_NUM_NON_REF_BUFFERS ∧
        x < K.CODEC_NUM_TRACKED_BUFFERS) ∧
    (∀ i j, i < j → j < qs.length → j - i < K.CODEC_NUM_NON_REF_BUFFERS →
        (lookUpSeq K qs s).1[i]? ≠ (lookUpSeq K qs s).1[j]?) ∧
    (∀ i, i + K.CODEC_NUM_NON_REF_BUFFERS < qs.length →
        (lookUpSeq K qs s).1[i + K.CODEC_NUM_NON_REF_BUFFERS]? = (lookUpSeq K qs s).1[i]?) := by
  have key := lookUpSeq_ring_index K hN h8 qs s hq
  refine ⟨?_, ?_, ?_⟩
  · intro x hx
    obtain ⟨i, hi⟩ := List.mem_iff_getElem?.mp hx
    have hlt : i < qs.length := by
      by_contra hcon
      rw [List.getElem?_eq_none (by rw [lookUpSeq_length]; omega)] at hi
      cases hi
    rw [key i hlt] at hi
    have hx' := Option.some.inj hi
    have hm := Nat.mod_lt (s.m_cscBufRingIdx + 1 + i) hN
    omega
  · intro i j hij hj hd
    rw [key i (by omega), key j hj]
    intro heq
    have heq' : (s.m_cscBufRingIdx + 1 + i) % K.CODEC_NUM_NON_REF_BUFFERS
        = (s.m_cscBufRingIdx + 1 + j) % K.CODEC_NUM_NON_REF_BUFFERS := by
      have := Option.some.inj heq
      omega
    have hdvd : K.CODEC_NUM_NON_REF_BUFFERS ∣ (s.m_cscBufRingIdx + 1 + j) - (s.m_cscBufRingIdx + 1 + i) :=
      (Nat.modEq_iff_dvd' (by omega)).mp heq'
    have hle := Nat.le_of_dvd (by omega) hdvd
    omega
  · intro i hi
    rw [key _ hi, key i (by omega)]
    congr 2
    rw [← Nat.add_assoc, Nat.add_mod_right]

/-- Witness for C4 with `N_REF = 8`, `N_NONREF = 4`, `N_TRACKED = 12`: nine
ring-mode look-ups. -/
theorem LookUpBufSlot_ring_non_collision_witness :
    (lookUpSeq exampleConsts (List.replicate 9 ringRequest) (freshState exampleSettings)).1
        = [9, 10, 11, 8, 9, 10, 11, 8, 9] ∧
    (∀ x ∈ (lookUpSeq exampleConsts (List.replicate 9 ringRequest) (freshState exampleSettings)).1,
        8 ≤ x ∧ x < 8 + 4 ∧ x < 12) ∧
    (∀ i j, i < j → j < (List.replicate 9 ringRequest).length → j - i < 4 →
        (lookUpSeq exampleConsts (List.replicate 9 ringRequest) (freshState exampleSettings)).1[i]?
          ≠ (lookUpSeq exampleConsts (List.replicate 9 ringRequest)
              (freshState exampleSettings)).1[j]?) ∧
    (∀ i, i + 4 < (List.replicate 9 ringRequest).length →
        (lookUpSeq exampleConsts (List.replicate 9 ringRequest) (freshState exampleSettings)).1[i + 4]?
          = (lookUpSeq exampleConsts (List.replicate 9 ringRequest)
              (freshState exampleSettings)).1[i]?) :=
  ⟨by decide,
   LookUpBufSlot_ring_non_collision exampleConsts (by decide) (by decide) rfl
     (freshState exampleSettings) (List.replicate 9 ringRequest) (by decide)⟩

/-! ### Frame lemmas: what the steps of a dispatch leave alone -/

theorem chk_fst_success (r : MOS_STATUS × CodechalEncodeCscDs)
    (k : CodechalEncodeCscDs → MOS_STATUS × CodechalEncodeCscDs)
    (h : (chk r k).1 = MOS_STATUS_SUCCESS) : r.1 = MOS_STATUS_SUCCESS := by
  unfold chk at h
  by_contra hc
  rw [if_neg hc] at h
  exact hc h

theorem chk_of_success (r : MOS_STATUS × CodechalEncodeCscDs)
    (k : CodechalEncodeCscDs → MOS_STATUS × CodechalEncodeCscDs)
    (h : r.1 = MOS_STATUS_SUCCESS) : chk r k = k r.2 := by
  unfold chk
  rw [if_pos h]

theorem chk_view (r : MOS_STATUS × CodechalEncodeCscDs)
    (k : CodechalEncodeCscDs → MOS_STATUS × CodechalEncodeCscDs) :
    frameView (chk r k).2
      = if r.1 = MOS_STATUS_SUCCESS then frameView (k r.2).2 else frameView r.2 := by
  unfold chk
  split_ifs <;> rfl

theorem ext_view (s : CodechalEncodeCscDs) : frameView (ext s).2 = frameView s := rfl

theorem emit_view (e : Event) (s : CodechalEncodeCscDs) (he : e.isDispatch = false) :
    frameView (emit e s) = frameView s := by
  simp [frameView, emit, dispatchEvents, List.filter_append, he]

theorem updTracked_view (i : Nat) (f : CODEC_TRACKED_BUFFER → CODEC_TRACKED_BUFFER)
    (s : CodechalEncodeCscDs) : frameView (updTracked i f s) = frameView s := rfl

theorem updSurface_view (p : SurfacePtr) (f : MOS_SURFACE → MOS_SURFACE)
    (s : CodechalEncodeCscDs) : frameView (updSurface p f s) = frameView s := by
  cases p <;> rfl

theorem MOS_New_view (s : CodechalEncodeCscDs) : frameView (MOS_New s).2 = frameView s := by
  unfold MOS_New
  dsimp only
  split_ifs <;> rfl

theorem pfnAllocateResource_view (target : SurfacePtr) (format : MOS_FORMAT) (w h : Nat)
    (s : CodechalEncodeCscDs) :
    frameView (pfnAllocateResource target format w h s).2 = frameView s := by
  unfold pfnAllocateResource
  rw [chk_view]
  split_ifs
  · dsimp only
    rw [emit_view _ _ (by rfl)]
    exact updSurface_view _ _ _
  · rfl

theorem CodecHal_GetResourceInfo_view (K : CodecConsts) (target : SurfacePtr)
    (format : MOS_FORMAT) (w h : Nat) (s : CodechalEncodeCscDs) :
    frameView (CodecHal_GetResourceInfo K target format w h s).2 = frameView s := by
  unfold CodecHal_GetResourceInfo
  rw [chk_view]
  split_ifs
  · exact updSurface_view _ _ _
  · rfl

theorem pfnGetCommandBuffer_view (s : CodechalEncodeCscDs) :
    frameView (pfnGetCommandBuffer s).2 = frameView s := by
  unfold pfnGetCommandBuffer
  rw [chk_view]
  split_ifs
  · dsimp only
    rw [emit_view _ _ (by rfl)]
    rfl
  · rfl

theorem ReleaseSurfaceCsc_view (i : Nat) (s : CodechalEncodeCscDs) :
    frameView (ReleaseSurfaceCsc i s) = frameView s := by
  unfold ReleaseSurfaceCsc
  rw [emit_view _ _ (by rfl)]
  rfl

theorem LookUpBufSlot_view (K : CodecConsts) (s : CodechalEncodeCscDs) :
    frameView (LookUpBufSlot K s).2 = frameView s := by
  unfold LookUpBufSlot
  dsimp only
  split_ifs <;>
    simp [frameView, ReleaseSurfaceCsc, emit, updTracked, dispatchEvents, List.filter_append,
      Event.isDispatch]

theorem AllocateSurfaceCsc_view (K : CodecConsts) (s : CodechalEncodeCscDs) :
    frameView (AllocateSurfaceCsc K s).2 = frameView s := by
  have hL := LookUpBufSlot_view K s
  unfold AllocateSurfaceCsc
  dsimp only
  split_ifs <;>
    simp only [chk_view, pfnAllocateResource_view, CodecHal_GetResourceInfo_view,
      updSurface_view, ite_self, apply_ite Prod.snd, apply_ite frameView] <;>
    first | rfl | exact hL

theorem chk_keeps (v : FrameView) (r : MOS_STATUS × CodechalEncodeCscDs)
    (k : CodechalEncodeCscDs → MOS_STATUS × CodechalEncodeCscDs)
    (hr : frameView r.2 = v) (hk : ∀ t, frameView t = v → frameView (k t).2 = v) :
    frameView (chk r k).2 = v := by
  rw [chk_view]
  split_ifs
  · exact hk _ hr
  · exact hr

theorem ite_keeps (v : FrameView) (c : Prop) [Decidable c]
    (a b : MOS_STATUS × CodechalEncodeCscDs)
    (ha : c → frameView a.2 = v) (hb : ¬c → frameView b.2 = v) :
    frameView (if c then a else b).2 = v := by
  split_ifs with h
  · exact ha h
  · exact hb h

theorem AllocateSurfaceDS_view (K : CodecConsts) (s : CodechalEncodeCscDs) :
    frameView (AllocateSurfaceDS K s).2 = frameView s := by
  obtain ⟨v, h0⟩ : ∃ v, frameView s = v := ⟨_, rfl⟩
  rw [h0]
  unfold AllocateSurfaceDS
  repeat' first
    | assumption
    | (rw [pfnAllocateResource_view]; assumption)
    | (rw [CodecHal_GetResourceInfo_view]; assumption)
    | refine chk_keeps _ _ _ ?_ (fun t ht => ?_)
    | refine ite_keeps _ _ _ _ (fun _ => ?_) (fun _ => ?_)

theorem AllocateSurface2xDS_view (K : CodecConsts) (s : CodechalEncodeCscDs) :
    frameView (AllocateSurface2xDS K s).2 = frameView s := by
  obtain ⟨v, h0⟩ : ∃ v, frameView s = v := ⟨_, rfl⟩
  rw [h0]
  unfold AllocateSurface2xDS
  repeat' first
    | assumption
    | (rw [pfnAllocateResource_view]; assumption)
    | (rw [CodecHal_GetResourceInfo_view]; assumption)
    | refine chk_keeps _ _ _ ?_ (fun t ht => ?_)
    | refine ite_keeps _ _ _ _ (fun _ => ?_) (fun _ => ?_)

theorem chk_inv (J : CodechalEncodeCscDs → Prop) (r : MOS_STATUS × CodechalEncodeCscDs)
    (k : CodechalEncodeCscDs → MOS_STATUS × CodechalEncodeCscDs)
    (hr : J r.2) (hk : ∀ t, J t → J (k t).2) : J (chk r k).2 := by
  unfold chk
  split_ifs
  · exact hk _ hr
  · exact hr

theorem ite_inv (J : CodechalEncodeCscDs → Prop) (c : Prop) [Decidable c]
    (a b : MOS_STATUS × CodechalEncodeCscDs)
    (ha : c → J a.2) (hb : ¬c → J b.2) : J (if c then a else b).2 := by
  split_ifs with h
  · exact ha h
  · exact hb h

theorem chk_step (G : MOS_STATUS × CodechalEncodeCscDs → Prop) (J : CodechalEncodeCscDs → Prop)
    (a : MOS_STATUS × CodechalEncodeCscDs)
    (k : CodechalEncodeCscDs → MOS_STATUS × CodechalEncodeCscDs)
    (ha : J a.2)
    (hG : ∀ st t, J t → st ≠ MOS_STATUS_SUCCESS → G (st, t))
    (hk : ∀ t, J t → G (k t)) : G (chk a k) := by
  unfold chk
  split_ifs with h
  · exact hk _ ha
  · exact hG a.1 a.2 ha h

/-! ### Observations on traces -/

theorem walkersOf_append (t₁ t₂ : List Event) :
    walkersOf (t₁ ++ t₂) = walkersOf t₁ ++ walkersOf t₂ := by
  simp [walkersOf, List.filterMap_append]

theorem outputBinds_append (X : SurfacePtr) (t₁ t₂ : List Event) :
    outputBinds X (t₁ ++ t₂) = outputBinds X t₁ ++ outputBinds X t₂ := by
  simp [outputBinds, List.filterMap_append]

theorem walkersOf_dispatchEvents (t : List Event) :
    walkersOf (dispatchEvents t) = walkersOf t := by
  induction t with
  | nil => rfl
  | cons e t ih =>
    cases e <;>
      simp_all [walkersOf, dispatchEvents, List.filter_cons, List.filterMap_cons, Event.isDispatch]

theorem outputBinds_dispatchEvents (X : SurfacePtr) (t : List Event) :
    outputBinds X (dispatchEvents t) = outputBinds X t := by
  induction t with
  | nil => rfl
  | cons e t ih =>
    cases e <;>
      simp_all [outputBinds, dispatchEvents, List.filter_cons, List.filterMap_cons, Event.isDispatch]

theorem walkersOf_of_view {s t : CodechalEncodeCscDs} (h : frameView t = frameView s) :
    walkersOf t.drv.trace = walkersOf s.drv.trace := by
  rw [← walkersOf_dispatchEvents t.drv.trace, ← walkersOf_dispatchEvents s.drv.trace]
  exact congrArg walkersOf (congrArg FrameView.dispatched h)

theorem outputBinds_of_view {s t : CodechalEncodeCscDs} (X : SurfacePtr)
    (h : frameView t = frameView s) :
    outputBinds X t.drv.trace = outputBinds X s.drv.trace := by
  rw [← outputBinds_dispatchEvents X t.drv.trace, ← outputBinds_dispatchEvents X s.drv.trace]
  exact congrArg (outputBinds X) (congrArg FrameView.dispatched h)

/-! ### Frame lemmas for the blocks of the two kernels -/

theorem extEv_view (e : Event) (s : CodechalEncodeCscDs) (he : e.isDispatch = false) :
    frameView (extEv e s).2 = frameView s := by
  unfold extEv
  rw [chk_view]
  split_ifs
  · exact emit_view _ _ he
  · rfl

theorem InitKernelStateCsc_view (s : CodechalEncodeCscDs) :
    frameView (InitKernelStateCsc s).2 = frameView s := by
  obtain ⟨v, h0⟩ : ∃ v, frameView s = v := ⟨_, rfl⟩
  rw [h0]
  unfold InitKernelStateCsc
  repeat' first
    | assumption
    | refine chk_keeps _ _ _ ?_ (fun t ht => ?_)
    | refine ite_keeps _ _ _ _ (fun _ => ?_) (fun _ => ?_)

theorem requestSshSpace_view (s : CodechalEncodeCscDs) :
    frameView (requestSshSpace s).2 = frameView s := by
  obtain ⟨v, h0⟩ : ∃ v, frameView s = v := ⟨_, rfl⟩
  rw [h0]
  unfold requestSshSpace
  repeat' first
    | assumption
    | refine chk_keeps _ _ _ ?_ (fun t ht => ?_)
    | refine ite_keeps _ _ _ _ (fun _ => ?_) (fun _ => ?_)

theorem WaitCscSurface_view (ctx : MOS_GPU_CONTEXT) (ro : Bool) (s : CodechalEncodeCscDs) :
    frameView (WaitCscSurface ctx ro s).2 = frameView s :=
  extEv_view _ _ rfl

theorem CscKernel_prepare_view (K : CodecConsts) (s : CodechalEncodeCscDs) :
    frameView (CscKernel_prepare K s).2 = frameView s := by
  obtain ⟨v, h0⟩ : ∃ v, frameView s = v := ⟨_, rfl⟩
  rw [h0]
  unfold CscKernel_prepare
  repeat' first
    | assumption
    | (rw [MOS_New_view]; assumption)
    | (rw [InitKernelStateCsc_view]; assumption)
    | (rw [AllocateSurfaceCsc_view]; assumption)
    | (rw [AllocateSurfaceDS_view]; assumption)
    | (rw [AllocateSurface2xDS_view]; assumption)
    | (rw [WaitCscSurface_view]; assumption)
    | refine chk_keeps _ _ _ ?_ (fun t ht => ?_)
    | refine ite_keeps _ _ _ _ (fun _ => ?_) (fun _ => ?_)

theorem InitKernelStateDS_pass_view (s : CodechalEncodeCscDs) :
    frameView (InitKernelStateDS_pass s).2 = frameView s := by
  obtain ⟨v, h0⟩ : ∃ v, frameView s = v := ⟨_, rfl⟩
  rw [h0]
  unfold InitKernelStateDS_pass
  repeat' first
    | assumption
    | refine chk_keeps _ _ _ ?_ (fun t ht => ?_)
    | refine ite_keeps _ _ _ _ (fun _ => ?_) (fun _ => ?_)

theorem InitKernelStateDS_loop_view (n : Nat) (s : CodechalEncodeCscDs) :
    frameView (InitKernelStateDS_loop n s).2 = frameView s := by
  induction n generalizing s with
  | zero => rfl
  | succ n ih =>
    unfold InitKernelStateDS_loop
    exact chk_keeps _ _ _ (InitKernelStateDS_pass_view s) (fun t ht => (ih t).trans ht)

theorem InitKernelStateDS_view (K : CodecConsts) (s : CodechalEncodeCscDs) :
    frameView (InitKernelStateDS K s).2 = frameView s := by
  unfold InitKernelStateDS
  exact chk_keeps _ _ _ (ext_view s) (fun t ht => (InitKernelStateDS_loop_view _ t).trans ht)

theorem DsKernel_prepare_view (K : CodecConsts) (s : CodechalEncodeCscDs) :
    frameView (DsKernel_prepare K s).2 = frameView s := by
  obtain ⟨v, h0⟩ : ∃ v, frameView s = v := ⟨_, rfl⟩
  rw [h0]
  unfold DsKernel_prepare
  repeat' first
    | assumption
    | (rw [InitKernelStateDS_view]; assumption)
    | (rw [AllocateSurfaceDS_view]; assumption)
    | (rw [AllocateSurface2xDS_view]; assumption)
    | (rw [requestSshSpace_view]; assumption)
    | refine chk_keeps _ _ _ ?_ (fun t ht => ?_)
    | refine ite_keeps _ _ _ _ (fun _ => ?_) (fun _ => ?_)

theorem Quiet_refl (s : CodechalEncodeCscDs) : Quiet s s := ⟨rfl, rfl⟩

theorem Quiet_ext {s t : CodechalEncodeCscDs} (h : Quiet s t) : Quiet s (ext t).2 := h

theorem Quiet_walkers {s t : CodechalEncodeCscDs} (h : Quiet s t) :
    walkersOf t.drv.trace = walkersOf s.drv.trace := by
  rw [← walkersOf_dispatchEvents t.drv.trace, ← walkersOf_dispatchEvents s.drv.trace, h.2]

theorem Quiet_binds {s t : CodechalEncodeCscDs} (X : SurfacePtr) (h : Quiet s t) :
    outputBinds X t.drv.trace = outputBinds X s.drv.trace := by
  rw [← outputBinds_dispatchEvents X t.drv.trace, ← outputBinds_dispatchEvents X s.drv.trace, h.2]

theorem Quiet_requestSshSpace {s t : CodechalEncodeCscDs} (h : Quiet s t) :
    Quiet s (requestSshSpace t).2 := by
  unfold requestSshSpace
  repeat' first
    | assumption
    | exact Quiet_ext ‹_›
    | refine chk_inv (Quiet s) _ _ ?_ (fun t ht => ?_)
    | refine ite_inv (Quiet s) _ _ _ (fun _ => ?_) (fun _ => ?_)

theorem Quiet_pfnGetCommandBuffer {s t : CodechalEncodeCscDs} (h : Quiet s t) :
    Quiet s (pfnGetCommandBuffer t).2 := by
  unfold pfnGetCommandBuffer
  refine chk_inv (Quiet s) _ _ h (fun u hu => ?_)
  refine ⟨hu.1, ?_⟩
  rw [← hu.2]
  simp [emit, dispatchEvents, List.filter_append, Event.isDispatch]

theorem CscKernel_stateHeap_quiet (s : CodechalEncodeCscDs) :
    Quiet s (CscKernel_stateHeap s).2 := by
  have h0 := Quiet_refl s
  unfold CscKernel_stateHeap SetCurbeCsc
  repeat' first
    | assumption
    | exact Quiet_requestSshSpace ‹_›
    | exact Quiet_ext ‹_›
    | refine chk_inv (Quiet s) _ _ ?_ (fun t ht => ?_)
    | refine ite_inv (Quiet s) _ _ _ (fun _ => ?_) (fun _ => ?_)

theorem beginCommands_quiet (s : CodechalEncodeCscDs) :
    Quiet s (beginCommands s).2 := by
  have h0 := Quiet_refl s
  unfold beginCommands
  repeat' first
    | assumption
    | exact Quiet_pfnGetCommandBuffer ‹_›
    | exact Quiet_ext ‹_›
    | refine chk_inv (Quiet s) _ _ ?_ (fun t ht => ?_)

/-! ### Surface binding -/

theorem BindsInv_refl (s : CodechalEncodeCscDs) (c : Nat) (X : SurfacePtr) (allowed : Prop) :
    BindsInv s c X allowed s :=
  ⟨rfl, rfl, 0, by simp, fun h => absurd rfl h⟩

theorem BindsInv_ext {s t : CodechalEncodeCscDs} {c : Nat} {X : SurfacePtr} {allowed : Prop}
    (h : BindsInv s c X allowed t) : BindsInv s c X allowed (ext t).2 := h

theorem BindsInv_updSurface {s t : CodechalEncodeCscDs} {c : Nat} {X : SurfacePtr}
    {allowed : Prop} (p : SurfacePtr) (f : MOS_SURFACE → MOS_SURFACE)
    (h : BindsInv s c X allowed t) : BindsInv s c X allowed (updSurface p f t) := by
  cases p <;> exact h

theorem BindsInv_SetRcs {s t : CodechalEncodeCscDs} {c : Nat} {X : SurfacePtr} {allowed : Prop}
    (k : CODECHAL_MEDIA_STATE_TYPE) (surf : SurfacePtr) (w : Bool)
    (h : BindsInv s c X allowed t) (hs : w = true → surf = X → allowed) :
    BindsInv s c X allowed (CodecHal_SetRcsSurfaceState c k surf w t).2 := by
  unfold CodecHal_SetRcsSurfaceState extEv
  refine chk_inv (BindsInv s c X allowed) _ _ h (fun u hu => ?_)
  obtain ⟨h1, h2, n, h3, h4⟩ := hu
  refine ⟨h1, ?_, ?_⟩
  · show walkersOf (u.drv.trace ++ [_]) = _
    rw [walkersOf_append, h2]
    simp [walkersOf]
  · show ∃ n, outputBinds X (u.drv.trace ++ [_]) = _ ∧ _
    rw [outputBinds_append, h3]
    by_cases hb : w = true ∧ surf = X
    · refine ⟨n + 1, ?_, fun _ => hs hb.1 hb.2⟩
      obtain ⟨hw, hx⟩ := hb
      subst hw hx
      simp [outputBinds, List.replicate_succ']
    · refine ⟨n, ?_, h4⟩
      cases w
      · simp [outputBinds]
      · have : ¬ surf = X := fun hx => hb ⟨rfl, hx⟩
        simp [outputBinds, this]

theorem SendSurfaceCsc_binds (c : Nat) (X : SurfacePtr) (s : CodechalEncodeCscDs) :
    BindsInv s c X
      (X = s.m_surfaceParamsCsc.psOutput4xDsSurface ∨ X = SurfacePtr.resource ResourcePtr.mbStatsBuffer ∨
        X = SurfacePtr.flatnessCheck ∨ X = s.m_surfaceParamsCsc.psOutputCopiedSurface)
      (SendSurfaceCsc c s).2 := by
  have key : ∀ {t}, BindsInv s c X
      (X = s.m_surfaceParamsCsc.psOutput4xDsSurface ∨ X = SurfacePtr.resource ResourcePtr.mbStatsBuffer ∨
        X = SurfacePtr.flatnessCheck ∨ X = s.m_surfaceParamsCsc.psOutputCopiedSurface) t →
      t.m_surfaceParamsCsc = s.m_surfaceParamsCsc :=
    fun ht => congrArg (fun u => u.m_surfaceParamsCsc) ht.1
  unfold SendSurfaceCsc
  refine chk_inv _ _ _ ?_ (fun t1 h1 => ?_)
  · exact BindsInv_SetRcs _ _ _ (BindsInv_refl _ _ _ _) (fun h => by cases h)
  refine chk_inv _ _ _ ?_ (fun t2 h2 => ?_)
  · refine ite_inv _ _ _ _ (fun _ => ?_) (fun _ => h1)
    exact BindsInv_SetRcs _ _ _ h1 (fun _ hx => Or.inl (by rw [← hx, key h1]))
  refine chk_inv _ _ _ ?_ (fun t3 h3 => ?_)
  · refine ite_inv _ _ _ _ (fun _ => ?_) (fun _ => ?_)
    · exact BindsInv_SetRcs _ _ _ h2 (fun _ hx => Or.inr (Or.inl hx.symm))
    · refine ite_inv _ _ _ _ (fun _ => ?_) (fun _ => h2)
      exact BindsInv_SetRcs _ _ _ h2 (fun _ hx => Or.inr (Or.inr (Or.inl hx.symm)))
  refine chk_inv _ _ _ ?_ (fun t4 h4 => h4)
  refine ite_inv _ _ _ _ (fun _ => ?_) (fun _ => h3)
  exact BindsInv_SetRcs _ _ _ h3 (fun _ hx => Or.inr (Or.inr (Or.inr (by rw [← hx, key h3]))))

theorem BindsInv_bindFrameOrFields {s t : CodechalEncodeCscDs} {c : Nat} {X : SurfacePtr}
    {allowed : Prop} (frame : Bool) (k : CODECHAL_MEDIA_STATE_TYPE) (surf : SurfacePtr) (w : Bool)
    (h : BindsInv s c X allowed t) (hs : w = true → surf = X → allowed) :
    BindsInv s c X allowed (bindFrameOrFields frame c k surf w t).2 := by
  unfold bindFrameOrFields
  refine ite_inv _ _ _ _ (fun _ => BindsInv_SetRcs _ _ _ h hs) (fun _ => ?_)
  exact chk_inv _ _ _ (BindsInv_SetRcs _ _ _ h hs) (fun u hu => BindsInv_SetRcs _ _ _ hu hs)

theorem SendSurfaceDS_binds (c : Nat) (k : CODECHAL_MEDIA_STATE_TYPE) (X : SurfacePtr)
    (s : CodechalEncodeCscDs) :
    BindsInv s c X
      (X = s.m_surfaceParamsDS.psOutputSurface ∨ X = SurfacePtr.flatnessCheck ∨
        X = SurfacePtr.resource s.m_surfaceParamsDS.presMBVProcStatsBuffer ∨
        X = SurfacePtr.resource s.m_surfaceParamsDS.presMBVProcStatsBotFieldBuffer)
      (SendSurfaceDS c k s).2 := by
  have key : ∀ {t}, BindsInv s c X
      (X = s.m_surfaceParamsDS.psOutputSurface ∨ X = SurfacePtr.flatnessCheck ∨
        X = SurfacePtr.resource s.m_surfaceParamsDS.presMBVProcStatsBuffer ∨
        X = SurfacePtr.resource s.m_surfaceParamsDS.presMBVProcStatsBotFieldBuffer) t →
      t.m_surfaceParamsDS = s.m_surfaceParamsDS :=
    fun ht => congrArg (fun u => u.m_surfaceParamsDS) ht.1
  have h0 := BindsInv_updSurface (c := c) (X := X) s.m_surfaceParamsDS.psOutputSurface
    (fun x => { x with
      dwWidth := s.m_surfaceParamsDS.dwOutputFrameWidth,
      dwHeight :=
        if !s.cfg.m_fieldScalingOutputInterleaved then
          MOS_ALIGN_CEIL (if s.m_surfaceParamsDS.bCurrPicIsFrame then
            s.m_surfaceParamsDS.dwOutputFrameHeight
            else s.m_surfaceParamsDS.dwOutputFrameHeight / 2) 16
        else s.m_surfaceParamsDS.dwOutputFrameHeight })
    (BindsInv_refl s c X
      (X = s.m_surfaceParamsDS.psOutputSurface ∨ X = SurfacePtr.flatnessCheck ∨
        X = SurfacePtr.resource s.m_surfaceParamsDS.presMBVProcStatsBuffer ∨
        X = SurfacePtr.resource s.m_surfaceParamsDS.presMBVProcStatsBotFieldBuffer))
  unfold SendSurfaceDS
  refine ite_inv _ _ _ _ (fun _ => h0) (fun _ => ?_)
  refine chk_inv _ _ _ (BindsInv_ext h0) (fun t1 h1 => ?_)
  refine chk_inv _ _ _ ?_ (fun t2 h2 => ?_)
  · exact BindsInv_bindFrameOrFields _ _ _ _ h1 (fun h => by cases h)
  refine chk_inv _ _ _ ?_ (fun t3 h3 => ?_)
  · exact BindsInv_bindFrameOrFields _ _ _ _ h2 (fun _ hx => Or.inl (by rw [← hx, key h2]))
  refine chk_inv _ _ _ ?_ (fun t4 h4 => ?_)
  · refine ite_inv _ _ _ _ (fun _ => ?_) (fun _ => h3)
    exact BindsInv_bindFrameOrFields _ _ _ _ h3 (fun _ hx => Or.inr (Or.inl hx.symm))
  refine chk_inv _ _ _ ?_ (fun t6 h6 => h6)
  refine ite_inv _ _ _ _ (fun _ => ?_) (fun _ => h4)
  refine ite_inv _ _ _ _ (fun _ => ?_) (fun _ => ?_)
  · exact BindsInv_SetRcs _ _ _ h4 (fun _ hx => Or.inr (Or.inr (Or.inl (by rw [← hx, key h4]))))
  · refine chk_inv _ _ _ ?_ (fun t5 h5 => ?_)
    · exact BindsInv_SetRcs _ _ _ h4 (fun _ hx => Or.inr (Or.inr (Or.inl (by rw [← hx, key h4]))))
    · refine BindsInv_SetRcs _ _ _ h5 (fun _ hx => ?_)
      rw [key h5] at hx
      split_ifs at hx
      · exact Or.inr (Or.inr (Or.inr hx.symm))
      · exact Or.inr (Or.inr (Or.inl hx.symm))

/-! ### The walker and the submission -/

theorem Quiet_trans {s t u : CodechalEncodeCscDs} (h₁ : Quiet s t) (h₂ : Quiet t u) : Quiet s u :=
  ⟨h₂.1.trans h₁.1, h₂.2.trans h₁.2⟩

theorem Quiet_submit {s t : CodechalEncodeCscDs} (c : Nat) (h : Quiet s t) :
    Quiet s { emit (Event.pfnSubmitCommandBuffer c) t with m_lastTaskInPhase := false } := by
  refine ⟨h.1, ?_⟩
  rw [← h.2]
  simp [emit, dispatchEvents, List.filter_append, Event.isDispatch]

theorem finishCommands_quiet (c : Nat) (s : CodechalEncodeCscDs) :
    Quiet s (finishCommands c s).2 := by
  have h0 := Quiet_refl s
  unfold finishCommands
  repeat' first
    | assumption
    | exact Quiet_ext ‹_›
    | exact Quiet_submit _ ‹_›
    | refine chk_inv (Quiet s) _ _ ?_ (fun t ht => ?_)
    | refine ite_inv (Quiet s) _ _ _ (fun _ => ?_) (fun _ => ?_)

theorem walkAndSubmit_spec (c : Nat) (W : MHW_WALKER_PARAMS) (s : CodechalEncodeCscDs) :
    settled (walkAndSubmit c W s).2 = settled s ∧
    (∀ X, outputBinds X (walkAndSubmit c W s).2.drv.trace = outputBinds X s.drv.trace) ∧
    ∃ ws, walkersOf (walkAndSubmit c W s).2.drv.trace = walkersOf s.drv.trace ++ ws ∧
      (ws = [] ∨ ws = [W]) ∧ ((walkAndSubmit c W s).1 = MOS_STATUS_SUCCESS → ws = [W]) := by
  unfold walkAndSubmit extEv
  by_cases h : (ext s).1 = MOS_STATUS_SUCCESS
  · rw [chk_of_success (ext s) _ h, chk_of_success _ _ rfl]
    have hq := finishCommands_quiet c (emit (Event.AddMediaObjectWalkerCmd c W) (ext s).2)
    generalize (finishCommands c (emit (Event.AddMediaObjectWalkerCmd c W) (ext s).2)) = r at hq ⊢
    have e1 : settled (emit (Event.AddMediaObjectWalkerCmd c W) (ext s).2) = settled s := rfl
    have e2 : (emit (Event.AddMediaObjectWalkerCmd c W) (ext s).2).drv.trace
        = s.drv.trace ++ [Event.AddMediaObjectWalkerCmd c W] := rfl
    refine ⟨hq.1.trans e1, fun X => ?_, [W], ?_, Or.inr rfl, fun _ => rfl⟩
    · rw [Quiet_binds X hq, e2, outputBinds_append]
      simp [outputBinds]
    · rw [Quiet_walkers hq, e2, walkersOf_append]
      simp [walkersOf]
  · have h2 : ∀ k, chk (ext s) k = ext s := by
      intro k
      unfold chk
      rw [if_neg h]
    rw [h2, h2]
    refine ⟨rfl, fun X => rfl, [], ?_, Or.inl rfl, fun hs => absurd hs h⟩
    rw [List.append_nil]
    rfl

/-! ### Outcome of `CscKernel` -/

theorem chk_walk (G : MOS_STATUS × CodechalEncodeCscDs → Prop)
    (J : MOS_STATUS × CodechalEncodeCscDs → Prop)
    (a : MOS_STATUS × CodechalEncodeCscDs)
    (k : CodechalEncodeCscDs → MOS_STATUS × CodechalEncodeCscDs)
    (ha : J a)
    (hG : ∀ r, J r → r.1 ≠ MOS_STATUS_SUCCESS → G r)
    (hk : ∀ r, J r → r.1 = MOS_STATUS_SUCCESS → G (k r.2)) : G (chk a k) := by
  unfold chk
  split_ifs with h
  · exact hk a ha h
  · exact hG a ha h

theorem settled_fields {s t : CodechalEncodeCscDs} (h : settled t = settled s) :
    t.cfg = s.cfg ∧
    t.m_cscRequireCopy = s.m_cscRequireCopy ∧
    t.m_cscRequireColor = s.m_cscRequireColor ∧
    t.m_cscRequireMmc = s.m_cscRequireMmc ∧
    t.m_cscRequireConvTo8bPlanar = s.m_cscRequireConvTo8bPlanar ∧
    t.m_rawSurfaceToEnc = s.m_rawSurfaceToEnc ∧
    t.m_rawSurfaceToPak = s.m_rawSurfaceToPak ∧
    t.m_currRefList = s.m_currRefList ∧
    t.m_cscBufCurrIdx = s.m_cscBufCurrIdx ∧
    t.m_surfaceParamsCsc = s.m_surfaceParamsCsc ∧
    t.m_surfaceParamsDS = s.m_surfaceParamsDS ∧
    t.m_walkerResolutionX = s.m_walkerResolutionX ∧
    t.m_walkerResolutionY = s.m_walkerResolutionY :=
  ⟨congrArg (fun u => u.cfg) h, congrArg (fun u => u.m_cscRequireCopy) h,
   congrArg (fun u => u.m_cscRequireColor) h, congrArg (fun u => u.m_cscRequireMmc) h,
   congrArg (fun u => u.m_cscRequireConvTo8bPlanar) h,
   congrArg (fun u => u.m_rawSurfaceToEnc) h, congrArg (fun u => u.m_rawSurfaceToPak) h,
   congrArg (fun u => u.m_currRefList) h, congrArg (fun u => u.m_cscBufCurrIdx) h,
   congrArg (fun u => u.m_surfaceParamsCsc) h, congrArg (fun u => u.m_surfaceParamsDS) h,
   congrArg (fun u => u.m_walkerResolutionX) h, congrArg (fun u => u.m_walkerResolutionY) h⟩

theorem frameView_fields {s t : CodechalEncodeCscDs} (h : frameView t = frameView s) :
    t.cfg = s.cfg ∧
    t.m_cscRequireCopy = s.m_cscRequireCopy ∧
    t.m_cscRequireColor = s.m_cscRequireColor ∧
    t.m_cscRequireMmc = s.m_cscRequireMmc ∧
    t.m_cscRequireConvTo8bPlanar = s.m_cscRequireConvTo8bPlanar ∧
    t.m_threadTraverseSizeX = s.m_threadTraverseSizeX ∧
    t.m_threadTraverseSizeY = s.m_threadTraverseSizeY ∧
    t.m_rawSurfaceToEnc = s.m_rawSurfaceToEnc ∧
    t.m_rawSurfaceToPak = s.m_rawSurfaceToPak :=
  ⟨congrArg FrameView.cfg h, congrArg FrameView.m_cscRequireCopy h,
   congrArg FrameView.m_cscRequireColor h, congrArg FrameView.m_cscRequireMmc h,
   congrArg FrameView.m_cscRequireConvTo8bPlanar h,
   congrArg FrameView.m_threadTraverseSizeX h, congrArg FrameView.m_threadTraverseSizeY h,
   congrArg FrameView.m_rawSurfaceToEnc h, congrArg FrameView.m_rawSurfaceToPak h⟩

/-- An exit of `CscKernel` with a failure status before any surface was bound. -/
theorem CscOutcome_of_quiet (p : KernelParams) (X : SurfacePtr)
    {s s7 : CodechalEncodeCscDs} (r : MOS_STATUS × CodechalEncodeCscDs)
    (hv : frameView s7 = frameView s) (hq : Quiet s7 r.2) (hne : r.1 ≠ MOS_STATUS_SUCCESS) :
    CscOutcome p s X r := by
  refine ⟨(settled_fields hq.1).1.trans (frameView_fields hv).1, ⟨0, 0, ?_, fun h => absurd rfl h⟩,
    ⟨[], ?_, Or.inl rfl, fun h => absurd h hne⟩, fun h => absurd h hne⟩
  · rw [Quiet_binds X hq, outputBinds_of_view X hv]
    simp
  · rw [Quiet_walkers hq, walkersOf_of_view hv]
    simp

theorem SetSurfacesToEncPak_spec (s : CodechalEncodeCscDs) :
    (SetSurfacesToEncPak s).1 = MOS_STATUS_SUCCESS ∧
    (SetSurfacesToEncPak s).2.cfg = s.cfg ∧
    (SetSurfacesToEncPak s).2.drv = s.drv ∧
    (SetSurfacesToEncPak s).2.m_currRefList.b4xScalingUsed = s.m_currRefList.b4xScalingUsed ∧
    (SetSurfacesToEncPak s).2.m_cscBufCurrIdx = s.m_cscBufCurrIdx ∧
    (SetSurfacesToEncPak s).2.m_rawSurfaceToEnc
      = (if (s.m_cscRequireCopy || s.m_cscRequireColor || s.m_cscRequireConvTo8bPlanar) = true
          then SurfacePtr.copied s.m_cscBufCurrIdx else s.m_rawSurfaceToEnc) ∧
    (SetSurfacesToEncPak s).2.m_rawSurfaceToPak
      = (if (s.m_cscRequireCopy || s.m_cscRequireColor || s.m_cscRequireMmc) = true
          then SurfacePtr.copied s.m_cscBufCurrIdx else s.m_rawSurfaceToPak) := by
  unfold SetSurfacesToEncPak
  dsimp only
  split_ifs <;> simp_all

/-- What is known once `SendSurfaceCsc` has run (or stopped half-way). -/
theorem csc_binds_part {s s7 s14 t : CodechalEncodeCscDs} {c : Nat} {X : SurfacePtr}
    (hv7 : frameView s7 = frameView s) (hq : Quiet s7 s14)
    (hO7 : s7.m_surfaceParamsCsc.psOutput4xDsSurface
      = if s.cfg.m_scalingEnabled then SurfacePtr.scaled4x s.cfg.m_currScalingIdx
        else SurfacePtr.nullPtr)
    (hC7 : s7.m_surfaceParamsCsc.psOutputCopiedSurface = SurfacePtr.copied s7.m_cscBufCurrIdx)
    (hb : BindsInv s14 c X
      (X = s14.m_surfaceParamsCsc.psOutput4xDsSurface ∨
        X = SurfacePtr.resource ResourcePtr.mbStatsBuffer ∨
        X = SurfacePtr.flatnessCheck ∨ X = s14.m_surfaceParamsCsc.psOutputCopiedSurface) t) :
    settled t = settled s7 ∧
    (∃ c n, outputBinds X t.drv.trace = outputBinds X s.drv.trace ++ List.replicate n c ∧
      (n ≠ 0 → X.isScaled = true →
        X = SurfacePtr.scaled4x s.cfg.m_currScalingIdx ∧ s.cfg.m_scalingEnabled = true)) ∧
    walkersOf t.drv.trace = walkersOf s.drv.trace := by
  obtain ⟨h1, h2, n, h3, h4⟩ := hb
  have hsp : s14.m_surfaceParamsCsc = s7.m_surfaceParamsCsc := (settled_fields hq.1).2.2.2.2.2.2.2.2.2.1
  refine ⟨h1.trans hq.1, ⟨c, n, ?_, fun hn hX => ?_⟩, ?_⟩
  · rw [h3, Quiet_binds X hq, outputBinds_of_view X hv7]
  · rw [hsp, hO7, hC7] at h4
    rcases h4 hn with h | h | h | h
    · by_cases hsc : s.cfg.m_scalingEnabled = true
      · rw [if_pos hsc] at h
        exact ⟨h, hsc⟩
      · rw [if_neg hsc] at h
        subst h
        cases hX
    · subst h; cases hX
    · subst h; cases hX
    · subst h; cases hX
  · rw [h2, Quiet_walkers hq, walkersOf_of_view hv7]

theorem CscKernel_outcome (K : CodecConsts) (p : KernelParams) (s : CodechalEncodeCscDs)
    (X : SurfacePtr) : CscOutcome p s X (CscKernel K (some p) s) := by
  show CscOutcome p s X (chk (CscKernel_prepare K s) _)
  refine chk_walk _ (fun r => frameView r.2 = frameView s) _ _ (CscKernel_prepare_view K s)
    (fun r hr hne => CscOutcome_of_quiet p X r hr (Quiet_refl _) hne) (fun r6 h6 _ => ?_)
  -- setup kernel params
  rw [chk_of_success (SetKernelParamsCsc (some p) r6.2) _ rfl]
  have hv7 : frameView (SetKernelParamsCsc (some p) r6.2).2 = frameView s := h6
  have hX7 : (SetKernelParamsCsc (some p) r6.2).2.m_walkerResolutionX
      = MOS_ROUNDUP_SHIFT s.cfg.m_downscaledWidth4x s.m_threadTraverseSizeX := by
    show MOS_ROUNDUP_SHIFT r6.2.cfg.m_downscaledWidth4x r6.2.m_threadTraverseSizeX = _
    rw [(frameView_fields h6).1, (frameView_fields h6).2.2.2.2.2.1]
  have hY7 : (SetKernelParamsCsc (some p) r6.2).2.m_walkerResolutionY
      = MOS_ROUNDUP_SHIFT s.cfg.m_downscaledHeight4x s.m_threadTraverseSizeY := by
    show MOS_ROUNDUP_SHIFT r6.2.cfg.m_downscaledHeight4x r6.2.m_threadTraverseSizeY = _
    rw [(frameView_fields h6).1, (frameView_fields h6).2.2.2.2.2.2.1]
  have hO7 : (SetKernelParamsCsc (some p) r6.2).2.m_surfaceParamsCsc.psOutput4xDsSurface
      = if s.cfg.m_scalingEnabled then SurfacePtr.scaled4x s.cfg.m_currScalingIdx
        else SurfacePtr.nullPtr := by
    show (if r6.2.cfg.m_scalingEnabled then SurfacePtr.scaled4x r6.2.cfg.m_currScalingIdx
        else SurfacePtr.nullPtr) = _
    rw [(frameView_fields h6).1]
  have hC7 : (SetKernelParamsCsc (some p) r6.2).2.m_surfaceParamsCsc.psOutputCopiedSurface
      = SurfacePtr.copied (SetKernelParamsCsc (some p) r6.2).2.m_cscBufCurrIdx := rfl
  have hB7 : (SetKernelParamsCsc (some p) r6.2).2.m_currRefList.b4xScalingUsed
      = s.cfg.m_scalingEnabled := by
    show r6.2.cfg.m_scalingEnabled = _
    rw [(frameView_fields h6).1]
  generalize (SetKernelParamsCsc (some p) r6.2).2 = s7 at hv7 hX7 hY7 hO7 hC7 hB7 ⊢
  refine chk_walk _ (fun r => Quiet s7 r.2) _ _ (CscKernel_stateHeap_quiet s7)
    (fun r hr hne => CscOutcome_of_quiet p X r hv7 hr hne) (fun r11 h11 _ => ?_)
  show CscOutcome p s X (chk (beginCommands r11.2) _)
  refine chk_walk _ (fun r => Quiet s7 r.2) _ _ (Quiet_trans h11 (beginCommands_quiet r11.2))
    (fun r hr hne => CscOutcome_of_quiet p X r hv7 hr hne) (fun r14 h14 _ => ?_)
  -- the surfaces
  refine chk_walk _
    (fun r => BindsInv r14.2 r11.2.drv.nextCmdBuffer X
      (X = r14.2.m_surfaceParamsCsc.psOutput4xDsSurface ∨
        X = SurfacePtr.resource ResourcePtr.mbStatsBuffer ∨
        X = SurfacePtr.flatnessCheck ∨ X = r14.2.m_surfaceParamsCsc.psOutputCopiedSurface) r.2)
    _ _ (SendSurfaceCsc_binds _ X r14.2) (fun r hr hne => ?_) (fun r15 h15 _ => ?_)
  · obtain ⟨e1, e2, e3⟩ := csc_binds_part hv7 h14 hO7 hC7 hr
    refine ⟨(settled_fields e1).1.trans (frameView_fields hv7).1, e2,
      ⟨[], by rw [e3]; simp, Or.inl rfl, fun h => absurd h hne⟩, fun h => absurd h hne⟩
  obtain ⟨e1, e2, e3⟩ := csc_binds_part hv7 h14 hO7 hC7 h15
  have f15 := settled_fields e1
  have fv := frameView_fields hv7
  have hW : rasterWalker r15.2.cfg r15.2.m_walkerResolutionX r15.2.m_walkerResolutionY
      = cscWalker s := by
    unfold cscWalker
    rw [f15.1, fv.1, f15.2.2.2.2.2.2.2.2.2.2.2.1, f15.2.2.2.2.2.2.2.2.2.2.2.2, hX7, hY7]
  rw [hW]
  -- the walker
  refine chk_walk _
    (fun r => settled r.2 = settled r15.2 ∧
      (∀ X, outputBinds X r.2.drv.trace = outputBinds X r15.2.drv.trace) ∧
      ∃ ws, walkersOf r.2.drv.trace = walkersOf r15.2.drv.trace ++ ws ∧
        (ws = [] ∨ ws = [cscWalker s]) ∧ (r.1 = MOS_STATUS_SUCCESS → ws = [cscWalker s]))
    _ _ (walkAndSubmit_spec _ _ r15.2) (fun r hr hne => ?_) (fun r16 h16 hs16 => ?_)
  · obtain ⟨g1, g2, ws, g3, g4, g5⟩ := hr
    refine ⟨(settled_fields g1).1.trans (f15.1.trans fv.1), ?_, ⟨ws, ?_, g4, g5⟩,
      fun h => absurd h hne⟩
    · rw [g2 X]; exact e2
    · rw [g3, e3]
  obtain ⟨g1, g2, ws, g3, g4, g5⟩ := h16
  have f16 := settled_fields g1
  have hws := g5 hs16
  subst hws
  have hsp := SetSurfacesToEncPak_spec r16.2
  by_cases hst : dsDisabled = p.stageDsConversion
  · rw [if_pos hst]
    refine ⟨hsp.2.1.trans (f16.1.trans (f15.1.trans fv.1)), ?_, ⟨[cscWalker s], ?_, Or.inr rfl,
      fun _ => rfl⟩, fun _ => ⟨?_, ?_, ?_⟩⟩
    · rw [hsp.2.2.1, g2 X]; exact e2
    · rw [hsp.2.2.1, g3, e3]
    · rw [hsp.2.2.2.1, f16.2.2.2.2.2.2.2.1, f15.2.2.2.2.2.2.2.1, hB7]
    · rw [hsp.2.2.2.2.2.1, hsp.2.2.2.2.1, f16.2.1, f16.2.2.1, f16.2.2.2.2.1, f16.2.2.2.2.2.1,
        f15.2.1, f15.2.2.1, f15.2.2.2.2.1, f15.2.2.2.2.2.1, fv.2.1, fv.2.2.1, fv.2.2.2.2.1,
        fv.2.2.2.2.2.2.2.1]
      simp [hst]
    · rw [hsp.2.2.2.2.2.2, hsp.2.2.2.2.1, f16.2.1, f16.2.2.1, f16.2.2.2.1, f16.2.2.2.2.2.2.1,
        f15.2.1, f15.2.2.1, f15.2.2.2.1, f15.2.2.2.2.2.2.1, fv.2.1, fv.2.2.1, fv.2.2.2.1,
        fv.2.2.2.2.2.2.2.2]
      simp [hst]
  · rw [if_neg hst]
    refine ⟨f16.1.trans (f15.1.trans fv.1), ?_, ⟨[cscWalker s], ?_, Or.inr rfl,
      fun _ => rfl⟩, fun _ => ⟨?_, ?_, ?_⟩⟩
    · rw [g2 X]; exact e2
    · rw [g3, e3]
    · rw [f16.2.2.2.2.2.2.2.1, f15.2.2.2.2.2.2.2.1, hB7]
    · rw [f16.2.2.2.2.2.1, f15.2.2.2.2.2.1, fv.2.2.2.2.2.2.2.1]
      simp [hst]
    · rw [f16.2.2.2.2.2.2.1, f15.2.2.2.2.2.2.1, fv.2.2.2.2.2.2.2.2]
      simp [hst]

/-! ### Outcome of `DsKernel` -/

theorem DsKernel_level_view (p : KernelParams) (s : CodechalEncodeCscDs) :
    frameView (DsKernel_level p s) = frameView s := by
  unfold DsKernel_level
  split_ifs <;> rfl

theorem DsKernel_curbeParams_view (p : KernelParams) (s : CodechalEncodeCscDs) :
    frameView (DsKernel_curbeParams p s) = frameView s := rfl

/-- An exit of `DsKernel` with a failure status before any surface was bound. -/
theorem DsOutcome_of_quiet (p : KernelParams) (X : SurfacePtr)
    {s s7 : CodechalEncodeCscDs} (r : MOS_STATUS × CodechalEncodeCscDs)
    (hv : frameView s7 = frameView s) (hq : Quiet s7 r.2) (hne : r.1 ≠ MOS_STATUS_SUCCESS) :
    DsOutcome p s X r := by
  refine ⟨(settled_fields hq.1).1.trans (frameView_fields hv).1, ⟨0, 0, ?_, fun h => absurd rfl h⟩,
    ⟨[], ?_, Or.inl rfl, fun h => absurd h hne⟩⟩
  · rw [Quiet_binds X hq, outputBinds_of_view X hv]
    simp
  · rw [Quiet_walkers hq, walkersOf_of_view hv]
    simp

theorem DsKernel_outcome (K : CodecConsts) (p : KernelParams) (s : CodechalEncodeCscDs)
    (X : SurfacePtr) : DsOutcome p s X (DsKernel K (some p) s) := by
  by_cases hff : s.cfg.m_firstField = true
  swap
  · have hr : DsKernel K (some p) s = (MOS_STATUS_SUCCESS, s) := by
      simp [DsKernel, hff]
    rw [hr]
    exact ⟨rfl, ⟨0, 0, by simp, fun h => absurd rfl h⟩,
      ⟨[], by simp, Or.inl rfl, fun _ h => absurd h hff⟩⟩
  have hr : DsKernel K (some p) s
      = chk (DsKernel_prepare K s) fun s7 =>
          let s8 := DsKernel_level p s7
          if s8.cfg.codecFunctionIsFeiPreEnc ∧ s8.cfg.pPreEncParams = none then
            (MOS_STATUS_NULL_POINTER, s8) else
          let s9 := DsKernel_curbeParams p s8
          chk (if p.b32xScalingInUse then SetCurbeDS2x s9 else SetCurbeDS4x s9) fun s10 =>
          let encFunctionType :=
            if p.b32xScalingInUse then CODECHAL_MEDIA_STATE_32X_SCALING
            else if p.b16xScalingInUse then CODECHAL_MEDIA_STATE_16X_SCALING
            else CODECHAL_MEDIA_STATE_4X_SCALING
          let cmdBuffer := s10.drv.nextCmdBuffer
          chk (beginCommands s10) fun s13 =>
          let s14 := DsKernel_surfaceParams p s13
          chk (SendSurfaceDS cmdBuffer encFunctionType s14) fun s15 =>
          walkAndSubmit cmdBuffer
            (rasterWalker s15.cfg (dsResolutionX p s15.cfg) (dsResolutionY p s15.cfg)) s15 := by
    simp [DsKernel, hff]
  rw [hr]
  clear hr
  refine chk_walk _ (fun r => frameView r.2 = frameView s) _ _ (DsKernel_prepare_view K s)
    (fun r hr hne => DsOutcome_of_quiet p X r hr (Quiet_refl _) hne) (fun r7 h7 _ => ?_)
  have hv8 : frameView (DsKernel_level p r7.2) = frameView s :=
    (DsKernel_level_view p r7.2).trans h7
  generalize DsKernel_level p r7.2 = s8 at hv8 ⊢
  by_cases hnull : s8.cfg.codecFunctionIsFeiPreEnc ∧ s8.cfg.pPreEncParams = none
  · show DsOutcome p s X (if _ then _ else _)
    rw [if_pos hnull]
    exact DsOutcome_of_quiet p X _ hv8 (Quiet_refl _) (fun h => by cases h)
  show DsOutcome p s X (if _ then _ else _)
  rw [if_neg hnull]
  have hv9 : frameView (DsKernel_curbeParams p s8) = frameView s := hv8
  generalize DsKernel_curbeParams p s8 = s9 at hv9 ⊢
  have hq10 : Quiet s9 (if p.b32xScalingInUse then SetCurbeDS2x s9 else SetCurbeDS4x s9).2 := by
    split_ifs <;> exact Quiet_ext (Quiet_refl s9)
  refine chk_walk _ (fun r => Quiet s9 r.2) _ _ hq10
    (fun r hr hne => DsOutcome_of_quiet p X r hv9 hr hne) (fun r10 h10 _ => ?_)
  show DsOutcome p s X (chk (beginCommands r10.2) _)
  refine chk_walk _ (fun r => Quiet s9 r.2) _ _ (Quiet_trans h10 (beginCommands_quiet r10.2))
    (fun r hr hne => DsOutcome_of_quiet p X r hv9 hr hne) (fun r13 h13 _ => ?_)
  -- setup surface states
  have hcfg13 : r13.2.cfg = s.cfg := (settled_fields h13.1).1.trans (frameView_fields hv9).1
  have hb13 : outputBinds X r13.2.drv.trace = outputBinds X s.drv.trace := by
    rw [Quiet_binds X h13, outputBinds_of_view X hv9]
  have hw13 : walkersOf r13.2.drv.trace = walkersOf s.drv.trace := by
    rw [Quiet_walkers h13, walkersOf_of_view hv9]
  have hcfg14 : (DsKernel_surfaceParams p r13.2).cfg = s.cfg := hcfg13
  have hb14 : outputBinds X (DsKernel_surfaceParams p r13.2).drv.trace
      = outputBinds X s.drv.trace := hb13
  have hw14 : walkersOf (DsKernel_surfaceParams p r13.2).drv.trace = walkersOf s.drv.trace := hw13
  have ho14 : (DsKernel_surfaceParams p r13.2).m_surfaceParamsDS.psOutputSurface
      = dsOutputSurface p s.cfg.m_currScalingIdx := by
    rw [← hcfg13]
    unfold DsKernel_surfaceParams
    dsimp only
    split <;> split_ifs <;> rfl
  generalize DsKernel_surfaceParams p r13.2 = s14 at hcfg14 hb14 hw14 ho14 ⊢
  have key : ∀ t c,
      BindsInv s14 c X
        (X = s14.m_surfaceParamsDS.psOutputSurface ∨ X = SurfacePtr.flatnessCheck ∨
          X = SurfacePtr.resource s14.m_surfaceParamsDS.presMBVProcStatsBuffer ∨
          X = SurfacePtr.resource s14.m_surfaceParamsDS.presMBVProcStatsBotFieldBuffer) t →
      t.cfg = s.cfg ∧
      (∃ c n, outputBinds X t.drv.trace = outputBinds X s.drv.trace ++ List.replicate n c ∧
        (n ≠ 0 → X.isScaled = true → X = dsOutputSurface p s.cfg.m_currScalingIdx)) ∧
      walkersOf t.drv.trace = walkersOf s.drv.trace := by
    intro t c ⟨h1, h2, n, h3, h4⟩
    refine ⟨(settled_fields h1).1.trans hcfg14, ⟨c, n, by rw [h3, hb14], fun hn hX => ?_⟩,
      h2.trans hw14⟩
    rcases h4 hn with h | h | h | h
    · rw [h, ho14]
    · subst h; cases hX
    · subst h; cases hX
    · subst h; cases hX
  refine chk_walk _
    (fun r => BindsInv s14 r10.2.drv.nextCmdBuffer X
      (X = s14.m_surfaceParamsDS.psOutputSurface ∨ X = SurfacePtr.flatnessCheck ∨
        X = SurfacePtr.resource s14.m_surfaceParamsDS.presMBVProcStatsBuffer ∨
        X = SurfacePtr.resource s14.m_surfaceParamsDS.presMBVProcStatsBotFieldBuffer) r.2)
    _ _ (SendSurfaceDS_binds _ _ X s14) (fun r hr hne => ?_) (fun r15 h15 _ => ?_)
  · obtain ⟨e1, e2, e3⟩ := key _ _ hr
    exact ⟨e1, e2, ⟨[], by rw [e3]; simp, Or.inl rfl, fun h => absurd h hne⟩⟩
  obtain ⟨e1, e2, e3⟩ := key _ _ h15
  have hW : rasterWalker r15.2.cfg (dsResolutionX p r15.2.cfg) (dsResolutionY p r15.2.cfg)
      = dsWalker p s.cfg := by
    rw [e1]
    rfl
  rw [hW]
  obtain ⟨g1, g2, ws, g3, g4, g5⟩ :=
    walkAndSubmit_spec r10.2.drv.nextCmdBuffer (dsWalker p s.cfg) r15.2
  refine ⟨(settled_fields g1).1.trans e1, ?_, ⟨ws, ?_, g4, fun h _ => g5 h⟩⟩
  · rw [g2 X]; exact e2
  · rw [g3, e3]


/-! ### Claims on the publication of the output pointers -/

/-- C5: publication rule of `SetSurfacesToEncPak`.  `rawSurfaceToEnc` becomes
the converted copy of the current slot iff copy, colour or 8-bit-planar
conversion is required and is unchanged otherwise; `rawSurfaceToPak` becomes
the converted copy iff copy, colour or MMC is required and is unchanged
otherwise; with all four requirements clear both pointers stay as they were,
so they stay on the original raw surface. -/
theorem SetSurfacesToEncPak_publication (s : CodechalEncodeCscDs) :
    (SetSurfacesToEncPak s).1 = MOS_STATUS_SUCCESS ∧
    (SetSurfacesToEncPak s).2.m_rawSurfaceToEnc
      = (if (s.m_cscRequireCopy || s.m_cscRequireColor || s.m_cscRequireConvTo8bPlanar) = true
          then SurfacePtr.copied s.m_cscBufCurrIdx else s.m_rawSurfaceToEnc) ∧
    (SetSurfacesToEncPak s).2.m_rawSurfaceToPak
      = (if (s.m_cscRequireCopy || s.m_cscRequireColor || s.m_cscRequireMmc) = true
          then SurfacePtr.copied s.m_cscBufCurrIdx else s.m_rawSurfaceToPak) ∧
    (s.m_cscRequireCopy = false → s.m_cscRequireColor = false →
      s.m_cscRequireConvTo8bPlanar = false → s.m_cscRequireMmc = false →
      s.m_rawSurfaceToEnc = SurfacePtr.rawInput → s.m_rawSurfaceToPak = SurfacePtr.rawInput →
      (SetSurfacesToEncPak s).2.m_rawSurfaceToEnc = SurfacePtr.rawInput ∧
      (SetSurfacesToEncPak s).2.m_rawSurfaceToPak = SurfacePtr.rawInput) := by
  obtain ⟨h1, -, -, -, -, h2, h3⟩ := SetSurfacesToEncPak_spec s
  refine ⟨h1, h2, h3, fun hc hcol hconv hmmc he hp => ?_⟩
  rw [h2, h3, hc, hcol, hconv, hmmc, he, hp]
  exact ⟨rfl, rfl⟩

/-- Witness for C5: a fresh object with no requirement set keeps both pointers
on the raw input surface. -/
theorem SetSurfacesToEncPak_publication_witness :
    (SetSurfacesToEncPak (freshState exampleSettings)).2.m_rawSurfaceToEnc = SurfacePtr.rawInput ∧
    (SetSurfacesToEncPak (freshState exampleSettings)).2.m_rawSurfaceToPak = SurfacePtr.rawInput :=
  (SetSurfacesToEncPak_publication (freshState exampleSettings)).2.2.2 rfl rfl rfl rfl rfl rfl

/-- Counterexample to C6: a P010 frame for which the analyzer sets only
`requireConvTo8bPlanar`; `CscKernel` at stage `dsDisabled` succeeds, publishes
the converted copy of slot 9 as `rawSurfaceToEnc`, and leaves `rawSurfaceToPak`
on the raw input surface. -/
theorem CscKernel_P010_pak_not_converted :
    (CheckRawColorFormat Format_P010 (freshState exampleSettings)).1 = MOS_STATUS_SUCCESS ∧
    (CheckRawColorFormat Format_P010 (freshState exampleSettings)).2.m_cscRequireConvTo8bPlanar
      = true ∧
    (CheckRawColorFormat Format_P010 (freshState exampleSettings)).2.m_cscRequireCopy = false ∧
    (CheckRawColorFormat Format_P010 (freshState exampleSettings)).2.m_cscRequireColor = false ∧
    (CheckRawColorFormat Format_P010 (freshState exampleSettings)).2.m_cscRequireMmc = false ∧
    zeroParams.stageDsConversion = dsDisabled ∧
    (CscKernel exampleConsts (some zeroParams)
      (CheckRawColorFormat Format_P010 (freshState exampleSettings)).2).1 = MOS_STATUS_SUCCESS ∧
    (CscKernel exampleConsts (some zeroParams)
      (CheckRawColorFormat Format_P010 (freshState exampleSettings)).2).2.m_cscBufCurrIdx = 9 ∧
    (CscKernel exampleConsts (some zeroParams)
      (CheckRawColorFormat Format_P010 (freshState exampleSettings)).2).2.m_rawSurfaceToPak
      ≠ SurfacePtr.copied 9 := by
  decide

/-- C6 as amended: for a P010 frame, `CheckRawColorFormat` sets
`requireConvTo8bPlanar` and no other requirement; after a successful
`CscKernel` at stage `dsDisabled`, `rawSurfaceToEnc` is the converted copy of
the current slot and `rawSurfaceToPak` is what it was before the dispatch. -/
theorem CscKernel_P010_publication (K : CodecConsts) (p : KernelParams)
    (s₀ : CodechalEncodeCscDs)
    (hcopy : s₀.m_cscRequireCopy = false) (hcolor : s₀.m_cscRequireColor = false)
    (hmmc : s₀.m_cscRequireMmc = false)
    (hstage : p.stageDsConversion = dsDisabled)
    (hok : (CscKernel K (some p) (CheckRawColorFormat Format_P010 s₀).2).1 = MOS_STATUS_SUCCESS) :
    (CheckRawColorFormat Format_P010 s₀).1 = MOS_STATUS_SUCCESS ∧
    (CheckRawColorFormat Format_P010 s₀).2.m_cscRequireConvTo8bPlanar = true ∧
    (CheckRawColorFormat Format_P010 s₀).2.m_cscRequireCopy = false ∧
    (CheckRawColorFormat Format_P010 s₀).2.m_cscRequireColor = false ∧
    (CheckRawColorFormat Format_P010 s₀).2.m_cscRequireMmc = false ∧
    (CscKernel K (some p) (CheckRawColorFormat Format_P010 s₀).2).2.m_rawSurfaceToEnc
      = SurfacePtr.copied
          (CscKernel K (some p) (CheckRawColorFormat Format_P010 s₀).2).2.m_cscBufCurrIdx ∧
    (CscKernel K (some p) (CheckRawColorFormat Format_P010 s₀).2).2.m_rawSurfaceToPak
      = s₀.m_rawSurfaceToPak := by
  obtain ⟨-, -, -, hs⟩ :=
    CscKernel_outcome K p (CheckRawColorFormat Format_P010 s₀).2 SurfacePtr.nullPtr
  obtain ⟨-, he, hp⟩ := hs hok
  have e1 : (CheckRawColorFormat Format_P010 s₀).2.m_cscRequireConvTo8bPlanar = true := rfl
  have e2 : (CheckRawColorFormat Format_P010 s₀).2.m_cscRequireCopy = false := hcopy
  have e3 : (CheckRawColorFormat Format_P010 s₀).2.m_cscRequireColor = false := hcolor
  have e4 : (CheckRawColorFormat Format_P010 s₀).2.m_cscRequireMmc = false := hmmc
  refine ⟨rfl, e1, e2, e3, e4, ?_, ?_⟩
  · rw [he, e1, e2, e3, hstage]
    simp
  · rw [hp, e2, e3, e4, hstage]
    simp
    rfl

/-- Witness for C6 as amended: the P010 scenario on a fresh 1920x1080 session. -/
theorem CscKernel_P010_publication_witness :
    (CscKernel exampleConsts (some zeroParams)
      (CheckRawColorFormat Format_P010 (freshState exampleSettings)).2).2.m_rawSurfaceToEnc
      = SurfacePtr.copied
          (CscKernel exampleConsts (some zeroParams)
            (CheckRawColorFormat Format_P010 (freshState exampleSettings)).2).2.m_cscBufCurrIdx ∧
    (CscKernel exampleConsts (some zeroParams)
      (CheckRawColorFormat Format_P010 (freshState exampleSettings)).2).2.m_rawSurfaceToPak
      = (freshState exampleSettings).m_rawSurfaceToPak :=
  (CscKernel_P010_publication exampleConsts zeroParams (freshState exampleSettings)
    rfl rfl rfl rfl (by decide)).2.2.2.2.2


/-! ### Claims on the orchestration -/

/-- C7, the code at the failing input: colour conversion required, scaling
with 16x and 32x motion estimation on the separate-scaler path, and the caller
passes `b32xScalingInUse = true`.  `CscKernel` sets the 4x flag, so the 4x
stage (which would clear the caller's flags) is skipped; the 16x stage only
sets `b16xScalingInUse`, so `DsKernel` takes its 32x branch.  The call succeeds
and leaves `b32xScalingUsed` set with `b16xScalingUsed` clear, from an entry
that had all three flags clear. -/
theorem KernelFunctions_stale_32x_flag :
    ({ freshState exampleSettings with m_cscRequireColor := true }
        : CodechalEncodeCscDs).m_currRefList.b4xScalingUsed = false ∧
    ({ freshState exampleSettings with m_cscRequireColor := true }
        : CodechalEncodeCscDs).m_currRefList.b16xScalingUsed = false ∧
    ({ freshState exampleSettings with m_cscRequireColor := true }
        : CodechalEncodeCscDs).m_currRefList.b32xScalingUsed = false ∧
    (KernelFunctions exampleConsts (some { zeroParams with b32xScalingInUse := true })
        { freshState exampleSettings with m_cscRequireColor := true }).1 = MOS_STATUS_SUCCESS ∧
    (KernelFunctions exampleConsts (some { zeroParams with b32xScalingInUse := true })
        { freshState exampleSettings with m_cscRequireColor := true }
      ).2.2.m_currRefList.b32xScalingUsed = true ∧
    (KernelFunctions exampleConsts (some { zeroParams with b32xScalingInUse := true })
        { freshState exampleSettings with m_cscRequireColor := true }
      ).2.2.m_currRefList.b16xScalingUsed = false ∧
    outputBinds (SurfacePtr.scaled16x 0)
      (KernelFunctions exampleConsts (some { zeroParams with b32xScalingInUse := true })
        { freshState exampleSettings with m_cscRequireColor := true }).2.2.drv.trace = [] ∧
    outputBinds (SurfacePtr.scaled32x 0)
      (KernelFunctions exampleConsts (some { zeroParams with b32xScalingInUse := true })
        { freshState exampleSettings with m_cscRequireColor := true }).2.2.drv.trace = [1, 2] := by
  decide

/-- C8, the code at the failing input: on the common-kernel path (HEVC, scaling
with 16x and 32x motion estimation) `KernelFunctions` succeeds with three
`CscKernel` dispatches (command buffers 0, 1, 2), and each of them binds the
4x surface of the current slot as a writable output, so the 4x surface is
produced three times in one call. -/
theorem KernelFunctions_common_kernel_rebinds_4x :
    (KernelFunctions exampleConsts (some zeroParams)
        (freshState { exampleSettings with m_useCommonKernel := true })).1 = MOS_STATUS_SUCCESS ∧
    outputBinds (SurfacePtr.scaled4x 0)
      (KernelFunctions exampleConsts (some zeroParams)
        (freshState { exampleSettings with m_useCommonKernel := true })).2.2.drv.trace
      = [0, 1, 2] ∧
    ¬ ∃ c n, outputBinds (SurfacePtr.scaled4x 0)
      (KernelFunctions exampleConsts (some zeroParams)
        (freshState { exampleSettings with m_useCommonKernel := true })).2.2.drv.trace
      = outputBinds (SurfacePtr.scaled4x 0)
          (freshState { exampleSettings with m_useCommonKernel := true }).drv.trace
        ++ List.replicate n c := by
  refine ⟨by decide, by decide, ?_⟩
  rintro ⟨c, n, h⟩
  have h' : [0, 1, 2] = List.replicate n c := by
    have e : outputBinds (SurfacePtr.scaled4x 0)
      (KernelFunctions exampleConsts (some zeroParams)
        (freshState { exampleSettings with m_useCommonKernel := true })).2.2.drv.trace
      = [0, 1, 2] := by decide
    rw [e] at h
    exact h
  have h0 : (0 : Nat) ∈ List.replicate n c := by rw [← h']; simp
  have h1 : (1 : Nat) ∈ List.replicate n c := by rw [← h']; simp
  have := (List.mem_replicate.mp h0).2
  have := (List.mem_replicate.mp h1).2
  omega


/-! ### At most one dispatch per scaled surface on the separate-scaler path -/

theorem binds_merge {L₀ L₁ L₂ : List Nat} {P Q : Prop}
    (h₁ : ∃ c n, L₁ = L₀ ++ List.replicate n c ∧ (n ≠ 0 → P))
    (h₂ : ∃ c n, L₂ = L₁ ++ List.replicate n c ∧ (n ≠ 0 → Q))
    (hPQ : P → Q → False) :
    ∃ c n, L₂ = L₀ ++ List.replicate n c ∧ (n ≠ 0 → P ∨ Q) := by
  obtain ⟨c₁, n₁, e₁, p₁⟩ := h₁
  obtain ⟨c₂, n₂, e₂, p₂⟩ := h₂
  by_cases hn : n₁ = 0
  · subst hn
    refine ⟨c₂, n₂, ?_, fun h => Or.inr (p₂ h)⟩
    rw [e₂, e₁]
    simp
  · have hn2 : n₂ = 0 := by
      by_contra h
      exact hPQ (p₁ hn) (p₂ h)
    subst hn2
    refine ⟨c₁, n₁, ?_, fun h => Or.inl (p₁ h)⟩
    rw [e₂, e₁]
    simp

theorem binds_none (L : List Nat) (P : Prop) :
    ∃ c n, L = L ++ List.replicate n c ∧ (n ≠ 0 → P) :=
  ⟨0, 0, by simp, fun h => absurd rfl h⟩

/-- The conversion stage of `KernelFunctions` on the separate-scaler path. -/
theorem KernelFunctions_csc_binds (K : CodecConsts) (p : KernelParams) (s : CodechalEncodeCscDs)
    (X : SurfacePtr) (hX : X.isScaled = true) (b : Bool) :
    (if b then CscKernel K (some p) s else (MOS_STATUS_SUCCESS, s)).2.cfg = s.cfg ∧
    ∃ c n, outputBinds X (if b then CscKernel K (some p) s else (MOS_STATUS_SUCCESS, s)).2.drv.trace
        = outputBinds X s.drv.trace ++ List.replicate n c ∧
      (n ≠ 0 → X = SurfacePtr.scaled4x s.cfg.m_currScalingIdx ∧
        ((if b then CscKernel K (some p) s else (MOS_STATUS_SUCCESS, s)).1 = MOS_STATUS_SUCCESS →
          ((if b then CscKernel K (some p) s else (MOS_STATUS_SUCCESS, s)).2.cfg.m_scalingEnabled &&
            !(if b then CscKernel K (some p) s
              else (MOS_STATUS_SUCCESS, s)).2.m_currRefList.b4xScalingUsed) = false)) := by
  cases b
  · exact ⟨rfl, binds_none _ _⟩
  · obtain ⟨h1, ⟨c, n, h2, h3⟩, -, h4⟩ := CscKernel_outcome K p s X
    refine ⟨h1, c, n, h2, fun hn => ⟨(h3 hn hX).1, fun hs => ?_⟩⟩
    simp only [if_true] at hs ⊢
    rw [(h4 hs).1, h1, (h3 hn hX).2]
    rfl

theorem KernelFunctions_4x_binds (K : CodecConsts) (p : KernelParams) (s : CodechalEncodeCscDs)
    (X : SurfacePtr) (hX : X.isScaled = true) (hp : p.b32xScalingInUse = false) :
    (KernelFunctions_4x K p s).2.2.cfg = s.cfg ∧
    (KernelFunctions_4x K p s).2.1.b32xScalingInUse = false ∧
    ∃ c n, outputBinds X (KernelFunctions_4x K p s).2.2.drv.trace
        = outputBinds X s.drv.trace ++ List.replicate n c ∧
      (n ≠ 0 → X = SurfacePtr.scaled4x s.cfg.m_currScalingIdx ∧
        (s.cfg.m_scalingEnabled && !s.m_currRefList.b4xScalingUsed) = true) := by
  unfold KernelFunctions_4x
  by_cases h : (s.cfg.m_scalingEnabled && !s.m_currRefList.b4xScalingUsed) = true
  · rw [if_pos h]
    obtain ⟨h1, ⟨c, n, h2, h3⟩, -⟩ :=
      DsKernel_outcome K { p with b32xScalingInUse := false, b16xScalingInUse := false } s X
    exact ⟨h1, rfl, c, n, h2, fun hn => ⟨h3 hn hX, h⟩⟩
  · rw [if_neg h]
    exact ⟨rfl, hp, binds_none _ _⟩

theorem KernelFunctions_16x_binds (K : CodecConsts) (p : KernelParams) (s : CodechalEncodeCscDs)
    (X : SurfacePtr) (hX : X.isScaled = true) (hp : p.b32xScalingInUse = false) :
    (KernelFunctions_16x K false p s).2.2.cfg = s.cfg ∧
    ∃ c n, outputBinds X (KernelFunctions_16x K false p s).2.2.drv.trace
        = outputBinds X s.drv.trace ++ List.replicate n c ∧
      (n ≠ 0 → X = SurfacePtr.scaled16x s.cfg.m_currScalingIdx) := by
  obtain ⟨h1, ⟨c, n, h2, h3⟩, -⟩ := DsKernel_outcome K { p with b16xScalingInUse := true } s X
  refine ⟨h1, c, n, h2, fun hn => ?_⟩
  have := h3 hn hX
  simpa [dsOutputSurface, hp] using this

theorem KernelFunctions_32x_binds (K : CodecConsts) (p : KernelParams) (s : CodechalEncodeCscDs)
    (X : SurfacePtr) (hX : X.isScaled = true) :
    (KernelFunctions_32x K false p s).2.2.cfg = s.cfg ∧
    ∃ c n, outputBinds X (KernelFunctions_32x K false p s).2.2.drv.trace
        = outputBinds X s.drv.trace ++ List.replicate n c ∧
      (n ≠ 0 → X = SurfacePtr.scaled32x s.cfg.m_currScalingIdx) := by
  obtain ⟨h1, ⟨c, n, h2, h3⟩, -⟩ :=
    DsKernel_outcome K { p with b32xScalingInUse := true, b16xScalingInUse := false } s X
  refine ⟨h1, c, n, h2, fun hn => ?_⟩
  have := h3 hn hX
  simpa [dsOutputSurface] using this

theorem KernelFunctions_sep_binds (K : CodecConsts) (p : KernelParams) (s : CodechalEncodeCscDs)
    (X : SurfacePtr)
    (hsep : (s.cfg.m_useCommonKernel &&
      !(decide (CODECHAL_AVC = s.cfg.m_standard) || decide (CODECHAL_MPEG2 = s.cfg.m_standard)))
      = false)
    (hp : p.b32xScalingInUse = false) (hX : X.isScaled = true) :
    ∃ c n, outputBinds X (KernelFunctions K (some p) s).2.2.drv.trace
      = outputBinds X s.drv.trace ++ List.replicate n c := by
  have weaken : ∀ {L₀ L₁ : List Nat} {P : Prop},
      (∃ c n, L₁ = L₀ ++ List.replicate n c ∧ (n ≠ 0 → P)) →
      ∃ c n, L₁ = L₀ ++ List.replicate n c := fun ⟨c, n, h, _⟩ => ⟨c, n, h⟩
  simp only [KernelFunctions, hsep, Bool.or_false]
  -- call Ds+Copy
  obtain ⟨c1, b1⟩ := KernelFunctions_csc_binds K p s X hX s.m_cscFlag
  generalize (if s.m_cscFlag = true then CscKernel K (some p) s else (MOS_STATUS_SUCCESS, s))
    = r1 at c1 b1 ⊢
  by_cases h1 : r1.1 = MOS_STATUS_SUCCESS
  swap
  · rw [if_pos h1]
    exact weaken b1
  rw [if_neg (not_not.mpr h1)]
  -- call 4x DS
  obtain ⟨c2, p2, b2⟩ := KernelFunctions_4x_binds K p r1.2 X hX hp
  have b12 := binds_merge b1 b2 (fun hP hQ => by
    have := hP.2 h1
    rw [this] at hQ
    exact Bool.false_ne_true hQ.2)
  have b12' : ∃ c n, outputBinds X (KernelFunctions_4x K p r1.2).2.2.drv.trace
      = outputBinds X s.drv.trace ++ List.replicate n c ∧
      (n ≠ 0 → X = SurfacePtr.scaled4x s.cfg.m_currScalingIdx) := by
    obtain ⟨c, n, e, h⟩ := b12
    refine ⟨c, n, e, fun hn => ?_⟩
    rcases h hn with h | h
    · exact h.1
    · rw [← c1]; exact h.1
  clear b12 b2 b1
  have c12 := c2.trans c1
  generalize KernelFunctions_4x K p r1.2 = r2 at c2 p2 b12' c12 ⊢
  by_cases h2 : r2.1 = MOS_STATUS_SUCCESS
  swap
  · rw [if_pos h2]
    exact weaken b12'
  rw [if_neg (not_not.mpr h2)]
  -- call 16x/32x DS
  by_cases h16 : (r2.2.2.cfg.m_scalingEnabled && r2.2.2.cfg.m_16xMeSupported) = true
  swap
  · rw [if_neg h16]
    exact weaken b12'
  rw [if_pos h16]
  obtain ⟨c3, b3⟩ := KernelFunctions_16x_binds K r2.2.1 r2.2.2 X hX p2
  rw [c12] at b3
  have b123 := binds_merge b12' b3 (fun hP hQ => by
    rw [hP] at hQ
    cases hQ)
  have c123 := c3.trans c12
  clear b3 b12'
  generalize KernelFunctions_16x K false r2.2.1 r2.2.2 = r3 at c3 b123 c123 ⊢
  by_cases h3 : r3.1 = MOS_STATUS_SUCCESS
  swap
  · rw [if_pos h3]
    exact weaken b123
  rw [if_neg (not_not.mpr h3)]
  by_cases h32 : r3.2.2.cfg.m_32xMeSupported = true
  swap
  · rw [if_neg h32]
    exact weaken b123
  rw [if_pos h32]
  obtain ⟨c4, b4⟩ := KernelFunctions_32x_binds K r3.2.1 r3.2.2 X hX
  rw [c123] at b4
  exact weaken (binds_merge b123 b4 (fun hP hQ => by
    rcases hP with hP | hP
    · rw [hP] at hQ
      cases hQ
    · rw [hP] at hQ
      cases hQ))



/-- At most one dispatch per scaled surface where the code keeps it: on the
separate-scaler path, for a call entered with `b32xScalingInUse` clear, the
writable bindings that one `KernelFunctions`
call adds for any 4x, 16x or 32x scaled surface all go into one command
buffer, that is, come from at most one dispatch; and on every path, once
`CscKernel` has succeeded with scaling enabled, the guard of the 4x stage is
false and the stage does nothing (no standalone 4x `DsKernel`). -/
theorem KernelFunctions_at_most_once (K : CodecConsts) :
    (∀ (p : KernelParams) (s : CodechalEncodeCscDs) (X : SurfacePtr),
      (s.cfg.m_useCommonKernel &&
        !(decide (CODECHAL_AVC = s.cfg.m_standard) || decide (CODECHAL_MPEG2 = s.cfg.m_standard)))
        = false →
      p.b32xScalingInUse = false →
      X.isScaled = true →
      ∃ c n, outputBinds X (KernelFunctions K (some p) s).2.2.drv.trace
        = outputBinds X s.drv.trace ++ List.replicate n c) ∧
    (∀ (p : KernelParams) (s : CodechalEncodeCscDs),
      s.cfg.m_scalingEnabled = true →
      (CscKernel K (some p) s).1 = MOS_STATUS_SUCCESS →
      ((CscKernel K (some p) s).2.cfg.m_scalingEnabled &&
        !(CscKernel K (some p) s).2.m_currRefList.b4xScalingUsed) = false ∧
      KernelFunctions_4x K p (CscKernel K (some p) s).2
        = (MOS_STATUS_SUCCESS, p, (CscKernel K (some p) s).2)) := by
  refine ⟨fun p s X hsep hp hX => KernelFunctions_sep_binds K p s X hsep hp hX, ?_⟩
  intro p s hsc hok
  obtain ⟨h1, -, -, h4⟩ := CscKernel_outcome K p s SurfacePtr.nullPtr
  have hg : ((CscKernel K (some p) s).2.cfg.m_scalingEnabled &&
      !(CscKernel K (some p) s).2.m_currRefList.b4xScalingUsed) = false := by
    rw [(h4 hok).1, h1, hsc]
    rfl
  refine ⟨hg, ?_⟩
  unfold KernelFunctions_4x
  rw [if_neg (by rw [hg]; exact Bool.false_ne_true)]

/-- An instance of the previous theorem: colour conversion required on the
separate-scaler path with clean caller flags; the 4x surface of slot 0 is
bound by one dispatch only. -/
theorem KernelFunctions_at_most_once_witness :
    (∃ c n, outputBinds (SurfacePtr.scaled4x 0)
        (KernelFunctions exampleConsts (some zeroParams)
          { freshState exampleSettings with m_cscRequireColor := true }).2.2.drv.trace
      = outputBinds (SurfacePtr.scaled4x 0)
          ({ freshState exampleSettings with m_cscRequireColor := true }
            : CodechalEncodeCscDs).drv.trace ++ List.replicate n c) ∧
    (((CscKernel exampleConsts (some zeroParams)
        { freshState exampleSettings with m_cscRequireColor := true }).2.cfg.m_scalingEnabled &&
      !(CscKernel exampleConsts (some zeroParams)
        { freshState exampleSettings with m_cscRequireColor := true }
        ).2.m_currRefList.b4xScalingUsed) = false ∧
     KernelFunctions_4x exampleConsts zeroParams
        (CscKernel exampleConsts (some zeroParams)
          { freshState exampleSettings with m_cscRequireColor := true }).2
      = (MOS_STATUS_SUCCESS, zeroParams,
          (CscKernel exampleConsts (some zeroParams)
            { freshState exampleSettings with m_cscRequireColor := true }).2)) :=
  ⟨(KernelFunctions_at_most_once exampleConsts).1 zeroParams
      { freshState exampleSettings with m_cscRequireColor := true } (SurfacePtr.scaled4x 0)
      (by decide) rfl rfl,
   (KernelFunctions_at_most_once exampleConsts).2 zeroParams
      { freshState exampleSettings with m_cscRequireColor := true } rfl (by decide)⟩

/-! ### Claims on the walker size -/

theorem MOS_ROUNDUP_SHIFT_eq_ceil (x n : Nat) :
    MOS_ROUNDUP_SHIFT x n = ⌈(x : ℚ) / 2 ^ n⌉₊ := by
  unfold MOS_ROUNDUP_SHIFT
  have hd : 0 < 2 ^ n := Nat.pow_pos (by norm_num)
  have hdq : (0 : ℚ) < ((2 ^ n : ℕ) : ℚ) := by exact_mod_cast hd
  have hcast : ((2 : ℚ) ^ n) = ((2 ^ n : ℕ) : ℚ) := by push_cast; rfl
  rw [hcast]
  generalize 2 ^ n = d at hd hdq
  apply le_antisymm
  · have h1 : (x : ℚ) / d ≤ ⌈(x : ℚ) / d⌉₊ := Nat.le_ceil _
    have h2 : (x : ℚ) ≤ ⌈(x : ℚ) / d⌉₊ * d := by
      rwa [div_le_iff₀ hdq] at h1
    have h3 : x ≤ ⌈(x : ℚ) / d⌉₊ * d := by exact_mod_cast h2
    have h4 : x + d - 1 < (⌈(x : ℚ) / d⌉₊ + 1) * d := by
      rw [Nat.add_mul, Nat.one_mul]
      omega
    exact Nat.lt_succ_iff.mp ((Nat.div_lt_iff_lt_mul hd).mpr h4)
  · rw [Nat.ceil_le, div_le_iff₀ hdq]
    have h1 : x ≤ (x + d - 1) / d * d := by
      have := Nat.div_add_mod (x + d - 1) d
      have hm := Nat.mod_lt (x + d - 1) hd
      have : (x + d - 1) / d * d = d * ((x + d - 1) / d) := Nat.mul_comm _ _
      omega
    exact_mod_cast h1

theorem rasterWalker_LocalEnd (cfg : Settings) (X Y : Nat) :
    ((rasterWalker cfg X Y).LocalEnd_x : ℤ) = ((X : ℤ) - 1) % 2 ^ 32 := by
  show ((u32 (X + (2 ^ 32 - 1)) : ℕ) : ℤ) = _
  unfold u32
  omega

theorem roundUpEven_eq (x : Nat) (hx : x + 1 < 2 ^ 32) : roundUpEven x = x + x % 2 := by
  unfold roundUpEven u32
  omega

/-- Counterexample to C9 (scenario S2): a YUY2 raw frame of 1280x720 with tile
`(4, 2)`, 4x downscaled size 320x192.  `CscKernel` succeeds and emits one
walker of resolution 20 x 48, sized from the downscaled frame, whereas
`ceil(1280 / 2^4) = 80`. -/
theorem CscKernel_walker_not_from_raw_size :
    (CheckRawColorFormat Format_YUY2 (freshState yuy2Settings)).2.m_cscRawSurfWidth = 1280 ∧
    (CheckRawColorFormat Format_YUY2 (freshState yuy2Settings)).2.m_cscRawSurfHeight = 720 ∧
    (CheckRawColorFormat Format_YUY2 (freshState yuy2Settings)).2.m_threadTraverseSizeX = 4 ∧
    (CheckRawColorFormat Format_YUY2 (freshState yuy2Settings)).2.m_threadTraverseSizeY = 2 ∧
    (CscKernel exampleConsts (some zeroParams)
      (CheckRawColorFormat Format_YUY2 (freshState yuy2Settings)).2).1 = MOS_STATUS_SUCCESS ∧
    (walkersOf (CscKernel exampleConsts (some zeroParams)
      (CheckRawColorFormat Format_YUY2 (freshState yuy2Settings)).2).2.drv.trace).map
        (fun w => (w.GlobalResolution_x, w.GlobalResolution_y)) = [(20, 48)] ∧
    (20 : ℕ) ≠ ⌈((1280 : ℕ) : ℚ) / 2 ^ 4⌉₊ := by
  refine ⟨by decide, by decide, by decide, by decide, by decide, by decide, ?_⟩
  rw [← MOS_ROUNDUP_SHIFT_eq_ceil]
  decide

/-- C9 as amended: the walker of `CscKernel` is sized from the 4x downscaled
frame.  Every walker command that a call adds is the one of resolution
`ceil(downscaledWidth4x / 2^tX)` by `ceil(downscaledHeight4x / 2^tY)`, with
block resolution equal to it and `LocalEnd.x = X - 1` in 32-bit arithmetic;
a successful call adds exactly one. -/
theorem CscKernel_walker_size (K : CodecConsts) (p : KernelParams) (s : CodechalEncodeCscDs) :
    ∃ ws w,
      walkersOf (CscKernel K (some p) s).2.drv.trace = walkersOf s.drv.trace ++ ws ∧
      (ws = [] ∨ ws = [w]) ∧
      ((CscKernel K (some p) s).1 = MOS_STATUS_SUCCESS → ws = [w]) ∧
      w.GlobalResolution_x = ⌈(s.cfg.m_downscaledWidth4x : ℚ) / 2 ^ s.m_threadTraverseSizeX⌉₊ ∧
      w.GlobalResolution_y = ⌈(s.cfg.m_downscaledHeight4x : ℚ) / 2 ^ s.m_threadTraverseSizeY⌉₊ ∧
      w.BlockResolution_x = w.GlobalResolution_x ∧
      w.BlockResolution_y = w.GlobalResolution_y ∧
      (w.LocalEnd_x : ℤ) = ((w.GlobalResolution_x : ℤ) - 1) % 2 ^ 32 := by
  obtain ⟨-, -, ⟨ws, h1, h2, h3⟩, -⟩ := CscKernel_outcome K p s SurfacePtr.nullPtr
  refine ⟨ws, cscWalker s, h1, h2, h3, ?_, ?_, rfl, rfl, ?_⟩
  · exact MOS_ROUNDUP_SHIFT_eq_ceil _ _
  · exact MOS_ROUNDUP_SHIFT_eq_ceil _ _
  · exact rasterWalker_LocalEnd _ _ _

/-- Witness for C9 as amended: scenario S2, where the call succeeds. -/
theorem CscKernel_walker_size_witness :
    (CscKernel exampleConsts (some zeroParams)
      (CheckRawColorFormat Format_YUY2 (freshState yuy2Settings)).2).1 = MOS_STATUS_SUCCESS ∧
    ∃ ws w,
      walkersOf (CscKernel exampleConsts (some zeroParams)
        (CheckRawColorFormat Format_YUY2 (freshState yuy2Settings)).2).2.drv.trace
        = walkersOf (CheckRawColorFormat Format_YUY2 (freshState yuy2Settings)).2.drv.trace ++ ws ∧
      (ws = [] ∨ ws = [w]) ∧
      ((CscKernel exampleConsts (some zeroParams)
        (CheckRawColorFormat Format_YUY2 (freshState yuy2Settings)).2).1 = MOS_STATUS_SUCCESS →
        ws = [w]) ∧
      w.GlobalResolution_x
        = ⌈((CheckRawColorFormat Format_YUY2 (freshState yuy2Settings)).2.cfg.m_downscaledWidth4x : ℚ)
            / 2 ^ (CheckRawColorFormat Format_YUY2 (freshState yuy2Settings)).2.m_threadTraverseSizeX⌉₊ ∧
      w.GlobalResolution_y
        = ⌈((CheckRawColorFormat Format_YUY2 (freshState yuy2Settings)).2.cfg.m_downscaledHeight4x : ℚ)
            / 2 ^ (CheckRawColorFormat Format_YUY2 (freshState yuy2Settings)).2.m_threadTraverseSizeY⌉₊ ∧
      w.BlockResolution_x = w.GlobalResolution_x ∧
      w.BlockResolution_y = w.GlobalResolution_y ∧
      (w.LocalEnd_x : ℤ) = ((w.GlobalResolution_x : ℤ) - 1) % 2 ^ 32 :=
  ⟨by decide,
   CscKernel_walker_size exampleConsts zeroParams
    (CheckRawColorFormat Format_YUY2 (freshState yuy2Settings)).2⟩

/-- C10: the walker of `DsKernel`.  With the downscaled sizes in `uint32_t`
range, every walker command that a call adds has, at the 4x stage, resolution
`(downscaledWidth4x / 16) * 2` by `hMb * 2` and, at the 32x stage,
`downscaledWidth32x / 16` by `hMb`, where `hMb` is the downscaled height
divided by 16, rounded up to the next even number for a field picture; the
Y resolution of a field picture is even; `LocalEnd.x = X - 1` in 32-bit
arithmetic; and a successful call for the first field adds exactly one. -/
theorem DsKernel_walker_size (K : CodecConsts) (p : KernelParams) (s : CodechalEncodeCscDs)
    (hh4 : s.cfg.m_downscaledHeight4x < 2 ^ 32)
    (hh16 : s.cfg.m_downscaledHeight16x < 2 ^ 32)
    (hh32 : s.cfg.m_downscaledHeight32x < 2 ^ 32)
    (hw4 : s.cfg.m_downscaledWidth4x < 2 ^ 32) :
    ∃ ws w,
      walkersOf (DsKernel K (some p) s).2.drv.trace = walkersOf s.drv.trace ++ ws ∧
      (ws = [] ∨ ws = [w]) ∧
      ((DsKernel K (some p) s).1 = MOS_STATUS_SUCCESS → s.cfg.m_firstField = true → ws = [w]) ∧
      (p.b32xScalingInUse = false → p.b16xScalingInUse = false →
        w.GlobalResolution_x = s.cfg.m_downscaledWidth4x / 16 * 2 ∧
        w.GlobalResolution_y =
          (if s.cfg.currOriginalPicIsField
            then s.cfg.m_downscaledHeight4x / 16 + s.cfg.m_downscaledHeight4x / 16 % 2
            else s.cfg.m_downscaledHeight4x / 16) * 2) ∧
      (p.b32xScalingInUse = true →
        w.GlobalResolution_x = s.cfg.m_downscaledWidth32x / 16 ∧
        w.GlobalResolution_y =
          (if s.cfg.currOriginalPicIsField
            then s.cfg.m_downscaledHeight32x / 16 + s.cfg.m_downscaledHeight32x / 16 % 2
            else s.cfg.m_downscaledHeight32x / 16)) ∧
      (s.cfg.currOriginalPicIsField = true → 2 ∣ w.GlobalResolution_y) ∧
      w.BlockResolution_x = w.GlobalResolution_x ∧
      w.BlockResolution_y = w.GlobalResolution_y ∧
      (w.LocalEnd_x : ℤ) = ((w.GlobalResolution_x : ℤ) - 1) % 2 ^ 32 := by
  obtain ⟨-, -, ws, h1, h2, h3⟩ := DsKernel_outcome K p s SurfacePtr.nullPtr
  refine ⟨ws, dsWalker p s.cfg, h1, h2, h3, ?_, ?_, ?_, rfl, rfl, rasterWalker_LocalEnd _ _ _⟩
  · intro h32 h16
    show dsResolutionX p s.cfg = _ ∧ dsResolutionY p s.cfg = _
    unfold dsResolutionX dsResolutionY dsWidthInMb dsHeightInMb heightInMb
    simp only [h32, h16, Bool.false_eq_true, if_false]
    have e16 : CODECHAL_MACROBLOCK_WIDTH = 16 := rfl
    have e16h : CODECHAL_MACROBLOCK_HEIGHT = 16 := rfl
    rw [e16, e16h]
    by_cases hf : s.cfg.currOriginalPicIsField = true
    · rw [if_pos hf, if_pos hf, roundUpEven_eq _ (by omega)]
      refine ⟨by unfold u32; omega, ?_⟩
      split_ifs <;> first | (unfold MOS_ALIGN_CEIL u32; omega) | (unfold u32; omega)
    · rw [if_neg hf, if_neg hf, if_neg (fun h => hf h.1)]
      refine ⟨by unfold u32; omega, by unfold u32; omega⟩
  · intro h32
    show dsResolutionX p s.cfg = _ ∧ dsResolutionY p s.cfg = _
    unfold dsResolutionX dsResolutionY dsWidthInMb dsHeightInMb heightInMb
    simp only [h32, if_true]
    have e16 : CODECHAL_MACROBLOCK_WIDTH = 16 := rfl
    have e16h : CODECHAL_MACROBLOCK_HEIGHT = 16 := rfl
    rw [e16, e16h]
    refine ⟨rfl, ?_⟩
    by_cases hf : s.cfg.currOriginalPicIsField = true
    · rw [if_pos hf, if_pos hf, roundUpEven_eq _ (by omega)]
    · rw [if_neg hf, if_neg hf]
  · intro hf
    show 2 ∣ dsResolutionY p s.cfg
    unfold dsResolutionY dsHeightInMb heightInMb
    have e16h : CODECHAL_MACROBLOCK_HEIGHT = 16 := rfl
    rw [e16h, if_pos hf, if_pos hf, if_pos hf,
      roundUpEven_eq _ (by omega), roundUpEven_eq _ (by omega), roundUpEven_eq _ (by omega)]
    split_ifs <;> first | (unfold MOS_ALIGN_CEIL u32; omega) | (unfold u32; omega) | omega

/-- Witness for C10: 4x dimensions 480x272, frame picture; the scaler walker
is 60 x 34. -/
theorem DsKernel_walker_size_witness :
    ((DsKernel exampleConsts (some zeroParams) (freshState exampleSettings)).1 = MOS_STATUS_SUCCESS ∧
     (freshState exampleSettings).cfg.m_downscaledWidth4x = 480 ∧
     (freshState exampleSettings).cfg.m_downscaledHeight4x = 272 ∧
     (freshState exampleSettings).cfg.currOriginalPicIsField = false ∧
     (walkersOf (DsKernel exampleConsts (some zeroParams)
        (freshState exampleSettings)).2.drv.trace).map
       (fun w => (w.GlobalResolution_x, w.GlobalResolution_y, w.LocalEnd_x)) = [(60, 34, 59)]) ∧
    ∃ ws w,
      walkersOf (DsKernel exampleConsts (some zeroParams) (freshState exampleSettings)).2.drv.trace
        = walkersOf (freshState exampleSettings).drv.trace ++ ws ∧
      (ws = [] ∨ ws = [w]) ∧
      ((DsKernel exampleConsts (some zeroParams) (freshState exampleSettings)).1
          = MOS_STATUS_SUCCESS →
        (freshState exampleSettings).cfg.m_firstField = true → ws = [w]) ∧
      (zeroParams.b32xScalingInUse = false → zeroParams.b16xScalingInUse = false →
        w.GlobalResolution_x = (freshState exampleSettings).cfg.m_downscaledWidth4x / 16 * 2 ∧
        w.GlobalResolution_y =
          (if (freshState exampleSettings).cfg.currOriginalPicIsField
            then (freshState exampleSettings).cfg.m_downscaledHeight4x / 16
              + (freshState exampleSettings).cfg.m_downscaledHeight4x / 16 % 2
            else (freshState exampleSettings).cfg.m_downscaledHeight4x / 16) * 2) ∧
      (zeroParams.b32xScalingInUse = true →
        w.GlobalResolution_x = (freshState exampleSettings).cfg.m_downscaledWidth32x / 16 ∧
        w.GlobalResolution_y =
          (if (freshState exampleSettings).cfg.currOriginalPicIsField
            then (freshState exampleSettings).cfg.m_downscaledHeight32x / 16
              + (freshState exampleSettings).cfg.m_downscaledHeight32x / 16 % 2
            else (freshState exampleSettings).cfg.m_downscaledHeight32x / 16)) ∧
      ((freshState exampleSettings).cfg.currOriginalPicIsField = true → 2 ∣ w.GlobalResolution_y) ∧
      w.BlockResolution_x = w.GlobalResolution_x ∧
      w.BlockResolution_y = w.GlobalResolution_y ∧
      (w.LocalEnd_x : ℤ) = ((w.GlobalResolution_x : ℤ) - 1) % 2 ^ 32 :=
  ⟨by decide,
   DsKernel_walker_size exampleConsts zeroParams (freshState exampleSettings)
    (by decide) (by decide) (by decide) (by decide)⟩

/-! ### Release of converted surfaces -/

theorem tracked_updTracked (i j : Nat) (f : CODEC_TRACKED_BUFFER → CODEC_TRACKED_BUFFER)
    (hf : f CODEC_TRACKED_BUFFER.null = CODEC_TRACKED_BUFFER.null) (s : CodechalEncodeCscDs) :
    (updTracked i f s).tracked j = if i = j then f (s.tracked j) else s.tracked j := by
  unfold tracked updTracked
  simp only [List.getD_eq_getElem?_getD, List.getElem?_modify]
  cases h : s.m_trackedBuffer[j]? with
  | none =>
    simp only [Option.map_eq_map, Option.map_none', Option.getD_none, hf, ite_self]
  | some b =>
    simp only [Option.map_eq_map, Option.map_some', Option.getD_some]

theorem ReleaseSurfaceCsc_tracked (i j : Nat) (s : CodechalEncodeCscDs) :
    (ReleaseSurfaceCsc i s).tracked j = if i = j then releasedSlot (s.tracked j) else s.tracked j := by
  have h := tracked_updTracked i j
    (fun t => { t with sCopiedSurface := { t.sCopiedSurface with OsResource := none } }) rfl s
  exact h

theorem ReleaseSurfaceCsc_eq (i : Nat) (s : CodechalEncodeCscDs) :
    ReleaseSurfaceCsc i s =
      { s with
        drv := { s.drv with
          trace := s.drv.trace ++ [Event.pfnFreeResource (SurfacePtr.copied i)] },
        m_trackedBuffer := (ReleaseSurfaceCsc i s).m_trackedBuffer } := rfl

/-- What the loop of `Resize()` does from counter value `i`, when the fuel
covers the remaining passes. -/
theorem Resize_loop_spec (K : CodecConsts) (hN : K.CODEC_NUM_TRACKED_BUFFERS ≤ 255) :
    ∀ (fuel i : Nat) (s : CodechalEncodeCscDs),
      i ≤ K.CODEC_NUM_TRACKED_BUFFERS → K.CODEC_NUM_TRACKED_BUFFERS - i < fuel →
      Resize_loop K fuel i s =
        { s with
          drv := { s.drv with trace := (Resize_loop K fuel i s).drv.trace },
          m_trackedBuffer := (Resize_loop K fuel i s).m_trackedBuffer } ∧
      (Resize_loop K fuel i s).drv.trace =
        s.drv.trace ++
          ((List.range' i (K.CODEC_NUM_TRACKED_BUFFERS - i)).filter
            (fun j => !isHistorical s j)).map (fun j => Event.pfnFreeResource (SurfacePtr.copied j)) ∧
      ∀ j, (Resize_loop K fuel i s).tracked j =
        if i ≤ j ∧ j < K.CODEC_NUM_TRACKED_BUFFERS ∧ isHistorical s j = false
          then releasedSlot (s.tracked j) else s.tracked j := by
  intro fuel
  induction fuel with
  | zero => intro i s _ h; omega
  | succ fuel ih =>
    intro i s hi hf
    by_cases hlt : i < K.CODEC_NUM_TRACKED_BUFFERS
    · have hu : u8 (i + 1) = i + 1 := by unfold u8; omega
      have hstep : Resize_loop K (fuel + 1) i s =
          Resize_loop K fuel (i + 1)
            (if s.m_cscBufAnteIdx ≠ i ∧ s.m_cscBufPenuIdx ≠ i ∧ s.m_cscBufLastIdx ≠ i then
              ReleaseSurfaceCsc i s else s) := by
        rw [Resize_loop, if_pos hlt, hu]
      have hsplit : List.range' i (K.CODEC_NUM_TRACKED_BUFFERS - i) =
          i :: List.range' (i + 1) (K.CODEC_NUM_TRACKED_BUFFERS - (i + 1)) := by
        have : K.CODEC_NUM_TRACKED_BUFFERS - i = (K.CODEC_NUM_TRACKED_BUFFERS - (i + 1)) + 1 := by
          omega
        rw [this, List.range'_succ]
      rw [hstep, hsplit]
      by_cases hc : s.m_cscBufAnteIdx ≠ i ∧ s.m_cscBufPenuIdx ≠ i ∧ s.m_cscBufLastIdx ≠ i
      · have hh : isHistorical s i = false := by
          unfold isHistorical
          simp [hc.1, hc.2.1, hc.2.2]
        rw [if_pos hc]
        obtain ⟨e1, e2, e3⟩ := ih (i + 1) (ReleaseSurfaceCsc i s) (by omega) (by omega)
        have hist : ∀ j, isHistorical (ReleaseSurfaceCsc i s) j = isHistorical s j := fun _ => rfl
        refine ⟨?_, ?_, ?_⟩
        · rw [e1]
          rfl
        · rw [e2]
          simp only [hist, List.filter_cons, hh, Bool.not_false, if_true, List.map_cons]
          show s.drv.trace ++ [Event.pfnFreeResource (SurfacePtr.copied i)] ++ _ = _
          simp
        · intro j
          rw [e3 j, hist, ReleaseSurfaceCsc_tracked]
          by_cases hij : i = j
          · subst hij
            simp [hh, hlt]
          · simp only [if_neg hij]
            have : (i + 1 ≤ j ∧ j < K.CODEC_NUM_TRACKED_BUFFERS ∧ isHistorical s j = false) ↔
                (i ≤ j ∧ j < K.CODEC_NUM_TRACKED_BUFFERS ∧ isHistorical s j = false) := by
              constructor
              · rintro ⟨a, b, c⟩; exact ⟨by omega, b, c⟩
              · rintro ⟨a, b, c⟩; exact ⟨by omega, b, c⟩
            simp only [this]
      · have hh : isHistorical s i = true := by
          unfold isHistorical
          by_contra hne
          apply hc
          simp only [Bool.or_eq_true, decide_eq_true_eq, not_or] at hne
          exact ⟨hne.1.1, hne.1.2, hne.2⟩
        rw [if_neg hc]
        obtain ⟨e1, e2, e3⟩ := ih (i + 1) s (by omega) (by omega)
        refine ⟨e1, ?_, ?_⟩
        · rw [e2]
          simp only [List.filter_cons, hh, Bool.not_true, Bool.false_eq_true, if_false]
        · intro j
          rw [e3 j]
          by_cases hij : i = j
          · subst hij
            simp [hh]
          · have : (i + 1 ≤ j ∧ j < K.CODEC_NUM_TRACKED_BUFFERS ∧ isHistorical s j = false) ↔
                (i ≤ j ∧ j < K.CODEC_NUM_TRACKED_BUFFERS ∧ isHistorical s j = false) := by
              constructor
              · rintro ⟨a, b, c⟩; exact ⟨by omega, b, c⟩
              · rintro ⟨a, b, c⟩; exact ⟨by omega, b, c⟩
            simp only [this]
    · have hiN : i = K.CODEC_NUM_TRACKED_BUFFERS := by omega
      have hstep : Resize_loop K (fuel + 1) i s = s := by
        rw [Resize_loop, if_neg hlt]
      rw [hstep]
      refine ⟨rfl, ?_, ?_⟩
      · simp [hiN]
      · intro j
        rw [if_neg]
        omega

theorem releasesOf_append (i : Nat) (t u : List Event) :
    releasesOf i (t ++ u) = releasesOf i t + releasesOf i u := by
  unfold releasesOf
  exact List.count_append _ _ _

theorem releasesOf_map_free (i : Nat) (l : List Nat) (hl : l.Nodup) :
    releasesOf i (l.map fun j => Event.pfnFreeResource (SurfacePtr.copied j))
      = if i ∈ l then 1 else 0 := by
  unfold releasesOf
  have hinj : Function.Injective fun j : Nat => Event.pfnFreeResource (SurfacePtr.copied j) := by
    intro a b h
    injection h with h
    injection h
  rw [List.count_map_of_injective l _ hinj i]
  exact List.count_eq_of_nodup hl

/-- The resize step of `LookUpBufSlot`: the countdown, the trace and the
slots after one call. -/
theorem LookUpBufSlot_release (K : CodecConsts) (s : CodechalEncodeCscDs) :
    (LookUpBufSlot K s).2.m_cscBufCountResize = s.m_cscBufCountResize - 1 ∧
    (LookUpBufSlot K s).2.drv.trace =
      s.drv.trace ++
        (if s.m_cscBufCountResize ≠ 0 ∧ s.m_cscBufAnteIdx ≠ s.m_cscBufPenuIdx ∧
            s.m_cscBufAnteIdx ≠ s.m_cscBufLastIdx
          then [Event.pfnFreeResource (SurfacePtr.copied s.m_cscBufAnteIdx)] else []) ∧
    ∀ j, (LookUpBufSlot K s).2.tracked j =
      if (s.m_cscBufCountResize ≠ 0 ∧ s.m_cscBufAnteIdx ≠ s.m_cscBufPenuIdx ∧
            s.m_cscBufAnteIdx ≠ s.m_cscBufLastIdx) ∧ s.m_cscBufAnteIdx = j
        then releasedSlot (s.tracked j) else s.tracked j := by
  by_cases h0 : s.m_cscBufCountResize ≠ 0
  · by_cases hc : s.m_cscBufAnteIdx ≠ s.m_cscBufPenuIdx ∧ s.m_cscBufAnteIdx ≠ s.m_cscBufLastIdx
    · have hs : ∀ j, (LookUpBufSlot K s).2.tracked j
          = (ReleaseSurfaceCsc s.m_cscBufAnteIdx s).tracked j := by
        intro j
        unfold LookUpBufSlot
        simp only [h0, hc, ne_eq, not_false_eq_true, and_self, if_true]
        split_ifs <;> rfl
      refine ⟨?_, ?_, ?_⟩
      · unfold LookUpBufSlot
        simp only [h0, hc, ne_eq, not_false_eq_true, and_self, if_true]
        split_ifs <;> rfl
      · rw [if_pos ⟨h0, hc⟩]
        unfold LookUpBufSlot
        simp only [h0, hc, ne_eq, not_false_eq_true, and_self, if_true]
        split_ifs <;> rfl
      · intro j
        rw [hs j, ReleaseSurfaceCsc_tracked]
        simp only [h0, hc, ne_eq, not_false_eq_true, and_self, true_and]
    · have hc' : ¬ (s.m_cscBufCountResize ≠ 0 ∧ s.m_cscBufAnteIdx ≠ s.m_cscBufPenuIdx ∧
            s.m_cscBufAnteIdx ≠ s.m_cscBufLastIdx) := fun h => hc h.2
      refine ⟨?_, ?_, ?_⟩
      · unfold LookUpBufSlot
        simp only [h0, hc, ne_eq, not_false_eq_true, if_true, if_false]
        split_ifs <;> rfl
      · rw [if_neg hc', List.append_nil]
        unfold LookUpBufSlot
        simp only [h0, hc, ne_eq, not_false_eq_true, if_true, if_false]
        split_ifs <;> rfl
      · intro j
        rw [if_neg (fun h => hc' h.1)]
        unfold LookUpBufSlot
        simp only [h0, hc, ne_eq, not_false_eq_true, if_true, if_false]
        split_ifs <;> rfl
  · have hc' : ¬ (s.m_cscBufCountResize ≠ 0 ∧ s.m_cscBufAnteIdx ≠ s.m_cscBufPenuIdx ∧
          s.m_cscBufAnteIdx ≠ s.m_cscBufLastIdx) := fun h => h0 h.1
    have hz : s.m_cscBufCountResize = 0 := by
      by_contra h
      exact h0 h
    refine ⟨?_, ?_, ?_⟩
    · unfold LookUpBufSlot
      simp only [h0, if_false]
      split_ifs <;> simp [hz]
    · rw [if_neg hc', List.append_nil]
      unfold LookUpBufSlot
      simp only [h0, if_false]
      split_ifs <;> rfl
    · intro j
      rw [if_neg (fun h => hc' h.1)]
      unfold LookUpBufSlot
      simp only [h0, if_false]
      split_ifs <;> rfl

/-- What `Resize()` does, given that the loop counter can reach
`CODEC_NUM_TRACKED_BUFFERS`. -/
theorem Resize_spec (K : CodecConsts) (hN : K.CODEC_NUM_TRACKED_BUFFERS ≤ 255)
    (s : CodechalEncodeCscDs) :
    Resize K s =
      { s with
        m_cscBufCountResize := K.CODEC_NUM_NON_REF_BUFFERS,
        drv := { s.drv with trace := (Resize K s).drv.trace },
        m_trackedBuffer := (Resize K s).m_trackedBuffer } ∧
    (Resize K s).drv.trace =
      s.drv.trace ++
        ((List.range K.CODEC_NUM_TRACKED_BUFFERS).filter (fun j => !isHistorical s j)).map
          (fun j => Event.pfnFreeResource (SurfacePtr.copied j)) ∧
    ∀ j, (Resize K s).tracked j =
      if j < K.CODEC_NUM_TRACKED_BUFFERS ∧ isHistorical s j = false
        then releasedSlot (s.tracked j) else s.tracked j := by
  obtain ⟨e1, e2, e3⟩ := Resize_loop_spec K hN 256 0
    { s with m_cscBufCountResize := K.CODEC_NUM_NON_REF_BUFFERS } (Nat.zero_le _) (by omega)
  refine ⟨?_, ?_, ?_⟩
  · unfold Resize
    rw [e1]
  · unfold Resize
    rw [e2, List.range_eq_range', Nat.sub_zero]
    rfl
  · intro j
    unfold Resize
    rw [e3 j]
    simp only [Nat.zero_le, true_and]
    rfl

theorem isHistorical_eq_false (s : CodechalEncodeCscDs) (i : Nat) :
    isHistorical s i = false ↔
      s.m_cscBufAnteIdx ≠ i ∧ s.m_cscBufPenuIdx ≠ i ∧ s.m_cscBufLastIdx ≠ i := by
  unfold isHistorical
  simp only [Bool.or_eq_false_iff, decide_eq_false_iff_not, and_assoc]

theorem Resize_releasesOf (K : CodecConsts) (hN : K.CODEC_NUM_TRACKED_BUFFERS ≤ 255)
    (s : CodechalEncodeCscDs) (i : Nat) :
    releasesOf i (Resize K s).drv.trace =
      releasesOf i s.drv.trace +
        (if i < K.CODEC_NUM_TRACKED_BUFFERS ∧ isHistorical s i = false then 1 else 0) := by
  rw [(Resize_spec K hN s).2.1, releasesOf_append,
    releasesOf_map_free i _ ((List.nodup_range _).filter _)]
  simp only [List.mem_filter, List.mem_range, Bool.not_eq_true']

/-- C11: effect of `Resize()`, for `CODEC_NUM_TRACKED_BUFFERS` within reach of
its 8-bit loop counter.  It sets the resize countdown to
`CODEC_NUM_NON_REF_BUFFERS`; it releases the converted surface of exactly the
slots `i < CODEC_NUM_TRACKED_BUFFERS` that differ from all three history
indices, each once, in increasing order; every other slot, the three history
indices, the ring cursor and the outstanding-buffer counter are unchanged.
Nothing is assumed about the history indices, so the call goes through the
same way when they coincide. -/
theorem Resize_effect (K : CodecConsts) (s : CodechalEncodeCscDs)
    (hN : K.CODEC_NUM_TRACKED_BUFFERS ≤ 255) :
    (Resize K s).m_cscBufCountResize = K.CODEC_NUM_NON_REF_BUFFERS ∧
    (Resize K s).drv.trace =
      s.drv.trace ++
        ((List.range K.CODEC_NUM_TRACKED_BUFFERS).filter
          (fun i => decide (s.m_cscBufAnteIdx ≠ i ∧ s.m_cscBufPenuIdx ≠ i ∧
            s.m_cscBufLastIdx ≠ i))).map
          (fun i => Event.pfnFreeResource (SurfacePtr.copied i)) ∧
    (∀ i, releasesOf i (Resize K s).drv.trace =
      releasesOf i s.drv.trace +
        (if i < K.CODEC_NUM_TRACKED_BUFFERS ∧ s.m_cscBufAnteIdx ≠ i ∧ s.m_cscBufPenuIdx ≠ i ∧
            s.m_cscBufLastIdx ≠ i then 1 else 0)) ∧
    (∀ i, (Resize K s).tracked i =
      if i < K.CODEC_NUM_TRACKED_BUFFERS ∧ s.m_cscBufAnteIdx ≠ i ∧ s.m_cscBufPenuIdx ≠ i ∧
          s.m_cscBufLastIdx ≠ i
        then { s.tracked i with
               sCopiedSurface := { (s.tracked i).sCopiedSurface with OsResource := none } }
        else s.tracked i) ∧
    (Resize K s).m_cscBufAnteIdx = s.m_cscBufAnteIdx ∧
    (Resize K s).m_cscBufPenuIdx = s.m_cscBufPenuIdx ∧
    (Resize K s).m_cscBufLastIdx = s.m_cscBufLastIdx ∧
    (Resize K s).m_cscBufRingIdx = s.m_cscBufRingIdx ∧
    (Resize K s).m_cscBufCountNonRef = s.m_cscBufCountNonRef := by
  obtain ⟨e1, e2, e3⟩ := Resize_spec K hN s
  have hfil : (fun i => decide (s.m_cscBufAnteIdx ≠ i ∧ s.m_cscBufPenuIdx ≠ i ∧
      s.m_cscBufLastIdx ≠ i)) = fun j => !isHistorical s j := by
    funext i
    by_cases h : isHistorical s i = false
    · rw [h]
      simpa using (isHistorical_eq_false s i).mp h
    · have h' : isHistorical s i = true := by simpa using h
      rw [h']
      have := mt (isHistorical_eq_false s i).mpr h
      simpa using this
  refine ⟨by rw [e1], ?_, ?_, ?_, by rw [e1], by rw [e1], by rw [e1], by rw [e1], by rw [e1]⟩
  · rw [hfil]
    exact e2
  · intro i
    rw [Resize_releasesOf K hN s i]
    simp only [isHistorical_eq_false]
  · intro i
    rw [e3 i]
    simp only [isHistorical_eq_false]
    rfl

/-- Witness for C11: the object right after construction, whose three history
indices coincide (all 0); slots 1 to 11 are released, slot 0 is not. -/
theorem Resize_effect_witness :
    exampleConsts.CODEC_NUM_TRACKED_BUFFERS ≤ 255 ∧
    (Resize exampleConsts (freshState exampleSettings)).m_cscBufCountResize = 4 ∧
    releasesOf 0 (Resize exampleConsts (freshState exampleSettings)).drv.trace = 0 ∧
    releasesOf 5 (Resize exampleConsts (freshState exampleSettings)).drv.trace = 1 :=
  ⟨by decide,
   (Resize_effect exampleConsts (freshState exampleSettings) (by decide)).1,
   ((Resize_effect exampleConsts (freshState exampleSettings) (by decide)).2.2.1 0).trans
     (by decide),
   ((Resize_effect exampleConsts (freshState exampleSettings) (by decide)).2.2.1 5).trans
     (by decide)⟩

/-- C12: the resize countdown step of `LookUpBufSlot`.  With a countdown above
zero the call lowers it by exactly one and releases the converted surface of
the antepenultimate slot (history as on entry) iff that slot differs from both
the penultimate and the last slot; when they coincide nothing is released.
With a countdown of zero nothing is released and the countdown stays zero.
The call returns a slot in every case. -/
theorem LookUpBufSlot_countdown_step (K : CodecConsts) (s : CodechalEncodeCscDs) :
    (s.m_cscBufCountResize ≠ 0 →
      (LookUpBufSlot K s).2.m_cscBufCountResize + 1 = s.m_cscBufCountResize ∧
      ((s.m_cscBufAnteIdx ≠ s.m_cscBufPenuIdx ∧ s.m_cscBufAnteIdx ≠ s.m_cscBufLastIdx) →
        (LookUpBufSlot K s).2.drv.trace =
          s.drv.trace ++ [Event.pfnFreeResource (SurfacePtr.copied s.m_cscBufAnteIdx)] ∧
        ∀ j, (LookUpBufSlot K s).2.tracked j =
          if s.m_cscBufAnteIdx = j
            then { s.tracked j with
                   sCopiedSurface := { (s.tracked j).sCopiedSurface with OsResource := none } }
            else s.tracked j) ∧
      (¬ (s.m_cscBufAnteIdx ≠ s.m_cscBufPenuIdx ∧ s.m_cscBufAnteIdx ≠ s.m_cscBufLastIdx) →
        (LookUpBufSlot K s).2.drv.trace = s.drv.trace ∧
        ∀ j, (LookUpBufSlot K s).2.tracked j = s.tracked j)) ∧
    (s.m_cscBufCountResize = 0 →
      (LookUpBufSlot K s).2.m_cscBufCountResize = 0 ∧
      (LookUpBufSlot K s).2.drv.trace = s.drv.trace ∧
      ∀ j, (LookUpBufSlot K s).2.tracked j = s.tracked j) := by
  obtain ⟨e1, e2, e3⟩ := LookUpBufSlot_release K s
  refine ⟨fun h0 => ⟨by omega, fun hc => ⟨?_, fun j => ?_⟩, fun hc => ⟨?_, fun j => ?_⟩⟩,
    fun h0 => ⟨by omega, ?_, fun j => ?_⟩⟩
  · rw [e2, if_pos ⟨h0, hc⟩]
  · rw [e3 j]
    simp only [h0, hc, ne_eq, not_false_eq_true, and_self, true_and]
    rfl
  · rw [e2, if_neg (fun h => hc h.2), List.append_nil]
  · rw [e3 j, if_neg (fun h => hc h.1.2)]
  · rw [e2, if_neg (fun h => h.1 h0), List.append_nil]
  · rw [e3 j, if_neg (fun h => h.1.1 h0)]

/-- Witness for C12: after three ring look-ups (history 9, 10, 11) and a
`Resize()`, the next look-up lowers the countdown from 4 to 3 and releases
slot 9. -/
theorem LookUpBufSlot_countdown_step_witness :
    (LookUpBufSlot exampleConsts
        (Resize exampleConsts
          (lookUpSeq exampleConsts [ringRequest, ringRequest, ringRequest]
            (freshState exampleSettings)).2)).2.m_cscBufCountResize + 1 = 4 ∧
    (LookUpBufSlot exampleConsts
        (Resize exampleConsts
          (lookUpSeq exampleConsts [ringRequest, ringRequest, ringRequest]
            (freshState exampleSettings)).2)).2.drv.trace =
      (Resize exampleConsts
          (lookUpSeq exampleConsts [ringRequest, ringRequest, ringRequest]
            (freshState exampleSettings)).2).drv.trace ++
        [Event.pfnFreeResource (SurfacePtr.copied 9)] :=
  ⟨((LookUpBufSlot_countdown_step exampleConsts
      (Resize exampleConsts
        (lookUpSeq exampleConsts [ringRequest, ringRequest, ringRequest]
          (freshState exampleSettings)).2)).1 (by decide)).1,
   (((LookUpBufSlot_countdown_step exampleConsts
      (Resize exampleConsts
        (lookUpSeq exampleConsts [ringRequest, ringRequest, ringRequest]
          (freshState exampleSettings)).2)).1 (by decide)).2.1 (by decide)).1⟩

/-! ### Frame-requirement analyzer -/

theorem CheckRawColorFormat_keeps (format : MOS_FORMAT) (s : CodechalEncodeCscDs) :
    withoutAnalysis (CheckRawColorFormat format s).2 = withoutAnalysis s ∧
    (CheckRawColorFormat format s).2.drv = s.drv ∧
    (CheckRawColorFormat format s).2.m_cscRequireCopy = s.m_cscRequireCopy ∧
    (CheckRawColorFormat format s).2.m_cscRequireMmc = s.m_cscRequireMmc ∧
    (CheckRawColorFormat format s).2.m_threadTraverseSizeY = s.m_threadTraverseSizeY ∧
    (CheckRawColorFormat format s).2.m_cscRawSurfWidth = s.m_cscRawSurfWidth ∧
    (CheckRawColorFormat format s).2.m_cscRawSurfHeight = s.m_cscRawSurfHeight := by
  cases format <;> exact ⟨rfl, rfl, rfl, rfl, rfl, rfl, rfl⟩

/-- The formats that `CheckRawColorFormat` accepts, and what it does with any
other. -/
theorem CheckRawColorFormat_status (format : MOS_FORMAT) (s : CodechalEncodeCscDs) :
    ((CheckRawColorFormat format s).1 = MOS_STATUS_SUCCESS ↔
      (format = Format_NV12 ∨ format = Format_YUY2 ∨ format = Format_YUYV ∨
        format = Format_A8R8G8B8 ∨ format = Format_A8B8G8R8 ∨ format = Format_P010)) ∧
    ((CheckRawColorFormat format s).1 ≠ MOS_STATUS_SUCCESS →
      CheckRawColorFormat format s = (MOS_STATUS_INVALID_PARAMETER, s)) := by
  cases format <;> simp [CheckRawColorFormat]

/-- The status and the requirement booleans that `CheckRawColorFormat` leaves
depend on the state only through the settings. -/
theorem CheckRawColorFormat_congr (format : MOS_FORMAT) (s t : CodechalEncodeCscDs)
    (h : SameAnalysis s t) :
    (CheckRawColorFormat format t).1 = (CheckRawColorFormat format s).1 ∧
    SameAnalysis (CheckRawColorFormat format s).2 (CheckRawColorFormat format t).2 := by
  obtain ⟨h1, h2, h3, h4, h5, h6⟩ := h
  cases format <;> simp [CheckRawColorFormat, SameAnalysis, h1, h2, h3, h4, h5, h6]

theorem chk_rel (R : CodechalEncodeCscDs → CodechalEncodeCscDs → Prop)
    (a b : MOS_STATUS × CodechalEncodeCscDs)
    (k l : CodechalEncodeCscDs → MOS_STATUS × CodechalEncodeCscDs)
    (hs : b.1 = a.1) (hR : R a.2 b.2)
    (hk : ∀ x y, R x y → (l y).1 = (k x).1 ∧ R (k x).2 (l y).2) :
    (chk b l).1 = (chk a k).1 ∧ R (chk a k).2 (chk b l).2 := by
  unfold chk
  rw [hs]
  split_ifs
  · exact hk _ _ hR
  · exact ⟨hs, hR⟩

/-- The head of `CheckCondition()`: what it leaves in each field. -/
theorem CheckCondition_reset_spec (details : MOS_SURFACE) (s : CodechalEncodeCscDs) :
    withoutAnalysis (CheckCondition_reset details s) = withoutAnalysis s ∧
    (CheckCondition_reset details s).drv = s.drv ∧
    (CheckCondition_reset details s).m_cscRequireCopy =
      (s.cfg.m_cscEnableCopy &&
        (decide (details.dwWidth % s.cfg.m_rawSurfAlignment ≠ 0) ||
         decide (details.dwHeight % s.cfg.m_rawSurfAlignment ≠ 0))) ∧
    (CheckCondition_reset details s).m_cscRequireColor = false ∧
    (CheckCondition_reset details s).m_cscRequireConvTo8bPlanar = false ∧
    (CheckCondition_reset details s).m_cscRequireMmc = false ∧
    (CheckCondition_reset details s).m_cscUsingSfc = s.m_cscUsingSfc ∧
    (CheckCondition_reset details s).m_colorRawSurface = cscColorNv12TileY ∧
    (CheckCondition_reset details s).m_threadTraverseSizeX = 5 ∧
    (CheckCondition_reset details s).m_threadTraverseSizeY = 2 ∧
    (CheckCondition_reset details s).m_cscRawSurfWidth = details.dwWidth ∧
    (CheckCondition_reset details s).m_cscRawSurfHeight = details.dwHeight := by
  unfold CheckCondition_reset
  dsimp only
  split_ifs with h
  · exact ⟨rfl, rfl, h.symm, rfl, rfl, rfl, rfl, rfl, rfl, rfl, rfl, rfl⟩
  · refine ⟨rfl, rfl, ?_, rfl, rfl, rfl, rfl, rfl, rfl, rfl, rfl, rfl⟩
    simp only [Bool.not_eq_true] at h
    exact h.symm

theorem CheckCondition_reset_congr (details : MOS_SURFACE) (s t : CodechalEncodeCscDs)
    (hcfg : t.cfg = s.cfg) (hscr : t.drv.script = s.drv.script) :
    SameAnalysis (CheckCondition_reset details s) (CheckCondition_reset details t) := by
  obtain ⟨a1, a2, a3, a4, a5, a6, -⟩ := CheckCondition_reset_spec details s
  obtain ⟨b1, b2, b3, b4, b5, b6, -⟩ := CheckCondition_reset_spec details t
  have c1 : (CheckCondition_reset details s).cfg = s.cfg := congrArg (·.cfg) a1
  have c2 : (CheckCondition_reset details t).cfg = t.cfg := congrArg (·.cfg) b1
  refine ⟨by rw [c1, c2, hcfg], by rw [a2, b2, hscr], ?_, by rw [a4, b4], by rw [a5, b5],
    by rw [a6, b6]⟩
  rw [a3, b3, hcfg]

theorem CheckCondition_color_congr (details : MOS_SURFACE) (formatSupported : Bool)
    (s t : CodechalEncodeCscDs) (h : SameAnalysis s t) :
    (CheckCondition_color details formatSupported t).1
      = (CheckCondition_color details formatSupported s).1 ∧
    SameAnalysis (CheckCondition_color details formatSupported s).2
      (CheckCondition_color details formatSupported t).2 := by
  unfold CheckCondition_color
  rw [h.1]
  split_ifs
  · exact CheckRawColorFormat_congr _ _ _ h
  · exact ⟨rfl, h⟩

theorem CheckCondition_mmc_congr (mmcState : MOS_MEMCOMP_STATE)
    (s t : CodechalEncodeCscDs) (h : SameAnalysis s t) :
    (CheckCondition_mmc mmcState t).1 = (CheckCondition_mmc mmcState s).1 ∧
    SameAnalysis (CheckCondition_mmc mmcState s).2 (CheckCondition_mmc mmcState t).2 := by
  obtain ⟨h1, h2, h3, h4, h5, h6⟩ := h
  unfold CheckCondition_mmc
  rw [h1]
  split_ifs
  · refine chk_rel SameAnalysis _ _ _ _ ?_ ?_ ?_
    · show t.drv.script.headD _ = s.drv.script.headD _
      rw [h2]
    · exact ⟨h1, by show t.drv.script.tail = s.drv.script.tail; rw [h2], h3, h4, h5, h6⟩
    · intro x' y' hxy'
      obtain ⟨g1, g2, g3, g4, g5, g6⟩ := hxy'
      exact ⟨rfl, g1, g2, g3, g4, g5, rfl⟩
  · exact ⟨rfl, h1, h2, h3, h4, h5, h6⟩

/-- The analysis of a frame leaves the same status and requirement booleans
from any two states with the same settings and script. -/
theorem CheckCondition_refresh_congr (details : MOS_SURFACE) (formatSupported : Bool)
    (mmcState : MOS_MEMCOMP_STATE) (s t : CodechalEncodeCscDs)
    (hcfg : t.cfg = s.cfg) (hscr : t.drv.script = s.drv.script) :
    (CheckCondition_refresh details formatSupported mmcState t).1
      = (CheckCondition_refresh details formatSupported mmcState s).1 ∧
    SameAnalysis (CheckCondition_refresh details formatSupported mmcState s).2
      (CheckCondition_refresh details formatSupported mmcState t).2 := by
  unfold CheckCondition_refresh
  have h0 := CheckCondition_reset_congr details s t hcfg hscr
  exact chk_rel SameAnalysis _ _ _ _
    (CheckCondition_color_congr details formatSupported _ _ h0).1
    (CheckCondition_color_congr details formatSupported _ _ h0).2
    (fun x y hxy => CheckCondition_mmc_congr mmcState x y hxy)

theorem CheckCondition_color_keeps (details : MOS_SURFACE) (formatSupported : Bool)
    (s : CodechalEncodeCscDs) :
    withoutAnalysis (CheckCondition_color details formatSupported s).2 = withoutAnalysis s ∧
    (CheckCondition_color details formatSupported s).2.drv = s.drv ∧
    (CheckCondition_color details formatSupported s).2.m_cscRequireCopy = s.m_cscRequireCopy ∧
    (CheckCondition_color details formatSupported s).2.m_cscRequireMmc = s.m_cscRequireMmc ∧
    (CheckCondition_color details formatSupported s).2.m_threadTraverseSizeY
      = s.m_threadTraverseSizeY ∧
    (CheckCondition_color details formatSupported s).2.m_cscRawSurfWidth = s.m_cscRawSurfWidth ∧
    (CheckCondition_color details formatSupported s).2.m_cscRawSurfHeight
      = s.m_cscRawSurfHeight := by
  unfold CheckCondition_color
  split_ifs
  · exact CheckRawColorFormat_keeps _ _
  · exact ⟨rfl, rfl, rfl, rfl, rfl, rfl, rfl⟩

theorem CheckCondition_mmc_keeps (mmcState : MOS_MEMCOMP_STATE) (s : CodechalEncodeCscDs) :
    withoutAnalysis (CheckCondition_mmc mmcState s).2 = withoutAnalysis s ∧
    (CheckCondition_mmc mmcState s).2.drv.trace = s.drv.trace ∧
    (CheckCondition_mmc mmcState s).2.m_cscRequireCopy = s.m_cscRequireCopy ∧
    (CheckCondition_mmc mmcState s).2.m_cscRequireColor = s.m_cscRequireColor ∧
    (CheckCondition_mmc mmcState s).2.m_cscRequireConvTo8bPlanar
      = s.m_cscRequireConvTo8bPlanar ∧
    (CheckCondition_mmc mmcState s).2.m_cscUsingSfc = s.m_cscUsingSfc ∧
    (CheckCondition_mmc mmcState s).2.m_colorRawSurface = s.m_colorRawSurface ∧
    (CheckCondition_mmc mmcState s).2.m_threadTraverseSizeX = s.m_threadTraverseSizeX ∧
    (CheckCondition_mmc mmcState s).2.m_threadTraverseSizeY = s.m_threadTraverseSizeY ∧
    (CheckCondition_mmc mmcState s).2.m_cscRawSurfWidth = s.m_cscRawSurfWidth ∧
    (CheckCondition_mmc mmcState s).2.m_cscRawSurfHeight = s.m_cscRawSurfHeight := by
  unfold CheckCondition_mmc chk
  split_ifs <;> exact ⟨rfl, rfl, rfl, rfl, rfl, rfl, rfl, rfl, rfl, rfl, rfl⟩

/-- What the analysis of a frame leaves alone, and the fields it sets
whatever the format: everything outside the analyzer and the trace are as
before, `requireCopy` is the result of the alignment check, the recorded raw
size is that of the raw surface and the thread tile height is 2. -/
theorem CheckCondition_refresh_keeps (details : MOS_SURFACE) (formatSupported : Bool)
    (mmcState : MOS_MEMCOMP_STATE) (s : CodechalEncodeCscDs) :
    withoutAnalysis (CheckCondition_refresh details formatSupported mmcState s).2
      = withoutAnalysis s ∧
    (CheckCondition_refresh details formatSupported mmcState s).2.drv.trace = s.drv.trace ∧
    (CheckCondition_refresh details formatSupported mmcState s).2.m_cscRequireCopy =
      (s.cfg.m_cscEnableCopy &&
        (decide (details.dwWidth % s.cfg.m_rawSurfAlignment ≠ 0) ||
         decide (details.dwHeight % s.cfg.m_rawSurfAlignment ≠ 0))) ∧
    (CheckCondition_refresh details formatSupported mmcState s).2.m_threadTraverseSizeY = 2 ∧
    (CheckCondition_refresh details formatSupported mmcState s).2.m_cscRawSurfWidth
      = details.dwWidth ∧
    (CheckCondition_refresh details formatSupported mmcState s).2.m_cscRawSurfHeight
      = details.dwHeight := by
  obtain ⟨a1, a2, a3, -, -, -, -, -, -, a10, a11, a12⟩ := CheckCondition_reset_spec details s
  obtain ⟨b1, b2, b3, -, b5, b6, b7⟩ :=
    CheckCondition_color_keeps details formatSupported (CheckCondition_reset details s)
  have hcol : withoutAnalysis (CheckCondition_color details formatSupported
      (CheckCondition_reset details s)).2 = withoutAnalysis s ∧
      (CheckCondition_color details formatSupported
        (CheckCondition_reset details s)).2.drv.trace = s.drv.trace ∧
      (CheckCondition_color details formatSupported
        (CheckCondition_reset details s)).2.m_cscRequireCopy =
        (s.cfg.m_cscEnableCopy &&
          (decide (details.dwWidth % s.cfg.m_rawSurfAlignment ≠ 0) ||
           decide (details.dwHeight % s.cfg.m_rawSurfAlignment ≠ 0))) ∧
      (CheckCondition_color details formatSupported
        (CheckCondition_reset details s)).2.m_threadTraverseSizeY = 2 ∧
      (CheckCondition_color details formatSupported
        (CheckCondition_reset details s)).2.m_cscRawSurfWidth = details.dwWidth ∧
      (CheckCondition_color details formatSupported
        (CheckCondition_reset details s)).2.m_cscRawSurfHeight = details.dwHeight :=
    ⟨b1.trans a1, by rw [b2, a2], b3.trans a3, b5.trans a10, b6.trans a11, b7.trans a12⟩
  unfold CheckCondition_refresh
  refine chk_inv (fun t => withoutAnalysis t = withoutAnalysis s ∧
      t.drv.trace = s.drv.trace ∧
      t.m_cscRequireCopy =
        (s.cfg.m_cscEnableCopy &&
          (decide (details.dwWidth % s.cfg.m_rawSurfAlignment ≠ 0) ||
           decide (details.dwHeight % s.cfg.m_rawSurfAlignment ≠ 0))) ∧
      t.m_threadTraverseSizeY = 2 ∧ t.m_cscRawSurfWidth = details.dwWidth ∧
      t.m_cscRawSurfHeight = details.dwHeight) _ _ hcol ?_
  intro t ⟨t1, t2, t3, t4, t5, t6⟩
  obtain ⟨c1, c2, c3, -, -, -, -, -, c9, c10, c11⟩ := CheckCondition_mmc_keeps mmcState t
  exact ⟨c1.trans t1, c2.trans t2, c3.trans t3, c9.trans t4, c10.trans t5, c11.trans t6⟩

theorem Resize_loop_frame (K : CodecConsts) :
    ∀ (fuel i : Nat) (s : CodechalEncodeCscDs),
      Resize_loop K fuel i s =
        { s with
          drv := { s.drv with trace := (Resize_loop K fuel i s).drv.trace },
          m_trackedBuffer := (Resize_loop K fuel i s).m_trackedBuffer } := by
  intro fuel
  induction fuel with
  | zero => intro i s; rfl
  | succ fuel ih =>
    intro i s
    rw [Resize_loop]
    split_ifs
    · rw [ih]
      rfl
    · rw [ih]
    · rfl

/-- `Resize()` writes the countdown, the trace and the slots, nothing else. -/
theorem Resize_frame (K : CodecConsts) (s : CodechalEncodeCscDs) :
    Resize K s =
      { s with
        m_cscBufCountResize := K.CODEC_NUM_NON_REF_BUFFERS,
        drv := { s.drv with trace := (Resize K s).drv.trace },
        m_trackedBuffer := (Resize K s).m_trackedBuffer } := by
  unfold Resize
  rw [Resize_loop_frame]

theorem Resize_cscFlag (K : CodecConsts) (s : CodechalEncodeCscDs) :
    (Resize K s).m_cscFlag = s.m_cscFlag := by
  rw [Resize_frame]
  rfl

theorem Resize_analysis (K : CodecConsts) (s : CodechalEncodeCscDs) :
    SameAnalysis s (Resize K s) := by
  rw [Resize_frame]
  exact ⟨rfl, rfl, rfl, rfl, rfl, rfl⟩

theorem SameAnalysis_trans {a b c : CodechalEncodeCscDs} (h1 : SameAnalysis a b)
    (h2 : SameAnalysis b c) : SameAnalysis a c :=
  ⟨h2.1.trans h1.1, h2.2.1.trans h1.2.1, h2.2.2.1.trans h1.2.2.1,
    h2.2.2.2.1.trans h1.2.2.2.1, h2.2.2.2.2.1.trans h1.2.2.2.2.1,
    h2.2.2.2.2.2.trans h1.2.2.2.2.2⟩

theorem SameAnalysis_symm {a b : CodechalEncodeCscDs} (h : SameAnalysis a b) :
    SameAnalysis b a :=
  ⟨h.1.symm, h.2.1.symm, h.2.2.1.symm, h.2.2.2.1.symm, h.2.2.2.2.1.symm, h.2.2.2.2.2.symm⟩

/-- The decision on `Resize()` at the end of a successful `CheckCondition()`. -/
theorem CheckCondition_of_success (K : CodecConsts) (details : MOS_SURFACE)
    (formatSupported : Bool) (mmcState : MOS_MEMCOMP_STATE) (s : CodechalEncodeCscDs)
    (hok : (CheckCondition K details formatSupported mmcState s).1 = MOS_STATUS_SUCCESS) :
    (ext s).1 = MOS_STATUS_SUCCESS ∧
    (CheckCondition_refresh details formatSupported mmcState (ext s).2).1 = MOS_STATUS_SUCCESS ∧
    CheckCondition K details formatSupported mmcState s =
      (MOS_STATUS_SUCCESS,
        if s.m_cscFlag &&
            !(CheckCondition_refresh details formatSupported mmcState (ext s).2).2.m_cscFlag
        then Resize K (CheckCondition_refresh details formatSupported mmcState (ext s).2).2
        else (CheckCondition_refresh details formatSupported mmcState (ext s).2).2) := by
  have h1 : (ext s).1 = MOS_STATUS_SUCCESS := chk_fst_success _ _ hok
  have e1 : CheckCondition K details formatSupported mmcState s =
      chk (CheckCondition_refresh details formatSupported mmcState (ext s).2) fun s6 =>
        if (ext s).2.m_cscFlag && !s6.m_cscFlag then (MOS_STATUS_SUCCESS, Resize K s6)
        else (MOS_STATUS_SUCCESS, s6) := by
    unfold CheckCondition
    rw [chk_of_success _ _ h1]
  rw [e1] at hok
  have h2 := chk_fst_success _ _ hok
  refine ⟨h1, h2, ?_⟩
  rw [e1, chk_of_success _ _ h2]
  have e2 : (ext s).2.m_cscFlag = s.m_cscFlag := rfl
  rw [e2]
  split_ifs <;> rfl

/-- Status and requirement booleans of `CheckCondition()` are the same from
any two states with the same settings and script, once the query of the raw
surface has succeeded. -/
theorem CheckCondition_congr (K : CodecConsts) (details : MOS_SURFACE)
    (formatSupported : Bool) (mmcState : MOS_MEMCOMP_STATE) (s t : CodechalEncodeCscDs)
    (hcfg : t.cfg = s.cfg) (hscr : t.drv.script = s.drv.script)
    (he : (ext s).1 = MOS_STATUS_SUCCESS) :
    (CheckCondition K details formatSupported mmcState t).1
      = (CheckCondition K details formatSupported mmcState s).1 ∧
    SameAnalysis (CheckCondition K details formatSupported mmcState s).2
      (CheckCondition K details formatSupported mmcState t).2 := by
  have he' : (ext t).1 = MOS_STATUS_SUCCESS := by
    have : (ext t).1 = (ext s).1 := by
      show t.drv.script.headD _ = s.drv.script.headD _
      rw [hscr]
    rw [this, he]
  unfold CheckCondition
  rw [chk_of_success _ _ he, chk_of_success _ _ he']
  dsimp only
  have h0 := CheckCondition_refresh_congr details formatSupported mmcState (ext s).2 (ext t).2
    hcfg (by show t.drv.script.tail = s.drv.script.tail; rw [hscr])
  refine chk_rel SameAnalysis _ _ _ _ h0.1 h0.2 ?_
  intro x y hxy
  refine ⟨by split_ifs <;> rfl, ?_⟩
  split_ifs
  · exact SameAnalysis_trans (SameAnalysis_trans (SameAnalysis_symm (Resize_analysis K x)) hxy)
      (Resize_analysis K y)
  · exact SameAnalysis_trans (SameAnalysis_symm (Resize_analysis K x)) hxy
  · exact SameAnalysis_trans hxy (Resize_analysis K y)
  · exact hxy

/-- C13: the resize trigger.  A successful `CheckCondition()` has run the
analysis to its end without touching the countdown, the slots or the trace;
it then invokes `Resize()` (on the analysed state) iff the CSC flag was set on
entry and is clear for the current frame, and otherwise returns the analysed
state as it is, so that the countdown is unchanged and nothing is released. -/
theorem CheckCondition_resize_trigger (K : CodecConsts) (details : MOS_SURFACE)
    (formatSupported : Bool) (mmcState : MOS_MEMCOMP_STATE) (s : CodechalEncodeCscDs)
    (hok : (CheckCondition K details formatSupported mmcState s).1 = MOS_STATUS_SUCCESS) :
    (CheckCondition_refresh details formatSupported mmcState (ext s).2).2.m_cscBufCountResize
      = s.m_cscBufCountResize ∧
    (CheckCondition_refresh details formatSupported mmcState (ext s).2).2.drv.trace
      = s.drv.trace ∧
    (CheckCondition K details formatSupported mmcState s).2.m_cscFlag
      = (CheckCondition_refresh details formatSupported mmcState (ext s).2).2.m_cscFlag ∧
    ((s.m_cscFlag = true ∧
        (CheckCondition K details formatSupported mmcState s).2.m_cscFlag = false) →
      (CheckCondition K details formatSupported mmcState s).2
        = Resize K (CheckCondition_refresh details formatSupported mmcState (ext s).2).2 ∧
      (CheckCondition K details formatSupported mmcState s).2.m_cscBufCountResize
        = K.CODEC_NUM_NON_REF_BUFFERS) ∧
    (¬ (s.m_cscFlag = true ∧
        (CheckCondition K details formatSupported mmcState s).2.m_cscFlag = false) →
      (CheckCondition K details formatSupported mmcState s).2
        = (CheckCondition_refresh details formatSupported mmcState (ext s).2).2 ∧
      (CheckCondition K details formatSupported mmcState s).2.m_cscBufCountResize
        = s.m_cscBufCountResize ∧
      (CheckCondition K details formatSupported mmcState s).2.drv.trace = s.drv.trace ∧
      (CheckCondition K details formatSupported mmcState s).2.m_trackedBuffer
        = s.m_trackedBuffer) := by
  obtain ⟨-, -, e⟩ := CheckCondition_of_success K details formatSupported mmcState s hok
  obtain ⟨k1, k2, -⟩ :=
    CheckCondition_refresh_keeps details formatSupported mmcState (ext s).2
  have k1c : (CheckCondition_refresh details formatSupported mmcState (ext s).2).2.m_cscBufCountResize
      = s.m_cscBufCountResize := congrArg (·.m_cscBufCountResize) k1
  have k1t : (CheckCondition_refresh details formatSupported mmcState (ext s).2).2.m_trackedBuffer
      = s.m_trackedBuffer := congrArg (·.m_trackedBuffer) k1
  have k2' : (CheckCondition_refresh details formatSupported mmcState (ext s).2).2.drv.trace
      = s.drv.trace := k2
  have hflag : (CheckCondition K details formatSupported mmcState s).2.m_cscFlag
      = (CheckCondition_refresh details formatSupported mmcState (ext s).2).2.m_cscFlag := by
    rw [e]
    dsimp only
    split_ifs
    · exact Resize_cscFlag K _
    · rfl
  refine ⟨k1c, k2', hflag, ?_, ?_⟩
  · rintro ⟨h1, h2⟩
    rw [hflag] at h2
    have hr : (CheckCondition K details formatSupported mmcState s).2
        = Resize K (CheckCondition_refresh details formatSupported mmcState (ext s).2).2 := by
      rw [e]
      dsimp only
      rw [if_pos (by rw [h1, h2]; rfl)]
    refine ⟨hr, ?_⟩
    rw [hr, Resize_frame]
  · intro hn
    have hr : (CheckCondition K details formatSupported mmcState s).2
        = (CheckCondition_refresh details formatSupported mmcState (ext s).2).2 := by
      rw [e]
      dsimp only
      rw [if_neg]
      intro hc
      apply hn
      rw [hflag]
      simp only [Bool.and_eq_true, Bool.not_eq_true'] at hc
      exact hc
    exact ⟨hr, by rw [hr, k1c], by rw [hr, k2'], by rw [hr, k1t]⟩

/-- Witness for C13: the previous frame was YUY2 (CSC flag set, YUY2 class),
the current one is a supported, aligned NV12 Tile-Y frame; `Resize()` runs and
the countdown becomes 4. -/
theorem CheckCondition_resize_trigger_witness :
    (CheckCondition exampleConsts (rawSurfaceDetails Format_NV12 1920 1080) true
        MOS_MEMCOMP_DISABLED
        (CheckCondition exampleConsts (rawSurfaceDetails Format_YUY2 1920 1080) false
          MOS_MEMCOMP_DISABLED (freshState exampleSettings)).2).2.m_cscBufCountResize
      = exampleConsts.CODEC_NUM_NON_REF_BUFFERS :=
  ((CheckCondition_resize_trigger exampleConsts (rawSurfaceDetails Format_NV12 1920 1080) true
      MOS_MEMCOMP_DISABLED
      (CheckCondition exampleConsts (rawSurfaceDetails Format_YUY2 1920 1080) false
        MOS_MEMCOMP_DISABLED (freshState exampleSettings)).2
      (by decide)).2.2.2.1 (by decide)).2

/-- C15: after a successful `CheckCondition()` the CSC flag is set iff at least
one of `requireCopy`, `requireColor`, `requireConvTo8bPlanar`, `requireMmc` is
set; with the flag clear `AllocateSurfaceCsc()` does nothing. -/
theorem CheckCondition_cscFlag (K : CodecConsts) (details : MOS_SURFACE)
    (formatSupported : Bool) (mmcState : MOS_MEMCOMP_STATE) (s : CodechalEncodeCscDs)
    (_hok : (CheckCondition K details formatSupported mmcState s).1 = MOS_STATUS_SUCCESS) :
    ((CheckCondition K details formatSupported mmcState s).2.m_cscFlag = true ↔
      ((CheckCondition K details formatSupported mmcState s).2.m_cscRequireCopy = true ∨
       (CheckCondition K details formatSupported mmcState s).2.m_cscRequireColor = true ∨
       (CheckCondition K details formatSupported mmcState s).2.m_cscRequireConvTo8bPlanar = true ∨
       (CheckCondition K details formatSupported mmcState s).2.m_cscRequireMmc = true)) ∧
    ((CheckCondition K details formatSupported mmcState s).2.m_cscFlag = false →
      AllocateSurfaceCsc K (CheckCondition K details formatSupported mmcState s).2
        = (MOS_STATUS_SUCCESS, (CheckCondition K details formatSupported mmcState s).2)) := by
  refine ⟨?_, ?_⟩
  · unfold m_cscFlag
    simp only [Bool.or_eq_true, or_assoc]
  · intro h
    unfold AllocateSurfaceCsc
    rw [h]
    rfl

/-- Witness for C15: a YUY2 frame of an aligned size; the flag is set. -/
theorem CheckCondition_cscFlag_witness :
    (CheckCondition exampleConsts (rawSurfaceDetails Format_YUY2 1920 1080) false
        MOS_MEMCOMP_DISABLED (freshState exampleSettings)).2.m_cscFlag = true :=
  (CheckCondition_cscFlag exampleConsts (rawSurfaceDetails Format_YUY2 1920 1080) false
    MOS_MEMCOMP_DISABLED (freshState exampleSettings) (by decide)).1.mpr
    (Or.inr (Or.inl (by decide)))

/-- C16: per-frame refresh.  After a successful `CheckCondition()` with a
positive raw-surface alignment, `requireCopy` is set iff copying is enabled
and the width or the height of the raw surface is not a multiple of the
alignment; and a run from any other state with the same settings and
collaborator answers succeeds as well and ends with the same four requirement
booleans. -/
theorem CheckCondition_refreshes (K : CodecConsts) (details : MOS_SURFACE)
    (formatSupported : Bool) (mmcState : MOS_MEMCOMP_STATE) (s : CodechalEncodeCscDs)
    (_halign : 0 < s.cfg.m_rawSurfAlignment)
    (hok : (CheckCondition K details formatSupported mmcState s).1 = MOS_STATUS_SUCCESS) :
    ((CheckCondition K details formatSupported mmcState s).2.m_cscRequireCopy = true ↔
      (s.cfg.m_cscEnableCopy = true ∧
        (details.dwWidth % s.cfg.m_rawSurfAlignment ≠ 0 ∨
         details.dwHeight % s.cfg.m_rawSurfAlignment ≠ 0))) ∧
    ∀ t : CodechalEncodeCscDs, t.cfg = s.cfg → t.drv.script = s.drv.script →
      (CheckCondition K details formatSupported mmcState t).1 = MOS_STATUS_SUCCESS ∧
      (CheckCondition K details formatSupported mmcState t).2.m_cscRequireCopy
        = (CheckCondition K details formatSupported mmcState s).2.m_cscRequireCopy ∧
      (CheckCondition K details formatSupported mmcState t).2.m_cscRequireColor
        = (CheckCondition K details formatSupported mmcState s).2.m_cscRequireColor ∧
      (CheckCondition K details formatSupported mmcState t).2.m_cscRequireConvTo8bPlanar
        = (CheckCondition K details formatSupported mmcState s).2.m_cscRequireConvTo8bPlanar ∧
      (CheckCondition K details formatSupported mmcState t).2.m_cscRequireMmc
        = (CheckCondition K details formatSupported mmcState s).2.m_cscRequireMmc := by
  obtain ⟨he, -, e⟩ := CheckCondition_of_success K details formatSupported mmcState s hok
  refine ⟨?_, ?_⟩
  · have hcopy : (CheckCondition K details formatSupported mmcState s).2.m_cscRequireCopy
        = (CheckCondition_refresh details formatSupported mmcState (ext s).2).2.m_cscRequireCopy := by
      rw [e]
      dsimp only
      split_ifs
      · exact (SameAnalysis_symm (Resize_analysis K _)).2.2.1.symm
      · rfl
    rw [hcopy, (CheckCondition_refresh_keeps details formatSupported mmcState (ext s).2).2.2.1]
    show (s.cfg.m_cscEnableCopy && _) = true ↔ _
    simp only [Bool.and_eq_true, Bool.or_eq_true, decide_eq_true_eq]
    exact Iff.rfl
  · intro t hcfg hscr
    obtain ⟨c1, -, -, c2, c3, c4, c5⟩ :=
      CheckCondition_congr K details formatSupported mmcState s t hcfg hscr he
    exact ⟨c1.trans hok, c2, c3, c4, c5⟩

/-- Witness for C16: a 1920x1080 frame with alignment 4 needs no copy, whatever
the previous frame required. -/
theorem CheckCondition_refreshes_witness :
    ((CheckCondition exampleConsts (rawSurfaceDetails Format_NV12 1920 1080) true
        MOS_MEMCOMP_DISABLED (freshState exampleSettings)).2.m_cscRequireCopy = true ↔
      (exampleSettings.m_cscEnableCopy = true ∧
        (1920 % exampleSettings.m_rawSurfAlignment ≠ 0 ∨
         1080 % exampleSettings.m_rawSurfAlignment ≠ 0))) ∧
    (CheckCondition exampleConsts (rawSurfaceDetails Format_NV12 1920 1080) true
        MOS_MEMCOMP_DISABLED
        { freshState exampleSettings with m_cscRequireCopy := true, m_cscRequireMmc := true }
      ).2.m_cscRequireCopy
      = (CheckCondition exampleConsts (rawSurfaceDetails Format_NV12 1920 1080) true
          MOS_MEMCOMP_DISABLED (freshState exampleSettings)).2.m_cscRequireCopy :=
  ⟨(CheckCondition_refreshes exampleConsts (rawSurfaceDetails Format_NV12 1920 1080) true
      MOS_MEMCOMP_DISABLED (freshState exampleSettings) (by decide) (by decide)).1,
   ((CheckCondition_refreshes exampleConsts (rawSurfaceDetails Format_NV12 1920 1080) true
      MOS_MEMCOMP_DISABLED (freshState exampleSettings) (by decide) (by decide)).2
      { freshState exampleSettings with m_cscRequireCopy := true, m_cscRequireMmc := true }
      rfl rfl).2.1⟩

/-! ### Resize followed by slot look-ups -/

theorem lookUpSeq_countdown (K : CodecConsts) :
    ∀ (qs : List SlotRequest) (t : CodechalEncodeCscDs),
      (lookUpSeq K qs t).2.m_cscBufCountResize = t.m_cscBufCountResize - qs.length := by
  intro qs
  induction qs with
  | nil => intro t; rfl
  | cons q qs ih =>
    intro t
    show (lookUpSeq K qs (LookUpBufSlot K (setRequest q t)).2).2.m_cscBufCountResize = _
    rw [ih, (LookUpBufSlot_release K (setRequest q t)).1]
    show t.m_cscBufCountResize - 1 - qs.length = t.m_cscBufCountResize - (qs.length + 1)
    omega

/-- A slot that is not due among the history indices and is not handed out
early enough to become antepenultimate is not released by a run of look-ups. -/
theorem lookUpSeq_releases (K : CodecConsts) (x : Nat) :
    ∀ (qs : List SlotRequest) (t : CodechalEncodeCscDs),
      (1 ≤ qs.length → x ≠ t.m_cscBufAnteIdx) →
      (2 ≤ qs.length → x ≠ t.m_cscBufPenuIdx) →
      (3 ≤ qs.length → x ≠ t.m_cscBufLastIdx) →
      x ∉ (lookUpSeq K qs t).1.take (qs.length - 3) →
      releasesOf x (lookUpSeq K qs t).2.drv.trace = releasesOf x t.drv.trace := by
  intro qs
  induction qs with
  | nil => intro t _ _ _ _; rfl
  | cons q qs ih =>
    intro t h1 h2 h3 h4
    have hx : x ≠ t.m_cscBufAnteIdx := h1 (by simp)
    obtain ⟨-, e2, -⟩ := LookUpBufSlot_release K (setRequest q t)
    obtain ⟨g1, g2, g3⟩ := LookUpBufSlot_history K (setRequest q t)
    have hstep : releasesOf x (LookUpBufSlot K (setRequest q t)).2.drv.trace
        = releasesOf x t.drv.trace := by
      rw [e2, releasesOf_append]
      show releasesOf x t.drv.trace + _ = _
      split_ifs
      · have : releasesOf x [Event.pfnFreeResource (SurfacePtr.copied t.m_cscBufAnteIdx)] = 0 := by
          unfold releasesOf
          rw [List.count_eq_zero]
          intro hm
          rw [List.mem_singleton] at hm
          injection hm with hm
          injection hm with hm
          exact hx hm
        show releasesOf x t.drv.trace +
          releasesOf x [Event.pfnFreeResource (SurfacePtr.copied t.m_cscBufAnteIdx)] = _
        rw [this]
        rfl
      · rfl
    show releasesOf x (lookUpSeq K qs (LookUpBufSlot K (setRequest q t)).2).2.drv.trace = _
    rw [← hstep]
    have hlen : (q :: qs).length = qs.length + 1 := rfl
    apply ih
    · intro hl
      rw [g3]
      exact h2 (by rw [hlen]; omega)
    · intro hl
      rw [g2]
      exact h3 (by rw [hlen]; omega)
    · intro hl
      rw [g1]
      intro hc
      apply h4
      have e : (q :: qs).length - 3 = (qs.length - 3) + 1 := by rw [hlen]; omega
      rw [e]
      show x ∈ ((LookUpBufSlot K (setRequest q t)).1 :: _).take _
      rw [List.take_succ_cons]
      exact List.mem_cons.mpr (Or.inl hc)
    · intro hc
      apply h4
      show x ∈ ((LookUpBufSlot K (setRequest q t)).1 ::
        (lookUpSeq K qs (LookUpBufSlot K (setRequest q t)).2).1).take _
      by_cases hl : 3 ≤ qs.length
      · have e : (q :: qs).length - 3 = (qs.length - 3) + 1 := by rw [hlen]; omega
        rw [e, List.take_succ_cons]
        exact List.mem_cons.mpr (Or.inr hc)
      · have e : qs.length - 3 = 0 := by omega
        rw [e] at hc
        simp at hc

/-- Counterexample to C14: with `N_NONREF = 4` and history slots 9, 10, 11,
slot 8 is not historical when `Resize()` fires.  `Resize()` releases it, the
first of the four following ring look-ups hands it out again, and the fourth,
for which it is the antepenultimate slot, releases it a second time. -/
theorem Resize_lookups_release_twice :
    (lookUpSeq exampleConsts [ringRequest, ringRequest, ringRequest]
        (freshState exampleSettings)).2.m_cscBufAnteIdx = 9 ∧
    (lookUpSeq exampleConsts [ringRequest, ringRequest, ringRequest]
        (freshState exampleSettings)).2.m_cscBufPenuIdx = 10 ∧
    (lookUpSeq exampleConsts [ringRequest, ringRequest, ringRequest]
        (freshState exampleSettings)).2.m_cscBufLastIdx = 11 ∧
    releasesOf 8 (lookUpSeq exampleConsts [ringRequest, ringRequest, ringRequest]
        (freshState exampleSettings)).2.drv.trace = 0 ∧
    (lookUpSeq exampleConsts [ringRequest, ringRequest, ringRequest, ringRequest]
        (Resize exampleConsts
          (lookUpSeq exampleConsts [ringRequest, ringRequest, ringRequest]
            (freshState exampleSettings)).2)).1 = [8, 9, 10, 11] ∧
    (lookUpSeq exampleConsts [ringRequest, ringRequest, ringRequest, ringRequest]
        (Resize exampleConsts
          (lookUpSeq exampleConsts [ringRequest, ringRequest, ringRequest]
            (freshState exampleSettings)).2)).2.m_cscBufCountResize = 0 ∧
    releasesOf 8
      (lookUpSeq exampleConsts [ringRequest, ringRequest, ringRequest, ringRequest]
        (Resize exampleConsts
          (lookUpSeq exampleConsts [ringRequest, ringRequest, ringRequest]
            (freshState exampleSettings)).2)).2.drv.trace = 2 := by
  decide

/-- C14 as amended: after `Resize()` the countdown equals `N_NONREF`, it is
`N_NONREF - j` after `j` further look-ups and so reaches 0 after exactly
`N_NONREF` of them; `Resize()` itself releases every slot that is not
historical exactly once, and the `N_NONREF` look-ups that follow do not
release such a slot again unless one of the first `N_NONREF - 3` of them
returned it. -/
theorem Resize_then_lookups (K : CodecConsts) (s : CodechalEncodeCscDs)
    (qs : List SlotRequest) (hN : K.CODEC_NUM_TRACKED_BUFFERS ≤ 255)
    (hlen : qs.length = K.CODEC_NUM_NON_REF_BUFFERS) :
    (Resize K s).m_cscBufCountResize = K.CODEC_NUM_NON_REF_BUFFERS ∧
    (∀ j, j ≤ K.CODEC_NUM_NON_REF_BUFFERS →
      (lookUpSeq K (qs.take j) (Resize K s)).2.m_cscBufCountResize
        = K.CODEC_NUM_NON_REF_BUFFERS - j) ∧
    (lookUpSeq K qs (Resize K s)).2.m_cscBufCountResize = 0 ∧
    ∀ x, x < K.CODEC_NUM_TRACKED_BUFFERS →
      x ≠ s.m_cscBufAnteIdx → x ≠ s.m_cscBufPenuIdx → x ≠ s.m_cscBufLastIdx →
      releasesOf x (Resize K s).drv.trace = releasesOf x s.drv.trace + 1 ∧
      (x ∉ (lookUpSeq K qs (Resize K s)).1.take (K.CODEC_NUM_NON_REF_BUFFERS - 3) →
        releasesOf x (lookUpSeq K qs (Resize K s)).2.drv.trace
          = releasesOf x s.drv.trace + 1) := by
  have hc : (Resize K s).m_cscBufCountResize = K.CODEC_NUM_NON_REF_BUFFERS := by
    rw [Resize_frame]
  have ha : (Resize K s).m_cscBufAnteIdx = s.m_cscBufAnteIdx := by rw [Resize_frame]
  have hp : (Resize K s).m_cscBufPenuIdx = s.m_cscBufPenuIdx := by rw [Resize_frame]
  have hl : (Resize K s).m_cscBufLastIdx = s.m_cscBufLastIdx := by rw [Resize_frame]
  refine ⟨hc, ?_, ?_, ?_⟩
  · intro j hj
    rw [lookUpSeq_countdown, hc, List.length_take, hlen, Nat.min_eq_left hj]
  · rw [lookUpSeq_countdown, hc, hlen, Nat.sub_self]
  · intro x hx h1 h2 h3
    have hr : releasesOf x (Resize K s).drv.trace = releasesOf x s.drv.trace + 1 := by
      rw [Resize_releasesOf K hN s x, if_pos]
      exact ⟨hx, (isHistorical_eq_false s x).mpr ⟨Ne.symm h1, Ne.symm h2, Ne.symm h3⟩⟩
    refine ⟨hr, fun h4 => ?_⟩
    rw [← hr]
    apply lookUpSeq_releases K x qs (Resize K s)
    · intro _; rw [ha]; exact h1
    · intro _; rw [hp]; exact h2
    · intro _; rw [hl]; exact h3
    · rw [hlen]
      exact h4

/-- Witness for C14 as amended: the run of the counterexample, seen from slot
5, which is released by `Resize()` and by nothing else. -/
theorem Resize_then_lookups_witness :
    releasesOf 5
      (lookUpSeq exampleConsts [ringRequest, ringRequest, ringRequest, ringRequest]
        (Resize exampleConsts
          (lookUpSeq exampleConsts [ringRequest, ringRequest, ringRequest]
            (freshState exampleSettings)).2)).2.drv.trace
      = releasesOf 5 (lookUpSeq exampleConsts [ringRequest, ringRequest, ringRequest]
          (freshState exampleSettings)).2.drv.trace + 1 :=
  ((Resize_then_lookups exampleConsts
      (lookUpSeq exampleConsts [ringRequest, ringRequest, ringRequest]
        (freshState exampleSettings)).2
      [ringRequest, ringRequest, ringRequest, ringRequest] (by decide) rfl).2.2.2
    5 (by decide) (by decide) (by decide) (by decide)).2 (by decide)

/-! ### Claims on the colour format and the scaler path -/

/-- What `CheckRawColorFormat` does for A8R8G8B8: the area test is made on the
32-bit product of the recorded raw width and height. -/
theorem CheckRawColorFormat_ARGB (s : CodechalEncodeCscDs) :
    (CheckRawColorFormat Format_A8R8G8B8 s).1 = MOS_STATUS_SUCCESS ∧
    (CheckRawColorFormat Format_A8R8G8B8 s).2.m_cscRequireColor = true ∧
    (CheckRawColorFormat Format_A8R8G8B8 s).2.m_colorRawSurface = cscColorARGB ∧
    ((CheckRawColorFormat Format_A8R8G8B8 s).2.m_cscUsingSfc = true ↔
      (s.cfg.m_cscEnableSfc = true ∧
        (s.m_cscRawSurfWidth * s.m_cscRawSurfHeight) % 2 ^ 32 ≤ 1920 * 1088 ∧
        s.cfg.m_16xMeSupported = false)) := by
  refine ⟨rfl, rfl, rfl, ?_⟩
  show (if u32 (s.m_cscRawSurfWidth * s.m_cscRawSurfHeight) > 1920 * 1088
      ∨ s.cfg.m_16xMeSupported = true then false else s.cfg.m_cscEnableSfc) = true ↔ _
  unfold u32
  split_ifs with h
  · constructor
    · intro hc
      cases hc
    · rintro ⟨-, h2, h3⟩
      rcases h with h | h
      · omega
      · rw [h3] at h
        cases h
  · constructor
    · intro hc
      refine ⟨hc, by omega, ?_⟩
      cases h16 : s.cfg.m_16xMeSupported
      · rfl
      · exact absurd (Or.inr h16) h
    · rintro ⟨h1, -, -⟩
      exact h1

/-- Counterexample to C17: an A8R8G8B8 frame of 65536 x 65536 with the
fixed-function scaler enabled and no 16x motion estimation.  The area is far
above 1920 x 1088, its 32-bit product is 0, and the scaler path is chosen;
the same happens when the frame comes in through `CheckCondition()`. -/
theorem CheckRawColorFormat_ARGB_area_wraps :
    ¬ (65536 * 65536 ≤ 1920 * 1088) ∧
    (CheckRawColorFormat Format_A8R8G8B8
      { freshState { exampleSettings with m_16xMeSupported := false, m_cscEnableSfc := true } with
        m_cscRawSurfWidth := 65536, m_cscRawSurfHeight := 65536 }).2.m_cscUsingSfc = true ∧
    (CheckCondition exampleConsts (rawSurfaceDetails Format_A8R8G8B8 65536 65536) false
      MOS_MEMCOMP_DISABLED
      (freshState { exampleSettings with m_16xMeSupported := false, m_cscEnableSfc := true })).1
      = MOS_STATUS_SUCCESS ∧
    (CheckCondition exampleConsts (rawSurfaceDetails Format_A8R8G8B8 65536 65536) false
      MOS_MEMCOMP_DISABLED
      (freshState { exampleSettings with m_16xMeSupported := false, m_cscEnableSfc := true })
      ).2.m_cscUsingSfc = true := by
  decide

/-- C17 as amended: ARGB path selection.  For A8R8G8B8 input and a recorded raw
width and height whose product is below 2^32 (every width and height below
65536), `CheckRawColorFormat` succeeds, sets `requireColor`, records the
colour class ARGB, and sets `cscUsingSfc` iff the fixed-function scaler is
enabled, the product of width and height is at most 1920*1088 and 16x motion
estimation is not supported; otherwise `cscUsingSfc` is clear. -/
theorem CheckRawColorFormat_ARGB_path (s : CodechalEncodeCscDs)
    (hfit : s.m_cscRawSurfWidth * s.m_cscRawSurfHeight < 2 ^ 32) :
    (CheckRawColorFormat Format_A8R8G8B8 s).1 = MOS_STATUS_SUCCESS ∧
    (CheckRawColorFormat Format_A8R8G8B8 s).2.m_cscRequireColor = true ∧
    (CheckRawColorFormat Format_A8R8G8B8 s).2.m_colorRawSurface = cscColorARGB ∧
    ((CheckRawColorFormat Format_A8R8G8B8 s).2.m_cscUsingSfc = true ↔
      (s.cfg.m_cscEnableSfc = true ∧
        s.m_cscRawSurfWidth * s.m_cscRawSurfHeight ≤ 1920 * 1088 ∧
        s.cfg.m_16xMeSupported = false)) ∧
    (¬ (s.cfg.m_cscEnableSfc = true ∧
        s.m_cscRawSurfWidth * s.m_cscRawSurfHeight ≤ 1920 * 1088 ∧
        s.cfg.m_16xMeSupported = false) →
      (CheckRawColorFormat Format_A8R8G8B8 s).2.m_cscUsingSfc = false) := by
  obtain ⟨h1, h2, h3, h4⟩ := CheckRawColorFormat_ARGB s
  rw [Nat.mod_eq_of_lt hfit] at h4
  refine ⟨h1, h2, h3, h4, fun hn => ?_⟩
  cases hu : (CheckRawColorFormat Format_A8R8G8B8 s).2.m_cscUsingSfc
  · rfl
  · exact absurd (h4.mp hu) hn

/-- Witness for C17 as amended: with the fixed-function scaler enabled and no
16x motion estimation, a 1920x1080 A8R8G8B8 frame takes the scaler path and a
3840x2160 one the compute path. -/
theorem CheckRawColorFormat_ARGB_path_witness :
    (CheckRawColorFormat Format_A8R8G8B8
      { freshState { exampleSettings with m_16xMeSupported := false, m_cscEnableSfc := true } with
        m_cscRawSurfWidth := 1920, m_cscRawSurfHeight := 1080 }).2.m_cscUsingSfc = true ∧
    (CheckRawColorFormat Format_A8R8G8B8
      { freshState { exampleSettings with m_16xMeSupported := false, m_cscEnableSfc := true } with
        m_cscRawSurfWidth := 3840, m_cscRawSurfHeight := 2160 }).2.m_cscUsingSfc = false :=
  ⟨(CheckRawColorFormat_ARGB_path
      { freshState { exampleSettings with m_16xMeSupported := false, m_cscEnableSfc := true } with
        m_cscRawSurfWidth := 1920, m_cscRawSurfHeight := 1080 } (by decide)).2.2.2.1.mpr
      (by decide),
   (CheckRawColorFormat_ARGB_path
      { freshState { exampleSettings with m_16xMeSupported := false, m_cscEnableSfc := true } with
        m_cscRawSurfWidth := 3840, m_cscRawSurfHeight := 2160 } (by decide)).2.2.2.2
      (by decide)⟩

/-- Counterexample to C18: YUY2 input with output chroma format 4:4:4; neither
`requireColor` nor `requireConvTo8bPlanar` is set. -/
theorem CheckRawColorFormat_YUY2_444_sets_neither :
    (CheckRawColorFormat Format_YUY2
      (freshState { exampleSettings with m_outputChromaFormat := HCP_CHROMA_FORMAT_YUV444 })).1
      = MOS_STATUS_SUCCESS ∧
    (CheckRawColorFormat Format_YUY2
      (freshState { exampleSettings with m_outputChromaFormat := HCP_CHROMA_FORMAT_YUV444 })
      ).2.m_cscRequireColor = false ∧
    (CheckRawColorFormat Format_YUY2
      (freshState { exampleSettings with m_outputChromaFormat := HCP_CHROMA_FORMAT_YUV444 })
      ).2.m_cscRequireConvTo8bPlanar = false := by
  decide

/-- C18 as amended: for YUY2 and YUYV input `CheckRawColorFormat` sets
`requireConvTo8bPlanar` iff the output chroma format is 4:2:2 and
`requireColor` iff it is 4:2:0; so exactly one of the two is set for these two
output formats, and neither for any other. -/
theorem CheckRawColorFormat_YUY2_rule (s : CodechalEncodeCscDs) (format : MOS_FORMAT)
    (hf : format = Format_YUY2 ∨ format = Format_YUYV) :
    (CheckRawColorFormat format s).1 = MOS_STATUS_SUCCESS ∧
    ((CheckRawColorFormat format s).2.m_cscRequireConvTo8bPlanar = true ↔
      s.cfg.m_outputChromaFormat = HCP_CHROMA_FORMAT_YUV422) ∧
    ((CheckRawColorFormat format s).2.m_cscRequireColor = true ↔
      s.cfg.m_outputChromaFormat = HCP_CHROMA_FORMAT_YUV420) ∧
    ((s.cfg.m_outputChromaFormat = HCP_CHROMA_FORMAT_YUV420 ∨
        s.cfg.m_outputChromaFormat = HCP_CHROMA_FORMAT_YUV422) →
      (CheckRawColorFormat format s).2.m_cscRequireColor
        ≠ (CheckRawColorFormat format s).2.m_cscRequireConvTo8bPlanar) ∧
    (s.cfg.m_outputChromaFormat ≠ HCP_CHROMA_FORMAT_YUV420 →
      s.cfg.m_outputChromaFormat ≠ HCP_CHROMA_FORMAT_YUV422 →
      (CheckRawColorFormat format s).2.m_cscRequireColor = false ∧
      (CheckRawColorFormat format s).2.m_cscRequireConvTo8bPlanar = false) := by
  have hsame : CheckRawColorFormat format s = CheckRawColorFormat Format_YUY2 s := by
    rcases hf with rfl | rfl <;> rfl
  rw [hsame]
  have e1 : (CheckRawColorFormat Format_YUY2 s).2.m_cscRequireColor
      = decide (HCP_CHROMA_FORMAT_YUV420 = s.cfg.m_outputChromaFormat) := rfl
  have e2 : (CheckRawColorFormat Format_YUY2 s).2.m_cscRequireConvTo8bPlanar
      = decide (HCP_CHROMA_FORMAT_YUV422 = s.cfg.m_outputChromaFormat) := rfl
  rw [e1, e2]
  refine ⟨rfl, ?_, ?_, ?_, ?_⟩
  · rw [decide_eq_true_eq]
    exact eq_comm
  · rw [decide_eq_true_eq]
    exact eq_comm
  · rintro (h | h) <;> rw [h] <;> decide
  · intro h1 h2
    exact ⟨decide_eq_false (fun h => h1 h.symm), decide_eq_false (fun h => h2 h.symm)⟩

/-- Witness for C18 as amended: YUYV input with 4:2:2 output. -/
theorem CheckRawColorFormat_YUY2_rule_witness :
    (CheckRawColorFormat Format_YUYV
      (freshState { exampleSettings with m_outputChromaFormat := HCP_CHROMA_FORMAT_YUV422 })
      ).2.m_cscRequireColor
    ≠ (CheckRawColorFormat Format_YUYV
      (freshState { exampleSettings with m_outputChromaFormat := HCP_CHROMA_FORMAT_YUV422 })
      ).2.m_cscRequireConvTo8bPlanar :=
  (CheckRawColorFormat_YUY2_rule
    (freshState { exampleSettings with m_outputChromaFormat := HCP_CHROMA_FORMAT_YUV422 })
    Format_YUYV (Or.inr rfl)).2.2.2.1 (Or.inr rfl)

/-- Counterexample to C19: the previous frame was YUY2 1920x1080 (CSC flag set,
class YUY2, tile width 4); the current raw surface is 1280x720 in a format that
`CheckRawColorFormat` rejects.  `CheckCondition()` returns the
invalid-parameter status, and the CSC flag, the recorded raw width, the colour
class and the tile width are no longer what they were. -/
theorem CheckCondition_rejected_format_not_atomic :
    (CheckRawColorFormat Format_Y210
      (CheckCondition exampleConsts (rawSurfaceDetails Format_YUY2 1920 1080) false
        MOS_MEMCOMP_DISABLED (freshState exampleSettings)).2).1
      = MOS_STATUS_INVALID_PARAMETER ∧
    (CheckCondition exampleConsts (rawSurfaceDetails Format_Y210 1280 720) false
      MOS_MEMCOMP_DISABLED
      (CheckCondition exampleConsts (rawSurfaceDetails Format_YUY2 1920 1080) false
        MOS_MEMCOMP_DISABLED (freshState exampleSettings)).2).1
      = MOS_STATUS_INVALID_PARAMETER ∧
    (CheckCondition exampleConsts (rawSurfaceDetails Format_Y210 1280 720) false
      MOS_MEMCOMP_DISABLED
      (CheckCondition exampleConsts (rawSurfaceDetails Format_YUY2 1920 1080) false
        MOS_MEMCOMP_DISABLED (freshState exampleSettings)).2).2.m_cscFlag
      ≠ (CheckCondition exampleConsts (rawSurfaceDetails Format_YUY2 1920 1080) false
        MOS_MEMCOMP_DISABLED (freshState exampleSettings)).2.m_cscFlag ∧
    (CheckCondition exampleConsts (rawSurfaceDetails Format_Y210 1280 720) false
      MOS_MEMCOMP_DISABLED
      (CheckCondition exampleConsts (rawSurfaceDetails Format_YUY2 1920 1080) false
        MOS_MEMCOMP_DISABLED (freshState exampleSettings)).2).2.m_cscRawSurfWidth
      ≠ (CheckCondition exampleConsts (rawSurfaceDetails Format_YUY2 1920 1080) false
        MOS_MEMCOMP_DISABLED (freshState exampleSettings)).2.m_cscRawSurfWidth ∧
    (CheckCondition exampleConsts (rawSurfaceDetails Format_Y210 1280 720) false
      MOS_MEMCOMP_DISABLED
      (CheckCondition exampleConsts (rawSurfaceDetails Format_YUY2 1920 1080) false
        MOS_MEMCOMP_DISABLED (freshState exampleSettings)).2).2.m_colorRawSurface
      ≠ (CheckCondition exampleConsts (rawSurfaceDetails Format_YUY2 1920 1080) false
        MOS_MEMCOMP_DISABLED (freshState exampleSettings)).2.m_colorRawSurface ∧
    (CheckCondition exampleConsts (rawSurfaceDetails Format_Y210 1280 720) false
      MOS_MEMCOMP_DISABLED
      (CheckCondition exampleConsts (rawSurfaceDetails Format_YUY2 1920 1080) false
        MOS_MEMCOMP_DISABLED (freshState exampleSettings)).2).2.m_threadTraverseSizeX
      ≠ (CheckCondition exampleConsts (rawSurfaceDetails Format_YUY2 1920 1080) false
        MOS_MEMCOMP_DISABLED (freshState exampleSettings)).2.m_threadTraverseSizeX := by
  decide

/-- C19 as amended: when `CheckCondition()` returns the invalid-parameter
status because `CheckRawColorFormat` rejected the raw format, `Resize()` has
not run: the resize countdown, the slot bookkeeping, the surfaces and the
trace are as before the call.  The analyzer fields hold the refreshed values:
`requireColor`, `requireConvTo8bPlanar` and `requireMmc` are clear,
`requireCopy`, and with it the CSC flag, is the result of the alignment
check, the recorded raw size is that of the current raw surface, the colour
class is NV12 Tile-Y and the thread tile is (5, 2). -/
theorem CheckCondition_unsupported_format (K : CodecConsts) (details : MOS_SURFACE)
    (mmcState : MOS_MEMCOMP_STATE) (s : CodechalEncodeCscDs)
    (he : (ext s).1 = MOS_STATUS_SUCCESS)
    (hcol : s.cfg.m_cscEnableColor = true)
    (hfmt : details.Format ≠ Format_NV12 ∧ details.Format ≠ Format_YUY2 ∧
      details.Format ≠ Format_YUYV ∧ details.Format ≠ Format_A8R8G8B8 ∧
      details.Format ≠ Format_A8B8G8R8 ∧ details.Format ≠ Format_P010) :
    (CheckCondition K details false mmcState s).1 = MOS_STATUS_INVALID_PARAMETER ∧
    withoutAnalysis (CheckCondition K details false mmcState s).2 = withoutAnalysis s ∧
    (CheckCondition K details false mmcState s).2.m_cscBufCountResize = s.m_cscBufCountResize ∧
    (CheckCondition K details false mmcState s).2.drv.trace = s.drv.trace ∧
    (CheckCondition K details false mmcState s).2.m_cscRequireCopy =
      (s.cfg.m_cscEnableCopy &&
        (decide (details.dwWidth % s.cfg.m_rawSurfAlignment ≠ 0) ||
         decide (details.dwHeight % s.cfg.m_rawSurfAlignment ≠ 0))) ∧
    (CheckCondition K details false mmcState s).2.m_cscRequireColor = false ∧
    (CheckCondition K details false mmcState s).2.m_cscRequireConvTo8bPlanar = false ∧
    (CheckCondition K details false mmcState s).2.m_cscRequireMmc = false ∧
    (CheckCondition K details false mmcState s).2.m_cscFlag =
      (CheckCondition K details false mmcState s).2.m_cscRequireCopy ∧
    (CheckCondition K details false mmcState s).2.m_cscRawSurfWidth = details.dwWidth ∧
    (CheckCondition K details false mmcState s).2.m_cscRawSurfHeight = details.dwHeight ∧
    (CheckCondition K details false mmcState s).2.m_colorRawSurface = cscColorNv12TileY ∧
    (CheckCondition K details false mmcState s).2.m_threadTraverseSizeX = 5 ∧
    (CheckCondition K details false mmcState s).2.m_threadTraverseSizeY = 2 := by
  obtain ⟨a1, a2, a3, a4, a5, a6, -, a8, a9, a10, a11, a12⟩ :=
    CheckCondition_reset_spec details (ext s).2
  have hrej : (CheckRawColorFormat details.Format (CheckCondition_reset details (ext s).2)).1
      ≠ MOS_STATUS_SUCCESS := by
    intro hc
    rcases ((CheckRawColorFormat_status _ _).1.mp hc) with h | h | h | h | h | h
    · exact hfmt.1 h
    · exact hfmt.2.1 h
    · exact hfmt.2.2.1 h
    · exact hfmt.2.2.2.1 h
    · exact hfmt.2.2.2.2.1 h
    · exact hfmt.2.2.2.2.2 h
  have hcfg : (CheckCondition_reset details (ext s).2).cfg = s.cfg := congrArg (·.cfg) a1
  have e : CheckCondition K details false mmcState s =
      (MOS_STATUS_INVALID_PARAMETER, CheckCondition_reset details (ext s).2) := by
    unfold CheckCondition
    rw [chk_of_success _ _ he]
    dsimp only
    unfold CheckCondition_refresh CheckCondition_color
    rw [hcfg, hcol, if_pos (by rfl), (CheckRawColorFormat_status _ _).2 hrej]
    rfl
  rw [e]
  refine ⟨rfl, a1, congrArg (·.m_cscBufCountResize) a1, ?_, a3, a4, a5, a6, ?_, a11, a12, a8,
    a9, a10⟩
  · show (CheckCondition_reset details (ext s).2).drv.trace = s.drv.trace
    rw [a2]
    rfl
  · show (CheckCondition_reset details (ext s).2).m_cscFlag = _
    unfold m_cscFlag
    rw [a4, a5, a6]
    simp

/-- Witness for C19 as amended: the run of the counterexample; the countdown
is what it was. -/
theorem CheckCondition_unsupported_format_witness :
    (CheckCondition exampleConsts (rawSurfaceDetails Format_Y210 1280 720) false
      MOS_MEMCOMP_DISABLED
      (CheckCondition exampleConsts (rawSurfaceDetails Format_YUY2 1920 1080) false
        MOS_MEMCOMP_DISABLED (freshState exampleSettings)).2).1
      = MOS_STATUS_INVALID_PARAMETER ∧
    (CheckCondition exampleConsts (rawSurfaceDetails Format_Y210 1280 720) false
      MOS_MEMCOMP_DISABLED
      (CheckCondition exampleConsts (rawSurfaceDetails Format_YUY2 1920 1080) false
        MOS_MEMCOMP_DISABLED (freshState exampleSettings)).2).2.m_cscBufCountResize
      = (CheckCondition exampleConsts (rawSurfaceDetails Format_YUY2 1920 1080) false
        MOS_MEMCOMP_DISABLED (freshState exampleSettings)).2.m_cscBufCountResize :=
  ⟨(CheckCondition_unsupported_format exampleConsts (rawSurfaceDetails Format_Y210 1280 720)
      MOS_MEMCOMP_DISABLED
      (CheckCondition exampleConsts (rawSurfaceDetails Format_YUY2 1920 1080) false
        MOS_MEMCOMP_DISABLED (freshState exampleSettings)).2
      (by decide) (by decide) (by decide)).1,
   (CheckCondition_unsupported_format exampleConsts (rawSurfaceDetails Format_Y210 1280 720)
      MOS_MEMCOMP_DISABLED
      (CheckCondition exampleConsts (rawSurfaceDetails Format_YUY2 1920 1080) false
        MOS_MEMCOMP_DISABLED (freshState exampleSettings)).2
      (by decide) (by decide) (by decide)).2.2.1⟩

/-- C20, the code at the failing input: `CscUsingSfc` with a colour space that
is none of P601, P709, P2020, on an object that requires colour conversion,
every collaborator call succeeding.  The `default` arm of the switch only
assigns the status; the scaler is then configured
(`CodecHalEncodeSfc_SetParams`) and started (`CodecHalEncodeSfc_RenderStart`)
and both output pointers are moved to the converted copy.  The status
returned at the end is the assigned invalid-parameter status, or success if
the status-check macro stores the status of its statement in `eStatus`.  For
P601, P709 and P2020 the output colour space becomes BT601, BT709 and
BT2020. -/
theorem CscUsingSfc_unknown_colorSpace_falls_through :
    (CscUsingSfc exampleConsts false (ECOLORSPACE_other 3)
      { freshState exampleSettings with m_cscRequireColor := true, m_cscUsingSfc := true }).1
      = MOS_STATUS_INVALID_PARAMETER ∧
    (CscUsingSfc exampleConsts true (ECOLORSPACE_other 3)
      { freshState exampleSettings with m_cscRequireColor := true, m_cscUsingSfc := true }).1
      = MOS_STATUS_SUCCESS ∧
    (CscUsingSfc exampleConsts true (ECOLORSPACE_other 3)
      { freshState exampleSettings with m_cscRequireColor := true, m_cscUsingSfc := true }).2
      = (CscUsingSfc exampleConsts false (ECOLORSPACE_other 3)
      { freshState exampleSettings with m_cscRequireColor := true, m_cscUsingSfc := true }).2 ∧
    (CscUsingSfc exampleConsts false (ECOLORSPACE_other 3)
      { freshState exampleSettings with m_cscRequireColor := true, m_cscUsingSfc := true }
      ).2.drv.trace =
      [Event.pfnResourceWait SurfacePtr.rawInput MOS_GPU_CONTEXT_VEBOX true,
       Event.pfnAllocateResource (SurfacePtr.copied 9) 1 Format_NV12 1920 1088,
       Event.pfnResourceWait (SurfacePtr.copied 9) MOS_GPU_CONTEXT_VEBOX false,
       Event.CodecHalEncodeSfc_SetParams
         { InputSurfaceColorSpace := MHW_CSpace_sRGB, OutputSurfaceColorSpace := MHW_CSpace_None }
         { pInputSurface := SurfacePtr.rawInput, pOutputSurface := SurfacePtr.copied 9,
           rcInputSurfaceRegion := { X := 0, Y := 0, Width := 1920, Height := 1080 },
           rcOutputSurfaceRegion := { X := 0, Y := 0, Width := 1920, Height := 1080 } },
       Event.CodecHalEncodeSfc_RenderStart
         { InputSurfaceColorSpace := MHW_CSpace_sRGB,
           OutputSurfaceColorSpace := MHW_CSpace_None }] ∧
    ({ freshState exampleSettings with m_cscRequireColor := true, m_cscUsingSfc := true }
      : CodechalEncodeCscDs).m_rawSurfaceToEnc = SurfacePtr.rawInput ∧
    ({ freshState exampleSettings with m_cscRequireColor := true, m_cscUsingSfc := true }
      : CodechalEncodeCscDs).m_rawSurfaceToPak = SurfacePtr.rawInput ∧
    (CscUsingSfc exampleConsts false (ECOLORSPACE_other 3)
      { freshState exampleSettings with m_cscRequireColor := true, m_cscUsingSfc := true }
      ).2.m_rawSurfaceToEnc = SurfacePtr.copied 9 ∧
    (CscUsingSfc exampleConsts false (ECOLORSPACE_other 3)
      { freshState exampleSettings with m_cscRequireColor := true, m_cscUsingSfc := true }
      ).2.m_rawSurfaceToPak = SurfacePtr.copied 9 ∧
    (CscUsingSfc exampleConsts false ECOLORSPACE_P601
      { freshState exampleSettings with m_cscRequireColor := true, m_cscUsingSfc := true }
      ).2.m_sfcState
      = some { InputSurfaceColorSpace := MHW_CSpace_sRGB,
               OutputSurfaceColorSpace := MHW_CSpace_BT601 } ∧
    (CscUsingSfc exampleConsts false ECOLORSPACE_P709
      { freshState exampleSettings with m_cscRequireColor := true, m_cscUsingSfc := true }
      ).2.m_sfcState
      = some { InputSurfaceColorSpace := MHW_CSpace_sRGB,
               OutputSurfaceColorSpace := MHW_CSpace_BT709 } ∧
    (CscUsingSfc exampleConsts false ECOLORSPACE_P2020
      { freshState exampleSettings with m_cscRequireColor := true, m_cscUsingSfc := true }
      ).2.m_sfcState
      = some { InputSurfaceColorSpace := MHW_CSpace_sRGB,
               OutputSurfaceColorSpace := MHW_CSpace_BT2020 } := by
  decide

/-! ### Allocation of the surfaces -/

theorem tracked_updTracked_gen (i j : Nat) (f : CODEC_TRACKED_BUFFER → CODEC_TRACKED_BUFFER)
    (s : CodechalEncodeCscDs) :
    (updTracked i f s).tracked j =
      if i = j ∧ j < s.m_trackedBuffer.length then f (s.tracked j) else s.tracked j := by
  unfold tracked updTracked
  simp only [List.getD_eq_getElem?_getD, List.getElem?_modify]
  by_cases hj : j < s.m_trackedBuffer.length
  · rw [List.getElem?_eq_getElem hj]
    by_cases hij : i = j
    · simp [hij, hj]
    · simp [hij]
  · rw [List.getElem?_eq_none (by omega)]
    simp [hj]

theorem updSurface_drv (p : SurfacePtr) (f : MOS_SURFACE → MOS_SURFACE)
    (s : CodechalEncodeCscDs) : (updSurface p f s).drv = s.drv := by
  cases p <;> rfl

theorem updSurface_length (p : SurfacePtr) (f : MOS_SURFACE → MOS_SURFACE)
    (s : CodechalEncodeCscDs) :
    (updSurface p f s).m_trackedBuffer.length = s.m_trackedBuffer.length := by
  cases p <;> first | rfl | exact List.length_modify _ _ _

/-- The resource handle of the 4x surface of slot `idx` after `updSurface`,
when the update keeps the handle or is made on another surface. -/
theorem updSurface_scaled4x (p : SurfacePtr) (f : MOS_SURFACE → MOS_SURFACE)
    (s : CodechalEncodeCscDs) (idx : Nat)
    (h : p = SurfacePtr.scaled4x idx → ∀ x, (f x).OsResource = x.OsResource) :
    ((updSurface p f s).tracked idx).sScaled4xSurface.OsResource
      = (s.tracked idx).sScaled4xSurface.OsResource := by
  cases p <;> first
    | rfl
    | (unfold updSurface
       dsimp only
       rw [tracked_updTracked_gen]
       split_ifs with hc
       · first
         | rfl
         | (obtain ⟨h1, -⟩ := hc
            subst h1
            exact h rfl _)
       · rfl)

theorem pfnAllocateResource_trace (target : SurfacePtr) (format : MOS_FORMAT) (w h : Nat)
    (s : CodechalEncodeCscDs) :
    (pfnAllocateResource target format w h s).2.drv.trace =
      if (ext s).1 = MOS_STATUS_SUCCESS then
        s.drv.trace ++ [Event.pfnAllocateResource target s.drv.nextHandle format w h]
      else s.drv.trace := by
  unfold pfnAllocateResource chk
  split_ifs
  · show (updSurface target _ (ext s).2).drv.trace ++ _ = _
    rw [updSurface_drv]
    rfl
  · rfl

theorem CodecHal_GetResourceInfo_trace (K : CodecConsts) (target : SurfacePtr)
    (format : MOS_FORMAT) (w h : Nat) (s : CodechalEncodeCscDs) :
    (CodecHal_GetResourceInfo K target format w h s).2.drv.trace = s.drv.trace := by
  unfold CodecHal_GetResourceInfo chk
  split_ifs
  · show (updSurface target _ (ext s).2).drv.trace = _
    rw [updSurface_drv]
    rfl
  · rfl

theorem pfnAllocateResource_scaled4x (target : SurfacePtr) (format : MOS_FORMAT) (w h : Nat)
    (s : CodechalEncodeCscDs) (idx : Nat) (ht : target ≠ SurfacePtr.scaled4x idx) :
    ((pfnAllocateResource target format w h s).2.tracked idx).sScaled4xSurface.OsResource
      = (s.tracked idx).sScaled4xSurface.OsResource := by
  unfold pfnAllocateResource chk
  split_ifs
  · show ((updSurface target _ (ext s).2).tracked idx).sScaled4xSurface.OsResource = _
    rw [updSurface_scaled4x _ _ _ _ (fun hc => absurd hc ht)]
    rfl
  · rfl

theorem CodecHal_GetResourceInfo_scaled4x (K : CodecConsts) (target : SurfacePtr)
    (format : MOS_FORMAT) (w h : Nat) (s : CodechalEncodeCscDs) (idx : Nat) :
    ((CodecHal_GetResourceInfo K target format w h s).2.tracked idx).sScaled4xSurface.OsResource
      = (s.tracked idx).sScaled4xSurface.OsResource := by
  unfold CodecHal_GetResourceInfo chk
  split_ifs
  · show ((updSurface target _ (ext s).2).tracked idx).sScaled4xSurface.OsResource = _
    refine (updSurface_scaled4x _ _ _ idx ?_).trans rfl
    intro _ _
    rfl
  · rfl

/-- A slot that owns a 4x surface: `AllocateSurfaceDS()` returns at once. -/
theorem AllocateSurfaceDS_owned (K : CodecConsts) (s : CodechalEncodeCscDs)
    (h : (s.tracked s.cfg.m_currScalingIdx).sScaled4xSurface.OsResource ≠ none) :
    AllocateSurfaceDS K s = (MOS_STATUS_SUCCESS, s) := by
  unfold AllocateSurfaceDS
  dsimp only
  rw [if_pos h]

theorem pfnAllocateResource_tracked (target : SurfacePtr) (format : MOS_FORMAT) (w h : Nat)
    (s : CodechalEncodeCscDs) (he : (ext s).1 = MOS_STATUS_SUCCESS) (j : Nat) :
    (pfnAllocateResource target format w h s).2.tracked j =
      (updSurface target (fun x => { x with OsResource := some s.drv.nextHandle })
        (ext s).2).tracked j := by
  unfold pfnAllocateResource
  rw [chk_of_success _ _ he]
  rfl

/-- After the 4x allocation of `AllocateSurfaceDS()` has succeeded, the slot
owns that surface whatever the later calls return. -/
theorem AllocateSurfaceDS_keeps_4x (K : CodecConsts) (s : CodechalEncodeCscDs)
    (hnull : (s.tracked s.cfg.m_currScalingIdx).sScaled4xSurface.OsResource = none)
    (hlen : s.cfg.m_currScalingIdx < s.m_trackedBuffer.length)
    (he : (ext s).1 = MOS_STATUS_SUCCESS) :
    ((AllocateSurfaceDS K s).2.tracked s.cfg.m_currScalingIdx).sScaled4xSurface.OsResource
      = some s.drv.nextHandle := by
  have h0 : ∀ w h, ((pfnAllocateResource (SurfacePtr.scaled4x s.cfg.m_currScalingIdx) Format_NV12
      w h s).2.tracked s.cfg.m_currScalingIdx).sScaled4xSurface.OsResource
      = some s.drv.nextHandle := by
    intro w h
    rw [pfnAllocateResource_tracked _ _ _ _ _ he]
    unfold updSurface
    dsimp only
    rw [tracked_updTracked_gen, if_pos ⟨rfl, hlen⟩]
  have h16 : ∀ f w h t, ((pfnAllocateResource (SurfacePtr.scaled16x s.cfg.m_currScalingIdx) f
      w h t).2.tracked s.cfg.m_currScalingIdx).sScaled4xSurface.OsResource
      = (t.tracked s.cfg.m_currScalingIdx).sScaled4xSurface.OsResource :=
    fun f w h t => pfnAllocateResource_scaled4x _ f w h t _ (by intro hc; cases hc)
  have h32 : ∀ f w h t, ((pfnAllocateResource (SurfacePtr.scaled32x s.cfg.m_currScalingIdx) f
      w h t).2.tracked s.cfg.m_currScalingIdx).sScaled4xSurface.OsResource
      = (t.tracked s.cfg.m_currScalingIdx).sScaled4xSurface.OsResource :=
    fun f w h t => pfnAllocateResource_scaled4x _ f w h t _ (by intro hc; cases hc)
  generalize some s.drv.nextHandle = v at h0 ⊢
  unfold AllocateSurfaceDS
  refine ite_inv (fun t => (t.tracked s.cfg.m_currScalingIdx).sScaled4xSurface.OsResource
      = v) _ _ _ (fun hc => absurd hnull hc) (fun _ => ?_)
  refine chk_inv (fun t => (t.tracked s.cfg.m_currScalingIdx).sScaled4xSurface.OsResource
      = v) _ _ (h0 _ _) (fun t ht => ?_)
  repeat' first
    | assumption
    | (beta_reduce; rw [CodecHal_GetResourceInfo_scaled4x]; assumption)
    | (beta_reduce; rw [h16]; assumption)
    | (beta_reduce; rw [h32]; assumption)
    | refine chk_inv (fun t => (t.tracked s.cfg.m_currScalingIdx).sScaled4xSurface.OsResource
        = v) _ _ ?_ (fun t ht => ?_)
    | refine ite_inv (fun t => (t.tracked s.cfg.m_currScalingIdx).sScaled4xSurface.OsResource
        = v) _ _ _ (fun _ => ?_) (fun _ => ?_)

theorem chk_of_failure (r : MOS_STATUS × CodechalEncodeCscDs)
    (k : CodechalEncodeCscDs → MOS_STATUS × CodechalEncodeCscDs)
    (h : r.1 ≠ MOS_STATUS_SUCCESS) : chk r k = r := by
  unfold chk
  rw [if_neg h]

/-- When the 4x allocation of `AllocateSurfaceDS()` fails, the call returns
that error and nothing but the script of the collaborators has changed. -/
theorem AllocateSurfaceDS_first_fails (K : CodecConsts) (s : CodechalEncodeCscDs)
    (hnull : (s.tracked s.cfg.m_currScalingIdx).sScaled4xSurface.OsResource = none)
    (he : (ext s).1 ≠ MOS_STATUS_SUCCESS) :
    AllocateSurfaceDS K s = ext s := by
  have h0 : ∀ w h, pfnAllocateResource (SurfacePtr.scaled4x s.cfg.m_currScalingIdx)
      Format_NV12 w h s = ext s := by
    intro w h
    unfold pfnAllocateResource
    exact chk_of_failure _ _ he
  unfold AllocateSurfaceDS
  dsimp only
  rw [if_neg (by rw [hnull]; exact fun h => h rfl), h0, chk_of_failure _ _ he]

/-- Counterexample to C22: the 4x allocation and its query succeed, the 16x
allocation fails.  The call returns the error, the slot still owns the 4x
surface allocated during the call, and a later `AllocateSurfaceDS()` with
every collaborator succeeding returns success without any allocation request:
the 16x and 32x surfaces stay unallocated. -/
theorem AllocateSurfaceDS_later_failure_keeps_4x :
    (AllocateSurfaceDS exampleConsts
      (withScript [MOS_STATUS_SUCCESS, MOS_STATUS_SUCCESS, MOS_STATUS_UNKNOWN]
        (freshState exampleSettings))).1 = MOS_STATUS_UNKNOWN ∧
    ((freshState exampleSettings).tracked 0).sScaled4xSurface.OsResource = none ∧
    ((AllocateSurfaceDS exampleConsts
      (withScript [MOS_STATUS_SUCCESS, MOS_STATUS_SUCCESS, MOS_STATUS_UNKNOWN]
        (freshState exampleSettings))).2.tracked 0).sScaled4xSurface.OsResource = some 1 ∧
    (AllocateSurfaceDS exampleConsts
      (AllocateSurfaceDS exampleConsts
        (withScript [MOS_STATUS_SUCCESS, MOS_STATUS_SUCCESS, MOS_STATUS_UNKNOWN]
          (freshState exampleSettings))).2).1 = MOS_STATUS_SUCCESS ∧
    (AllocateSurfaceDS exampleConsts
      (AllocateSurfaceDS exampleConsts
        (withScript [MOS_STATUS_SUCCESS, MOS_STATUS_SUCCESS, MOS_STATUS_UNKNOWN]
          (freshState exampleSettings))).2).2.drv.trace
      = [Event.pfnAllocateResource (SurfacePtr.scaled4x 0) 1 Format_NV12 480 320] ∧
    ((AllocateSurfaceDS exampleConsts
      (AllocateSurfaceDS exampleConsts
        (withScript [MOS_STATUS_SUCCESS, MOS_STATUS_SUCCESS, MOS_STATUS_UNKNOWN]
          (freshState exampleSettings))).2).2.tracked 0).sScaled16xSurface.OsResource = none ∧
    ((AllocateSurfaceDS exampleConsts
      (AllocateSurfaceDS exampleConsts
        (withScript [MOS_STATUS_SUCCESS, MOS_STATUS_SUCCESS, MOS_STATUS_UNKNOWN]
          (freshState exampleSettings))).2).2.tracked 0).sScaled32xSurface.OsResource = none := by
  decide

/-- C27: second-field no-op.  `DsKernel` called with non-null parameters while
`m_firstField` is false returns success and leaves the whole object as it is:
no command buffer is acquired, nothing is dispatched, and the scaling flags of
the reference-list entry, the surfaces and `m_lastTaskInPhase` are unchanged. -/
theorem DsKernel_second_field (K : CodecConsts) (p : KernelParams) (s : CodechalEncodeCscDs)
    (hf : s.cfg.m_firstField = false) :
    DsKernel K (some p) s = (MOS_STATUS_SUCCESS, s) := by
  unfold DsKernel
  dsimp only
  rw [hf]
  rfl

/-- Witness for C27: the example session at its second field. -/
theorem DsKernel_second_field_witness :
    DsKernel exampleConsts (some zeroParams)
      (freshState { exampleSettings with m_firstField := false })
      = (MOS_STATUS_SUCCESS, freshState { exampleSettings with m_firstField := false }) :=
  DsKernel_second_field exampleConsts zeroParams
    (freshState { exampleSettings with m_firstField := false }) rfl

/-- C30: the height that `AllocateSurfaceDS()` requests for a scaled surface
on the separate-scaler path.  For a downscaled height `h` that is a positive
multiple of 16 and for which the 32-bit computation does not wrap, it is
`2 * alignUp32(((h / 16 + 1) >> 1) * 16)`, a multiple of 64 and at least `h`. -/
theorem scaledSurfaceHeight_covers (h : Nat) (hpos : 0 < h) (h16 : h % 16 = 0)
    (hfit : MOS_ALIGN_CEIL (((h / 16 + 1) / 2) * 16) 32 * 2 < 2 ^ 32) :
    scaledSurfaceHeight h = 2 * MOS_ALIGN_CEIL (((h / 16 + 1) / 2) * 16) 32 ∧
    scaledSurfaceHeight h % 64 = 0 ∧
    h ≤ scaledSurfaceHeight h ∧
    0 < scaledSurfaceHeight h := by
  have e : scaledSurfaceHeight h = MOS_ALIGN_CEIL (((h / 16 + 1) / 2) * 16) 32 * 2 := by
    show u32 _ = _
    unfold u32
    exact Nat.mod_eq_of_lt hfit
  rw [e]
  unfold MOS_ALIGN_CEIL at hfit ⊢
  refine ⟨by omega, by omega, by omega, by omega⟩

/-- Witness for C30: the example session, whose 4x, 16x and 32x heights are
272, 80 and 48; the surfaces are requested 320, 128 and 64 lines high. -/
theorem scaledSurfaceHeight_covers_witness :
    (AllocateSurfaceDS exampleConsts (freshState exampleSettings)).2.drv.trace
      = [Event.pfnAllocateResource (SurfacePtr.scaled4x 0) 1 Format_NV12 480
            (scaledSurfaceHeight 272),
         Event.pfnAllocateResource (SurfacePtr.scaled16x 0) 2 Format_NV12 128
            (scaledSurfaceHeight 80),
         Event.pfnAllocateResource (SurfacePtr.scaled32x 0) 3 Format_NV12 64
            (scaledSurfaceHeight 48)] ∧
    (scaledSurfaceHeight 272 = 2 * MOS_ALIGN_CEIL (((272 / 16 + 1) / 2) * 16) 32 ∧
      scaledSurfaceHeight 272 % 64 = 0 ∧ 272 ≤ scaledSurfaceHeight 272 ∧
      0 < scaledSurfaceHeight 272) ∧
    scaledSurfaceHeight 272 = 320 ∧ scaledSurfaceHeight 80 = 128 ∧
    scaledSurfaceHeight 48 = 64 :=
  ⟨by decide, scaledSurfaceHeight_covers 272 (by decide) (by decide) (by decide),
    by decide, by decide, by decide⟩

theorem MOS_ALIGN_CEIL_spec (x a : Nat) (ha : 0 < a) :
    a ∣ MOS_ALIGN_CEIL x a ∧ x ≤ MOS_ALIGN_CEIL x a ∧ MOS_ALIGN_CEIL x a < x + a := by
  unfold MOS_ALIGN_CEIL
  have h1 := Nat.div_add_mod (x + a - 1) a
  have h2 := Nat.mod_lt (x + a - 1) ha
  have h3 : (x + a - 1) / a * a = a * ((x + a - 1) / a) := Nat.mul_comm _ _
  refine ⟨Dvd.intro_left _ rfl, ?_, ?_⟩ <;> omega

theorem updSurface_copied (i : Nat) (f : MOS_SURFACE → MOS_SURFACE) (t : CodechalEncodeCscDs)
    (hi : i < t.m_trackedBuffer.length) :
    ((updSurface (SurfacePtr.copied i) f t).tracked i).sCopiedSurface
      = f (t.tracked i).sCopiedSurface := by
  unfold updSurface
  dsimp only
  rw [tracked_updTracked_gen, if_pos ⟨rfl, hi⟩]

theorem LookUpBufSlot_length (K : CodecConsts) (s : CodechalEncodeCscDs) :
    (LookUpBufSlot K s).2.m_trackedBuffer.length = s.m_trackedBuffer.length := by
  unfold LookUpBufSlot ReleaseSurfaceCsc emit updTracked
  dsimp only
  split_ifs <;> first | rfl | exact List.length_modify _ _ _

theorem pfnAllocateResource_length (target : SurfacePtr) (format : MOS_FORMAT) (w h : Nat)
    (s : CodechalEncodeCscDs) :
    (pfnAllocateResource target format w h s).2.m_trackedBuffer.length
      = s.m_trackedBuffer.length := by
  unfold pfnAllocateResource chk
  split_ifs
  · show (updSurface target _ (ext s).2).m_trackedBuffer.length = _
    rw [updSurface_length]
    rfl
  · rfl

theorem CodecHal_GetResourceInfo_of_success (K : CodecConsts) (target : SurfacePtr)
    (format : MOS_FORMAT) (w h : Nat) (s : CodechalEncodeCscDs)
    (hok : (CodecHal_GetResourceInfo K target format w h s).1 = MOS_STATUS_SUCCESS) :
    (CodecHal_GetResourceInfo K target format w h s).2
      = updSurface target
          (fun x => { x with Format := format, dwWidth := w, dwHeight := h,
                             dwPitch := K.pitchOf w }) (ext s).2 := by
  unfold CodecHal_GetResourceInfo at hok ⊢
  rw [chk_of_success _ _ (chk_fst_success _ _ hok)]

theorem allocCopied_dims (K : CodecConsts) (i : Nat) (fmt : MOS_FORMAT) (W H H2 : Nat)
    (g : CodechalEncodeCscDs → MOS_FORMAT → MOS_FORMAT) (c : Prop) [Decidable c]
    (t : CodechalEncodeCscDs) (hi : i < t.m_trackedBuffer.length) (hH : ¬c → H2 = H)
    (hok : (chk (pfnAllocateResource (SurfacePtr.copied i) fmt W H2 t) fun s2 =>
      chk (CodecHal_GetResourceInfo K (SurfacePtr.copied i) fmt W H2 s2) fun s3 =>
      if c then
        (MOS_STATUS_SUCCESS,
          updSurface (SurfacePtr.copied i)
            (fun x => { x with Format := g s3 x.Format, dwWidth := W, dwHeight := H }) s3)
      else (MOS_STATUS_SUCCESS, s3)).1 = MOS_STATUS_SUCCESS) :
    (((chk (pfnAllocateResource (SurfacePtr.copied i) fmt W H2 t) fun s2 =>
      chk (CodecHal_GetResourceInfo K (SurfacePtr.copied i) fmt W H2 s2) fun s3 =>
      if c then
        (MOS_STATUS_SUCCESS,
          updSurface (SurfacePtr.copied i)
            (fun x => { x with Format := g s3 x.Format, dwWidth := W, dwHeight := H }) s3)
      else (MOS_STATUS_SUCCESS, s3)).2.tracked i).sCopiedSurface.dwWidth = W) ∧
    (((chk (pfnAllocateResource (SurfacePtr.copied i) fmt W H2 t) fun s2 =>
      chk (CodecHal_GetResourceInfo K (SurfacePtr.copied i) fmt W H2 s2) fun s3 =>
      if c then
        (MOS_STATUS_SUCCESS,
          updSurface (SurfacePtr.copied i)
            (fun x => { x with Format := g s3 x.Format, dwWidth := W, dwHeight := H }) s3)
      else (MOS_STATUS_SUCCESS, s3)).2.tracked i).sCopiedSurface.dwHeight = H) := by
  have hA := chk_fst_success _ _ hok
  rw [chk_of_success _ _ hA] at hok ⊢
  have hB := chk_fst_success _ _ hok
  rw [chk_of_success _ _ hB]
  have hi2 : i < (ext (pfnAllocateResource (SurfacePtr.copied i) fmt W H2 t).2).2.m_trackedBuffer.length := by
    show _ < (pfnAllocateResource _ _ _ _ _).2.m_trackedBuffer.length
    rw [pfnAllocateResource_length]
    exact hi
  rw [CodecHal_GetResourceInfo_of_success _ _ _ _ _ _ hB]
  by_cases hc : c
  · rw [if_pos hc]
    show ((updSurface _ _ _).tracked i).sCopiedSurface.dwWidth = W ∧
      ((updSurface _ _ _).tracked i).sCopiedSurface.dwHeight = H
    rw [updSurface_copied _ _ _ (by rw [updSurface_length]; exact hi2)]
    exact ⟨rfl, rfl⟩
  · rw [if_neg hc]
    show ((updSurface _ _ _).tracked i).sCopiedSurface.dwWidth = W ∧
      ((updSurface _ _ _).tracked i).sCopiedSurface.dwHeight = H
    rw [updSurface_copied _ _ _ hi2]
    exact ⟨rfl, hH hc⟩

/-- The descriptor of the converted copy after an `AllocateSurfaceCsc()` that
allocated it. -/
theorem AllocateSurfaceCsc_dims (K : CodecConsts) (s : CodechalEncodeCscDs)
    (hflag : s.m_cscFlag = true)
    (hlen : K.CODEC_NUM_TRACKED_BUFFERS ≤ s.m_trackedBuffer.length)
    (hnull : ((LookUpBufSlot K s).2.tracked (LookUpBufSlot K s).1).sCopiedSurface.OsResource
      = none)
    (hok : (AllocateSurfaceCsc K s).1 = MOS_STATUS_SUCCESS) :
    ((AllocateSurfaceCsc K s).2.tracked (LookUpBufSlot K s).1).sCopiedSurface.dwWidth
      = (if s.cfg.m_mode = CODECHAL_ENCODE_MODE_HEVC
         then u32 (MOS_ALIGN_CEIL s.cfg.m_oriFrameWidth 32)
         else u32 (MOS_ALIGN_CEIL s.cfg.m_oriFrameWidth s.cfg.m_rawSurfAlignment)) ∧
    ((AllocateSurfaceCsc K s).2.tracked (LookUpBufSlot K s).1).sCopiedSurface.dwHeight
      = (if s.cfg.m_mode = CODECHAL_ENCODE_MODE_HEVC
         then u32 (MOS_ALIGN_CEIL s.cfg.m_oriFrameHeight 32)
         else u32 (MOS_ALIGN_CEIL s.cfg.m_oriFrameHeight s.cfg.m_rawSurfAlignment)) := by
  have hcfg := LookUpBufSlot_cfg K s
  have hL := LookUpBufSlot_length K s
  rw [← hcfg]
  unfold AllocateSurfaceCsc at hok ⊢
  rw [hflag] at hok ⊢
  dsimp only at hok ⊢
  rw [if_neg (by decide)] at hok ⊢
  by_cases hidx : (LookUpBufSlot K s).1 ≥ K.CODEC_NUM_TRACKED_BUFFERS
  · rw [if_pos hidx] at hok
    exact absurd hok (fun h => by cases h)
  have hnn : ¬ ((({ (LookUpBufSlot K s).2 with m_cscBufCurrIdx := (LookUpBufSlot K s).1 } :
      CodechalEncodeCscDs).tracked (LookUpBufSlot K s).1).sCopiedSurface.OsResource ≠ none) :=
    not_not.mpr hnull
  rw [if_neg hidx, if_neg hnn] at hok ⊢
  refine allocCopied_dims K (LookUpBufSlot K s).1 _ _ _ _
    (fun s3 old =>
      if cscColorYUY2 = s3.m_colorRawSurface ∧
          HCP_CHROMA_FORMAT_YUV422 = s3.cfg.m_outputChromaFormat
      then Format_YUY2V
      else if cscColorY210 = s3.m_colorRawSurface then Format_Y216V
      else old)
    (Format_YUY2 =
      (if cscColorY210 = (LookUpBufSlot K s).2.m_colorRawSurface then Format_YUY2 else Format_NV12))
    { (LookUpBufSlot K s).2 with m_cscBufCurrIdx := (LookUpBufSlot K s).1 }
    (by show _ < (LookUpBufSlot K s).2.m_trackedBuffer.length; omega)
    (by
      intro hc
      rw [if_neg]
      intro h
      rw [if_pos h] at hc
      exact hc rfl) hok

/-- Counterexample to C23, in two inputs.  First an AVC session (raw-surface
alignment 4) with a 1920x1080 frame that needs colour conversion:
`AllocateSurfaceCsc()` requests and records a converted surface 1080 lines
high, which is not a multiple of 32; rounding up to 32 would give 1088.
Second an HEVC session with a frame 4294967295 pixels wide: the rounding is
done in `uint32_t`, where the next multiple of 32 is not representable, and
the surface is requested and recorded 0 pixels wide. -/
theorem AllocateSurfaceCsc_AVC_height_not_32_aligned :
    (avcSettings.m_mode ≠ CODECHAL_ENCODE_MODE_HEVC ∧
     avcSettings.m_rawSurfAlignment = 4 ∧
     avcSettings.m_oriFrameHeight = 1080 ∧
     (AllocateSurfaceCsc exampleConsts
       { freshState avcSettings with m_cscRequireColor := true }).1 = MOS_STATUS_SUCCESS ∧
     (AllocateSurfaceCsc exampleConsts
       { freshState avcSettings with m_cscRequireColor := true }).2.drv.trace
       = [Event.pfnAllocateResource (SurfacePtr.copied 9) 1 Format_NV12 1920 1080] ∧
     ((AllocateSurfaceCsc exampleConsts
       { freshState avcSettings with m_cscRequireColor := true }).2.tracked 9
       ).sCopiedSurface.dwHeight = 1080 ∧
     ((AllocateSurfaceCsc exampleConsts
       { freshState avcSettings with m_cscRequireColor := true }).2.tracked 9
       ).sCopiedSurface.dwHeight % 32 ≠ 0 ∧
     MOS_ALIGN_CEIL avcSettings.m_oriFrameHeight 32 = 1088) ∧
    (wideSettings.m_mode = CODECHAL_ENCODE_MODE_HEVC ∧
     wideSettings.m_oriFrameWidth = 4294967295 ∧
     (AllocateSurfaceCsc exampleConsts
       { freshState wideSettings with m_cscRequireColor := true }).1 = MOS_STATUS_SUCCESS ∧
     (AllocateSurfaceCsc exampleConsts
       { freshState wideSettings with m_cscRequireColor := true }).2.drv.trace
       = [Event.pfnAllocateResource (SurfacePtr.copied 9) 1 Format_NV12 0 1088] ∧
     ((AllocateSurfaceCsc exampleConsts
       { freshState wideSettings with m_cscRequireColor := true }).2.tracked 9
       ).sCopiedSurface.dwWidth = 0 ∧
     ¬ (wideSettings.m_oriFrameWidth
       ≤ ((AllocateSurfaceCsc exampleConsts
           { freshState wideSettings with m_cscRequireColor := true }).2.tracked 9
         ).sCopiedSurface.dwWidth)) := by
  decide

/-- C23 as amended: converted-surface alignment.  When `AllocateSurfaceCsc()`
allocates the converted copy of the slot it looked up and succeeds, the
surface width is `oriFrameWidth` and the surface height is `oriFrameHeight`,
each rounded up to the next multiple of 32 in HEVC mode and to the next
multiple of the raw-surface alignment in every other mode, the result taken
modulo 2^32; so whenever the rounded value is below 2^32 the recorded size is
a multiple of the alignment, at least the frame size and less than the frame
size plus the alignment. -/
theorem AllocateSurfaceCsc_alignment (K : CodecConsts) (s : CodechalEncodeCscDs)
    (hflag : s.m_cscFlag = true)
    (hlen : K.CODEC_NUM_TRACKED_BUFFERS ≤ s.m_trackedBuffer.length)
    (hnull : ((LookUpBufSlot K s).2.tracked (LookUpBufSlot K s).1).sCopiedSurface.OsResource
      = none)
    (hok : (AllocateSurfaceCsc K s).1 = MOS_STATUS_SUCCESS)
    (ha : 0 < s.cfg.m_rawSurfAlignment) :
    (((AllocateSurfaceCsc K s).2.tracked (LookUpBufSlot K s).1).sCopiedSurface.dwWidth
        = (if s.cfg.m_mode = CODECHAL_ENCODE_MODE_HEVC
           then MOS_ALIGN_CEIL s.cfg.m_oriFrameWidth 32
           else MOS_ALIGN_CEIL s.cfg.m_oriFrameWidth s.cfg.m_rawSurfAlignment) % 2 ^ 32 ∧
     ((AllocateSurfaceCsc K s).2.tracked (LookUpBufSlot K s).1).sCopiedSurface.dwHeight
        = (if s.cfg.m_mode = CODECHAL_ENCODE_MODE_HEVC
           then MOS_ALIGN_CEIL s.cfg.m_oriFrameHeight 32
           else MOS_ALIGN_CEIL s.cfg.m_oriFrameHeight s.cfg.m_rawSurfAlignment) % 2 ^ 32) ∧
    (s.cfg.m_mode = CODECHAL_ENCODE_MODE_HEVC →
      MOS_ALIGN_CEIL s.cfg.m_oriFrameWidth 32 < 2 ^ 32 →
      MOS_ALIGN_CEIL s.cfg.m_oriFrameHeight 32 < 2 ^ 32 →
      32 ∣ ((AllocateSurfaceCsc K s).2.tracked (LookUpBufSlot K s).1).sCopiedSurface.dwWidth ∧
      s.cfg.m_oriFrameWidth
        ≤ ((AllocateSurfaceCsc K s).2.tracked (LookUpBufSlot K s).1).sCopiedSurface.dwWidth ∧
      ((AllocateSurfaceCsc K s).2.tracked (LookUpBufSlot K s).1).sCopiedSurface.dwWidth
        < s.cfg.m_oriFrameWidth + 32 ∧
      32 ∣ ((AllocateSurfaceCsc K s).2.tracked (LookUpBufSlot K s).1).sCopiedSurface.dwHeight ∧
      s.cfg.m_oriFrameHeight
        ≤ ((AllocateSurfaceCsc K s).2.tracked (LookUpBufSlot K s).1).sCopiedSurface.dwHeight ∧
      ((AllocateSurfaceCsc K s).2.tracked (LookUpBufSlot K s).1).sCopiedSurface.dwHeight
        < s.cfg.m_oriFrameHeight + 32) ∧
    (s.cfg.m_mode ≠ CODECHAL_ENCODE_MODE_HEVC →
      MOS_ALIGN_CEIL s.cfg.m_oriFrameWidth s.cfg.m_rawSurfAlignment < 2 ^ 32 →
      MOS_ALIGN_CEIL s.cfg.m_oriFrameHeight s.cfg.m_rawSurfAlignment < 2 ^ 32 →
      s.cfg.m_rawSurfAlignment
        ∣ ((AllocateSurfaceCsc K s).2.tracked (LookUpBufSlot K s).1).sCopiedSurface.dwWidth ∧
      s.cfg.m_oriFrameWidth
        ≤ ((AllocateSurfaceCsc K s).2.tracked (LookUpBufSlot K s).1).sCopiedSurface.dwWidth ∧
      ((AllocateSurfaceCsc K s).2.tracked (LookUpBufSlot K s).1).sCopiedSurface.dwWidth
        < s.cfg.m_oriFrameWidth + s.cfg.m_rawSurfAlignment ∧
      s.cfg.m_rawSurfAlignment
        ∣ ((AllocateSurfaceCsc K s).2.tracked (LookUpBufSlot K s).1).sCopiedSurface.dwHeight ∧
      s.cfg.m_oriFrameHeight
        ≤ ((AllocateSurfaceCsc K s).2.tracked (LookUpBufSlot K s).1).sCopiedSurface.dwHeight ∧
      ((AllocateSurfaceCsc K s).2.tracked (LookUpBufSlot K s).1).sCopiedSurface.dwHeight
        < s.cfg.m_oriFrameHeight + s.cfg.m_rawSurfAlignment) := by
  obtain ⟨hw, hh⟩ := AllocateSurfaceCsc_dims K s hflag hlen hnull hok
  rw [hw, hh]
  unfold u32
  refine ⟨⟨?_, ?_⟩, fun hm fw fh => ?_, fun hm fw fh => ?_⟩
  · split_ifs <;> rfl
  · split_ifs <;> rfl
  · rw [if_pos hm, if_pos hm, Nat.mod_eq_of_lt fw, Nat.mod_eq_of_lt fh]
    have h1 := MOS_ALIGN_CEIL_spec s.cfg.m_oriFrameWidth 32 (by decide)
    have h2 := MOS_ALIGN_CEIL_spec s.cfg.m_oriFrameHeight 32 (by decide)
    exact ⟨h1.1, h1.2.1, h1.2.2, h2.1, h2.2.1, h2.2.2⟩
  · rw [if_neg hm, if_neg hm, Nat.mod_eq_of_lt fw, Nat.mod_eq_of_lt fh]
    have h1 := MOS_ALIGN_CEIL_spec s.cfg.m_oriFrameWidth _ ha
    have h2 := MOS_ALIGN_CEIL_spec s.cfg.m_oriFrameHeight _ ha
    exact ⟨h1.1, h1.2.1, h1.2.2, h2.1, h2.2.1, h2.2.2⟩

/-- Witness for C23 as amended: the AVC session of the counterexample; the
converted surface is 1920x1080, both multiples of the raw-surface alignment
4. -/
theorem AllocateSurfaceCsc_alignment_witness :
    4 ∣ ((AllocateSurfaceCsc exampleConsts
          { freshState avcSettings with m_cscRequireColor := true }).2.tracked 9
        ).sCopiedSurface.dwWidth ∧
    4 ∣ ((AllocateSurfaceCsc exampleConsts
          { freshState avcSettings with m_cscRequireColor := true }).2.tracked 9
        ).sCopiedSurface.dwHeight :=
  ⟨((AllocateSurfaceCsc_alignment exampleConsts
      { freshState avcSettings with m_cscRequireColor := true }
      (by decide) (by decide) (by decide) (by decide) (by decide)).2.2
        (by decide) (by decide) (by decide)).1,
   ((AllocateSurfaceCsc_alignment exampleConsts
      { freshState avcSettings with m_cscRequireColor := true }
      (by decide) (by decide) (by decide) (by decide) (by decide)).2.2
        (by decide) (by decide) (by decide)).2.2.2.1⟩

/-! ### The wait of `CmSurface` -/

theorem WaitForReferenceFree_loop_busy (C : CmConsts) (dev : CmDevice)
    (hbusy : ∀ k, dev.surfState k ≠ 0 ∧ C.FAILED (TouchDeviceQueue C (dev.touch k)) = false)
    (fuel k : Nat) : WaitForReferenceFree_loop C dev fuel k = none := by
  induction fuel generalizing k with
  | zero => rfl
  | succ n ih =>
    unfold WaitForReferenceFree_loop
    rw [if_pos (hbusy k).1, (hbusy k).2]
    exact ih (k + 1)

theorem WaitForReferenceFree_loop_spec (C : CmConsts) (dev : CmDevice) (n : Nat) :
    ∀ (k fuel : Nat), n < fuel →
      (∀ j, j < n → dev.surfState (k + j) ≠ 0 ∧
        C.FAILED (TouchDeviceQueue C (dev.touch (k + j))) = false) →
      WaitForReferenceFree_loop C dev fuel k
        = if dev.surfState (k + n) ≠ 0 then
            if C.FAILED (TouchDeviceQueue C (dev.touch (k + n))) then some C.CM_FAILURE
            else WaitForReferenceFree_loop C dev (fuel - (n + 1)) (k + n + 1)
          else some C.CM_SUCCESS := by
  induction n with
  | zero =>
    intro k fuel hf _
    obtain ⟨f, rfl⟩ : ∃ f, fuel = f + 1 := ⟨fuel - 1, by omega⟩
    rfl
  | succ n ih =>
    intro k fuel hf hb
    obtain ⟨f, rfl⟩ : ∃ f, fuel = f + 1 := ⟨fuel - 1, by omega⟩
    have h0 := hb 0 (by omega)
    rw [Nat.add_zero] at h0
    rw [WaitForReferenceFree_loop, if_pos h0.1, h0.2]
    have := ih (k + 1) f (by omega) (fun j hj => by
      have := hb (j + 1) (by omega)
      rwa [show k + (j + 1) = k + 1 + j by omega] at this)
    rw [show k + 1 + n = k + (n + 1) by omega] at this
    rw [show f + 1 - (n + 1 + 1) = f - (n + 1) by omega]
    simpa using this

theorem FlushDeviceQueue_loop_spec (C : CmConsts) (w : CmEventWait) (n : Nat) :
    ∀ (k fuel : Nat), n < fuel →
      (∀ j, j < n → w.queued (k + j) = true ∧
        w.counter (k + j + 1) ≤ FlushDeviceQueue_timeout C w) →
      FlushDeviceQueue_loop C w fuel k
        = if w.queued (k + n) then
            if w.counter (k + n + 1) > FlushDeviceQueue_timeout C w
              then some C.CM_EXCEED_MAX_TIMEOUT
            else FlushDeviceQueue_loop C w (fuel - (n + 1)) (k + n + 1)
          else some C.CM_SUCCESS := by
  induction n with
  | zero =>
    intro k fuel hf _
    obtain ⟨f, rfl⟩ : ∃ f, fuel = f + 1 := ⟨fuel - 1, by omega⟩
    rfl
  | succ n ih =>
    intro k fuel hf hb
    obtain ⟨f, rfl⟩ : ∃ f, fuel = f + 1 := ⟨fuel - 1, by omega⟩
    have h0 := hb 0 (by omega)
    rw [Nat.add_zero] at h0
    rw [FlushDeviceQueue_loop, if_pos h0.1, if_neg (not_lt.mpr h0.2)]
    have := ih (k + 1) f (by omega) (fun j hj => by
      have := hb (j + 1) (by omega)
      rwa [show k + (j + 1) = k + 1 + j by omega] at this)
    rw [show k + 1 + n = k + (n + 1) by omega] at this
    rw [show f + 1 - (n + 1 + 1) = f - (n + 1) by omega]
    simpa using this

/-- Counterexample to C26: a device on which the reference counter of the
surface always reads 1 and every touch of the queues succeeds.
`WaitForReferenceFree()` does not return, whatever the number of loop tests it
is given: it reads no clock and has no exceed-timeout exit. -/
theorem WaitForReferenceFree_never_times_out :
    (∀ k, busyDevice.surfState k ≠ 0 ∧
      exampleCm.FAILED (TouchDeviceQueue exampleCm (busyDevice.touch k)) = false) ∧
    ∀ fuel, WaitForReferenceFree exampleCm busyDevice fuel = none :=
  ⟨fun _ => ⟨by show (1 : Int) ≠ 0; decide,
      by show exampleCm.FAILED (TouchDeviceQueue exampleCm [0, 0]) = false; decide⟩,
   fun fuel => WaitForReferenceFree_loop_busy exampleCm busyDevice
    (fun _ => ⟨by show (1 : Int) ≠ 0; decide,
      by show exampleCm.FAILED (TouchDeviceQueue exampleCm [0, 0]) = false; decide⟩) fuel 0⟩

/-- C26 as amended: `CmSurface::WaitForReferenceFree()` returns `CM_SUCCESS`
once the reference counter of the surface reads zero, the touches of the
device queue having succeeded until then; it returns `CM_FAILURE` as soon as
`TouchDeviceQueue()` fails; while the counter stays non-zero and the touches
succeed it does not return.  The exceed-timeout exit is that of
`FlushDeviceQueue(pEvent)`: with the event queued at every test, it returns
`CM_EXCEED_MAX_TIMEOUT` at the first reading of the counter beyond
`start + CM_MAX_TIMEOUT * freq * num_tasks`. -/
theorem WaitForReferenceFree_spec (C : CmConsts) (dev : CmDevice) (n : Nat)
    (hbusy : ∀ j, j < n → dev.surfState j ≠ 0 ∧
      C.FAILED (TouchDeviceQueue C (dev.touch j)) = false) :
    (dev.surfState n = 0 →
      ∀ fuel, n < fuel → WaitForReferenceFree C dev fuel = some C.CM_SUCCESS) ∧
    (dev.surfState n ≠ 0 → C.FAILED (TouchDeviceQueue C (dev.touch n)) = true →
      ∀ fuel, n < fuel → WaitForReferenceFree C dev fuel = some C.CM_FAILURE) ∧
    ((∀ j, dev.surfState j ≠ 0 ∧ C.FAILED (TouchDeviceQueue C (dev.touch j)) = false) →
      ∀ fuel, WaitForReferenceFree C dev fuel = none) ∧
    (∀ w : CmEventWait, w.eventIsNull = false →
      (∀ j, j < n → w.queued j = true ∧ w.counter (j + 1) ≤ FlushDeviceQueue_timeout C w) →
      w.queued n = true → w.counter (n + 1) > FlushDeviceQueue_timeout C w →
      ∀ fuel, n < fuel → FlushDeviceQueue C w fuel = some C.CM_EXCEED_MAX_TIMEOUT) := by
  have hb : ∀ j, j < n → dev.surfState (0 + j) ≠ 0 ∧
      C.FAILED (TouchDeviceQueue C (dev.touch (0 + j))) = false := by
    intro j hj
    rw [Nat.zero_add]
    exact hbusy j hj
  refine ⟨fun h0 fuel hf => ?_, fun h0 hfail fuel hf => ?_, fun hall fuel => ?_,
    fun w hnn hq hqn hc fuel hf => ?_⟩
  · unfold WaitForReferenceFree
    rw [WaitForReferenceFree_loop_spec C dev n 0 fuel hf hb, Nat.zero_add, if_neg (not_not.mpr h0)]
  · unfold WaitForReferenceFree
    rw [WaitForReferenceFree_loop_spec C dev n 0 fuel hf hb, Nat.zero_add, if_pos h0, hfail]
    rfl
  · exact WaitForReferenceFree_loop_busy C dev hall fuel 0
  · unfold FlushDeviceQueue
    rw [hnn]
    have hq2 : ∀ j, j < n → w.queued (0 + j) = true ∧
        w.counter (0 + j + 1) ≤ FlushDeviceQueue_timeout C w := by
      intro j hj
      rw [Nat.zero_add]
      exact hq j hj
    rw [if_neg (by decide), FlushDeviceQueue_loop_spec C w n 0 fuel hf hq2, Nat.zero_add, hqn,
      if_pos rfl, if_pos hc]

/-- Witness for C26 as amended: a surface released before the fourth test of
the loop (`CM_SUCCESS` within four tests), a touch failing at the third call
(`CM_FAILURE` within three tests), and an event that stays queued while the
counter runs past `5000 + 2 * 1000 * 3` (`CM_EXCEED_MAX_TIMEOUT` from
`FlushDeviceQueue` within seven tests). -/
theorem WaitForReferenceFree_spec_witness :
    WaitForReferenceFree exampleCm releasingDevice 4 = some exampleCm.CM_SUCCESS ∧
    WaitForReferenceFree exampleCm failingDevice 3 = some exampleCm.CM_FAILURE ∧
    FlushDeviceQueue_timeout exampleCm stuckEvent = 11000 ∧
    FlushDeviceQueue exampleCm stuckEvent 7 = some exampleCm.CM_EXCEED_MAX_TIMEOUT :=
  ⟨(WaitForReferenceFree_spec exampleCm releasingDevice 3
      (fun j hj => by interval_cases j <;> exact ⟨by decide, by decide⟩)).1
      (by decide) 4 (by decide),
   (WaitForReferenceFree_spec exampleCm failingDevice 2
      (fun j hj => by interval_cases j <;> exact ⟨by decide, by decide⟩)).2.1
      (by decide) (by decide) 3 (by decide),
   by decide,
   (WaitForReferenceFree_spec exampleCm busyDevice 6
      (fun j hj => by interval_cases j <;> exact ⟨by decide, by decide⟩)).2.2.2
      stuckEvent rfl
      (fun j hj => by interval_cases j <;> exact ⟨by decide, by decide⟩)
      (by decide) (by decide) 7 (by decide)⟩

/-! ### Stages of `KernelFunctions` -/

/-- C29, the code at the failing input: the example session with 16x but
without 32x motion estimation on the separate-scaler path, colour conversion
required, first field, and the caller passes `b32xScalingInUse = true`.
`CscKernel` produces the 4x surface, so the 4x scaler step is skipped; the 16x
stage then dispatches `DsKernel` with the 16x surface as input and the 32x
surface, which was never allocated, as output, and sets `b32xScalingUsed`
instead of `b16xScalingUsed`.  With `b32xScalingInUse = false` on entry the
same call binds the 4x surface as input and the 16x surface as output and sets
`b16xScalingUsed`. -/
theorem KernelFunctions_16x_stage_stale_flag :
    useDsConvInCombinedKernel me16Settings = false ∧
    (KernelFunctions exampleConsts (some { zeroParams with b32xScalingInUse := true })
        { freshState me16Settings with m_cscRequireColor := true }).1 = MOS_STATUS_SUCCESS ∧
    (KernelFunctions exampleConsts (some { zeroParams with b32xScalingInUse := true })
        { freshState me16Settings with m_cscRequireColor := true }
      ).2.2.m_surfaceParamsDS.psInputSurface = SurfacePtr.scaled16x 0 ∧
    (KernelFunctions exampleConsts (some { zeroParams with b32xScalingInUse := true })
        { freshState me16Settings with m_cscRequireColor := true }
      ).2.2.m_surfaceParamsDS.psOutputSurface = SurfacePtr.scaled32x 0 ∧
    outputBinds (SurfacePtr.scaled16x 0)
      (KernelFunctions exampleConsts (some { zeroParams with b32xScalingInUse := true })
        { freshState me16Settings with m_cscRequireColor := true }).2.2.drv.trace = [] ∧
    outputBinds (SurfacePtr.scaled32x 0)
      (KernelFunctions exampleConsts (some { zeroParams with b32xScalingInUse := true })
        { freshState me16Settings with m_cscRequireColor := true }).2.2.drv.trace = [1] ∧
    ((KernelFunctions exampleConsts (some { zeroParams with b32xScalingInUse := true })
        { freshState me16Settings with m_cscRequireColor := true }
      ).2.2.tracked 0).sScaled32xSurface.OsResource = none ∧
    (KernelFunctions exampleConsts (some { zeroParams with b32xScalingInUse := true })
        { freshState me16Settings with m_cscRequireColor := true }
      ).2.2.m_currRefList.b16xScalingUsed = false ∧
    (KernelFunctions exampleConsts (some { zeroParams with b32xScalingInUse := true })
        { freshState me16Settings with m_cscRequireColor := true }
      ).2.2.m_currRefList.b32xScalingUsed = true ∧
    (KernelFunctions exampleConsts (some zeroParams)
        { freshState me16Settings with m_cscRequireColor := true }
      ).2.2.m_surfaceParamsDS.psInputSurface = SurfacePtr.scaled4x 0 ∧
    (KernelFunctions exampleConsts (some zeroParams)
        { freshState me16Settings with m_cscRequireColor := true }
      ).2.2.m_surfaceParamsDS.psOutputSurface = SurfacePtr.scaled16x 0 ∧
    (KernelFunctions exampleConsts (some zeroParams)
        { freshState me16Settings with m_cscRequireColor := true }
      ).2.2.m_currRefList.b16xScalingUsed = true := by
  decide

/-- Counterexample to C25: scaling enabled and 32x motion estimation supported,
but 16x motion estimation not supported (separate-scaler path, first field).
`KernelFunctions` succeeds with the 4x dispatch alone: no 32x stage runs,
`b32xScalingUsed` stays clear and the 32x surface is never bound. -/
theorem KernelFunctions_32x_needs_16x :
    me32OnlySettings.m_scalingEnabled = true ∧
    me32OnlySettings.m_32xMeSupported = true ∧
    me32OnlySettings.m_16xMeSupported = false ∧
    (KernelFunctions exampleConsts (some zeroParams) (freshState me32OnlySettings)).1
      = MOS_STATUS_SUCCESS ∧
    (walkersOf (KernelFunctions exampleConsts (some zeroParams)
      (freshState me32OnlySettings)).2.2.drv.trace).length = 1 ∧
    outputBinds (SurfacePtr.scaled4x 0)
      (KernelFunctions exampleConsts (some zeroParams)
        (freshState me32OnlySettings)).2.2.drv.trace = [0] ∧
    outputBinds (SurfacePtr.scaled32x 0)
      (KernelFunctions exampleConsts (some zeroParams)
        (freshState me32OnlySettings)).2.2.drv.trace = [] ∧
    (KernelFunctions exampleConsts (some zeroParams)
      (freshState me32OnlySettings)).2.2.m_currRefList.b32xScalingUsed = false ∧
    (KernelFunctions exampleConsts (some zeroParams) (freshState me32OnlySettings)).2.1
      = some zeroParams := by
  decide

/-- C28, the code at the failing input: the example session on the
common-kernel path in ring mode with colour conversion required.  One
successful `KernelFunctions` call runs `CscKernel` three times; each run looks
up a slot of its own, so the ring cursor advances from 0 to 3, the converted
copies of slots 9, 10 and 11 are each bound as output by one dispatch, and the
published surface is the copy of slot 9 while `m_cscBufCurrIdx` ends at 11. -/
theorem KernelFunctions_common_kernel_three_slots :
    commonKernelSettings.m_useRawForRef = false ∧
    ({ freshState commonKernelSettings with m_cscRequireColor := true }
      : CodechalEncodeCscDs).m_cscFlag = true ∧
    (KernelFunctions exampleConsts (some zeroParams)
      { freshState commonKernelSettings with m_cscRequireColor := true }).1
      = MOS_STATUS_SUCCESS ∧
    (bookkeeping { freshState commonKernelSettings with m_cscRequireColor := true }
      ).m_cscBufRingIdx = 0 ∧
    (bookkeeping (KernelFunctions exampleConsts (some zeroParams)
      { freshState commonKernelSettings with m_cscRequireColor := true }).2.2)
      = { m_cscBufCountResize := 0, m_cscBufAnteIdx := 9, m_cscBufPenuIdx := 10,
          m_cscBufLastIdx := 11, m_cscBufCountNonRef := 3, m_cscBufRingIdx := 3,
          m_cscBufCurrIdx := 11, m_waitCscSurf := false } ∧
    (bookkeeping (afterLookUp exampleConsts
      { freshState commonKernelSettings with m_cscRequireColor := true }))
      = { m_cscBufCountResize := 0, m_cscBufAnteIdx := 0, m_cscBufPenuIdx := 0,
          m_cscBufLastIdx := 9, m_cscBufCountNonRef := 1, m_cscBufRingIdx := 1,
          m_cscBufCurrIdx := 9, m_waitCscSurf := false } ∧
    outputBinds (SurfacePtr.copied 9)
      (KernelFunctions exampleConsts (some zeroParams)
        { freshState commonKernelSettings with m_cscRequireColor := true }).2.2.drv.trace
      = [0] ∧
    outputBinds (SurfacePtr.copied 10)
      (KernelFunctions exampleConsts (some zeroParams)
        { freshState commonKernelSettings with m_cscRequireColor := true }).2.2.drv.trace
      = [1] ∧
    outputBinds (SurfacePtr.copied 11)
      (KernelFunctions exampleConsts (some zeroParams)
        { freshState commonKernelSettings with m_cscRequireColor := true }).2.2.drv.trace
      = [2] ∧
    (KernelFunctions exampleConsts (some zeroParams)
      { freshState commonKernelSettings with m_cscRequireColor := true }).2.2.m_rawSurfaceToEnc
      = SurfacePtr.copied 9 := by
  decide

/-- C24, the code at the failing input: scenario S3.  The analysis of the
3840x2160 ARGB frame rejects the fixed-function scaler and requires the
colour conversion; `KernelFunctions` on the common-kernel path succeeds with
two dispatches of `CscKernel` (stages `dsDisabled` and `ds16x`); afterwards
`b4xScalingUsed` is true and `b16xScalingUsed` is still false. -/
theorem KernelFunctions_S3_16x_flag_not_set :
    useDsConvInCombinedKernel s3Settings = true ∧
    s3Settings.m_16xMeSupported = true ∧
    (CheckCondition exampleConsts (rawSurfaceDetails Format_A8R8G8B8 3840 2160) false
      MOS_MEMCOMP_DISABLED (freshState s3Settings)).1 = MOS_STATUS_SUCCESS ∧
    s3Analysed.m_cscUsingSfc = false ∧
    s3Analysed.m_cscRequireColor = true ∧
    (KernelFunctions exampleConsts (some zeroParams) s3Analysed).1 = MOS_STATUS_SUCCESS ∧
    (KernelFunctions exampleConsts (some zeroParams) s3Analysed).2.1
      = some { zeroParams with stageDsConversion := dsStage16x } ∧
    (walkersOf (KernelFunctions exampleConsts (some zeroParams) s3Analysed).2.2.drv.trace).length
      = 2 ∧
    (KernelFunctions exampleConsts (some zeroParams) s3Analysed).2.2.m_currRefList.b4xScalingUsed
      = true ∧
    (KernelFunctions exampleConsts (some zeroParams) s3Analysed).2.2.m_currRefList.b16xScalingUsed
      = false := by
  decide

/-! ### The slot view through the preparation of the kernels -/

theorem slotView_of_settled {s t : CodechalEncodeCscDs} (h : settled t = settled s) :
    slotView t = slotView s := by
  have e : slotView (settled t) = slotView (settled s) := congrArg slotView h
  exact e

theorem chk_slot (v : SlotView) (r : MOS_STATUS × CodechalEncodeCscDs)
    (k : CodechalEncodeCscDs → MOS_STATUS × CodechalEncodeCscDs)
    (hr : slotView r.2 = v) (hk : ∀ t, slotView t = v → slotView (k t).2 = v) :
    slotView (chk r k).2 = v :=
  chk_inv (fun t => slotView t = v) r k hr hk

theorem ite_slot (v : SlotView) (c : Prop) [Decidable c]
    (a b : MOS_STATUS × CodechalEncodeCscDs)
    (ha : c → slotView a.2 = v) (hb : ¬c → slotView b.2 = v) :
    slotView (if c then a else b).2 = v :=
  ite_inv (fun t => slotView t = v) c a b ha hb

theorem updSurface_slot (p : SurfacePtr) (f : MOS_SURFACE → MOS_SURFACE)
    (s : CodechalEncodeCscDs) : slotView (updSurface p f s) = slotView s := by
  cases p <;> rfl

theorem MOS_New_slot (s : CodechalEncodeCscDs) : slotView (MOS_New s).2 = slotView s := by
  unfold MOS_New
  dsimp only
  split_ifs <;> rfl

theorem pfnAllocateResource_slot (target : SurfacePtr) (format : MOS_FORMAT) (w h : Nat)
    (s : CodechalEncodeCscDs) :
    slotView (pfnAllocateResource target format w h s).2 = slotView s := by
  unfold pfnAllocateResource
  refine chk_slot _ _ _ rfl (fun t ht => ?_)
  exact (updSurface_slot _ _ _).trans ht

theorem CodecHal_GetResourceInfo_slot (K : CodecConsts) (target : SurfacePtr)
    (format : MOS_FORMAT) (w h : Nat) (s : CodechalEncodeCscDs) :
    slotView (CodecHal_GetResourceInfo K target format w h s).2 = slotView s := by
  unfold CodecHal_GetResourceInfo
  refine chk_slot _ _ _ rfl (fun t ht => ?_)
  exact (updSurface_slot _ _ _).trans ht

theorem extEv_slot (e : Event) (s : CodechalEncodeCscDs) :
    slotView (extEv e s).2 = slotView s := by
  unfold extEv
  exact chk_slot _ _ _ rfl (fun t ht => ht)

theorem InitKernelStateCsc_slot (s : CodechalEncodeCscDs) :
    slotView (InitKernelStateCsc s).2 = slotView s := by
  obtain ⟨v, h0⟩ : ∃ v, slotView s = v := ⟨_, rfl⟩
  rw [h0]
  unfold InitKernelStateCsc
  repeat' first
    | assumption
    | refine chk_slot _ _ _ ?_ (fun t ht => ?_)
    | refine ite_slot _ _ _ _ (fun _ => ?_) (fun _ => ?_)

theorem requestSshSpace_slot (s : CodechalEncodeCscDs) :
    slotView (requestSshSpace s).2 = slotView s :=
  slotView_of_settled (Quiet_requestSshSpace (Quiet_refl s)).1

theorem WaitCscSurface_slot (ctx : MOS_GPU_CONTEXT) (ro : Bool) (s : CodechalEncodeCscDs) :
    slotView (WaitCscSurface ctx ro s).2 = slotView s :=
  extEv_slot _ _

theorem AllocateSurfaceDS_slot (K : CodecConsts) (s : CodechalEncodeCscDs) :
    slotView (AllocateSurfaceDS K s).2 = slotView s := by
  obtain ⟨v, h0⟩ : ∃ v, slotView s = v := ⟨_, rfl⟩
  rw [h0]
  unfold AllocateSurfaceDS
  repeat' first
    | assumption
    | (rw [pfnAllocateResource_slot]; assumption)
    | (rw [CodecHal_GetResourceInfo_slot]; assumption)
    | refine chk_slot _ _ _ ?_ (fun t ht => ?_)
    | refine ite_slot _ _ _ _ (fun _ => ?_) (fun _ => ?_)

theorem AllocateSurface2xDS_slot (K : CodecConsts) (s : CodechalEncodeCscDs) :
    slotView (AllocateSurface2xDS K s).2 = slotView s := by
  obtain ⟨v, h0⟩ : ∃ v, slotView s = v := ⟨_, rfl⟩
  rw [h0]
  unfold AllocateSurface2xDS
  repeat' first
    | assumption
    | (rw [pfnAllocateResource_slot]; assumption)
    | (rw [CodecHal_GetResourceInfo_slot]; assumption)
    | refine chk_slot _ _ _ ?_ (fun t ht => ?_)
    | refine ite_slot _ _ _ _ (fun _ => ?_) (fun _ => ?_)

theorem InitKernelStateDS_pass_slot (s : CodechalEncodeCscDs) :
    slotView (InitKernelStateDS_pass s).2 = slotView s := by
  obtain ⟨v, h0⟩ : ∃ v, slotView s = v := ⟨_, rfl⟩
  rw [h0]
  unfold InitKernelStateDS_pass
  repeat' first
    | assumption
    | refine chk_slot _ _ _ ?_ (fun t ht => ?_)
    | refine ite_slot _ _ _ _ (fun _ => ?_) (fun _ => ?_)

theorem InitKernelStateDS_loop_slot (n : Nat) (s : CodechalEncodeCscDs) :
    slotView (InitKernelStateDS_loop n s).2 = slotView s := by
  induction n generalizing s with
  | zero => rfl
  | succ n ih =>
    unfold InitKernelStateDS_loop
    exact chk_slot _ _ _ (InitKernelStateDS_pass_slot s) (fun t ht => (ih t).trans ht)

theorem InitKernelStateDS_slot (K : CodecConsts) (s : CodechalEncodeCscDs) :
    slotView (InitKernelStateDS K s).2 = slotView s := by
  unfold InitKernelStateDS
  exact chk_slot _ _ _ rfl (fun t ht => (InitKernelStateDS_loop_slot _ t).trans ht)

theorem DsKernel_prepare_slot (K : CodecConsts) (s : CodechalEncodeCscDs) :
    slotView (DsKernel_prepare K s).2 = slotView s := by
  obtain ⟨v, h0⟩ : ∃ v, slotView s = v := ⟨_, rfl⟩
  rw [h0]
  unfold DsKernel_prepare
  repeat' first
    | assumption
    | (rw [InitKernelStateDS_slot]; assumption)
    | (rw [AllocateSurfaceDS_slot]; assumption)
    | (rw [AllocateSurface2xDS_slot]; assumption)
    | (rw [requestSshSpace_slot]; assumption)
    | refine chk_slot _ _ _ ?_ (fun t ht => ?_)
    | refine ite_slot _ _ _ _ (fun _ => ?_) (fun _ => ?_)

/-- The slot view after a look-up depends on the state through its slot view
and the settings only. -/
theorem afterLookUp_congr (K : CodecConsts) {s t : CodechalEncodeCscDs}
    (hv : slotView t = slotView s) (hc : t.cfg = s.cfg) :
    slotView (afterLookUp K t) = slotView (afterLookUp K s) := by
  have b := congrArg SlotView.book hv
  have e1 : t.m_cscBufCountResize = s.m_cscBufCountResize :=
    congrArg SlotBook.m_cscBufCountResize b
  have e2 : t.m_cscBufAnteIdx = s.m_cscBufAnteIdx := congrArg SlotBook.m_cscBufAnteIdx b
  have e3 : t.m_cscBufPenuIdx = s.m_cscBufPenuIdx := congrArg SlotBook.m_cscBufPenuIdx b
  have e4 : t.m_cscBufLastIdx = s.m_cscBufLastIdx := congrArg SlotBook.m_cscBufLastIdx b
  have e5 : t.m_cscBufCountNonRef = s.m_cscBufCountNonRef :=
    congrArg SlotBook.m_cscBufCountNonRef b
  have e6 : t.m_cscBufRingIdx = s.m_cscBufRingIdx := congrArg SlotBook.m_cscBufRingIdx b
  have e7 : t.m_currRefList.b16xScalingUsed = s.m_currRefList.b16xScalingUsed :=
    congrArg SlotView.b16xScalingUsed hv
  have e8 : t.m_currRefList.b32xScalingUsed = s.m_currRefList.b32xScalingUsed :=
    congrArg SlotView.b32xScalingUsed hv
  unfold afterLookUp LookUpBufSlot ReleaseSurfaceCsc emit updTracked
  dsimp only
  simp only [e1, e2, e3, e4, e5, e6, hc]
  split_ifs <;> simp_all [slotView, bookkeeping]

theorem AllocateSurfaceCsc_slot (K : CodecConsts) (s : CodechalEncodeCscDs) :
    slotView (AllocateSurfaceCsc K s).2
      = if s.m_cscFlag then slotView (afterLookUp K s) else slotView s := by
  cases hf : s.m_cscFlag
  · unfold AllocateSurfaceCsc
    rw [hf]
    rfl
  · rw [if_pos rfl]
    obtain ⟨v, h0⟩ : ∃ v, slotView (afterLookUp K s) = v := ⟨_, rfl⟩
    rw [h0]
    unfold AllocateSurfaceCsc
    rw [hf]
    dsimp only
    rw [if_neg (by decide)]
    repeat' first
      | exact h0
      | assumption
      | (rw [pfnAllocateResource_slot]; exact h0)
      | (rw [CodecHal_GetResourceInfo_slot]; assumption)
      | refine chk_slot _ _ _ ?_ (fun t ht => ?_)
      | refine ite_slot _ _ _ _ (fun _ => ?_) (fun _ => ?_)

/-- The slot view at every exit of the first part of `CscKernel`: that of the
entry state or that of one look-up from it, and after the call of
`AllocateSurfaceCsc()` the one or the other according to the CSC flag. -/
theorem CscKernel_prepare_slot (K : CodecConsts) (s : CodechalEncodeCscDs) :
    (slotView (CscKernel_prepare K s).2 = slotView s ∨
      slotView (CscKernel_prepare K s).2 = slotView (afterLookUp K s)) ∧
    ((CscKernel_prepare K s).1 = MOS_STATUS_SUCCESS →
      slotView (CscKernel_prepare K s).2
        = if s.m_cscFlag then slotView (afterLookUp K s) else slotView s) := by
  have hvf : ∀ v : SlotView,
      v = (if s.m_cscFlag then slotView (afterLookUp K s) else slotView s) →
      v = slotView s ∨ v = slotView (afterLookUp K s) := by
    intro v hv
    cases hf : s.m_cscFlag
    · rw [hf] at hv
      exact Or.inl hv
    · rw [hf] at hv
      exact Or.inr hv
  unfold CscKernel_prepare
  refine chk_walk
    (fun r => (slotView r.2 = slotView s ∨ slotView r.2 = slotView (afterLookUp K s)) ∧
      (r.1 = MOS_STATUS_SUCCESS →
        slotView r.2 = if s.m_cscFlag then slotView (afterLookUp K s) else slotView s))
    (fun r => slotView r.2 = slotView s ∧ frameView r.2 = frameView s) _ _ ?_
    (fun r hr hne => ⟨Or.inl hr.1, fun h => absurd h hne⟩) (fun r2 h2 _ => ?_)
  · constructor
    · obtain ⟨v, h0⟩ : ∃ v, slotView s = v := ⟨_, rfl⟩
      rw [h0]
      repeat' first
        | assumption
        | (rw [MOS_New_slot]; assumption)
        | (rw [InitKernelStateCsc_slot]; assumption)
        | refine chk_slot _ _ _ ?_ (fun t ht => ?_)
        | refine ite_slot _ _ _ _ (fun _ => ?_) (fun _ => ?_)
    · obtain ⟨v, h0⟩ : ∃ v, frameView s = v := ⟨_, rfl⟩
      rw [h0]
      repeat' first
        | assumption
        | (rw [MOS_New_view]; assumption)
        | (rw [InitKernelStateCsc_view]; assumption)
        | refine chk_keeps _ _ _ ?_ (fun t ht => ?_)
        | refine ite_keeps _ _ _ _ (fun _ => ?_) (fun _ => ?_)
  -- allocate CSC surface
  have hflag : r2.2.m_cscFlag = s.m_cscFlag := by
    have f := frameView_fields h2.2
    unfold m_cscFlag
    rw [f.2.1, f.2.2.1, f.2.2.2.1, f.2.2.2.2.1]
  have h3 : slotView (AllocateSurfaceCsc K r2.2).2
      = if s.m_cscFlag then slotView (afterLookUp K s) else slotView s := by
    rw [AllocateSurfaceCsc_slot, hflag, afterLookUp_congr K h2.1 (frameView_fields h2.2).1, h2.1]
  suffices h : slotView (chk (AllocateSurfaceCsc K r2.2) _).2
      = if s.m_cscFlag then slotView (afterLookUp K s) else slotView s from
    ⟨hvf _ h, fun _ => h⟩
  generalize (if s.m_cscFlag then slotView (afterLookUp K s) else slotView s) = v at h3 ⊢
  repeat' first
    | assumption
    | (rw [AllocateSurfaceDS_slot]; assumption)
    | (rw [AllocateSurface2xDS_slot]; assumption)
    | (rw [WaitCscSurface_slot]; assumption)
    | refine chk_slot _ _ _ ?_ (fun t ht => ?_)
    | refine ite_slot _ _ _ _ (fun _ => ?_) (fun _ => ?_)

/-! ### The slot view through the two kernels -/

theorem SetSurfacesToEncPak_slot (s : CodechalEncodeCscDs) :
    slotView (SetSurfacesToEncPak s).2 = slotView s := by
  unfold SetSurfacesToEncPak
  dsimp only
  split_ifs <;> rfl

theorem afterLookUp_flags (K : CodecConsts) (s : CodechalEncodeCscDs) :
    (slotView (afterLookUp K s)).b16xScalingUsed = s.m_currRefList.b16xScalingUsed ∧
    (slotView (afterLookUp K s)).b32xScalingUsed = s.m_currRefList.b32xScalingUsed := by
  unfold afterLookUp LookUpBufSlot ReleaseSurfaceCsc emit updTracked
  dsimp only
  split_ifs <;> exact ⟨rfl, rfl⟩

/-- The slot view at every exit of `CscKernel`: that of the entry state or
that of one look-up from it; on success the one or the other according to the
CSC flag. -/
theorem CscKernel_slot (K : CodecConsts) (p : KernelParams) (s : CodechalEncodeCscDs) :
    (slotView (CscKernel K (some p) s).2 = slotView s ∨
      slotView (CscKernel K (some p) s).2 = slotView (afterLookUp K s)) ∧
    ((CscKernel K (some p) s).1 = MOS_STATUS_SUCCESS →
      slotView (CscKernel K (some p) s).2
        = if s.m_cscFlag then slotView (afterLookUp K s) else slotView s) := by
  have hvf : ∀ v : SlotView,
      v = (if s.m_cscFlag then slotView (afterLookUp K s) else slotView s) →
      v = slotView s ∨ v = slotView (afterLookUp K s) := by
    intro v hv
    cases hf : s.m_cscFlag
    · rw [hf] at hv
      exact Or.inl hv
    · rw [hf] at hv
      exact Or.inr hv
  show (slotView (chk (CscKernel_prepare K s) _).2 = _ ∨ _) ∧ _
  refine chk_walk
    (fun r => (slotView r.2 = slotView s ∨ slotView r.2 = slotView (afterLookUp K s)) ∧
      (r.1 = MOS_STATUS_SUCCESS →
        slotView r.2 = if s.m_cscFlag then slotView (afterLookUp K s) else slotView s))
    (fun r => (slotView r.2 = slotView s ∨ slotView r.2 = slotView (afterLookUp K s)) ∧
      (r.1 = MOS_STATUS_SUCCESS →
        slotView r.2 = if s.m_cscFlag then slotView (afterLookUp K s) else slotView s))
    _ _ (CscKernel_prepare_slot K s) (fun r hr _ => hr) (fun r6 h6 hs6 => ?_)
  have h6v := h6.2 hs6
  suffices h : slotView (chk (SetKernelParamsCsc (some p) r6.2) _).2
      = if s.m_cscFlag then slotView (afterLookUp K s) else slotView s from
    ⟨hvf _ h, fun _ => h⟩
  generalize (if s.m_cscFlag then slotView (afterLookUp K s) else slotView s) = v at h6v ⊢
  refine chk_slot _ _ _ h6v (fun s7 h7 => ?_)
  refine chk_slot _ _ _ ((slotView_of_settled (CscKernel_stateHeap_quiet s7).1).trans h7)
    (fun s11 h11 => ?_)
  refine chk_slot _ _ _ ((slotView_of_settled (beginCommands_quiet s11).1).trans h11)
    (fun s14 h14 => ?_)
  refine chk_slot _ _ _
    ((slotView_of_settled (SendSurfaceCsc_binds _ SurfacePtr.nullPtr s14).1).trans h14)
    (fun s15 h15 => ?_)
  refine chk_slot _ _ _ ((slotView_of_settled (walkAndSubmit_spec _ _ s15).1).trans h15)
    (fun s16 h16 => ?_)
  refine ite_slot _ _ _ _ (fun _ => ?_) (fun _ => h16)
  exact (SetSurfacesToEncPak_slot s16).trans h16

theorem KeepsSlot_refl (s : CodechalEncodeCscDs) : KeepsSlot s s := ⟨rfl, rfl, rfl⟩

theorem KeepsSlot_trans {s t u : CodechalEncodeCscDs} (h₁ : KeepsSlot s t) (h₂ : KeepsSlot t u) :
    KeepsSlot s u :=
  ⟨h₂.1.trans h₁.1, h₂.2.1.trans h₁.2.1, h₂.2.2.trans h₁.2.2⟩

theorem KeepsSlot_of_settled {s t : CodechalEncodeCscDs} (h : settled t = settled s) :
    KeepsSlot s t :=
  ⟨congrArg SlotView.book (slotView_of_settled h), (settled_fields h).2.2.2.2.2.1,
    (settled_fields h).2.2.2.2.2.2.1⟩

theorem KeepsSlot_of_views {s t : CodechalEncodeCscDs} (h₁ : slotView t = slotView s)
    (h₂ : frameView t = frameView s) : KeepsSlot s t :=
  ⟨congrArg SlotView.book h₁, (frameView_fields h₂).2.2.2.2.2.2.2.1,
    (frameView_fields h₂).2.2.2.2.2.2.2.2⟩

theorem KeepsSlot_level (p : KernelParams) (s : CodechalEncodeCscDs) :
    KeepsSlot s (DsKernel_level p s) := by
  unfold DsKernel_level
  split_ifs <;> exact ⟨rfl, rfl, rfl⟩

/-- `DsKernel` leaves the slot bookkeeping and the two output pointers alone,
at every exit. -/
theorem DsKernel_keeps (K : CodecConsts) (p : KernelParams) (s : CodechalEncodeCscDs) :
    KeepsSlot s (DsKernel K (some p) s).2 := by
  by_cases hff : s.cfg.m_firstField = true
  swap
  · have hr : DsKernel K (some p) s = (MOS_STATUS_SUCCESS, s) := by
      simp [DsKernel, hff]
    rw [hr]
    exact KeepsSlot_refl s
  have hr : DsKernel K (some p) s
      = chk (DsKernel_prepare K s) fun s7 =>
          let s8 := DsKernel_level p s7
          if s8.cfg.codecFunctionIsFeiPreEnc ∧ s8.cfg.pPreEncParams = none then
            (MOS_STATUS_NULL_POINTER, s8) else
          let s9 := DsKernel_curbeParams p s8
          chk (if p.b32xScalingInUse then SetCurbeDS2x s9 else SetCurbeDS4x s9) fun s10 =>
          let encFunctionType :=
            if p.b32xScalingInUse then CODECHAL_MEDIA_STATE_32X_SCALING
            else if p.b16xScalingInUse then CODECHAL_MEDIA_STATE_16X_SCALING
            else CODECHAL_MEDIA_STATE_4X_SCALING
          let cmdBuffer := s10.drv.nextCmdBuffer
          chk (beginCommands s10) fun s13 =>
          let s14 := DsKernel_surfaceParams p s13
          chk (SendSurfaceDS cmdBuffer encFunctionType s14) fun s15 =>
          walkAndSubmit cmdBuffer
            (rasterWalker s15.cfg (dsResolutionX p s15.cfg) (dsResolutionY p s15.cfg)) s15 := by
    simp [DsKernel, hff]
  rw [hr]
  clear hr
  refine chk_inv (KeepsSlot s) _ _
    (KeepsSlot_of_views (DsKernel_prepare_slot K s) (DsKernel_prepare_view K s))
    (fun s7 h7 => ?_)
  have h8 : KeepsSlot s (DsKernel_level p s7) := KeepsSlot_trans h7 (KeepsSlot_level p s7)
  generalize DsKernel_level p s7 = s8 at h8 ⊢
  refine ite_inv (KeepsSlot s) _ _ _ (fun _ => h8) (fun _ => ?_)
  have h9 : KeepsSlot s (DsKernel_curbeParams p s8) := h8
  generalize DsKernel_curbeParams p s8 = s9 at h9 ⊢
  refine chk_inv (KeepsSlot s) _ _ ?_ (fun s10 h10 => ?_)
  · split_ifs <;> exact h9
  refine chk_inv (KeepsSlot s) _ _
    (KeepsSlot_trans h10 (KeepsSlot_of_settled (beginCommands_quiet s10).1)) (fun s13 h13 => ?_)
  have h14 : KeepsSlot s (DsKernel_surfaceParams p s13) := h13
  generalize DsKernel_surfaceParams p s13 = s14 at h14 ⊢
  refine chk_inv (KeepsSlot s) _ _
    (KeepsSlot_trans h14 (KeepsSlot_of_settled (SendSurfaceDS_binds _ _ SurfacePtr.nullPtr s14).1))
    (fun s15 h15 => ?_)
  exact KeepsSlot_trans h15 (KeepsSlot_of_settled (walkAndSubmit_spec _ _ s15).1)

/-- The converted copies that a call of `CscKernel` binds as output: all
bindings go into one command buffer, and only the copy of the slot that
`m_cscBufCurrIdx` names after the call is bound. -/
theorem CscKernel_copied_binds (K : CodecConsts) (p : KernelParams) (s : CodechalEncodeCscDs)
    (j : Nat) :
    ∃ c n, outputBinds (SurfacePtr.copied j) (CscKernel K (some p) s).2.drv.trace
        = outputBinds (SurfacePtr.copied j) s.drv.trace ++ List.replicate n c ∧
      (n ≠ 0 → j = (CscKernel K (some p) s).2.m_cscBufCurrIdx) := by
  have quiet : ∀ {s7 : CodechalEncodeCscDs} (r : MOS_STATUS × CodechalEncodeCscDs),
      outputBinds (SurfacePtr.copied j) s7.drv.trace
        = outputBinds (SurfacePtr.copied j) s.drv.trace →
      Quiet s7 r.2 →
      ∃ c n, outputBinds (SurfacePtr.copied j) r.2.drv.trace
          = outputBinds (SurfacePtr.copied j) s.drv.trace ++ List.replicate n c ∧
        (n ≠ 0 → j = r.2.m_cscBufCurrIdx) := by
    intro s7 r hb hq
    refine ⟨0, 0, ?_, fun h => absurd rfl h⟩
    rw [Quiet_binds _ hq, hb]
    simp
  show ∃ c n, outputBinds _ (chk (CscKernel_prepare K s) _).2.drv.trace = _ ∧ _
  refine chk_walk
    (fun r => ∃ c n, outputBinds (SurfacePtr.copied j) r.2.drv.trace
        = outputBinds (SurfacePtr.copied j) s.drv.trace ++ List.replicate n c ∧
      (n ≠ 0 → j = r.2.m_cscBufCurrIdx))
    (fun r => frameView r.2 = frameView s) _ _ (CscKernel_prepare_view K s)
    (fun r hr _ => quiet r (outputBinds_of_view _ hr) (Quiet_refl _)) (fun r6 h6 _ => ?_)
  -- setup kernel params
  rw [chk_of_success (SetKernelParamsCsc (some p) r6.2) _ rfl]
  have hb7 : outputBinds (SurfacePtr.copied j) (SetKernelParamsCsc (some p) r6.2).2.drv.trace
      = outputBinds (SurfacePtr.copied j) s.drv.trace := outputBinds_of_view _ h6
  have hO7 : (SetKernelParamsCsc (some p) r6.2).2.m_surfaceParamsCsc.psOutput4xDsSurface
      ≠ SurfacePtr.copied j := by
    show (if r6.2.cfg.m_scalingEnabled then SurfacePtr.scaled4x r6.2.cfg.m_currScalingIdx
        else SurfacePtr.nullPtr) ≠ _
    split_ifs <;> exact fun h => by cases h
  have hC7 : (SetKernelParamsCsc (some p) r6.2).2.m_surfaceParamsCsc.psOutputCopiedSurface
      = SurfacePtr.copied (SetKernelParamsCsc (some p) r6.2).2.m_cscBufCurrIdx := rfl
  generalize (SetKernelParamsCsc (some p) r6.2).2 = s7 at hb7 hO7 hC7 ⊢
  refine chk_walk _ (fun r => Quiet s7 r.2) _ _ (CscKernel_stateHeap_quiet s7)
    (fun r hr _ => quiet r hb7 hr) (fun r11 h11 _ => ?_)
  show ∃ c n, outputBinds _ (chk (beginCommands r11.2) _).2.drv.trace = _ ∧ _
  refine chk_walk _ (fun r => Quiet s7 r.2) _ _ (Quiet_trans h11 (beginCommands_quiet r11.2))
    (fun r hr _ => quiet r hb7 hr) (fun r14 h14 _ => ?_)
  -- the surfaces
  have key : ∀ t : CodechalEncodeCscDs,
      BindsInv r14.2 r11.2.drv.nextCmdBuffer (SurfacePtr.copied j)
        (SurfacePtr.copied j = r14.2.m_surfaceParamsCsc.psOutput4xDsSurface ∨
          SurfacePtr.copied j = SurfacePtr.resource ResourcePtr.mbStatsBuffer ∨
          SurfacePtr.copied j = SurfacePtr.flatnessCheck ∨
          SurfacePtr.copied j = r14.2.m_surfaceParamsCsc.psOutputCopiedSurface) t →
      settled t = settled s7 ∧
      ∃ c n, outputBinds (SurfacePtr.copied j) t.drv.trace
          = outputBinds (SurfacePtr.copied j) s.drv.trace ++ List.replicate n c ∧
        (n ≠ 0 → j = t.m_cscBufCurrIdx) := by
    intro t ⟨h1, _, n, h3, h4⟩
    have hsp : r14.2.m_surfaceParamsCsc = s7.m_surfaceParamsCsc :=
      (settled_fields h14.1).2.2.2.2.2.2.2.2.2.1
    have hst : settled t = settled s7 := h1.trans h14.1
    refine ⟨hst, r11.2.drv.nextCmdBuffer, n, ?_, fun hn => ?_⟩
    · rw [h3, Quiet_binds _ h14, hb7]
    · rw [hsp, hC7] at h4
      rcases h4 hn with h | h | h | h
      · exact absurd h.symm hO7
      · cases h
      · cases h
      · rw [(settled_fields hst).2.2.2.2.2.2.2.2.1]
        exact SurfacePtr.copied.inj h
  refine chk_walk _
    (fun r => BindsInv r14.2 r11.2.drv.nextCmdBuffer (SurfacePtr.copied j)
      (SurfacePtr.copied j = r14.2.m_surfaceParamsCsc.psOutput4xDsSurface ∨
        SurfacePtr.copied j = SurfacePtr.resource ResourcePtr.mbStatsBuffer ∨
        SurfacePtr.copied j = SurfacePtr.flatnessCheck ∨
        SurfacePtr.copied j = r14.2.m_surfaceParamsCsc.psOutputCopiedSurface) r.2)
    _ _ (SendSurfaceCsc_binds _ (SurfacePtr.copied j) r14.2) (fun r hr _ => (key _ hr).2)
    (fun r15 h15 _ => ?_)
  obtain ⟨e1, c, n, e2, e3⟩ := key _ h15
  -- the walker
  have tail : ∀ W, ∃ c n,
      outputBinds (SurfacePtr.copied j)
          (walkAndSubmit r11.2.drv.nextCmdBuffer W r15.2).2.drv.trace
        = outputBinds (SurfacePtr.copied j) s.drv.trace ++ List.replicate n c ∧
      (n ≠ 0 → j = (walkAndSubmit r11.2.drv.nextCmdBuffer W r15.2).2.m_cscBufCurrIdx) := by
    intro W
    obtain ⟨g1, g2, -⟩ := walkAndSubmit_spec r11.2.drv.nextCmdBuffer W r15.2
    refine ⟨c, n, by rw [g2, e2], fun hn => ?_⟩
    rw [(settled_fields g1).2.2.2.2.2.2.2.2.1]
    exact e3 hn
  refine chk_walk _
    (fun r => ∃ c n, outputBinds (SurfacePtr.copied j) r.2.drv.trace
        = outputBinds (SurfacePtr.copied j) s.drv.trace ++ List.replicate n c ∧
      (n ≠ 0 → j = r.2.m_cscBufCurrIdx))
    _ _ (tail _) (fun r hr _ => hr) (fun r16 h16 _ => ?_)
  obtain ⟨c', n', f1, f2⟩ := h16
  have hsp := SetSurfacesToEncPak_spec r16.2
  by_cases hst : dsDisabled = p.stageDsConversion
  · rw [if_pos hst]
    refine ⟨c', n', ?_, fun hn => ?_⟩
    · rw [hsp.2.2.1]
      exact f1
    · rw [hsp.2.2.2.2.1]
      exact f2 hn
  · rw [if_neg hst]
    exact ⟨c', n', f1, f2⟩

/-! ### The stages of `KernelFunctions` and the settings -/

theorem CscKernel_cfg (K : CodecConsts) (p : KernelParams) (s : CodechalEncodeCscDs) :
    (CscKernel K (some p) s).2.cfg = s.cfg :=
  (CscKernel_outcome K p s SurfacePtr.nullPtr).1

theorem DsKernel_cfg (K : CodecConsts) (p : KernelParams) (s : CodechalEncodeCscDs) :
    (DsKernel K (some p) s).2.cfg = s.cfg :=
  (DsKernel_outcome K p s SurfacePtr.nullPtr).1

theorem KernelFunctions_4x_cfg (K : CodecConsts) (p : KernelParams) (s : CodechalEncodeCscDs) :
    (KernelFunctions_4x K p s).2.2.cfg = s.cfg := by
  unfold KernelFunctions_4x
  split_ifs
  · exact DsKernel_cfg K _ s
  · rfl

theorem KernelFunctions_16x_cfg (K : CodecConsts) (u : Bool) (p : KernelParams)
    (s : CodechalEncodeCscDs) : (KernelFunctions_16x K u p s).2.2.cfg = s.cfg := by
  cases u
  · exact DsKernel_cfg K _ s
  · exact CscKernel_cfg K _ s

theorem KernelFunctions_head_cfg (K : CodecConsts) (p : KernelParams) (s : CodechalEncodeCscDs) :
    (KernelFunctions_head K p s).2.2.cfg = s.cfg := by
  have h1 : (if (s.m_cscFlag || useDsConvInCombinedKernel s.cfg) = true
      then CscKernel K (some p) s else (MOS_STATUS_SUCCESS, s)).2.cfg = s.cfg := by
    split_ifs
    · exact CscKernel_cfg K p s
    · rfl
  unfold KernelFunctions_head
  dsimp only
  generalize (if (s.m_cscFlag || useDsConvInCombinedKernel s.cfg) = true
      then CscKernel K (some p) s else (MOS_STATUS_SUCCESS, s)) = r1 at h1 ⊢
  split_ifs
  · exact h1
  · exact (KernelFunctions_4x_cfg K p r1.2).trans h1

/-- `KernelFunctions` as the sequence of its blocks, the guards of the 16x and
32x blocks read from the settings of the entry state. -/
theorem KernelFunctions_blocks (K : CodecConsts) (p : KernelParams) (s : CodechalEncodeCscDs) :
    KernelFunctions K (some p) s =
      if (KernelFunctions_head K p s).1 ≠ MOS_STATUS_SUCCESS then
        ((KernelFunctions_head K p s).1, some (KernelFunctions_head K p s).2.1,
          (KernelFunctions_head K p s).2.2)
      else if (s.cfg.m_scalingEnabled && s.cfg.m_16xMeSupported) = true then
        if (KernelFunctions_16x K (useDsConvInCombinedKernel s.cfg)
            (KernelFunctions_head K p s).2.1 (KernelFunctions_head K p s).2.2).1
            ≠ MOS_STATUS_SUCCESS then
          ((KernelFunctions_16x K (useDsConvInCombinedKernel s.cfg)
              (KernelFunctions_head K p s).2.1 (KernelFunctions_head K p s).2.2).1,
            some (KernelFunctions_16x K (useDsConvInCombinedKernel s.cfg)
              (KernelFunctions_head K p s).2.1 (KernelFunctions_head K p s).2.2).2.1,
            (KernelFunctions_16x K (useDsConvInCombinedKernel s.cfg)
              (KernelFunctions_head K p s).2.1 (KernelFunctions_head K p s).2.2).2.2)
        else if s.cfg.m_32xMeSupported = true then
          ((KernelFunctions_32x K (useDsConvInCombinedKernel s.cfg)
              (KernelFunctions_16x K (useDsConvInCombinedKernel s.cfg)
                (KernelFunctions_head K p s).2.1 (KernelFunctions_head K p s).2.2).2.1
              (KernelFunctions_16x K (useDsConvInCombinedKernel s.cfg)
                (KernelFunctions_head K p s).2.1 (KernelFunctions_head K p s).2.2).2.2).1,
            some (KernelFunctions_32x K (useDsConvInCombinedKernel s.cfg)
              (KernelFunctions_16x K (useDsConvInCombinedKernel s.cfg)
                (KernelFunctions_head K p s).2.1 (KernelFunctions_head K p s).2.2).2.1
              (KernelFunctions_16x K (useDsConvInCombinedKernel s.cfg)
                (KernelFunctions_head K p s).2.1 (KernelFunctions_head K p s).2.2).2.2).2.1,
            (KernelFunctions_32x K (useDsConvInCombinedKernel s.cfg)
              (KernelFunctions_16x K (useDsConvInCombinedKernel s.cfg)
                (KernelFunctions_head K p s).2.1 (KernelFunctions_head K p s).2.2).2.1
              (KernelFunctions_16x K (useDsConvInCombinedKernel s.cfg)
                (KernelFunctions_head K p s).2.1 (KernelFunctions_head K p s).2.2).2.2).2.2)
        else
          (MOS_STATUS_SUCCESS,
            some (KernelFunctions_16x K (useDsConvInCombinedKernel s.cfg)
              (KernelFunctions_head K p s).2.1 (KernelFunctions_head K p s).2.2).2.1,
            (KernelFunctions_16x K (useDsConvInCombinedKernel s.cfg)
              (KernelFunctions_head K p s).2.1 (KernelFunctions_head K p s).2.2).2.2)
      else
        (MOS_STATUS_SUCCESS, some (KernelFunctions_head K p s).2.1,
          (KernelFunctions_head K p s).2.2) := by
  have hu : (s.cfg.m_useCommonKernel &&
      !(decide (CODECHAL_AVC = s.cfg.m_standard) || decide (CODECHAL_MPEG2 = s.cfg.m_standard)))
      = useDsConvInCombinedKernel s.cfg := rfl
  have hc2 := KernelFunctions_head_cfg K p s
  have hc3 := KernelFunctions_16x_cfg K (useDsConvInCombinedKernel s.cfg)
    (KernelFunctions_head K p s).2.1 (KernelFunctions_head K p s).2.2
  have e : KernelFunctions K (some p) s =
      if (if (s.m_cscFlag || useDsConvInCombinedKernel s.cfg) = true
          then CscKernel K (some p) s else (MOS_STATUS_SUCCESS, s)).1 ≠ MOS_STATUS_SUCCESS then
        ((if (s.m_cscFlag || useDsConvInCombinedKernel s.cfg) = true
          then CscKernel K (some p) s else (MOS_STATUS_SUCCESS, s)).1, some p,
         (if (s.m_cscFlag || useDsConvInCombinedKernel s.cfg) = true
          then CscKernel K (some p) s else (MOS_STATUS_SUCCESS, s)).2)
      else
        if (KernelFunctions_head K p s).1 ≠ MOS_STATUS_SUCCESS then
          ((KernelFunctions_head K p s).1, some (KernelFunctions_head K p s).2.1,
            (KernelFunctions_head K p s).2.2)
        else if ((KernelFunctions_head K p s).2.2.cfg.m_scalingEnabled &&
            (KernelFunctions_head K p s).2.2.cfg.m_16xMeSupported) = true then
          if (KernelFunctions_16x K (useDsConvInCombinedKernel s.cfg)
              (KernelFunctions_head K p s).2.1 (KernelFunctions_head K p s).2.2).1
              ≠ MOS_STATUS_SUCCESS then
            ((KernelFunctions_16x K (useDsConvInCombinedKernel s.cfg)
                (KernelFunctions_head K p s).2.1 (KernelFunctions_head K p s).2.2).1,
              some (KernelFunctions_16x K (useDsConvInCombinedKernel s.cfg)
                (KernelFunctions_head K p s).2.1 (KernelFunctions_head K p s).2.2).2.1,
              (KernelFunctions_16x K (useDsConvInCombinedKernel s.cfg)
                (KernelFunctions_head K p s).2.1 (KernelFunctions_head K p s).2.2).2.2)
          else if (KernelFunctions_16x K (useDsConvInCombinedKernel s.cfg)
                (KernelFunctions_head K p s).2.1
                (KernelFunctions_head K p s).2.2).2.2.cfg.m_32xMeSupported = true then
            ((KernelFunctions_32x K (useDsConvInCombinedKernel s.cfg)
                (KernelFunctions_16x K (useDsConvInCombinedKernel s.cfg)
                  (KernelFunctions_head K p s).2.1 (KernelFunctions_head K p s).2.2).2.1
                (KernelFunctions_16x K (useDsConvInCombinedKernel s.cfg)
                  (KernelFunctions_head K p s).2.1 (KernelFunctions_head K p s).2.2).2.2).1,
              some (KernelFunctions_32x K (useDsConvInCombinedKernel s.cfg)
                (KernelFunctions_16x K (useDsConvInCombinedKernel s.cfg)
                  (KernelFunctions_head K p s).2.1 (KernelFunctions_head K p s).2.2).2.1
                (KernelFunctions_16x K (useDsConvInCombinedKernel s.cfg)
                  (KernelFunctions_head K p s).2.1 (KernelFunctions_head K p s).2.2).2.2).2.1,
              (KernelFunctions_32x K (useDsConvInCombinedKernel s.cfg)
                (KernelFunctions_16x K (useDsConvInCombinedKernel s.cfg)
                  (KernelFunctions_head K p s).2.1 (KernelFunctions_head K p s).2.2).2.1
                (KernelFunctions_16x K (useDsConvInCombinedKernel s.cfg)
                  (KernelFunctions_head K p s).2.1 (KernelFunctions_head K p s).2.2).2.2).2.2)
          else
            (MOS_STATUS_SUCCESS,
              some (KernelFunctions_16x K (useDsConvInCombinedKernel s.cfg)
                (KernelFunctions_head K p s).2.1 (KernelFunctions_head K p s).2.2).2.1,
              (KernelFunctions_16x K (useDsConvInCombinedKernel s.cfg)
                (KernelFunctions_head K p s).2.1 (KernelFunctions_head K p s).2.2).2.2)
        else
          (MOS_STATUS_SUCCESS, some (KernelFunctions_head K p s).2.1,
            (KernelFunctions_head K p s).2.2) := by
    by_cases h1 : (if (s.m_cscFlag || useDsConvInCombinedKernel s.cfg) = true
          then CscKernel K (some p) s else (MOS_STATUS_SUCCESS, s)).1 = MOS_STATUS_SUCCESS
    · have hh : KernelFunctions_head K p s
          = KernelFunctions_4x K p
              (if (s.m_cscFlag || useDsConvInCombinedKernel s.cfg) = true
                then CscKernel K (some p) s else (MOS_STATUS_SUCCESS, s)).2 := by
        unfold KernelFunctions_head
        dsimp only
        rw [if_neg (not_not.mpr h1)]
      rw [if_neg (not_not.mpr h1), hh]
      unfold KernelFunctions
      dsimp only
      rw [hu, if_neg (not_not.mpr h1)]
    · rw [if_pos h1]
      unfold KernelFunctions
      dsimp only
      rw [hu, if_pos h1]
  rw [e]
  clear e
  rw [hc3, hc2]
  by_cases h1 : (if (s.m_cscFlag || useDsConvInCombinedKernel s.cfg) = true
        then CscKernel K (some p) s else (MOS_STATUS_SUCCESS, s)).1 = MOS_STATUS_SUCCESS
  · rw [if_neg (not_not.mpr h1)]
  · have hh : KernelFunctions_head K p s
        = ((if (s.m_cscFlag || useDsConvInCombinedKernel s.cfg) = true
              then CscKernel K (some p) s else (MOS_STATUS_SUCCESS, s)).1, p,
            (if (s.m_cscFlag || useDsConvInCombinedKernel s.cfg) = true
              then CscKernel K (some p) s else (MOS_STATUS_SUCCESS, s)).2) := by
      unfold KernelFunctions_head
      dsimp only
      rw [if_pos h1]
    rw [if_pos h1, hh, if_pos h1]

theorem CscKernel_refFlags (K : CodecConsts) (p : KernelParams) (s : CodechalEncodeCscDs) :
    (CscKernel K (some p) s).2.cfg = s.cfg ∧
    (CscKernel K (some p) s).2.m_currRefList.b16xScalingUsed
      = s.m_currRefList.b16xScalingUsed ∧
    (CscKernel K (some p) s).2.m_currRefList.b32xScalingUsed
      = s.m_currRefList.b32xScalingUsed ∧
    ((CscKernel K (some p) s).1 = MOS_STATUS_SUCCESS →
      (CscKernel K (some p) s).2.m_currRefList.b4xScalingUsed = s.cfg.m_scalingEnabled) := by
  refine ⟨CscKernel_cfg K p s, ?_, ?_,
    fun h => ((CscKernel_outcome K p s SurfacePtr.nullPtr).2.2.2 h).1⟩
  · rcases (CscKernel_slot K p s).1 with h | h
    · exact congrArg SlotView.b16xScalingUsed h
    · exact (congrArg SlotView.b16xScalingUsed h).trans (afterLookUp_flags K s).1
  · rcases (CscKernel_slot K p s).1 with h | h
    · exact congrArg SlotView.b32xScalingUsed h
    · exact (congrArg SlotView.b32xScalingUsed h).trans (afterLookUp_flags K s).2

/-- The blocks `// call Ds+Copy` and `// call 4x DS` on the common-kernel
path, when they succeed: `CscKernel` ran and the 4x scaler did not. -/
theorem KernelFunctions_head_common (K : CodecConsts) (p : KernelParams)
    (s : CodechalEncodeCscDs) (hu : useDsConvInCombinedKernel s.cfg = true)
    (hok : (KernelFunctions_head K p s).1 = MOS_STATUS_SUCCESS) :
    (KernelFunctions_head K p s).2.2.m_currRefList.b4xScalingUsed = s.cfg.m_scalingEnabled ∧
    (KernelFunctions_head K p s).2.2.m_currRefList.b16xScalingUsed
      = s.m_currRefList.b16xScalingUsed ∧
    (KernelFunctions_head K p s).2.2.m_currRefList.b32xScalingUsed
      = s.m_currRefList.b32xScalingUsed := by
  obtain ⟨c1, f16, f32, f4⟩ := CscKernel_refFlags K p s
  unfold KernelFunctions_head at hok ⊢
  dsimp only at hok ⊢
  rw [hu, Bool.or_true, if_pos rfl] at hok ⊢
  by_cases h1 : (CscKernel K (some p) s).1 = MOS_STATUS_SUCCESS
  · rw [if_neg (not_not.mpr h1)] at hok ⊢
    have hskip : (KernelFunctions_4x K p (CscKernel K (some p) s).2)
        = (MOS_STATUS_SUCCESS, p, (CscKernel K (some p) s).2) := by
      unfold KernelFunctions_4x
      rw [if_neg]
      rw [f4 h1, c1]
      cases s.cfg.m_scalingEnabled <;> decide
    rw [hskip]
    exact ⟨f4 h1, f16, f32⟩
  · rw [if_pos h1] at hok
    exact absurd hok h1

/-- What the code records on the common-kernel path: every stage of
`KernelFunctions` is a dispatch of `CscKernel`, which records the 4x flag only.  After a
successful call `b4xScalingUsed` equals `m_scalingEnabled` (true when scaling
is enabled), while `b16xScalingUsed` and `b32xScalingUsed` are as they were
before the call. -/
theorem KernelFunctions_common_kernel_flags (K : CodecConsts) (p : KernelParams)
    (s : CodechalEncodeCscDs) (hu : useDsConvInCombinedKernel s.cfg = true)
    (hok : (KernelFunctions K (some p) s).1 = MOS_STATUS_SUCCESS) :
    (KernelFunctions K (some p) s).2.2.m_currRefList.b4xScalingUsed = s.cfg.m_scalingEnabled ∧
    (KernelFunctions K (some p) s).2.2.m_currRefList.b16xScalingUsed
      = s.m_currRefList.b16xScalingUsed ∧
    (KernelFunctions K (some p) s).2.2.m_currRefList.b32xScalingUsed
      = s.m_currRefList.b32xScalingUsed := by
  have hc2 := KernelFunctions_head_cfg K p s
  rw [KernelFunctions_blocks, hu] at hok ⊢
  by_cases hH : (KernelFunctions_head K p s).1 = MOS_STATUS_SUCCESS
  swap
  · rw [if_pos hH] at hok
    exact absurd hok hH
  rw [if_neg (not_not.mpr hH)] at hok ⊢
  obtain ⟨g4, g16, g32⟩ := KernelFunctions_head_common K p s hu hH
  by_cases h16 : (s.cfg.m_scalingEnabled && s.cfg.m_16xMeSupported) = true
  swap
  · rw [if_neg h16]
    exact ⟨g4, g16, g32⟩
  rw [if_pos h16] at hok ⊢
  obtain ⟨c3, f16, f32, f4⟩ := CscKernel_refFlags K
    { (KernelFunctions_head K p s).2.1 with stageDsConversion := dsStage16x }
    (KernelFunctions_head K p s).2.2
  have e3 : KernelFunctions_16x K true (KernelFunctions_head K p s).2.1
      (KernelFunctions_head K p s).2.2
      = ((CscKernel K (some { (KernelFunctions_head K p s).2.1 with
            stageDsConversion := dsStage16x }) (KernelFunctions_head K p s).2.2).1,
          { (KernelFunctions_head K p s).2.1 with stageDsConversion := dsStage16x },
          (CscKernel K (some { (KernelFunctions_head K p s).2.1 with
            stageDsConversion := dsStage16x }) (KernelFunctions_head K p s).2.2).2) := rfl
  rw [e3] at hok ⊢
  dsimp only at hok ⊢
  generalize (CscKernel K (some { (KernelFunctions_head K p s).2.1 with
      stageDsConversion := dsStage16x }) (KernelFunctions_head K p s).2.2) = r3
    at c3 f16 f32 f4 hok ⊢
  by_cases h3 : r3.1 = MOS_STATUS_SUCCESS
  swap
  · rw [if_pos h3] at hok
    exact absurd hok h3
  rw [if_neg (not_not.mpr h3)] at hok ⊢
  by_cases h32 : s.cfg.m_32xMeSupported = true
  swap
  · rw [if_neg h32]
    exact ⟨(f4 h3).trans (congrArg (fun c => c.m_scalingEnabled) hc2), f16.trans g16,
      f32.trans g32⟩
  rw [if_pos h32] at hok ⊢
  obtain ⟨-, k16, k32, k4⟩ := CscKernel_refFlags K
    { ({ (KernelFunctions_head K p s).2.1 with stageDsConversion := dsStage16x } : KernelParams)
      with stageDsConversion := dsStage32x } r3.2
  exact ⟨(k4 hok).trans (congrArg (fun c => c.m_scalingEnabled) (c3.trans hc2)),
    k16.trans (f16.trans g16), k32.trans (f32.trans g32)⟩

/-- An instance of the previous theorem: scenario S3. -/
theorem KernelFunctions_common_kernel_flags_witness :
    (KernelFunctions exampleConsts (some zeroParams) s3Analysed).2.2.m_currRefList.b4xScalingUsed
      = true ∧
    (KernelFunctions exampleConsts (some zeroParams) s3Analysed).2.2.m_currRefList.b16xScalingUsed
      = false :=
  ⟨(KernelFunctions_common_kernel_flags exampleConsts zeroParams s3Analysed
      (by decide) (by decide)).1,
   (KernelFunctions_common_kernel_flags exampleConsts zeroParams s3Analysed
      (by decide) (by decide)).2.1⟩

/-- C25 as amended: 32x/16x gating in `KernelFunctions`.  The 32x stage is
nested in the 16x stage.  When scaling is off or 16x motion estimation is not
supported, both stages are skipped and the call ends with the result of the
conversion and 4x blocks; with 16x but without 32x motion estimation the call
ends with the result of the 16x stage; with scaling and both levels supported
a call whose earlier stages succeed ends with the 32x stage, which is
`CscKernel` at stage `ds32x` on the common-kernel path and `DsKernel` with
`b32xScalingInUse = true` otherwise.  No skipped stage adds an error. -/
theorem KernelFunctions_gating (K : CodecConsts) (p : KernelParams) (s : CodechalEncodeCscDs) :
    (¬ (s.cfg.m_scalingEnabled = true ∧ s.cfg.m_16xMeSupported = true) →
      KernelFunctions K (some p) s
        = ((KernelFunctions_head K p s).1, some (KernelFunctions_head K p s).2.1,
            (KernelFunctions_head K p s).2.2)) ∧
    (s.cfg.m_scalingEnabled = true → s.cfg.m_16xMeSupported = true →
      (KernelFunctions_head K p s).1 = MOS_STATUS_SUCCESS →
      (s.cfg.m_32xMeSupported = false →
        KernelFunctions K (some p) s
          = ((KernelFunctions_16x K (useDsConvInCombinedKernel s.cfg)
                (KernelFunctions_head K p s).2.1 (KernelFunctions_head K p s).2.2).1,
              some (KernelFunctions_16x K (useDsConvInCombinedKernel s.cfg)
                (KernelFunctions_head K p s).2.1 (KernelFunctions_head K p s).2.2).2.1,
              (KernelFunctions_16x K (useDsConvInCombinedKernel s.cfg)
                (KernelFunctions_head K p s).2.1 (KernelFunctions_head K p s).2.2).2.2)) ∧
      (s.cfg.m_32xMeSupported = true →
        (KernelFunctions_16x K (useDsConvInCombinedKernel s.cfg)
          (KernelFunctions_head K p s).2.1 (KernelFunctions_head K p s).2.2).1
          = MOS_STATUS_SUCCESS →
        KernelFunctions K (some p) s
          = ((KernelFunctions_32x K (useDsConvInCombinedKernel s.cfg)
                (KernelFunctions_16x K (useDsConvInCombinedKernel s.cfg)
                  (KernelFunctions_head K p s).2.1 (KernelFunctions_head K p s).2.2).2.1
                (KernelFunctions_16x K (useDsConvInCombinedKernel s.cfg)
                  (KernelFunctions_head K p s).2.1 (KernelFunctions_head K p s).2.2).2.2).1,
              some (KernelFunctions_32x K (useDsConvInCombinedKernel s.cfg)
                (KernelFunctions_16x K (useDsConvInCombinedKernel s.cfg)
                  (KernelFunctions_head K p s).2.1 (KernelFunctions_head K p s).2.2).2.1
                (KernelFunctions_16x K (useDsConvInCombinedKernel s.cfg)
                  (KernelFunctions_head K p s).2.1 (KernelFunctions_head K p s).2.2).2.2).2.1,
              (KernelFunctions_32x K (useDsConvInCombinedKernel s.cfg)
                (KernelFunctions_16x K (useDsConvInCombinedKernel s.cfg)
                  (KernelFunctions_head K p s).2.1 (KernelFunctions_head K p s).2.2).2.1
                (KernelFunctions_16x K (useDsConvInCombinedKernel s.cfg)
                  (KernelFunctions_head K p s).2.1 (KernelFunctions_head K p s).2.2).2.2).2.2))) ∧
    (∀ (q : KernelParams) (t : CodechalEncodeCscDs),
      KernelFunctions_32x K true q t
        = ((CscKernel K (some { q with stageDsConversion := dsStage32x }) t).1,
            { q with stageDsConversion := dsStage32x },
            (CscKernel K (some { q with stageDsConversion := dsStage32x }) t).2) ∧
      KernelFunctions_32x K false q t
        = ((DsKernel K (some { q with b32xScalingInUse := true, b16xScalingInUse := false }) t).1,
            { q with b32xScalingInUse := true, b16xScalingInUse := false },
            (DsKernel K
              (some { q with b32xScalingInUse := true, b16xScalingInUse := false }) t).2)) := by
  refine ⟨fun hn => ?_, fun hs h16 hH => ⟨fun h32 => ?_, fun h32 h3 => ?_⟩,
    fun q t => ⟨rfl, rfl⟩⟩
  · rw [KernelFunctions_blocks]
    have hc : ¬ (s.cfg.m_scalingEnabled && s.cfg.m_16xMeSupported) = true := by
      intro h
      rw [Bool.and_eq_true] at h
      exact hn h
    by_cases hH : (KernelFunctions_head K p s).1 = MOS_STATUS_SUCCESS
    · rw [if_neg (not_not.mpr hH), if_neg hc, hH]
    · rw [if_pos hH]
  · have hc : (s.cfg.m_scalingEnabled && s.cfg.m_16xMeSupported) = true := by
      rw [hs, h16]
      rfl
    rw [KernelFunctions_blocks, if_neg (not_not.mpr hH), if_pos hc, h32]
    by_cases h3 : (KernelFunctions_16x K (useDsConvInCombinedKernel s.cfg)
        (KernelFunctions_head K p s).2.1 (KernelFunctions_head K p s).2.2).1 = MOS_STATUS_SUCCESS
    · rw [if_neg (not_not.mpr h3), if_neg (by decide), h3]
    · rw [if_pos h3]
  · have hc : (s.cfg.m_scalingEnabled && s.cfg.m_16xMeSupported) = true := by
      rw [hs, h16]
      rfl
    rw [KernelFunctions_blocks, if_neg (not_not.mpr hH), if_pos hc,
      if_neg (not_not.mpr h3), if_pos h32]

/-- Witness for C25 as amended: with 16x motion estimation missing the call
is the conversion and 4x blocks alone; in the example session, with both
levels, it ends with the 32x stage and binds the 32x surface once. -/
theorem KernelFunctions_gating_witness :
    KernelFunctions exampleConsts (some zeroParams) (freshState me32OnlySettings)
      = ((KernelFunctions_head exampleConsts zeroParams (freshState me32OnlySettings)).1,
          some (KernelFunctions_head exampleConsts zeroParams (freshState me32OnlySettings)).2.1,
          (KernelFunctions_head exampleConsts zeroParams (freshState me32OnlySettings)).2.2) ∧
    KernelFunctions exampleConsts (some zeroParams) (freshState exampleSettings)
      = ((KernelFunctions_32x exampleConsts false
            (KernelFunctions_16x exampleConsts false
              (KernelFunctions_head exampleConsts zeroParams (freshState exampleSettings)).2.1
              (KernelFunctions_head exampleConsts zeroParams (freshState exampleSettings)).2.2).2.1
            (KernelFunctions_16x exampleConsts false
              (KernelFunctions_head exampleConsts zeroParams (freshState exampleSettings)).2.1
              (KernelFunctions_head exampleConsts zeroParams
                (freshState exampleSettings)).2.2).2.2).1,
          some (KernelFunctions_32x exampleConsts false
            (KernelFunctions_16x exampleConsts false
              (KernelFunctions_head exampleConsts zeroParams (freshState exampleSettings)).2.1
              (KernelFunctions_head exampleConsts zeroParams (freshState exampleSettings)).2.2).2.1
            (KernelFunctions_16x exampleConsts false
              (KernelFunctions_head exampleConsts zeroParams (freshState exampleSettings)).2.1
              (KernelFunctions_head exampleConsts zeroParams
                (freshState exampleSettings)).2.2).2.2).2.1,
          (KernelFunctions_32x exampleConsts false
            (KernelFunctions_16x exampleConsts false
              (KernelFunctions_head exampleConsts zeroParams (freshState exampleSettings)).2.1
              (KernelFunctions_head exampleConsts zeroParams (freshState exampleSettings)).2.2).2.1
            (KernelFunctions_16x exampleConsts false
              (KernelFunctions_head exampleConsts zeroParams (freshState exampleSettings)).2.1
              (KernelFunctions_head exampleConsts zeroParams
                (freshState exampleSettings)).2.2).2.2).2.2) ∧
    outputBinds (SurfacePtr.scaled32x 0)
      (KernelFunctions exampleConsts (some zeroParams)
        (freshState exampleSettings)).2.2.drv.trace = [2] :=
  ⟨(KernelFunctions_gating exampleConsts zeroParams (freshState me32OnlySettings)).1
      (by decide),
   ((KernelFunctions_gating exampleConsts zeroParams (freshState exampleSettings)).2.1
      (by decide) (by decide) (by decide)).2 (by decide) (by decide),
   by decide⟩

/-- On the separate-scaler path every block of `KernelFunctions` after the
conversion block leaves the slot bookkeeping and the output pointers alone,
and the call does not succeed unless the conversion block did. -/
theorem KernelFunctions_sep_keeps (K : CodecConsts) (p : KernelParams) (s : CodechalEncodeCscDs)
    (hu : useDsConvInCombinedKernel s.cfg = false) :
    KeepsSlot (if s.m_cscFlag = true then CscKernel K (some p) s else (MOS_STATUS_SUCCESS, s)).2
      (KernelFunctions K (some p) s).2.2 ∧
    ((KernelFunctions K (some p) s).1 = MOS_STATUS_SUCCESS →
      (if s.m_cscFlag = true then CscKernel K (some p) s else (MOS_STATUS_SUCCESS, s)).1
        = MOS_STATUS_SUCCESS) := by
  have hH : KeepsSlot
      (if s.m_cscFlag = true then CscKernel K (some p) s else (MOS_STATUS_SUCCESS, s)).2
      (KernelFunctions_head K p s).2.2 ∧
      ((KernelFunctions_head K p s).1 = MOS_STATUS_SUCCESS →
        (if s.m_cscFlag = true then CscKernel K (some p) s else (MOS_STATUS_SUCCESS, s)).1
          = MOS_STATUS_SUCCESS) := by
    unfold KernelFunctions_head
    dsimp only
    rw [hu, Bool.or_false]
    generalize (if s.m_cscFlag = true then CscKernel K (some p) s else (MOS_STATUS_SUCCESS, s))
      = r1
    by_cases h1 : r1.1 = MOS_STATUS_SUCCESS
    · rw [if_neg (not_not.mpr h1)]
      refine ⟨?_, fun _ => h1⟩
      unfold KernelFunctions_4x
      split_ifs
      · exact DsKernel_keeps K _ r1.2
      · exact KeepsSlot_refl _
    · rw [if_pos h1]
      exact ⟨KeepsSlot_refl _, fun h => h⟩
  rw [KernelFunctions_blocks, hu]
  generalize (if s.m_cscFlag = true then CscKernel K (some p) s else (MOS_STATUS_SUCCESS, s))
    = r1 at hH ⊢
  generalize KernelFunctions_head K p s = r2 at hH ⊢
  have h3 : KeepsSlot r1.2 (KernelFunctions_16x K false r2.2.1 r2.2.2).2.2 :=
    KeepsSlot_trans hH.1 (DsKernel_keeps K _ r2.2.2)
  have h4 : KeepsSlot r1.2
      (KernelFunctions_32x K false (KernelFunctions_16x K false r2.2.1 r2.2.2).2.1
        (KernelFunctions_16x K false r2.2.1 r2.2.2).2.2).2.2 :=
    KeepsSlot_trans h3 (DsKernel_keeps K _ _)
  by_cases h2 : r2.1 = MOS_STATUS_SUCCESS
  swap
  · rw [if_pos h2]
    exact ⟨hH.1, fun h => absurd h h2⟩
  rw [if_neg (not_not.mpr h2)]
  have h1 := hH.2 h2
  split_ifs
  · exact ⟨h3, fun _ => h1⟩
  · exact ⟨h4, fun _ => h1⟩
  · exact ⟨h3, fun _ => h1⟩
  · exact ⟨hH.1, fun _ => h1⟩

/-- One CSC slot per frame where the code keeps it, the separate-scaler path.  A
`KernelFunctions` call that does not use the combined kernel runs `CscKernel`
at most once, so the slot bookkeeping of `LookUpBufSlot` (resize countdown,
history, outstanding counter, ring cursor, wait flag, current index) is at the
end that of the entry state or that of a single look-up from it, and after a
successful call the latter exactly when the CSC flag is set; the converted
surface published at stage `dsDisabled` is the copy of the slot that look-up
returned.  On every path, a dispatch of `CscKernel` binds as output only the
converted copy of the slot that `m_cscBufCurrIdx` names after it. -/
theorem KernelFunctions_one_slot (K : CodecConsts) (p : KernelParams) (s : CodechalEncodeCscDs)
    (hu : useDsConvInCombinedKernel s.cfg = false) :
    (bookkeeping (KernelFunctions K (some p) s).2.2 = bookkeeping s ∨
      bookkeeping (KernelFunctions K (some p) s).2.2 = bookkeeping (afterLookUp K s)) ∧
    ((KernelFunctions K (some p) s).1 = MOS_STATUS_SUCCESS →
      bookkeeping (KernelFunctions K (some p) s).2.2
        = if s.m_cscFlag then bookkeeping (afterLookUp K s) else bookkeeping s) ∧
    ((KernelFunctions K (some p) s).1 = MOS_STATUS_SUCCESS →
      dsDisabled = p.stageDsConversion →
      (s.m_cscRequireCopy || s.m_cscRequireColor || s.m_cscRequireConvTo8bPlanar) = true →
      (KernelFunctions K (some p) s).2.2.m_cscBufCurrIdx = (LookUpBufSlot K s).1 ∧
      (KernelFunctions K (some p) s).2.2.m_rawSurfaceToEnc
        = SurfacePtr.copied (LookUpBufSlot K s).1) ∧
    (∀ (q : KernelParams) (t : CodechalEncodeCscDs) (j : Nat),
      ∃ c n, outputBinds (SurfacePtr.copied j) (CscKernel K (some q) t).2.drv.trace
          = outputBinds (SurfacePtr.copied j) t.drv.trace ++ List.replicate n c ∧
        (n ≠ 0 → j = (CscKernel K (some q) t).2.m_cscBufCurrIdx)) := by
  obtain ⟨hk, hs1⟩ := KernelFunctions_sep_keeps K p s hu
  have hslot := CscKernel_slot K p s
  have hout := (CscKernel_outcome K p s SurfacePtr.nullPtr).2.2.2
  refine ⟨?_, fun hok => ?_, fun hok hst hreq => ?_, fun q t j => CscKernel_copied_binds K q t j⟩
  · rw [hk.1]
    cases hf : s.m_cscFlag
    · exact Or.inl rfl
    · rw [if_pos rfl]
      rcases hslot.1 with h | h
      · exact Or.inl (congrArg SlotView.book h)
      · exact Or.inr (congrArg SlotView.book h)
  · have h1 := hs1 hok
    rw [hk.1]
    cases hf : s.m_cscFlag
    · rfl
    · rw [hf, if_pos rfl] at h1
      have := hslot.2 h1
      rw [hf, if_pos rfl] at this
      rw [if_pos rfl, if_pos rfl]
      exact congrArg SlotView.book this
  · have h1 := hs1 hok
    have hf : s.m_cscFlag = true := by
      unfold m_cscFlag
      rw [Bool.or_eq_true]
      exact Or.inl hreq
    rw [hf, if_pos rfl] at h1
    have hb := hslot.2 h1
    rw [hf, if_pos rfl] at hb
    have hidx : (CscKernel K (some p) s).2.m_cscBufCurrIdx = (LookUpBufSlot K s).1 :=
      congrArg (fun v => v.book.m_cscBufCurrIdx) hb
    have hk1 := congrArg SlotBook.m_cscBufCurrIdx hk.1
    have hk2 := hk.2.1
    rw [hf, if_pos rfl] at hk1 hk2
    refine ⟨hk1.trans hidx, ?_⟩
    rw [hk2, (hout h1).2.1, if_pos ⟨hst, hreq⟩, hidx]

/-- An instance of the previous theorem: the example session on the
separate-scaler path with colour conversion required; the call looks up slot 9 once and
publishes its converted copy. -/
theorem KernelFunctions_one_slot_witness :
    bookkeeping (KernelFunctions exampleConsts (some zeroParams)
        { freshState exampleSettings with m_cscRequireColor := true }).2.2
      = { m_cscBufCountResize := 0, m_cscBufAnteIdx := 0, m_cscBufPenuIdx := 0,
          m_cscBufLastIdx := 9, m_cscBufCountNonRef := 1, m_cscBufRingIdx := 1,
          m_cscBufCurrIdx := 9, m_waitCscSurf := false } ∧
    (KernelFunctions exampleConsts (some zeroParams)
        { freshState exampleSettings with m_cscRequireColor := true }).2.2.m_rawSurfaceToEnc
      = SurfacePtr.copied 9 :=
  ⟨(KernelFunctions_one_slot exampleConsts zeroParams
      { freshState exampleSettings with m_cscRequireColor := true } (by decide)).2.1
      (by decide),
   ((KernelFunctions_one_slot exampleConsts zeroParams
      { freshState exampleSettings with m_cscRequireColor := true } (by decide)).2.2.1
      (by decide) (by decide) (by decide)).2⟩

/-! ### The status of a sequence of driver calls -/

theorem firstFailure_nil : firstFailure [] = MOS_STATUS_SUCCESS := rfl

theorem firstFailure_cons (a : MOS_STATUS) (l : List MOS_STATUS) :
    firstFailure (a :: l) = if a = MOS_STATUS_SUCCESS then firstFailure l else a := by
  unfold firstFailure
  by_cases h : a = MOS_STATUS_SUCCESS
  · simp [List.find?_cons, h]
  · simp [List.find?_cons, h]

theorem firstFailure_take_add (l : List MOS_STATUS) (n m : Nat) :
    firstFailure (l.take (n + m))
      = if firstFailure (l.take n) = MOS_STATUS_SUCCESS then firstFailure ((l.drop n).take m)
        else firstFailure (l.take n) := by
  induction n generalizing l with
  | zero => simp [firstFailure_nil]
  | succ n ih =>
    cases l with
    | nil => simp [firstFailure_nil]
    | cons a l =>
      rw [show n + 1 + m = (n + m) + 1 by omega]
      simp only [List.take_succ_cons, List.drop_succ_cons, firstFailure_cons]
      by_cases h : a = MOS_STATUS_SUCCESS
      · rw [if_pos h, if_pos h]
        exact ih l
      · rw [if_neg h, if_neg h, if_neg h]

theorem ext_status (s : CodechalEncodeCscDs) :
    (ext s).1 = firstFailure (s.drv.script.take 1) ∧
    (ext s).2.drv.script = s.drv.script.drop 1 := by
  unfold ext
  cases h : s.drv.script with
  | nil => exact ⟨rfl, rfl⟩
  | cons a l =>
    refine ⟨?_, by simp⟩
    simp only [List.headD_cons, List.take_succ_cons, List.take_zero, firstFailure_cons,
      firstFailure_nil]
    split_ifs with h1
    · exact h1
    · rfl

/-- The status of `chk a k` when `a` is the outcome of `n` calls answered by
`l` and `k` makes `m` further calls. -/
theorem chk_status (a : MOS_STATUS × CodechalEncodeCscDs)
    (k : CodechalEncodeCscDs → MOS_STATUS × CodechalEncodeCscDs) (l : List MOS_STATUS)
    (n m : Nat)
    (ha : a.1 = firstFailure (l.take n) ∧ (a.1 = MOS_STATUS_SUCCESS → a.2.drv.script = l.drop n))
    (hk : ∀ t, t.drv.script = l.drop n →
      (k t).1 = firstFailure ((l.drop n).take m) ∧
      ((k t).1 = MOS_STATUS_SUCCESS → (k t).2.drv.script = (l.drop n).drop m)) :
    (chk a k).1 = firstFailure (l.take (n + m)) ∧
    ((chk a k).1 = MOS_STATUS_SUCCESS → (chk a k).2.drv.script = l.drop (n + m)) := by
  rw [firstFailure_take_add, ← ha.1]
  unfold chk
  by_cases h : a.1 = MOS_STATUS_SUCCESS
  · rw [if_pos h, if_pos h]
    obtain ⟨h1, h2⟩ := hk a.2 (ha.2 h)
    refine ⟨h1, fun hs => ?_⟩
    rw [h2 hs, List.drop_drop]
  · rw [if_neg h, if_neg h]
    exact ⟨rfl, fun hs => absurd hs h⟩

theorem pfnAllocateResource_status (target : SurfacePtr) (format : MOS_FORMAT) (w h : Nat)
    (s : CodechalEncodeCscDs) :
    (pfnAllocateResource target format w h s).1 = firstFailure (s.drv.script.take 1) ∧
    ((pfnAllocateResource target format w h s).1 = MOS_STATUS_SUCCESS →
      (pfnAllocateResource target format w h s).2.drv.script = s.drv.script.drop 1) := by
  have e := ext_status s
  unfold pfnAllocateResource chk
  by_cases h1 : (ext s).1 = MOS_STATUS_SUCCESS
  · rw [if_pos h1]
    refine ⟨e.1 ▸ h1.symm, fun _ => ?_⟩
    show (updSurface target _ (ext s).2).drv.script = _
    rw [updSurface_drv]
    exact e.2
  · rw [if_neg h1]
    exact ⟨e.1, fun hs => absurd hs h1⟩

theorem CodecHal_GetResourceInfo_status (K : CodecConsts) (target : SurfacePtr)
    (format : MOS_FORMAT) (w h : Nat) (s : CodechalEncodeCscDs) :
    (CodecHal_GetResourceInfo K target format w h s).1 = firstFailure (s.drv.script.take 1) ∧
    ((CodecHal_GetResourceInfo K target format w h s).1 = MOS_STATUS_SUCCESS →
      (CodecHal_GetResourceInfo K target format w h s).2.drv.script = s.drv.script.drop 1) := by
  have e := ext_status s
  unfold CodecHal_GetResourceInfo chk
  by_cases h1 : (ext s).1 = MOS_STATUS_SUCCESS
  · rw [if_pos h1]
    refine ⟨e.1 ▸ h1.symm, fun _ => ?_⟩
    show (updSurface target _ (ext s).2).drv.script = _
    rw [updSurface_drv]
    exact e.2
  · rw [if_neg h1]
    exact ⟨e.1, fun hs => absurd hs h1⟩

/-- The allocation and the query of one surface: two driver calls. -/
theorem allocate_and_query_status (K : CodecConsts) (target : SurfacePtr)
    (format : MOS_FORMAT) (w h : Nat) (s : CodechalEncodeCscDs) :
    (chk (pfnAllocateResource target format w h s) fun t =>
      CodecHal_GetResourceInfo K target format w h t).1
      = firstFailure (s.drv.script.take 2) ∧
    ((chk (pfnAllocateResource target format w h s) fun t =>
      CodecHal_GetResourceInfo K target format w h t).1 = MOS_STATUS_SUCCESS →
      (chk (pfnAllocateResource target format w h s) fun t =>
        CodecHal_GetResourceInfo K target format w h t).2.drv.script = s.drv.script.drop 2) := by
  refine chk_status _ _ s.drv.script 1 1 (pfnAllocateResource_status _ _ _ _ s) (fun t ht => ?_)
  have := CodecHal_GetResourceInfo_status K target format w h t
  rw [ht] at this
  exact this

/-- The status of an `AllocateSurfaceDS()` that allocates: the first error
that one of its driver calls reports, success when none fails. -/
theorem AllocateSurfaceDS_status (K : CodecConsts) (s : CodechalEncodeCscDs)
    (hnull : (s.tracked s.cfg.m_currScalingIdx).sScaled4xSurface.OsResource = none) :
    (AllocateSurfaceDS K s).1
      = firstFailure (s.drv.script.take (AllocateSurfaceDS_calls s.cfg)) := by
  have alloc : ∀ (target : SurfacePtr) (w h : Nat) (t : CodechalEncodeCscDs)
      (l : List MOS_STATUS), t.drv.script = l →
      (pfnAllocateResource target Format_NV12 w h t).1 = firstFailure (l.take 1) ∧
      ((pfnAllocateResource target Format_NV12 w h t).1 = MOS_STATUS_SUCCESS →
        (pfnAllocateResource target Format_NV12 w h t).2.drv.script = l.drop 1) := by
    intro target w h t l hl
    subst hl
    exact pfnAllocateResource_status target Format_NV12 w h t
  have query : ∀ (target : SurfacePtr) (w h : Nat) (t : CodechalEncodeCscDs)
      (l : List MOS_STATUS), t.drv.script = l →
      (CodecHal_GetResourceInfo K target Format_NV12 w h t).1 = firstFailure (l.take 1) ∧
      ((CodecHal_GetResourceInfo K target Format_NV12 w h t).1 = MOS_STATUS_SUCCESS →
        (CodecHal_GetResourceInfo K target Format_NV12 w h t).2.drv.script = l.drop 1) := by
    intro target w h t l hl
    subst hl
    exact CodecHal_GetResourceInfo_status K target Format_NV12 w h t
  have level : ∀ (b : Bool) (target : SurfacePtr) (w h : Nat) (t : CodechalEncodeCscDs)
      (l : List MOS_STATUS), t.drv.script = l →
      (if b = true then
          chk (pfnAllocateResource target Format_NV12 w h t) fun u =>
            CodecHal_GetResourceInfo K target Format_NV12 w h u
        else (MOS_STATUS_SUCCESS, t)).1
        = firstFailure (l.take (if b = true then 2 else 0)) ∧
      ((if b = true then
          chk (pfnAllocateResource target Format_NV12 w h t) fun u =>
            CodecHal_GetResourceInfo K target Format_NV12 w h u
        else (MOS_STATUS_SUCCESS, t)).1 = MOS_STATUS_SUCCESS →
        (if b = true then
          chk (pfnAllocateResource target Format_NV12 w h t) fun u =>
            CodecHal_GetResourceInfo K target Format_NV12 w h u
        else (MOS_STATUS_SUCCESS, t)).2.drv.script
          = l.drop (if b = true then 2 else 0)) := by
    intro b target w h t l hl
    subst hl
    cases b
    · exact ⟨rfl, fun _ => rfl⟩
    · exact allocate_and_query_status K target Format_NV12 w h t
  have count : AllocateSurfaceDS_calls s.cfg
      = 1 + (1 + ((if s.cfg.m_16xMeSupported = true then 2 else 0)
          + ((if s.cfg.m_32xMeSupported = true then 2 else 0) + 0))) := by
    unfold AllocateSurfaceDS_calls
    split_ifs <;> rfl
  rw [count]
  unfold AllocateSurfaceDS
  dsimp only
  rw [if_neg (not_not.mpr hnull)]
  refine (chk_status _ _ s.drv.script 1 _ (alloc _ _ _ s _ rfl) (fun t1 h1 => ?_)).1
  refine chk_status _ _ _ 1 _ (query _ _ _ t1 _ h1) (fun t2 h2 => ?_)
  refine chk_status _ _ _ _ _ (level s.cfg.m_16xMeSupported _ _ _ t2 _ h2) (fun t4 h4 => ?_)
  refine chk_status _ _ _ _ 0 (level s.cfg.m_32xMeSupported _ _ _ t4 _ h4) (fun t6 h6 => ?_)
  by_cases hc : (!t6.cfg.m_fieldScalingOutputInterleaved) = true
  · rw [if_pos hc]
    exact ⟨rfl, fun _ => h6⟩
  · rw [if_neg hc]
    exact ⟨rfl, fun _ => h6⟩

/-- C22 as amended: a failing driver call inside `AllocateSurfaceDS()` makes
the call return at once, with the error of that call: the status is the first
error that one of the driver calls reports.  Nothing is torn down.  If the
failing call is the 4x allocation the slot owns nothing new.  Once the 4x
allocation has succeeded the slot owns that surface whatever fails later, and
a later `AllocateSurfaceDS()` on the slot then returns success without
allocating anything. -/
theorem AllocateSurfaceDS_failure_midway (K : CodecConsts) (s : CodechalEncodeCscDs)
    (hnull : (s.tracked s.cfg.m_currScalingIdx).sScaled4xSurface.OsResource = none)
    (hlen : s.cfg.m_currScalingIdx < s.m_trackedBuffer.length) :
    (AllocateSurfaceDS K s).1
      = firstFailure (s.drv.script.take (AllocateSurfaceDS_calls s.cfg)) ∧
    ((ext s).1 ≠ MOS_STATUS_SUCCESS →
      (AllocateSurfaceDS K s).1 = (ext s).1 ∧
      (AllocateSurfaceDS K s).2.m_trackedBuffer = s.m_trackedBuffer ∧
      (AllocateSurfaceDS K s).2.drv.trace = s.drv.trace) ∧
    ((ext s).1 = MOS_STATUS_SUCCESS →
      ((AllocateSurfaceDS K s).2.tracked s.cfg.m_currScalingIdx).sScaled4xSurface.OsResource
        = some s.drv.nextHandle ∧
      AllocateSurfaceDS K (AllocateSurfaceDS K s).2
        = (MOS_STATUS_SUCCESS, (AllocateSurfaceDS K s).2)) := by
  refine ⟨AllocateSurfaceDS_status K s hnull, fun he => ?_, fun he => ?_⟩
  · rw [AllocateSurfaceDS_first_fails K s hnull he]
    exact ⟨rfl, rfl, rfl⟩
  · have h4 := AllocateSurfaceDS_keeps_4x K s hnull hlen he
    refine ⟨h4, AllocateSurfaceDS_owned K _ ?_⟩
    have hcfg : (AllocateSurfaceDS K s).2.cfg = s.cfg :=
      congrArg FrameView.cfg (AllocateSurfaceDS_view K s)
    rw [hcfg, h4]
    exact fun h => by cases h

/-- Witness for C22 as amended: the run of the counterexample; the call
returns the error of the 16x allocation, the third driver call, and the later
call returns success and changes nothing. -/
theorem AllocateSurfaceDS_failure_midway_witness :
    (AllocateSurfaceDS exampleConsts
      (withScript [MOS_STATUS_SUCCESS, MOS_STATUS_SUCCESS, MOS_STATUS_UNKNOWN]
        (freshState exampleSettings))).1
      = firstFailure
          (List.take 6 [MOS_STATUS_SUCCESS, MOS_STATUS_SUCCESS, MOS_STATUS_UNKNOWN]) ∧
    firstFailure (List.take 6 [MOS_STATUS_SUCCESS, MOS_STATUS_SUCCESS, MOS_STATUS_UNKNOWN])
      = MOS_STATUS_UNKNOWN ∧
    AllocateSurfaceDS exampleConsts
      (AllocateSurfaceDS exampleConsts
        (withScript [MOS_STATUS_SUCCESS, MOS_STATUS_SUCCESS, MOS_STATUS_UNKNOWN]
          (freshState exampleSettings))).2
      = (MOS_STATUS_SUCCESS,
          (AllocateSurfaceDS exampleConsts
            (withScript [MOS_STATUS_SUCCESS, MOS_STATUS_SUCCESS, MOS_STATUS_UNKNOWN]
              (freshState exampleSettings))).2) :=
  ⟨(AllocateSurfaceDS_failure_midway exampleConsts
      (withScript [MOS_STATUS_SUCCESS, MOS_STATUS_SUCCESS, MOS_STATUS_UNKNOWN]
        (freshState exampleSettings)) (by decide) (by decide)).1,
   by decide,
   ((AllocateSurfaceDS_failure_midway exampleConsts
      (withScript [MOS_STATUS_SUCCESS, MOS_STATUS_SUCCESS, MOS_STATUS_UNKNOWN]
        (freshState exampleSettings)) (by decide) (by decide)).2.2 (by decide)).2⟩
